import Mathlib

/-!
# zfcp FSF request engine: registry, submission, dispatch and dismissal

A shallow embedding of `drivers/s390/scsi/zfcp_fsf.c`.  C objects become Lean
structures, the adapter becomes an explicit state that every function takes and
returns, and calls that leave the file (error recovery, the QDIO transport,
timers) are appended to a log kept in the adapter state.  Values that the file
only uses by name (status bits, status codes, the size of the request hash
table) are the fields of `Decls`, so every theorem holds for each value they
may have.
-/

namespace Zfcp

/-! ## Declarations used by name -/

/-- Constants and inline helpers that `zfcp_fsf.c` takes from the driver's
headers (`zfcp_def.h`, `fsf.h`, `qdio.h`).  Their values are not fixed here. -/
structure Decls where
  /-- width of `unsigned long`, the type of `req_no` and `req_id` -/
  BITS_PER_LONG : Nat
  /-- number of hash buckets of `adapter->req_list` -/
  REQUEST_LIST_SIZE : Nat
  /-- bucket index of a request identifier -/
  zfcp_reqlist_hash : Nat → Nat
  ZFCP_STATUS_FSFREQ_ERROR : Nat
  ZFCP_STATUS_FSFREQ_CLEANUP : Nat
  ZFCP_STATUS_FSFREQ_DISMISSED : Nat
  ZFCP_STATUS_ADAPTER_QDIOUP : Nat
  ZFCP_STATUS_ADAPTER_HOST_CON_INIT : Nat
  ZFCP_STATUS_ADAPTER_LINK_UNPLUGGED : Nat
  ZFCP_STATUS_COMMON_RUNNING : Nat
  ZFCP_STATUS_COMMON_ERP_FAILED : Nat
  SBAL_EFLAGS_LAST_ENTRY : Nat
  SBAL_SFLAGS0_COMMAND : Nat
  FSF_QTCB_CURRENT_VERSION : Nat
  sizeof_fsf_qtcb : Nat
  FSF_QTCB_FCP_CMND : Nat
  FSF_QTCB_ABORT_FCP_CMND : Nat
  FSF_QTCB_OPEN_PORT_WITH_DID : Nat
  FSF_QTCB_OPEN_LUN : Nat
  FSF_QTCB_CLOSE_LUN : Nat
  FSF_QTCB_CLOSE_PORT : Nat
  FSF_QTCB_CLOSE_PHYSICAL_PORT : Nat
  FSF_QTCB_SEND_ELS : Nat
  FSF_QTCB_SEND_GENERIC : Nat
  FSF_QTCB_EXCHANGE_CONFIG_DATA : Nat
  FSF_QTCB_EXCHANGE_PORT_DATA : Nat
  FSF_QTCB_DOWNLOAD_CONTROL_FILE : Nat
  FSF_QTCB_UPLOAD_CONTROL_FILE : Nat
  FSF_QTCB_UNSOLICITED_STATUS : Nat
  FSF_IO_COMMAND : Nat
  FSF_SUPPORT_COMMAND : Nat
  FSF_CONFIG_COMMAND : Nat
  FSF_PORT_COMMAND : Nat
  FSF_PROT_GOOD : Nat
  FSF_PROT_FSF_STATUS_PRESENTED : Nat
  FSF_PROT_QTCB_VERSION_ERROR : Nat
  FSF_PROT_ERROR_STATE : Nat
  FSF_PROT_SEQ_NUMB_ERROR : Nat
  FSF_PROT_UNSUPP_QTCB_TYPE : Nat
  FSF_PROT_HOST_CONNECTION_INITIALIZING : Nat
  FSF_PROT_DUPLICATE_REQUEST_ID : Nat
  FSF_PROT_LINK_DOWN : Nat
  FSF_PROT_REEST_QUEUE : Nat
  FSF_UNKNOWN_COMMAND : Nat
  FSF_ADAPTER_STATUS_AVAILABLE : Nat
  FSF_SQ_FCP_RSP_AVAILABLE : Nat
  FSF_SQ_INVOKE_LINK_TEST_PROCEDURE : Nat
  FSF_SQ_NO_RETRY_POSSIBLE : Nat
  FSF_SQ_ULP_DEPENDENT_ERP_REQUIRED : Nat
  FSF_SQ_COMMAND_ABORTED : Nat
  FSF_SQ_NO_RECOM : Nat

/-- Errno value of an input/output error. -/
def EIO : Int := 5

/-- Errno value of an allocation failure. -/
def ENOMEM : Int := 12

/-! ## Data model -/

/-- Part of `struct fsf_qtcb_prefix` (the QTCB's first section) that the file
reads or writes. -/
structure fsf_qtcb_pfx where
  req_seq_no : Nat := 0
  req_id : Nat := 0
  ulp_info : Nat := 0
  qtcb_type : Nat := 0
  qtcb_version : Nat := 0
  prot_status : Nat := 0
  deriving DecidableEq, Repr

/-- Part of `struct fsf_qtcb_header`; `fsf_status_qual_word0` is
`fsf_status_qual.word[0]`. -/
structure fsf_qtcb_header where
  req_handle : Nat := 0
  fsf_command : Nat := 0
  fsf_status : Nat := 0
  fsf_status_qual_word0 : Nat := 0
  port_handle : Nat := 0
  lun_handle : Nat := 0
  deriving DecidableEq, Repr

/-- Part of `union fsf_qtcb_bottom`: of `bottom.support` the members `fcp_lun`,
`option` and `lun_access_info`, and of `bottom.io` the response code
`rsp_code` of the `fcp_resp_rsp_info` that follows `fcp_rsp` and the members
`service_class`, `fcp_cmnd_length`, `data_block_length`, `ref_tag_value`,
`data_direction` and `prot_data_length`. -/
structure fsf_qtcb_bottom where
  fcp_lun : Nat := 0
  option : Nat := 0
  lun_access_info : Nat := 0
  rsp_code : Nat := 0
  service_class : Nat := 0
  fcp_cmnd_length : Nat := 0
  data_block_length : Nat := 0
  ref_tag_value : Nat := 0
  data_direction : Nat := 0
  prot_data_length : Nat := 0
  deriving DecidableEq, Repr

/-- The control block `struct fsf_qtcb`; `pfx` is its member `prefix`. -/
structure fsf_qtcb where
  pfx : fsf_qtcb_pfx := {}
  header : fsf_qtcb_header := {}
  bottom : fsf_qtcb_bottom := {}
  deriving DecidableEq, Repr

/-- Members of `struct zfcp_queue_req`. -/
structure zfcp_queue_req where
  sbal_number : Nat := 0
  sbal_first : Nat := 0
  sbal_last : Nat := 0
  sbal_response : Nat := 0
  sbale_curr : Nat := 0
  qdio_outb_usage : Int := 0
  qdio_inb_usage : Int := 0
  deriving DecidableEq, Repr

/-- The request object `struct zfcp_fsf_req`.  `addr` is the address of the C
object: two requests are the same object when their addresses are equal.
`handler` is the function pointer `req->handler`, `data` the untyped pointer
`req->data`, `pool` tells whether `req->pool` is set, `unit` is the address
in `req->unit` (`none` for `NULL`). -/
structure zfcp_fsf_req where
  addr : Nat
  req_id : Nat := 0
  fsf_command : Nat := 0
  seq_no : Nat := 0
  status : Nat := 0
  qtcb : Option fsf_qtcb := none
  pool : Bool := false
  erp_action : Option Nat := none
  data : Nat := 0
  handler : Nat := 0
  issued : Nat := 0
  queue_req : zfcp_queue_req := {}
  unit : Option Nat := none
  deriving DecidableEq, Repr

/-- One `struct qdio_buffer_element` of a response buffer. -/
structure qdio_buffer_element where
  addr : Nat := 0
  eflags : Nat := 0
  sflags : Nat := 0
  length : Nat := 0
  deriving DecidableEq, Repr

/-- Calls that leave `zfcp_fsf.c`, in the order they are made.  `ref` is the
address of the request handed to the error recovery (`none` for `NULL`). -/
inductive Ev where
  | zfcp_qdio_siosl
  | zfcp_erp_adapter_reopen (clear : Nat) (id : String) (ref : Option Nat)
  | zfcp_erp_adapter_shutdown (clear : Nat) (id : String) (ref : Option Nat)
  | zfcp_erp_adapter_failed (id : String) (ref : Option Nat)
  | zfcp_erp_modify_adapter_status (id : String) (mask : Nat)
  | zfcp_scsi_schedule_rports_block
  | zfcp_erp_notify (erp_action : Nat) (set_mask : Nat)
  | del_timer (req : Nat)
  | call_handler (fn : Nat) (req : Nat)
  | zfcp_fsf_status_read_handler (req : Nat)
  | zfcp_fsf_req_free (req : Nat)
  | complete (req : Nat)
  | sbale_write (sbal : Nat) (idx : Nat) (field : String) (value : Nat)
  | add_timer (req : Nat) (fn : String) (timeout : Nat)
  | erp_action_fsf_req (erp_action : Nat) (req : Option Nat)
  | zfcp_erp_port_reopen (port : Nat) (clear : Nat) (id : String) (ref : Option Nat)
  | zfcp_erp_port_boxed (port : Nat) (id : String) (ref : Option Nat)
  | zfcp_erp_unit_access_denied (unit : Nat) (id : String) (ref : Option Nat)
  | zfcp_erp_unit_failed (unit : Nat) (id : String) (ref : Option Nat)
  | zfcp_erp_unit_shutdown (unit : Nat) (clear : Nat) (id : String) (ref : Option Nat)
  | zfcp_erp_adapter_access_changed (id : String) (ref : Option Nat)
  | zfcp_fc_test_link (port : Nat)
  | zfcp_fc_incoming_els (req : Nat)
  | zfcp_fc_enqueue_event (event : Nat)
  | zfcp_fc_conditional_port_scan
  | mempool_free_status_read_data (buf : Nat)
  | queue_work_stat_work
  | zfcp_erp_port_access_denied (port : Nat) (id : String) (ref : Option Nat)
  | zfcp_unit_get (unit : Nat)
  | zfcp_unit_put (unit : Nat)
  | host_scribble (scsi_cmnd : Nat) (value : Nat)
  | zfcp_fc_scsi_to_fcp (req : Nat) (scsi_cmnd : Nat)
  | zfcp_qdio_set_data_div (req : Nat) (count : Nat)
  | zfcp_qdio_sbals_from_sg (req : Nat) (sbtype : Nat) (sg : String) (max_sbals : Nat)
  | zfcp_qdio_set_sbale_last (req : Nat)
  | zfcp_qdio_set_scount (req : Nat)
  | read_lock_irqsave (lock : String)
  | read_unlock_irqrestore (lock : String)
  | set_host_byte (scsi_cmnd : Nat) (status : Nat)
  | zfcp_scsi_dif_sense_error (scsi_cmnd : Nat) (ascq : Nat)
  | zfcp_fc_eval_fcp_rsp (req : Nat) (scsi_cmnd : Nat)
  | zfcp_fsf_req_latency (req : Nat)
  | zfcp_fsf_trace_latency (req : Nat)
  | zfcp_dbf_scsi_result (tag : String) (level : Nat) (scsi_cmnd : Nat) (req : Nat)
  | scsi_done (scsi_cmnd : Nat)
  deriving DecidableEq, Repr

/-- Part of `struct zfcp_port`; `addr` is the address of the object. -/
structure zfcp_port where
  addr : Nat
  d_id : Nat := 0
  wwpn : Nat := 0
  handle : Nat := 0
  status : Nat := 0
  deriving DecidableEq, Repr

/-- Part of `struct zfcp_unit`; `addr` is the address of the object and `port`
the address of the port `unit->port`. -/
structure zfcp_unit where
  addr : Nat
  status : Nat := 0
  handle : Nat := 0
  fcp_lun : Nat := 0
  port : Nat := 0
  deriving DecidableEq, Repr

/-- Part of `struct fsf_status_read_buffer`; `addr` is the address of the
buffer and `payload_word0` is `payload.word[0]`. -/
structure fsf_status_read_buffer where
  addr : Nat
  status_type : Nat := 0
  status_subtype : Nat := 0
  d_id : Nat := 0
  payload_word0 : Nat := 0
  deriving DecidableEq, Repr

/-- Part of `struct zfcp_erp_action`: its address and the port and unit it
points to, as they are when the action is handed over. -/
structure zfcp_erp_action where
  addr : Nat
  port : zfcp_port
  unit : zfcp_unit
  deriving DecidableEq, Repr

/-- The part of `struct zfcp_qdio` the file reads: `req_q.first`, the atomic
counters `req_q.count`, `resp_q.count` and `req_q_full`, and the response
buffers `resp_q.sbal[i]->element[..]`. -/
structure zfcp_qdio where
  req_q_first : Nat := 0
  req_q_count : Int := 0
  resp_q_count : Int := 0
  req_q_full : Nat := 0
  resp_q_sbal : List (List qdio_buffer_element) := []
  deriving DecidableEq, Repr

/-- The adapter `struct zfcp_adapter` with its queue pair.  `req_list` is the
array of hash buckets, each a list in link order.  `log` collects the outgoing
calls and `completions` the argument of every call of `zfcp_fsf_req_complete`,
both oldest first.  `port_list` is the list at `port_list_head`; `units` and
`status_read_bufs` are the unit objects and the status read buffers that the
pointers `req->data` refer to; `priv_sch` is what `zfcp_ccw_priv_sch(adapter)`
returns. -/
structure zfcp_adapter where
  status : Nat := 0
  req_no : Nat := 0
  fsf_req_seq_no : Nat := 0
  req_list : List (List zfcp_fsf_req) := []
  qdio : zfcp_qdio := {}
  log : List Ev := []
  completions : List zfcp_fsf_req := []
  connection_features : Nat := 0
  adapter_features : Nat := 0
  priv_sch : Bool := false
  stat_miss : Nat := 0
  port_list : List zfcp_port := []
  units : List zfcp_unit := []
  status_read_bufs : List fsf_status_read_buffer := []
  deriving DecidableEq, Repr

/-- Append one outgoing call to the log. -/
def zfcp_adapter.emit (a : zfcp_adapter) (e : Ev) : zfcp_adapter :=
  { a with log := a.log ++ [e] }

/-- How a function that can stop the machine ends: it returns, or it halts in
`panic()` / `BUG()` with the state reached at that point. -/
inductive Outcome where
  | returned (a : zfcp_adapter)
  | halted (a : zfcp_adapter)
  deriving DecidableEq, Repr

/-- The two handlers `zfcp_fsf_req_complete` passes a request to: `handler fn`
is the function a pointer `req->handler = fn` refers to, one per command kind,
and `status_read_handler` is `zfcp_fsf_status_read_handler`, whose body walks
the port list and calls into the FC layer.  Each maps the request and the
adapter before the call to what they are after it; the statements below hold
for all such functions that satisfy `Env.Frame`. -/
structure Env where
  handler : Nat → zfcp_fsf_req → zfcp_adapter → zfcp_fsf_req × zfcp_adapter
  status_read_handler : zfcp_fsf_req → zfcp_adapter → zfcp_adapter

/-- The handlers leave the request table, the two counters and the record of
completions alone; nothing in `zfcp_fsf.c` other than `zfcp_fsf_req_create`,
`zfcp_fsf_req_send`, `zfcp_fsf_reqid_check` and `zfcp_fsf_req_dismiss_all`
touches them. -/
structure Env.Frame (E : Env) : Prop where
  handler_req_list : ∀ fn r a, (E.handler fn r a).2.req_list = a.req_list
  handler_req_no : ∀ fn r a, (E.handler fn r a).2.req_no = a.req_no
  handler_seq_no : ∀ fn r a, (E.handler fn r a).2.fsf_req_seq_no = a.fsf_req_seq_no
  handler_completions : ∀ fn r a, (E.handler fn r a).2.completions = a.completions
  sr_req_list : ∀ r a, (E.status_read_handler r a).req_list = a.req_list
  sr_req_no : ∀ r a, (E.status_read_handler r a).req_no = a.req_no
  sr_seq_no : ∀ r a, (E.status_read_handler r a).fsf_req_seq_no = a.fsf_req_seq_no
  sr_completions : ∀ r a, (E.status_read_handler r a).completions = a.completions

/-! ## The request table -/

/-- Kernel `list_add_tail(&req->list, &req_list[idx])`: link `req` at the end
of bucket `idx`. -/
def list_add_tail (req : zfcp_fsf_req) : Nat → List (List zfcp_fsf_req) → List (List zfcp_fsf_req)
  | _, [] => []
  | 0, b :: bs => (b ++ [req]) :: bs
  | idx + 1, b :: bs => b :: list_add_tail req idx bs

/-- Kernel `list_del(&req->list)`: unlink the node of the object `req` from the
list that holds it. -/
def list_del (req : zfcp_fsf_req) (req_list : List (List zfcp_fsf_req)) : List (List zfcp_fsf_req) :=
  req_list.map (fun b => b.filter (fun r => r.addr != req.addr))

/-- Modelled from the spec: `zfcp_reqlist_find` is an inline helper of
`zfcp_def.h`, which is not among the sources.  The spec has the registry map a
request identifier to a request in one of its hash buckets, so the lookup walks
the bucket of the identifier and returns the first request that carries it. -/
def zfcp_reqlist_find (K : Decls) (a : zfcp_adapter) (req_id : Nat) : Option zfcp_fsf_req :=
  (a.req_list.getD (K.zfcp_reqlist_hash req_id) []).find? (fun r => r.req_id == req_id)

/-- Modelled from the spec: `zfcp_reqlist_find_safe` is an inline helper of
`zfcp_def.h`, which is not among the sources.  It tells whether the request
object itself is still in the registry ("if still present"), whatever its
bucket: all buckets are walked in index order. -/
def zfcp_reqlist_find_safe (a : zfcp_adapter) (req : zfcp_fsf_req) : Option zfcp_fsf_req :=
  a.req_list.flatten.find? (fun r => r.addr == req.addr)

/-- Modelled from the spec: `zfcp_reqlist_remove` is an inline helper of
`zfcp_def.h`, which is not among the sources.  It removes the request from the
registry, that is, unlinks it. -/
def zfcp_reqlist_remove (a : zfcp_adapter) (req : zfcp_fsf_req) : zfcp_adapter :=
  { a with req_list := list_del req a.req_list }

/-- Every request that is in the registry, bucket after bucket. -/
def registered (a : zfcp_adapter) : List zfcp_fsf_req :=
  a.req_list.flatten

/-! ## Status evaluation and completion -/

/-- Modelled from the spec: `zfcp_erp_modify_adapter_status` belongs to the
error recovery (`zfcp_erp.c`), which is not among the sources.  Called with
`ZFCP_SET` it marks the adapter with the given status bits. -/
def zfcp_erp_modify_adapter_status_set (id : String) (mask : Nat) (a : zfcp_adapter) : zfcp_adapter :=
  { a with status := a.status ||| mask }.emit (.zfcp_erp_modify_adapter_status id mask)

/-- Source `zfcp_fsf_link_down_info_eval`.  The switch over
`link_down->error_code` only selects the text of a warning and is left out. -/
def zfcp_fsf_link_down_info_eval (K : Decls) (req : zfcp_fsf_req) (id : String)
    (a : zfcp_adapter) : zfcp_adapter :=
  if a.status &&& K.ZFCP_STATUS_ADAPTER_LINK_UNPLUGGED ≠ 0 then a
  else
    let a1 := { a with status := a.status ||| K.ZFCP_STATUS_ADAPTER_LINK_UNPLUGGED }
    let a2 := a1.emit .zfcp_scsi_schedule_rports_block
    a2.emit (.zfcp_erp_adapter_failed id (some req.addr))

/-- Source `zfcp_fsf_fsfstatus_qual_eval`, on the qualifier word
`fsf_status_qual.word[0]`. -/
def zfcp_fsf_fsfstatus_qual_eval (K : Decls) (req : zfcp_fsf_req) (word0 : Nat)
    (a : zfcp_adapter) : zfcp_fsf_req × zfcp_adapter :=
  if word0 = K.FSF_SQ_FCP_RSP_AVAILABLE ∨ word0 = K.FSF_SQ_INVOKE_LINK_TEST_PROCEDURE
      ∨ word0 = K.FSF_SQ_NO_RETRY_POSSIBLE ∨ word0 = K.FSF_SQ_ULP_DEPENDENT_ERP_REQUIRED then
    (req, a)
  else
    let a1 :=
      if word0 = K.FSF_SQ_COMMAND_ABORTED then a
      else if word0 = K.FSF_SQ_NO_RECOM then
        (a.emit .zfcp_qdio_siosl).emit (.zfcp_erp_adapter_shutdown 0 "fsfsqe1" (some req.addr))
      else a
    ({ req with status := req.status ||| K.ZFCP_STATUS_FSFREQ_ERROR }, a1)

/-- Source `zfcp_fsf_fsfstatus_eval`.  A request without control block is left
as it is (the C code would read through a null pointer; `zfcp_fsf_req_create`
gives every request of another kind than unsolicited status a control block). -/
def zfcp_fsf_fsfstatus_eval (K : Decls) (req : zfcp_fsf_req) (a : zfcp_adapter) :
    zfcp_fsf_req × zfcp_adapter :=
  if req.status &&& K.ZFCP_STATUS_FSFREQ_ERROR ≠ 0 then (req, a)
  else
    match req.qtcb with
    | none => (req, a)
    | some qtcb =>
      if qtcb.header.fsf_status = K.FSF_UNKNOWN_COMMAND then
        ({ req with status := req.status ||| K.ZFCP_STATUS_FSFREQ_ERROR },
          a.emit (.zfcp_erp_adapter_shutdown 0 "fsfse_1" (some req.addr)))
      else if qtcb.header.fsf_status = K.FSF_ADAPTER_STATUS_AVAILABLE then
        zfcp_fsf_fsfstatus_qual_eval K req qtcb.header.fsf_status_qual_word0 a
      else (req, a)

/-- Source `zfcp_fsf_protstatus_eval`.  The trace call `zfcp_dbf_hba_fsf_response`
and the kernel messages are left out.  A request without control block that is
not dismissed is left as it is (see `zfcp_fsf_fsfstatus_eval`). -/
def zfcp_fsf_protstatus_eval (K : Decls) (req : zfcp_fsf_req) (a : zfcp_adapter) :
    zfcp_fsf_req × zfcp_adapter :=
  if req.status &&& K.ZFCP_STATUS_FSFREQ_DISMISSED ≠ 0 then
    ({ req with status := req.status ||| K.ZFCP_STATUS_FSFREQ_ERROR }, a)
  else
    match req.qtcb with
    | none => (req, a)
    | some qtcb =>
      let ps := qtcb.pfx.prot_status
      if ps = K.FSF_PROT_GOOD ∨ ps = K.FSF_PROT_FSF_STATUS_PRESENTED then (req, a)
      else
        let ra : zfcp_fsf_req × zfcp_adapter :=
          if ps = K.FSF_PROT_QTCB_VERSION_ERROR then
            (req, a.emit (.zfcp_erp_adapter_shutdown 0 "fspse_1" (some req.addr)))
          else if ps = K.FSF_PROT_ERROR_STATE ∨ ps = K.FSF_PROT_SEQ_NUMB_ERROR then
            ({ req with status := req.status ||| K.ZFCP_STATUS_FSFREQ_ERROR },
              a.emit (.zfcp_erp_adapter_reopen 0 "fspse_2" (some req.addr)))
          else if ps = K.FSF_PROT_UNSUPP_QTCB_TYPE then
            (req, a.emit (.zfcp_erp_adapter_shutdown 0 "fspse_3" (some req.addr)))
          else if ps = K.FSF_PROT_HOST_CONNECTION_INITIALIZING then
            (req, { a with status := a.status ||| K.ZFCP_STATUS_ADAPTER_HOST_CON_INIT })
          else if ps = K.FSF_PROT_DUPLICATE_REQUEST_ID then
            (req, a.emit (.zfcp_erp_adapter_shutdown 0 "fspse_4" (some req.addr)))
          else if ps = K.FSF_PROT_LINK_DOWN then
            (req, (zfcp_fsf_link_down_info_eval K req "fspse_5" a).emit
              (.zfcp_erp_adapter_reopen 0 "fspse_6" (some req.addr)))
          else if ps = K.FSF_PROT_REEST_QUEUE then
            (req, (zfcp_erp_modify_adapter_status_set "fspse_7" K.ZFCP_STATUS_COMMON_RUNNING a).emit
              (.zfcp_erp_adapter_reopen
                (K.ZFCP_STATUS_ADAPTER_LINK_UNPLUGGED ||| K.ZFCP_STATUS_COMMON_ERP_FAILED)
                "fspse_8" (some req.addr)))
          else
            (req, (a.emit .zfcp_qdio_siosl).emit
              (.zfcp_erp_adapter_shutdown 0 "fspse_9" (some req.addr)))
        ({ ra.1 with status := ra.1.status ||| K.ZFCP_STATUS_FSFREQ_ERROR }, ra.2)

/-- Source `zfcp_fsf_req_complete`.  The call is first put on record in
`completions`.  The result is the request as the function leaves it (released,
or handed to the waiter of `req->completion`) and the adapter. -/
def zfcp_fsf_req_complete (K : Decls) (E : Env) (req : zfcp_fsf_req) (a : zfcp_adapter) :
    zfcp_fsf_req × zfcp_adapter :=
  let a0 := { a with completions := a.completions ++ [req] }
  if req.fsf_command = K.FSF_QTCB_UNSOLICITED_STATUS then
    (req, E.status_read_handler req (a0.emit (.zfcp_fsf_status_read_handler req.addr)))
  else
    let a1 := a0.emit (.del_timer req.addr)
    let r2 := zfcp_fsf_protstatus_eval K req a1
    let r3 := zfcp_fsf_fsfstatus_eval K r2.1 r2.2
    let r4 := E.handler r3.1.handler r3.1 (r3.2.emit (.call_handler r3.1.handler r3.1.addr))
    let a5 :=
      match r4.1.erp_action with
      | some act => r4.2.emit (.zfcp_erp_notify act 0)
      | none => r4.2
    if r4.1.status &&& K.ZFCP_STATUS_FSFREQ_CLEANUP ≠ 0 then
      (r4.1, a5.emit (.zfcp_fsf_req_free r4.1.addr))
    else
      (r4.1, a5.emit (.complete r4.1.addr))

/-- The store `req->status |= ZFCP_STATUS_FSFREQ_DISMISSED` of
`zfcp_fsf_req_dismiss_all`. -/
def dismissed (K : Decls) (req : zfcp_fsf_req) : zfcp_fsf_req :=
  { req with status := req.status ||| K.ZFCP_STATUS_FSFREQ_DISMISSED }

/-- The loop of `zfcp_fsf_req_dismiss_all` over `remove_queue`: unlink, flag
as dismissed, complete. -/
def dismiss_queue (K : Decls) (E : Env) : List zfcp_fsf_req → zfcp_adapter → zfcp_adapter
  | [], a => a
  | req :: tmp, a => dismiss_queue K E tmp (zfcp_fsf_req_complete K E (dismissed K req) a).2

/-- Kernel `list_splice_init(&req_list[i], &remove_queue)` for `i` from 0 below
`REQUEST_LIST_SIZE`: bucket `i` is put in front of `remove_queue` and emptied.
The result is the table and `remove_queue` after the loop. -/
def splice_buckets (K : Decls) (req_list : List (List zfcp_fsf_req)) :
    List (List zfcp_fsf_req) × List zfcp_fsf_req :=
  (List.range K.REQUEST_LIST_SIZE).foldl
    (fun st i => (st.1.set i [], st.1.getD i [] ++ st.2)) (req_list, [])

/-- Source `zfcp_fsf_req_dismiss_all`; `BUG_ON` halts the machine. -/
def zfcp_fsf_req_dismiss_all (K : Decls) (E : Env) (a : zfcp_adapter) : Outcome :=
  if a.status &&& K.ZFCP_STATUS_ADAPTER_QDIOUP ≠ 0 then .halted a
  else
    let st := splice_buckets K a.req_list
    .returned (dismiss_queue K E st.2 { a with req_list := st.1 })

/-! ## Creating and sending a request -/

/-- Source table `fsf_qtcb_type[]`: the QTCB type of each FSF command; entries
the initialiser does not name are zero. -/
def fsf_qtcb_type (K : Decls) (fsf_command : Nat) : Nat :=
  if fsf_command = K.FSF_QTCB_FCP_CMND then K.FSF_IO_COMMAND
  else if fsf_command = K.FSF_QTCB_ABORT_FCP_CMND then K.FSF_SUPPORT_COMMAND
  else if fsf_command = K.FSF_QTCB_OPEN_PORT_WITH_DID then K.FSF_SUPPORT_COMMAND
  else if fsf_command = K.FSF_QTCB_OPEN_LUN then K.FSF_SUPPORT_COMMAND
  else if fsf_command = K.FSF_QTCB_CLOSE_LUN then K.FSF_SUPPORT_COMMAND
  else if fsf_command = K.FSF_QTCB_CLOSE_PORT then K.FSF_SUPPORT_COMMAND
  else if fsf_command = K.FSF_QTCB_CLOSE_PHYSICAL_PORT then K.FSF_SUPPORT_COMMAND
  else if fsf_command = K.FSF_QTCB_SEND_ELS then K.FSF_SUPPORT_COMMAND
  else if fsf_command = K.FSF_QTCB_SEND_GENERIC then K.FSF_SUPPORT_COMMAND
  else if fsf_command = K.FSF_QTCB_EXCHANGE_CONFIG_DATA then K.FSF_CONFIG_COMMAND
  else if fsf_command = K.FSF_QTCB_EXCHANGE_PORT_DATA then K.FSF_PORT_COMMAND
  else if fsf_command = K.FSF_QTCB_DOWNLOAD_CONTROL_FILE then K.FSF_SUPPORT_COMMAND
  else if fsf_command = K.FSF_QTCB_UPLOAD_CONTROL_FILE then K.FSF_SUPPORT_COMMAND
  else 0

/-- Source `zfcp_fsf_req_create`.  `alloc` is what `zfcp_fsf_alloc` returns (the
address of the zeroed request object, `none` when memory is short), `alloc_qtcb`
whether `zfcp_qtcb_alloc` succeeds.  The result is the request or the error
code of `ERR_PTR`, and the adapter.  Stores into the buffer elements of the
request queue go to the log. -/
def zfcp_fsf_req_create (K : Decls) (fsf_cmd : Nat) (pool : Bool) (alloc : Option Nat)
    (alloc_qtcb : Bool) (a : zfcp_adapter) : Except Int zfcp_fsf_req × zfcp_adapter :=
  match alloc with
  | none => (.error (-ENOMEM), a)
  | some p =>
    let a1 := if a.req_no = 0 then { a with req_no := (a.req_no + 1) % 2 ^ K.BITS_PER_LONG } else a
    let req : zfcp_fsf_req :=
      { addr := p, pool := pool, fsf_command := fsf_cmd, req_id := a1.req_no,
        queue_req := { sbal_number := 1, sbal_first := a1.qdio.req_q_first,
                       sbal_last := a1.qdio.req_q_first, sbale_curr := 1 } }
    let sbal := req.queue_req.sbal_last
    let a2 := ((a1.emit (.sbale_write sbal 0 "addr" req.req_id)).emit
      (.sbale_write sbal 0 "eflags" 0)).emit (.sbale_write sbal 0 "sflags|" K.SBAL_SFLAGS0_COMMAND)
    if fsf_cmd ≠ K.FSF_QTCB_UNSOLICITED_STATUS then
      if alloc_qtcb then
        let qtcb : fsf_qtcb :=
          { pfx := { req_seq_no := a2.fsf_req_seq_no, req_id := req.req_id, ulp_info := 26,
                     qtcb_type := fsf_qtcb_type K req.fsf_command,
                     qtcb_version := K.FSF_QTCB_CURRENT_VERSION },
            header := { req_handle := req.req_id, fsf_command := req.fsf_command } }
        let req1 := { req with qtcb := some qtcb, seq_no := a2.fsf_req_seq_no }
        (.ok req1, (a2.emit (.sbale_write sbal 1 "addr" p)).emit
          (.sbale_write sbal 1 "length" K.sizeof_fsf_qtcb))
      else
        (.error (-ENOMEM), a2.emit (.zfcp_fsf_req_free p))
    else
      (.ok req, a2)

/-- The two stores of `zfcp_fsf_req_send` into the request:
`req->queue_req.qdio_outb_usage = atomic_read(&qdio->req_q.count)` and
`req->issued = get_clock()`. -/
def stamped (req : zfcp_fsf_req) (clock : Nat) (a : zfcp_adapter) : zfcp_fsf_req :=
  { req with
    queue_req := { req.queue_req with qdio_outb_usage := a.qdio.req_q_count }, issued := clock }

/-- Source `zfcp_fsf_req_send`.  `clock` is the value of `get_clock()` and
`qdio_send` the return value of `zfcp_qdio_send`, a function of the transport.
The request enters the table with the two members the function stores right
after linking it (`stamped`).  The result is the return value and the
adapter. -/
def zfcp_fsf_req_send (K : Decls) (req : zfcp_fsf_req) (clock : Nat) (qdio_send : Int)
    (a : zfcp_adapter) : Int × zfcp_adapter :=
  let with_qtcb := req.qtcb.isSome
  let idx := K.zfcp_reqlist_hash req.req_id
  let a1 := { a with req_list := list_add_tail (stamped req clock a) idx a.req_list }
  if qdio_send ≠ 0 then
    let a2 := a1.emit (.del_timer req.addr)
    let a3 :=
      if (zfcp_reqlist_find_safe a2 (stamped req clock a)).isSome then
        zfcp_reqlist_remove a2 (stamped req clock a)
      else a2
    (- EIO, a3.emit (.zfcp_erp_adapter_reopen 0 "fsrs__1" (some req.addr)))
  else
    let a2 := if with_qtcb then { a1 with fsf_req_seq_no := (a1.fsf_req_seq_no + 1) % 2 ^ 32 } else a1
    (0, { a2 with req_no := (a2.req_no + 1) % 2 ^ K.BITS_PER_LONG })

/-! ## Dispatching a response buffer -/

/-- The two stores of `zfcp_fsf_reqid_check` into the request it found:
`queue_req.sbal_response = sbal_idx` and
`queue_req.qdio_inb_usage = atomic_read(&qdio->resp_q.count)`. -/
def answered (fsf_req : zfcp_fsf_req) (sbal_idx : Nat) (a : zfcp_adapter) : zfcp_fsf_req :=
  { fsf_req with
    queue_req := { fsf_req.queue_req with
      sbal_response := sbal_idx, qdio_inb_usage := a.qdio.resp_q_count } }

/-- The loop of `zfcp_fsf_reqid_check` over the elements of the response
buffer, from the element at the head of the list on. -/
def reqid_check_loop (K : Decls) (E : Env) (sbal_idx : Nat) :
    List qdio_buffer_element → zfcp_adapter → Outcome
  | [], a => .returned a
  | sbale :: rest, a =>
    let req_id := sbale.addr
    match zfcp_reqlist_find K a req_id with
    | none => .halted (a.emit .zfcp_qdio_siosl)
    | some fsf_req =>
      let a1 := { a with req_list := list_del fsf_req a.req_list }
      let a2 := (zfcp_fsf_req_complete K E (answered fsf_req sbal_idx a1) a1).2
      if sbale.eflags &&& K.SBAL_EFLAGS_LAST_ENTRY ≠ 0 then .returned a2
      else reqid_check_loop K E sbal_idx rest a2

/-- Source `zfcp_fsf_reqid_check`: the response buffer `resp_q.sbal[sbal_idx]`
holds `QDIO_MAX_ELEMENTS_PER_BUFFER` elements, which the loop visits in
order.  `panic` halts the machine. -/
def zfcp_fsf_reqid_check (K : Decls) (E : Env) (sbal_idx : Nat) (a : zfcp_adapter) : Outcome :=
  reqid_check_loop K E sbal_idx (a.qdio.resp_q_sbal.getD sbal_idx []) a

/-! ## Declarations used by the handlers -/

/-- Further constants that `zfcp_fsf.c` takes from headers (`zfcp_def.h`,
`fsf.h`, `qdio.h`, `scsi/fc/fc_fcp.h`), and the address of the handler that
`zfcp_fsf_open_unit` stores in `req->handler`.  Their values are not fixed
here. -/
structure MoreDecls where
  HZ : Nat
  /-- value of the function pointer `zfcp_fsf_open_unit_handler` -/
  addr_zfcp_fsf_open_unit_handler : Nat
  ZFCP_STATUS_FSFREQ_TMFUNCFAILED : Nat
  FCP_TMF_CMPL : Nat
  ZFCP_STATUS_COMMON_OPEN : Nat
  ZFCP_STATUS_COMMON_ACCESS_DENIED : Nat
  ZFCP_STATUS_COMMON_ACCESS_BOXED : Nat
  ZFCP_STATUS_UNIT_SHARED : Nat
  ZFCP_STATUS_UNIT_READONLY : Nat
  FSF_GOOD : Nat
  FSF_PORT_HANDLE_NOT_VALID : Nat
  FSF_LUN_ALREADY_OPEN : Nat
  FSF_ACCESS_DENIED : Nat
  FSF_PORT_BOXED : Nat
  FSF_LUN_SHARING_VIOLATION : Nat
  FSF_MAXIMUM_NUMBER_OF_LUNS_EXCEEDED : Nat
  FSF_INVALID_COMMAND_OPTION : Nat
  FSF_FEATURE_NPIV_MODE : Nat
  FSF_FEATURE_LUN_SHARING : Nat
  FSF_UNIT_ACCESS_EXCLUSIVE : Nat
  FSF_UNIT_ACCESS_OUTBOUND_TRANSFER : Nat
  FSF_OPEN_LUN_SUPPRESS_BOXING : Nat
  SBAL_SFLAGS0_TYPE_READ : Nat
  ZFCP_DID_MASK : Nat
  FSF_STATUS_READ_PORT_CLOSED : Nat
  FSF_STATUS_READ_INCOMING_ELS : Nat
  FSF_STATUS_READ_SENSE_DATA_AVAIL : Nat
  FSF_STATUS_READ_BIT_ERROR_THRESHOLD : Nat
  FSF_STATUS_READ_LINK_DOWN : Nat
  FSF_STATUS_READ_LINK_UP : Nat
  FSF_STATUS_READ_NOTIFICATION_LOST : Nat
  FSF_STATUS_READ_CFDC_UPDATED : Nat
  FSF_STATUS_READ_FEATURE_UPDATE_ALERT : Nat
  FSF_STATUS_READ_SUB_NO_PHYSICAL_LINK : Nat
  FSF_STATUS_READ_SUB_FDISC_FAILED : Nat
  FSF_STATUS_READ_SUB_FIRMWARE_UPDATE : Nat
  FSF_STATUS_READ_SUB_ACT_UPDATED : Nat
  FSF_STATUS_READ_SUB_INCOMING_ELS : Nat
  FCH_EVT_LINKDOWN : Nat
  FCH_EVT_LINKUP : Nat

/-! ## Units, and the handlers of the file -/

/-- Kernel `atomic_clear_mask(mask, &v)`: the value `v & ~mask`. -/
def atomic_clear_mask (mask v : Nat) : Nat :=
  v ^^^ (v &&& mask)

/-- The unit object at address `p`. -/
def unit_at (a : zfcp_adapter) (p : Nat) : Option zfcp_unit :=
  a.units.find? (fun u => u.addr == p)

/-- A store into the unit object at address `p`. -/
def unit_update (p : Nat) (f : zfcp_unit → zfcp_unit) (a : zfcp_adapter) : zfcp_adapter :=
  { a with units := a.units.map (fun u => if u.addr = p then f u else u) }

/-- The status read buffer at address `p`. -/
def status_read_buf_at (a : zfcp_adapter) (p : Nat) : Option fsf_status_read_buffer :=
  a.status_read_bufs.find? (fun b => b.addr == p)

/-- Source `zfcp_fsf_access_denied_unit`.  The warning and the two calls of
`zfcp_act_eval_err`, which only print, are left out. -/
def zfcp_fsf_access_denied_unit (K : Decls) (req : zfcp_fsf_req) (unit : zfcp_unit)
    (a : zfcp_adapter) : zfcp_fsf_req × zfcp_adapter :=
  ({ req with status := req.status ||| K.ZFCP_STATUS_FSFREQ_ERROR },
    a.emit (.zfcp_erp_unit_access_denied unit.addr "fsuad_1" (some req.addr)))

/-- Source `zfcp_fsf_open_unit_handler`; `req->data` is the unit.  Kernel
messages are left out, and with them the test of `fsf_status_qual.word[0]`
under `FSF_LUN_SHARING_VIOLATION`, which only chooses what is printed.  A
request without control block, or whose unit is not among the unit objects,
is left as it is (the C code would read through a bad pointer). -/
def zfcp_fsf_open_unit_handler (K : Decls) (U : MoreDecls) (req : zfcp_fsf_req)
    (a : zfcp_adapter) : zfcp_fsf_req × zfcp_adapter :=
  if req.status &&& K.ZFCP_STATUS_FSFREQ_ERROR ≠ 0 then (req, a)
  else
    match req.qtcb, unit_at a req.data with
    | some qtcb, some unit =>
      let mask := U.ZFCP_STATUS_COMMON_ACCESS_DENIED ||| U.ZFCP_STATUS_COMMON_ACCESS_BOXED
        ||| U.ZFCP_STATUS_UNIT_SHARED ||| U.ZFCP_STATUS_UNIT_READONLY
      let a1 := unit_update req.data
        (fun u => { u with status := atomic_clear_mask mask u.status }) a
      let err : zfcp_fsf_req := { req with status := req.status ||| K.ZFCP_STATUS_FSFREQ_ERROR }
      let clear_shared_readonly (b : zfcp_adapter) : zfcp_adapter :=
        unit_update req.data
          (fun u => { u with status := atomic_clear_mask U.ZFCP_STATUS_UNIT_READONLY
                                         (atomic_clear_mask U.ZFCP_STATUS_UNIT_SHARED u.status) }) b
      let fsf_status := qtcb.header.fsf_status
      if fsf_status = U.FSF_PORT_HANDLE_NOT_VALID then
        (req, a1.emit (.zfcp_erp_adapter_reopen 0 "fsouh_1" (some req.addr)))
      else if fsf_status = U.FSF_LUN_ALREADY_OPEN then (req, a1)
      else if fsf_status = U.FSF_ACCESS_DENIED then
        let r := zfcp_fsf_access_denied_unit K req unit a1
        (r.1, clear_shared_readonly r.2)
      else if fsf_status = U.FSF_PORT_BOXED then
        (err, a1.emit (.zfcp_erp_port_boxed unit.port "fsouh_2" (some req.addr)))
      else if fsf_status = U.FSF_LUN_SHARING_VIOLATION then
        (err, clear_shared_readonly
          (a1.emit (.zfcp_erp_unit_access_denied unit.addr "fsouh_3" (some req.addr))))
      else if fsf_status = U.FSF_MAXIMUM_NUMBER_OF_LUNS_EXCEEDED then
        (err, a1.emit (.zfcp_erp_unit_failed unit.addr "fsouh_4" (some req.addr)))
      else if fsf_status = U.FSF_INVALID_COMMAND_OPTION then (err, a1)
      else if fsf_status = K.FSF_ADAPTER_STATUS_AVAILABLE then
        if qtcb.header.fsf_status_qual_word0 = K.FSF_SQ_INVOKE_LINK_TEST_PROCEDURE then
          (err, a1.emit (.zfcp_fc_test_link unit.port))
        else if qtcb.header.fsf_status_qual_word0 = K.FSF_SQ_ULP_DEPENDENT_ERP_REQUIRED then
          (err, a1)
        else (req, a1)
      else if fsf_status = U.FSF_GOOD then
        let a2 := unit_update req.data (fun u => { u with
          handle := qtcb.header.lun_handle,
          status := u.status ||| U.ZFCP_STATUS_COMMON_OPEN }) a1
        if a2.connection_features &&& U.FSF_FEATURE_NPIV_MODE = 0
            ∧ a2.adapter_features &&& U.FSF_FEATURE_LUN_SHARING ≠ 0 ∧ a2.priv_sch = false then
          let exclusive := qtcb.bottom.lun_access_info &&& U.FSF_UNIT_ACCESS_EXCLUSIVE
          let readwrite := qtcb.bottom.lun_access_info &&& U.FSF_UNIT_ACCESS_OUTBOUND_TRANSFER
          let a3 :=
            if exclusive = 0 then
              unit_update req.data
                (fun u => { u with status := u.status ||| U.ZFCP_STATUS_UNIT_SHARED }) a2
            else a2
          let a4 :=
            if readwrite = 0 then
              unit_update req.data
                (fun u => { u with status := u.status ||| U.ZFCP_STATUS_UNIT_READONLY }) a3
            else a3
          if exclusive ≠ 0 ∧ readwrite = 0 then
            (err, (a4.emit (.zfcp_erp_unit_failed unit.addr "fsouh_5" (some req.addr))).emit
              (.zfcp_erp_unit_shutdown unit.addr 0 "fsouh_6" (some req.addr)))
          else if exclusive = 0 ∧ readwrite ≠ 0 then
            (err, (a4.emit (.zfcp_erp_unit_failed unit.addr "fsouh_7" (some req.addr))).emit
              (.zfcp_erp_unit_shutdown unit.addr 0 "fsouh_8" (some req.addr)))
          else (req, a4)
        else (req, a2)
      else (req, a1)
    | _, _ => (req, a)

/-- Source `zfcp_fsf_send_fcp_ctm_handler`: `rsp_code` is read from the
response-info block behind `bottom.io.fcp_rsp`.  A request without control
block is left as it is (the C code would read through a null pointer). -/
def zfcp_fsf_send_fcp_ctm_handler (K : Decls) (U : MoreDecls) (req : zfcp_fsf_req) :
    zfcp_fsf_req :=
  match req.qtcb with
  | none => req
  | some qtcb =>
    if qtcb.bottom.rsp_code ≠ U.FCP_TMF_CMPL ∨ req.status &&& K.ZFCP_STATUS_FSFREQ_ERROR ≠ 0 then
      { req with status := req.status ||| U.ZFCP_STATUS_FSFREQ_TMFUNCFAILED }
    else req

/-- Source `zfcp_fsf_status_read_port_closed`: the first port of the port list
with the destination identifier of the buffer is reopened. -/
def zfcp_fsf_status_read_port_closed (U : MoreDecls) (req : zfcp_fsf_req)
    (sr_buf : fsf_status_read_buffer) (a : zfcp_adapter) : zfcp_adapter :=
  match a.port_list.find? (fun port => port.d_id == sr_buf.d_id &&& U.ZFCP_DID_MASK) with
  | some port => a.emit (.zfcp_erp_port_reopen port.addr 0 "fssrpc1" (some req.addr))
  | none => a

/-- Source `zfcp_fsf_status_read_link_down`. -/
def zfcp_fsf_status_read_link_down (K : Decls) (U : MoreDecls) (req : zfcp_fsf_req)
    (sr_buf : fsf_status_read_buffer) (a : zfcp_adapter) : zfcp_adapter :=
  if sr_buf.status_subtype = U.FSF_STATUS_READ_SUB_NO_PHYSICAL_LINK then
    zfcp_fsf_link_down_info_eval K req "fssrld1" a
  else if sr_buf.status_subtype = U.FSF_STATUS_READ_SUB_FDISC_FAILED then
    zfcp_fsf_link_down_info_eval K req "fssrld2" a
  else if sr_buf.status_subtype = U.FSF_STATUS_READ_SUB_FIRMWARE_UPDATE then
    zfcp_fsf_link_down_info_eval K req "fssrld3" a
  else a

/-- The `switch (sr_buf->status_type)` of `zfcp_fsf_status_read_handler`. -/
def status_read_switch (K : Decls) (U : MoreDecls) (req : zfcp_fsf_req)
    (sr_buf : fsf_status_read_buffer) (a : zfcp_adapter) : zfcp_adapter :=
  if sr_buf.status_type = U.FSF_STATUS_READ_PORT_CLOSED then
    zfcp_fsf_status_read_port_closed U req sr_buf a
  else if sr_buf.status_type = U.FSF_STATUS_READ_INCOMING_ELS then
    a.emit (.zfcp_fc_incoming_els req.addr)
  else if sr_buf.status_type = U.FSF_STATUS_READ_SENSE_DATA_AVAIL then a
  else if sr_buf.status_type = U.FSF_STATUS_READ_BIT_ERROR_THRESHOLD then a
  else if sr_buf.status_type = U.FSF_STATUS_READ_LINK_DOWN then
    (zfcp_fsf_status_read_link_down K U req sr_buf a).emit
      (.zfcp_fc_enqueue_event U.FCH_EVT_LINKDOWN)
  else if sr_buf.status_type = U.FSF_STATUS_READ_LINK_UP then
    ((zfcp_erp_modify_adapter_status_set "fssrh_1" K.ZFCP_STATUS_COMMON_RUNNING a).emit
      (.zfcp_erp_adapter_reopen
        (K.ZFCP_STATUS_ADAPTER_LINK_UNPLUGGED ||| K.ZFCP_STATUS_COMMON_ERP_FAILED)
        "fssrh_2" (some req.addr))).emit (.zfcp_fc_enqueue_event U.FCH_EVT_LINKUP)
  else if sr_buf.status_type = U.FSF_STATUS_READ_NOTIFICATION_LOST then
    let b :=
      if sr_buf.status_subtype &&& U.FSF_STATUS_READ_SUB_ACT_UPDATED ≠ 0 then
        a.emit (.zfcp_erp_adapter_access_changed "fssrh_3" (some req.addr))
      else a
    if sr_buf.status_subtype &&& U.FSF_STATUS_READ_SUB_INCOMING_ELS ≠ 0 then
      b.emit .zfcp_fc_conditional_port_scan
    else b
  else if sr_buf.status_type = U.FSF_STATUS_READ_CFDC_UPDATED then
    a.emit (.zfcp_erp_adapter_access_changed "fssrh_4" (some req.addr))
  else if sr_buf.status_type = U.FSF_STATUS_READ_FEATURE_UPDATE_ALERT then
    { a with adapter_features := sr_buf.payload_word0 }
  else a

/-- Source `zfcp_fsf_status_read_handler`; `req->data` is the status read
buffer.  Trace calls and kernel messages are left out.  A request whose buffer
is not among the status read buffers takes no branch of the switch (the C code
would read through a bad pointer). -/
def zfcp_fsf_status_read_handler (K : Decls) (U : MoreDecls) (req : zfcp_fsf_req)
    (a : zfcp_adapter) : zfcp_adapter :=
  if req.status &&& K.ZFCP_STATUS_FSFREQ_DISMISSED ≠ 0 then
    (a.emit (.mempool_free_status_read_data req.data)).emit (.zfcp_fsf_req_free req.addr)
  else
    let a1 :=
      match status_read_buf_at a req.data with
      | none => a
      | some sr_buf => status_read_switch K U req sr_buf a
    let a2 := (a1.emit (.mempool_free_status_read_data req.data)).emit
      (.zfcp_fsf_req_free req.addr)
    { a2 with stat_miss := a2.stat_miss + 1 }.emit .queue_work_stat_work

/-- The handlers of the file as an `Env`: the pointer
`zfcp_fsf_open_unit_handler` leads to that function and every other pointer to
what `other` says; the unsolicited-status handler is the one of the file. -/
def zfcp_env (K : Decls) (U : MoreDecls)
    (other : Nat → zfcp_fsf_req → zfcp_adapter → zfcp_fsf_req × zfcp_adapter) : Env :=
  { handler := fun fn req a =>
      if fn = U.addr_zfcp_fsf_open_unit_handler then zfcp_fsf_open_unit_handler K U req a
      else other fn req a,
    status_read_handler := zfcp_fsf_status_read_handler K U }

/-! ## Waiting for a free request buffer, and opening a unit -/

/-- Source `zfcp_fsf_sbal_check`, the condition of the wait. -/
def zfcp_fsf_sbal_check (K : Decls) (a : zfcp_adapter) : Bool :=
  a.qdio.req_q_count != 0 || a.status &&& K.ZFCP_STATUS_ADAPTER_QDIOUP == 0

/-- Source `zfcp_fsf_req_sbal_get`.  `ret` is what
`wait_event_interruptible_lock_bh_timeout` returns (positive when the
condition came true, zero on timeout, negative when interrupted) and `a` is the
adapter as it is when the wait ends.  The result is the return value and the
adapter. -/
def zfcp_fsf_req_sbal_get (K : Decls) (ret : Int) (a : zfcp_adapter) : Int × zfcp_adapter :=
  if a.status &&& K.ZFCP_STATUS_ADAPTER_QDIOUP = 0 then (- EIO, a)
  else if ret > 0 then (0, a)
  else if ret = 0 then
    (- EIO, { a with qdio := { a.qdio with req_q_full := a.qdio.req_q_full + 1 } }.emit
      (.zfcp_erp_adapter_reopen 0 "fsrsg_1" none))
  else (- EIO, a)

/-- Source `zfcp_fsf_open_unit`.  `ret` is the outcome of the wait in
`zfcp_fsf_req_sbal_get`, `alloc` and `alloc_qtcb` those of the allocations in
`zfcp_fsf_req_create` (from the pool `adapter->pool.erp_req`), `clock` and
`qdio_send` are the inputs of `zfcp_fsf_req_send`.  The store
`erp_action->fsf_req = ...` goes to the log, and so does the start of the
timer (`zfcp_fsf_start_erp_timer`, whose `BUG_ON(!fsf_req->erp_action)` cannot
fire here).  The result is the return value and the adapter. -/
def zfcp_fsf_open_unit (K : Decls) (U : MoreDecls) (erp_action : zfcp_erp_action) (ret : Int)
    (alloc : Option Nat) (alloc_qtcb : Bool) (clock : Nat) (qdio_send : Int)
    (a : zfcp_adapter) : Int × zfcp_adapter :=
  let g := zfcp_fsf_req_sbal_get K ret a
  if g.1 ≠ 0 then (- EIO, g.2)
  else
    match zfcp_fsf_req_create K K.FSF_QTCB_OPEN_LUN true alloc alloc_qtcb g.2 with
    | (.error e, a1) => (e, a1)
    | (.ok req, a1) =>
      let sbal := req.queue_req.sbal_last
      let a2 := (a1.emit (.sbale_write sbal 0 "sflags|" U.SBAL_SFLAGS0_TYPE_READ)).emit
        (.sbale_write sbal 1 "eflags|" K.SBAL_EFLAGS_LAST_ENTRY)
      let req1 : zfcp_fsf_req :=
        { req with
          status := req.status ||| K.ZFCP_STATUS_FSFREQ_CLEANUP,
          qtcb := req.qtcb.map (fun q =>
            { q with header := { q.header with port_handle := erp_action.port.handle },
                     bottom := { q.bottom with fcp_lun := erp_action.unit.fcp_lun } }),
          handler := U.addr_zfcp_fsf_open_unit_handler,
          data := erp_action.unit.addr,
          erp_action := some erp_action.addr }
      let a3 := a2.emit (.erp_action_fsf_req erp_action.addr (some req.addr))
      let req2 : zfcp_fsf_req :=
        if a3.connection_features &&& U.FSF_FEATURE_NPIV_MODE = 0 then
          { req1 with qtcb := req1.qtcb.map (fun q =>
              { q with bottom := { q.bottom with option := U.FSF_OPEN_LUN_SUPPRESS_BOXING } }) }
        else req1
      let a4 := a3.emit (.add_timer req2.addr "zfcp_erp_timeout_handler" (30 * U.HZ))
      let s := zfcp_fsf_req_send K req2 clock qdio_send a4
      if s.1 ≠ 0 then
        (s.1, (s.2.emit (.zfcp_fsf_req_free req2.addr)).emit
          (.erp_action_fsf_req erp_action.addr none))
      else (s.1, s.2)

/-- The adapter hardware answers the request with identifier `req_id`: it
stores the response in the control block of that request (`f`) and puts the
response buffers `resp` in the response queue. -/
def hw_respond (req_id : Nat) (f : fsf_qtcb → fsf_qtcb)
    (resp : List (List qdio_buffer_element)) (a : zfcp_adapter) : zfcp_adapter :=
  { a with
    req_list := a.req_list.map (fun b => b.map (fun r =>
      if r.req_id = req_id then { r with qtcb := r.qtcb.map f } else r)),
    qdio := { a.qdio with resp_q_sbal := resp } }

/-! ## Further declarations: ports, the I/O path, the request timer -/

/-- Declarations of `zfcp_def.h`, `zfcp_fsf.h`, `zfcp_qdio.h` and the SCSI and
DMA headers used by the port handlers and the I/O path; they are not among the
sources.  The `addr_` fields are the addresses of handler functions. -/
structure IoDecls where
  addr_zfcp_fsf_close_physical_port_handler : Nat
  addr_zfcp_fsf_send_fcp_command_handler : Nat
  ZFCP_STATUS_PORT_PHYS_OPEN : Nat
  ZFCP_STATUS_COMMON_UNBLOCKED : Nat
  SBAL_SFLAGS0_TYPE_WRITE : Nat
  DMA_BIDIRECTIONAL : Nat
  DMA_TO_DEVICE : Nat
  DMA_FROM_DEVICE : Nat
  DMA_NONE : Nat
  SCSI_PROT_NORMAL : Nat
  SCSI_PROT_READ_STRIP : Nat
  SCSI_PROT_WRITE_INSERT : Nat
  SCSI_PROT_READ_PASS : Nat
  SCSI_PROT_WRITE_PASS : Nat
  FSF_DATADIR_WRITE : Nat
  FSF_DATADIR_READ : Nat
  FSF_DATADIR_CMND : Nat
  FSF_DATADIR_DIF_WRITE_INSERT : Nat
  FSF_DATADIR_DIF_READ_STRIP : Nat
  FSF_DATADIR_DIF_WRITE_CONVERT : Nat
  FSF_DATADIR_DIF_READ_CONVERT : Nat
  FSF_CLASS_3 : Nat
  FCP_CMND_LEN : Nat
  FSF_MAX_SBALS_PER_REQ : Nat

/-- Errno value of a busy device. -/
def EBUSY : Int := 16

/-- Errno value of an invalid argument. -/
def EINVAL : Int := 22

/-- Part of `struct scsi_cmnd` and of what the accessors of the SCSI layer
return for it: `prot_op` is `scsi_get_prot_op`, `prot_sg_count` is
`scsi_prot_sg_count`, `sector_size` is `device->sector_size`, `lba` is
`scsi_get_lba`. -/
structure scsi_cmnd where
  addr : Nat
  sc_data_direction : Nat := 0
  prot_op : Nat := 0
  prot_sg_count : Nat := 0
  sector_size : Nat := 0
  lba : Nat := 0
  deriving DecidableEq, Repr

/-- Source `zfcp_fsf_request_timeout_handler`, the function a request timer
started by `zfcp_fsf_start_timer` runs on expiry; its argument is the
adapter. -/
def zfcp_fsf_request_timeout_handler (K : Decls) (a : zfcp_adapter) : zfcp_adapter :=
  (a.emit .zfcp_qdio_siosl).emit
    (.zfcp_erp_adapter_reopen K.ZFCP_STATUS_COMMON_ERP_FAILED "fsrth_1" none)

/-- The port object at address `p`. -/
def port_at (a : zfcp_adapter) (p : Nat) : Option zfcp_port :=
  a.port_list.find? (fun port => port.addr == p)

/-- Source `zfcp_fsf_access_denied_port`.  The warning and the two calls of
`zfcp_act_eval_err`, which only print, are left out. -/
def zfcp_fsf_access_denied_port (K : Decls) (req : zfcp_fsf_req) (port : zfcp_port)
    (a : zfcp_adapter) : zfcp_fsf_req × zfcp_adapter :=
  ({ req with status := req.status ||| K.ZFCP_STATUS_FSFREQ_ERROR },
    a.emit (.zfcp_erp_port_access_denied port.addr "fspad_1" (some req.addr)))

/-- The stores that `zfcp_fsf_close_physical_port_handler` makes under
`FSF_PORT_BOXED` and under `FSF_GOOD`: `ZFCP_STATUS_PORT_PHYS_OPEN` is cleared
in the port at address `p`, and `ZFCP_STATUS_COMMON_OPEN` in every unit on
the list `port->unit_list_head`, which are the units whose `port` is `p`. -/
def phys_port_closed (U : MoreDecls) (V : IoDecls) (p : Nat) (a : zfcp_adapter) : zfcp_adapter :=
  { a with
    port_list := a.port_list.map (fun port =>
      if port.addr = p then
        { port with status := atomic_clear_mask V.ZFCP_STATUS_PORT_PHYS_OPEN port.status }
      else port),
    units := a.units.map (fun u =>
      if u.port = p then
        { u with status := atomic_clear_mask U.ZFCP_STATUS_COMMON_OPEN u.status }
      else u) }

/-- Source `zfcp_fsf_close_physical_port_handler`; `req->data` is the port.  A
request without control block, or whose port is not on the port list, is left
as it is (the C code would read through a bad pointer). -/
def zfcp_fsf_close_physical_port_handler (K : Decls) (U : MoreDecls) (V : IoDecls)
    (req : zfcp_fsf_req) (a : zfcp_adapter) : zfcp_fsf_req × zfcp_adapter :=
  if req.status &&& K.ZFCP_STATUS_FSFREQ_ERROR ≠ 0 then (req, a)
  else
    match req.qtcb, port_at a req.data with
    | some qtcb, some port =>
      let err : zfcp_fsf_req := { req with status := req.status ||| K.ZFCP_STATUS_FSFREQ_ERROR }
      let fsf_status := qtcb.header.fsf_status
      if fsf_status = U.FSF_PORT_HANDLE_NOT_VALID then
        (err, a.emit (.zfcp_erp_adapter_reopen 0 "fscpph1" (some req.addr)))
      else if fsf_status = U.FSF_ACCESS_DENIED then
        zfcp_fsf_access_denied_port K req port a
      else if fsf_status = U.FSF_PORT_BOXED then
        (err, (phys_port_closed U V req.data a).emit
          (.zfcp_erp_port_boxed port.addr "fscpph2" (some req.addr)))
      else if fsf_status = K.FSF_ADAPTER_STATUS_AVAILABLE then
        if qtcb.header.fsf_status_qual_word0 = K.FSF_SQ_INVOKE_LINK_TEST_PROCEDURE
            ∨ qtcb.header.fsf_status_qual_word0 = K.FSF_SQ_ULP_DEPENDENT_ERP_REQUIRED then
          (err, a)
        else (req, a)
      else if fsf_status = U.FSF_GOOD then
        (req, phys_port_closed U V req.data a)
      else (req, a)
    | _, _ => (req, a)

/-- Source `zfcp_fsf_set_data_dir`: the return value and the data direction
stored through `data_dir` (`none` when nothing is stored). -/
def zfcp_fsf_set_data_dir (V : IoDecls) (scsi_cmnd : scsi_cmnd) : Int × Option Nat :=
  if scsi_cmnd.prot_op = V.SCSI_PROT_NORMAL then
    if scsi_cmnd.sc_data_direction = V.DMA_NONE then (0, some V.FSF_DATADIR_CMND)
    else if scsi_cmnd.sc_data_direction = V.DMA_FROM_DEVICE then (0, some V.FSF_DATADIR_READ)
    else if scsi_cmnd.sc_data_direction = V.DMA_TO_DEVICE then (0, some V.FSF_DATADIR_WRITE)
    else if scsi_cmnd.sc_data_direction = V.DMA_BIDIRECTIONAL then (- EINVAL, none)
    else (0, none)
  else if scsi_cmnd.prot_op = V.SCSI_PROT_READ_STRIP then (0, some V.FSF_DATADIR_DIF_READ_STRIP)
  else if scsi_cmnd.prot_op = V.SCSI_PROT_WRITE_INSERT then
    (0, some V.FSF_DATADIR_DIF_WRITE_INSERT)
  else if scsi_cmnd.prot_op = V.SCSI_PROT_READ_PASS then
    (0, some V.FSF_DATADIR_DIF_READ_CONVERT)
  else if scsi_cmnd.prot_op = V.SCSI_PROT_WRITE_PASS then
    (0, some V.FSF_DATADIR_DIF_WRITE_CONVERT)
  else (- EINVAL, none)

/-- Source `zfcp_fsf_send_fcp_command_task`.  `unit` is the unit object as it
is at the call and `port_handle` is `unit->port->handle`; `alloc` and
`alloc_qtcb` are the outcomes of the allocations in `zfcp_fsf_req_create`
(from the pool `adapter->pool.scsi_req`); `sg_prot` and `sg_data` are what the
two calls of `zfcp_qdio_sbals_from_sg` return, `prot_bytes` is
`zfcp_qdio_real_bytes` of the protection list, `multi_buffer` is
`zfcp_adapter_multi_buffer_active`; `clock` and `qdio_send` are the inputs of
`zfcp_fsf_req_send`.  Stores into the SCSI command, the reference count of the
unit and the calls into the queue layer go to the log.  The result is the
return value and the adapter. -/
def zfcp_fsf_send_fcp_command_task (K : Decls) (U : MoreDecls) (V : IoDecls)
    (unit : zfcp_unit) (scsi_cmnd : scsi_cmnd) (port_handle : Nat)
    (alloc : Option Nat) (alloc_qtcb : Bool) (sg_prot sg_data : Int) (prot_bytes : Nat)
    (multi_buffer : Bool) (clock : Nat) (qdio_send : Int) (a : zfcp_adapter) :
    Int × zfcp_adapter :=
  if unit.status &&& V.ZFCP_STATUS_COMMON_UNBLOCKED = 0 then (- EBUSY, a)
  else if a.qdio.req_q_count ≤ 0 then
    (- EIO, { a with qdio := { a.qdio with req_q_full := a.qdio.req_q_full + 1 } })
  else
    let sbtype :=
      if scsi_cmnd.sc_data_direction = V.DMA_TO_DEVICE then V.SBAL_SFLAGS0_TYPE_WRITE
      else U.SBAL_SFLAGS0_TYPE_READ
    match zfcp_fsf_req_create K K.FSF_QTCB_FCP_CMND true alloc alloc_qtcb a with
    | (.error e, a1) => (e, a1)
    | (.ok req, a1) =>
      let a2 := (a1.emit (.host_scribble scsi_cmnd.addr req.req_id)).emit
        (.zfcp_unit_get unit.addr)
      let failed_scsi_cmnd (retval : Int) (b : zfcp_adapter) : Int × zfcp_adapter :=
        (retval, ((b.emit (.zfcp_unit_put unit.addr)).emit (.zfcp_fsf_req_free req.addr)).emit
          (.host_scribble scsi_cmnd.addr 0))
      let io (r : zfcp_fsf_req) (f : fsf_qtcb_bottom → fsf_qtcb_bottom) : zfcp_fsf_req :=
        { r with qtcb := r.qtcb.map (fun q => { q with bottom := f q.bottom }) }
      let req1 : zfcp_fsf_req :=
        { req with
          status := req.status ||| K.ZFCP_STATUS_FSFREQ_CLEANUP,
          unit := some unit.addr,
          data := scsi_cmnd.addr,
          handler := V.addr_zfcp_fsf_send_fcp_command_handler,
          qtcb := req.qtcb.map (fun q =>
            { q with
              header := { q.header with lun_handle := unit.handle, port_handle := port_handle },
              bottom := { q.bottom with service_class := V.FSF_CLASS_3,
                                        fcp_cmnd_length := V.FCP_CMND_LEN } }) }
      let req2 :=
        if scsi_cmnd.prot_op ≠ V.SCSI_PROT_NORMAL then
          io req1 (fun b => { b with data_block_length := scsi_cmnd.sector_size,
                                     ref_tag_value := scsi_cmnd.lba &&& 0xFFFFFFFF })
        else req1
      let d := zfcp_fsf_set_data_dir V scsi_cmnd
      let req3 :=
        match d.2 with
        | some dir => io req2 (fun b => { b with data_direction := dir })
        | none => req2
      if d.1 ≠ 0 then failed_scsi_cmnd (- EIO) a2
      else
        let a3 := a2.emit (.zfcp_fc_scsi_to_fcp req.addr scsi_cmnd.addr)
        let a4 :=
          if scsi_cmnd.prot_sg_count ≠ 0 then
            (a3.emit (.zfcp_qdio_set_data_div req.addr scsi_cmnd.prot_sg_count)).emit
              (.zfcp_qdio_sbals_from_sg req.addr sbtype "scsi_prot_sglist"
                V.FSF_MAX_SBALS_PER_REQ)
          else a3
        if scsi_cmnd.prot_sg_count ≠ 0 ∧ sg_prot ≠ 0 then failed_scsi_cmnd sg_prot a4
        else
          let req4 :=
            if scsi_cmnd.prot_sg_count ≠ 0 then
              io req3 (fun b => { b with prot_data_length := prot_bytes })
            else req3
          let a5 := a4.emit (.zfcp_qdio_sbals_from_sg req.addr sbtype "scsi_sglist"
            V.FSF_MAX_SBALS_PER_REQ)
          if sg_data ≠ 0 then failed_scsi_cmnd sg_data a5
          else
            let a6 := a5.emit (.zfcp_qdio_set_sbale_last req.addr)
            let a7 := if multi_buffer then a6.emit (.zfcp_qdio_set_scount req.addr) else a6
            let s := zfcp_fsf_req_send K req4 clock qdio_send a7
            if s.1 ≠ 0 then failed_scsi_cmnd s.1 s.2
            else (s.1, s.2)

/-- One instance of the declarations of the I/O path, for evaluating the
definitions on concrete inputs. -/
def sample_io : IoDecls :=
  { addr_zfcp_fsf_close_physical_port_handler := 0x2100,
    addr_zfcp_fsf_send_fcp_command_handler := 0x2200,
    ZFCP_STATUS_PORT_PHYS_OPEN := 0x00000001, ZFCP_STATUS_COMMON_UNBLOCKED := 0x10000000,
    SBAL_SFLAGS0_TYPE_WRITE := 0x08,
    DMA_BIDIRECTIONAL := 0, DMA_TO_DEVICE := 1, DMA_FROM_DEVICE := 2, DMA_NONE := 3,
    SCSI_PROT_NORMAL := 0, SCSI_PROT_READ_STRIP := 2, SCSI_PROT_WRITE_INSERT := 1,
    SCSI_PROT_READ_PASS := 5, SCSI_PROT_WRITE_PASS := 6,
    FSF_DATADIR_WRITE := 0x1, FSF_DATADIR_READ := 0x2, FSF_DATADIR_CMND := 0x4,
    FSF_DATADIR_DIF_WRITE_INSERT := 0x9, FSF_DATADIR_DIF_READ_STRIP := 0xa,
    FSF_DATADIR_DIF_WRITE_CONVERT := 0xb, FSF_DATADIR_DIF_READ_CONVERT := 0xc,
    FSF_CLASS_3 := 0x3, FCP_CMND_LEN := 32, FSF_MAX_SBALS_PER_REQ := 36 }

/-! ## Completion of a SCSI command and the port speed -/

/-- Declarations of `zfcp_fsf.h`, `scsi/scsi.h` and `scsi/scsi_transport_fc.h`
used by the completion of a SCSI command and by the conversion of the port
speed; they are not among the sources. -/
structure ScsiDecls where
  FSF_INCONSISTENT_PROT_DATA : Nat
  FSF_INVALID_PROT_PARM : Nat
  FSF_BLOCK_GUARD_CHECK_FAILURE : Nat
  FSF_APP_TAG_CHECK_FAILURE : Nat
  FSF_REF_TAG_CHECK_FAILURE : Nat
  FSF_FEATURE_MEASUREMENT_DATA : Nat
  DID_ERROR : Nat
  DID_TRANSPORT_DISRUPTED : Nat
  FC_PORTSPEED_1GBIT : Nat
  FC_PORTSPEED_2GBIT : Nat
  FC_PORTSPEED_4GBIT : Nat
  FC_PORTSPEED_10GBIT : Nat
  FC_PORTSPEED_8GBIT : Nat
  FC_PORTSPEED_16GBIT : Nat
  FC_PORTSPEED_NOT_NEGOTIATED : Nat

/-- Source `zfcp_fsf_send_fcp_command_task_handler`.  `req.data` is the pointer
to the SCSI command (0 for `NULL`); `result` and `retries` are the values of
`scpnt->result` and `scpnt->retries` that the function reads at the label
`skip_fsfstatus`, after the SCSI and FC helpers have had the command.  The
stores into the command and the calls go to the log, the lock `abort_lock`
included; `zfcp_fsf_req_latency` and `zfcp_fsf_trace_latency` only update
statistics that are not part of the state, so their calls are put on record.
For a request without control block whose ERROR flag is clear the C code
reads through a null pointer; here the function stops at that point. -/
def zfcp_fsf_send_fcp_command_task_handler (K : Decls) (W : ScsiDecls) (req : zfcp_fsf_req)
    (result retries : Nat) (a : zfcp_adapter) : zfcp_adapter :=
  let a1 := a.emit (.read_lock_irqsave "abort_lock")
  let scpnt := req.data
  if scpnt = 0 then a1.emit (.read_unlock_irqrestore "abort_lock")
  else
    let skip_fsfstatus (b : zfcp_adapter) : zfcp_adapter :=
      let b1 :=
        if result ≠ 0 then b.emit (.zfcp_dbf_scsi_result "erro" 3 scpnt req.addr)
        else if retries > 0 then b.emit (.zfcp_dbf_scsi_result "retr" 4 scpnt req.addr)
        else b.emit (.zfcp_dbf_scsi_result "norm" 6 scpnt req.addr)
      ((b1.emit (.host_scribble scpnt 0)).emit (.scsi_done scpnt)).emit
        (.read_unlock_irqrestore "abort_lock")
    if req.status &&& K.ZFCP_STATUS_FSFREQ_ERROR ≠ 0 then
      skip_fsfstatus (a1.emit (.set_host_byte scpnt W.DID_TRANSPORT_DISRUPTED))
    else
      match req.qtcb with
      | none => a1
      | some qtcb =>
        if qtcb.header.fsf_status = W.FSF_INCONSISTENT_PROT_DATA
            ∨ qtcb.header.fsf_status = W.FSF_INVALID_PROT_PARM then
          skip_fsfstatus (a1.emit (.set_host_byte scpnt W.DID_ERROR))
        else if qtcb.header.fsf_status = W.FSF_BLOCK_GUARD_CHECK_FAILURE then
          skip_fsfstatus (a1.emit (.zfcp_scsi_dif_sense_error scpnt 0x1))
        else if qtcb.header.fsf_status = W.FSF_APP_TAG_CHECK_FAILURE then
          skip_fsfstatus (a1.emit (.zfcp_scsi_dif_sense_error scpnt 0x2))
        else if qtcb.header.fsf_status = W.FSF_REF_TAG_CHECK_FAILURE then
          skip_fsfstatus (a1.emit (.zfcp_scsi_dif_sense_error scpnt 0x3))
        else
          let a2 := a1.emit (.zfcp_fc_eval_fcp_rsp req.addr scpnt)
          let a3 :=
            if a2.adapter_features &&& W.FSF_FEATURE_MEASUREMENT_DATA ≠ 0 then
              a2.emit (.zfcp_fsf_req_latency req.addr)
            else a2
          skip_fsfstatus (a3.emit (.zfcp_fsf_trace_latency req.addr))

/-- Number of calls of the completion callback `scsi_done` in a log. -/
def scsi_done_calls (l : List Ev) : Nat :=
  (l.filter (fun e => match e with
    | .scsi_done _ => true
    | _ => false)).length

/-- Source `#define ZFCP_FSF_PORTSPEED_1GBIT (1 << 0)`. -/
def ZFCP_FSF_PORTSPEED_1GBIT : Nat := 1 <<< 0

/-- Source `#define ZFCP_FSF_PORTSPEED_2GBIT (1 << 1)`. -/
def ZFCP_FSF_PORTSPEED_2GBIT : Nat := 1 <<< 1

/-- Source `#define ZFCP_FSF_PORTSPEED_4GBIT (1 << 2)`. -/
def ZFCP_FSF_PORTSPEED_4GBIT : Nat := 1 <<< 2

/-- Source `#define ZFCP_FSF_PORTSPEED_10GBIT (1 << 3)`. -/
def ZFCP_FSF_PORTSPEED_10GBIT : Nat := 1 <<< 3

/-- Source `#define ZFCP_FSF_PORTSPEED_8GBIT (1 << 4)`. -/
def ZFCP_FSF_PORTSPEED_8GBIT : Nat := 1 <<< 4

/-- Source `#define ZFCP_FSF_PORTSPEED_16GBIT (1 << 5)`. -/
def ZFCP_FSF_PORTSPEED_16GBIT : Nat := 1 <<< 5

/-- Source `#define ZFCP_FSF_PORTSPEED_NOT_NEGOTIATED (1 << 15)`. -/
def ZFCP_FSF_PORTSPEED_NOT_NEGOTIATED : Nat := 1 <<< 15

/-- Source `zfcp_fsf_convert_portspeed`.  Argument and result are of type
`u32`; the result is the local variable `fdmi_speed` after the seven
statements. -/
def zfcp_fsf_convert_portspeed (W : ScsiDecls) (fsf_speed : Nat) : Nat :=
  let fdmi_speed := 0
  let fdmi_speed :=
    if fsf_speed &&& ZFCP_FSF_PORTSPEED_1GBIT ≠ 0 then fdmi_speed ||| W.FC_PORTSPEED_1GBIT
    else fdmi_speed
  let fdmi_speed :=
    if fsf_speed &&& ZFCP_FSF_PORTSPEED_2GBIT ≠ 0 then fdmi_speed ||| W.FC_PORTSPEED_2GBIT
    else fdmi_speed
  let fdmi_speed :=
    if fsf_speed &&& ZFCP_FSF_PORTSPEED_4GBIT ≠ 0 then fdmi_speed ||| W.FC_PORTSPEED_4GBIT
    else fdmi_speed
  let fdmi_speed :=
    if fsf_speed &&& ZFCP_FSF_PORTSPEED_10GBIT ≠ 0 then fdmi_speed ||| W.FC_PORTSPEED_10GBIT
    else fdmi_speed
  let fdmi_speed :=
    if fsf_speed &&& ZFCP_FSF_PORTSPEED_8GBIT ≠ 0 then fdmi_speed ||| W.FC_PORTSPEED_8GBIT
    else fdmi_speed
  let fdmi_speed :=
    if fsf_speed &&& ZFCP_FSF_PORTSPEED_16GBIT ≠ 0 then fdmi_speed ||| W.FC_PORTSPEED_16GBIT
    else fdmi_speed
  let fdmi_speed :=
    if fsf_speed &&& ZFCP_FSF_PORTSPEED_NOT_NEGOTIATED ≠ 0 then
      fdmi_speed ||| W.FC_PORTSPEED_NOT_NEGOTIATED
    else fdmi_speed
  fdmi_speed % 2 ^ 32

/-- The seven speed flags of the FSF interface, as one mask. -/
def ZFCP_FSF_PORTSPEED_FLAGS : Nat :=
  ZFCP_FSF_PORTSPEED_1GBIT ||| ZFCP_FSF_PORTSPEED_2GBIT ||| ZFCP_FSF_PORTSPEED_4GBIT
    ||| ZFCP_FSF_PORTSPEED_10GBIT ||| ZFCP_FSF_PORTSPEED_8GBIT ||| ZFCP_FSF_PORTSPEED_16GBIT
    ||| ZFCP_FSF_PORTSPEED_NOT_NEGOTIATED

/-- One instance of the declarations, for evaluating the definitions on
concrete inputs. -/
def sample_scsi : ScsiDecls :=
  { FSF_INCONSISTENT_PROT_DATA := 0x70, FSF_INVALID_PROT_PARM := 0x71,
    FSF_BLOCK_GUARD_CHECK_FAILURE := 0x81, FSF_APP_TAG_CHECK_FAILURE := 0x82,
    FSF_REF_TAG_CHECK_FAILURE := 0x83, FSF_FEATURE_MEASUREMENT_DATA := 0x200,
    DID_ERROR := 0x07, DID_TRANSPORT_DISRUPTED := 0x0e,
    FC_PORTSPEED_1GBIT := 1, FC_PORTSPEED_2GBIT := 2, FC_PORTSPEED_4GBIT := 8,
    FC_PORTSPEED_10GBIT := 4, FC_PORTSPEED_8GBIT := 0x10, FC_PORTSPEED_16GBIT := 0x20,
    FC_PORTSPEED_NOT_NEGOTIATED := 0x8000 }

/-- An adapter with four empty hash buckets whose next identifier is 5 and
whose next sequence number is 7. -/
def sample_counting : zfcp_adapter :=
  { req_list := [[], [], [], []], req_no := 5, fsf_req_seq_no := 7 }

/-! ## Definitions used in the statements -/

/-- The adapter `b` has the request table, the counters and the record of
completions of `a`: what status evaluation and completion never change. -/
def same_table (a b : zfcp_adapter) : Prop :=
  b.req_list = a.req_list ∧ b.req_no = a.req_no ∧ b.fsf_req_seq_no = a.fsf_req_seq_no
    ∧ b.completions = a.completions

/-- One instance of the declarations, for evaluating the definitions on
concrete inputs: a 64-bit `unsigned long`, four hash buckets indexed by the
identifier modulo four, and distinct values for the status bits and codes. -/
def sample_decls : Decls :=
  { BITS_PER_LONG := 64, REQUEST_LIST_SIZE := 4, zfcp_reqlist_hash := fun id => id % 4,
    ZFCP_STATUS_FSFREQ_ERROR := 0x8, ZFCP_STATUS_FSFREQ_CLEANUP := 0x20,
    ZFCP_STATUS_FSFREQ_DISMISSED := 0x1000, ZFCP_STATUS_ADAPTER_QDIOUP := 0x2,
    ZFCP_STATUS_ADAPTER_HOST_CON_INIT := 0x10, ZFCP_STATUS_ADAPTER_LINK_UNPLUGGED := 0x200,
    ZFCP_STATUS_COMMON_RUNNING := 0x40000000, ZFCP_STATUS_COMMON_ERP_FAILED := 0x20000000,
    SBAL_EFLAGS_LAST_ENTRY := 0x40, SBAL_SFLAGS0_COMMAND := 0x80,
    FSF_QTCB_CURRENT_VERSION := 0x1, sizeof_fsf_qtcb := 4096,
    FSF_QTCB_FCP_CMND := 1, FSF_QTCB_ABORT_FCP_CMND := 2, FSF_QTCB_OPEN_PORT_WITH_DID := 5,
    FSF_QTCB_OPEN_LUN := 6, FSF_QTCB_CLOSE_LUN := 7, FSF_QTCB_CLOSE_PORT := 8,
    FSF_QTCB_CLOSE_PHYSICAL_PORT := 9, FSF_QTCB_SEND_ELS := 11, FSF_QTCB_SEND_GENERIC := 12,
    FSF_QTCB_EXCHANGE_CONFIG_DATA := 13, FSF_QTCB_EXCHANGE_PORT_DATA := 14,
    FSF_QTCB_DOWNLOAD_CONTROL_FILE := 18, FSF_QTCB_UPLOAD_CONTROL_FILE := 19,
    FSF_QTCB_UNSOLICITED_STATUS := 0x6305,
    FSF_IO_COMMAND := 1, FSF_SUPPORT_COMMAND := 2, FSF_CONFIG_COMMAND := 3, FSF_PORT_COMMAND := 5,
    FSF_PROT_GOOD := 0x1, FSF_PROT_FSF_STATUS_PRESENTED := 0x100,
    FSF_PROT_QTCB_VERSION_ERROR := 0x10, FSF_PROT_ERROR_STATE := 0x1000000,
    FSF_PROT_SEQ_NUMB_ERROR := 0x20, FSF_PROT_UNSUPP_QTCB_TYPE := 0x40,
    FSF_PROT_HOST_CONNECTION_INITIALIZING := 0x80, FSF_PROT_DUPLICATE_REQUEST_ID := 0x200,
    FSF_PROT_LINK_DOWN := 0x400, FSF_PROT_REEST_QUEUE := 0x800,
    FSF_UNKNOWN_COMMAND := 0xE2, FSF_ADAPTER_STATUS_AVAILABLE := 0xAD,
    FSF_SQ_FCP_RSP_AVAILABLE := 0x0, FSF_SQ_INVOKE_LINK_TEST_PROCEDURE := 0x1,
    FSF_SQ_NO_RETRY_POSSIBLE := 0x2, FSF_SQ_ULP_DEPENDENT_ERP_REQUIRED := 0x3,
    FSF_SQ_COMMAND_ABORTED := 0x6, FSF_SQ_NO_RECOM := 0x7 }

/-- A pair of handlers for evaluating the definitions on concrete inputs: the
command handler marks the request with the bit `0x40` and both leave the
adapter as it is. -/
def sample_env : Env :=
  { handler := fun _ r a => ({ r with status := r.status ||| 0x40 }, a),
    status_read_handler := fun _ a => a }

/-- An adapter with four empty hash buckets and both counters at zero. -/
def sample_adapter : zfcp_adapter :=
  { req_list := [[], [], [], []] }

/-- An open-LUN request as `zfcp_fsf_req_create` builds it on `sample_adapter`
at address 100: identifier 1, sequence number 0. -/
def sample_req : zfcp_fsf_req :=
  { addr := 100, req_id := 1, fsf_command := 6,
    qtcb := some { pfx := { req_id := 1, ulp_info := 26, qtcb_type := 2, qtcb_version := 1 },
                   header := { req_handle := 1, fsf_command := 6 } },
    queue_req := { sbal_number := 1, sbale_curr := 1 } }

/-- The elements of a response buffer up to and including the first one that
is flagged `SBAL_EFLAGS_LAST_ENTRY`; the whole buffer when none is flagged. -/
def examined (K : Decls) (elems : List qdio_buffer_element) : List qdio_buffer_element :=
  elems.take (elems.findIdx (fun e => e.eflags &&& K.SBAL_EFLAGS_LAST_ENTRY != 0) + 1)

/-- Registered requests that are different objects have different addresses. -/
def addr_inj (a : zfcp_adapter) : Prop :=
  ∀ x ∈ registered a, ∀ y ∈ registered a, x.addr = y.addr → x = y

/-- The request `sample_req` with another address and identifier. -/
def sample_req_at (p id : Nat) : zfcp_fsf_req :=
  { sample_req with addr := p, req_id := id }

/-- An adapter whose transport is down with three requests in the table:
identifiers 1 and 5 in bucket 1 and identifier 2 in bucket 2. -/
def sample_busy : zfcp_adapter :=
  { req_no := 6,
    req_list := [[], [sample_req_at 100 1, sample_req_at 108 5], [sample_req_at 104 2], []],
    qdio := { resp_q_sbal := [[{ addr := 5 }, { addr := 1, eflags := 0x40 }, { addr := 2 }],
                              [{ addr := 2 }, { addr := 7 }, { addr := 1 }]] } }

/-- States of one adapter reachable from an empty request table through the
operations that touch it: `zfcp_fsf_req_create` alone (it fails, or its caller
gives up before sending), `zfcp_fsf_req_create` followed by `zfcp_fsf_req_send`
of the created request (the caller fills in the request in between but keeps its
`req_id`), `zfcp_fsf_reqid_check` on whatever the transport has put in the
response queue, and `zfcp_fsf_req_dismiss_all` under whatever adapter status
the error recovery has set.  The Boolean tells whether the counter `req_no` has
wrapped around since the table was empty: it is set by a submission whose
accepted send takes the counter past its greatest value.  Only a submission
made after that asks that the identifier it issues is not registered at that
moment (the counter has not wrapped onto a request that is still registered);
before the counter has wrapped nothing is asked of the identifier. -/
inductive Reachable (K : Decls) (E : Env) : Bool → zfcp_adapter → Prop where
  | init (a : zfcp_adapter) (hempty : registered a = []) : Reachable K E false a
  | create (wrapped : Bool) (a : zfcp_adapter) (fsf_cmd : Nat) (pool : Bool)
      (alloc : Option Nat) (alloc_qtcb : Bool) (h : Reachable K E wrapped a) :
      Reachable K E wrapped (zfcp_fsf_req_create K fsf_cmd pool alloc alloc_qtcb a).2
  | submit (wrapped wrapped2 : Bool) (a a1 : zfcp_adapter) (fsf_cmd : Nat) (pool : Bool)
      (alloc : Option Nat) (alloc_qtcb : Bool) (req req2 : zfcp_fsf_req) (clock : Nat)
      (qdio_send : Int)
      (h : Reachable K E wrapped a)
      (hcreate : zfcp_fsf_req_create K fsf_cmd pool alloc alloc_qtcb a = (.ok req, a1))
      (hsame : req2.req_id = req.req_id)
      (hwrapped : wrapped2 = (wrapped
        || (decide (qdio_send = 0) && decide (2 ^ K.BITS_PER_LONG ≤ a1.req_no + 1))))
      (hfresh : wrapped = true → ∀ r ∈ registered a, r.req_id ≠ req.req_id) :
      Reachable K E wrapped2 (zfcp_fsf_req_send K req2 clock qdio_send a1).2
  | dispatch (wrapped : Bool) (a a2 : zfcp_adapter) (q : zfcp_qdio) (sbal_idx : Nat)
      (h : Reachable K E wrapped a)
      (hret : zfcp_fsf_reqid_check K E sbal_idx { a with qdio := q } = .returned a2) :
      Reachable K E wrapped a2
  | dismiss (wrapped : Bool) (a a2 : zfcp_adapter) (status : Nat)
      (h : Reachable K E wrapped a)
      (hret : zfcp_fsf_req_dismiss_all K E { a with status := status } = .returned a2) :
      Reachable K E wrapped a2

/-- Number of calls of `zfcp_erp_adapter_shutdown` in a log. -/
def adapter_shutdowns (l : List Ev) : Nat :=
  (l.filter (fun e => match e with
    | .zfcp_erp_adapter_shutdown _ _ _ => true
    | _ => false)).length

/-- Number of calls of `zfcp_erp_adapter_reopen` in a log. -/
def adapter_reopens (l : List Ev) : Nat :=
  (l.filter (fun e => match e with
    | .zfcp_erp_adapter_reopen _ _ _ => true
    | _ => false)).length

/-- Number of calls through the pointer `req->handler` in a log. -/
def handler_calls (l : List Ev) : Nat :=
  (l.filter (fun e => match e with
    | .call_handler _ _ => true
    | _ => false)).length

/-- Number of calls in a log that `zfcp_fsf_req_complete` makes for a request
of another kind than unsolicited status: `del_timer`, the call through
`req->handler`, `zfcp_erp_notify` and `complete`. -/
def solicited_calls (l : List Ev) : Nat :=
  (l.filter (fun e => match e with
    | .del_timer _ => true
    | .call_handler _ _ => true
    | .zfcp_erp_notify _ _ => true
    | .complete _ => true
    | _ => false)).length

/-- The case labels of the switch in `zfcp_fsf_protstatus_eval` are pairwise
different, as C demands of case labels. -/
def prot_status_distinct (K : Decls) : Prop :=
  [K.FSF_PROT_GOOD, K.FSF_PROT_FSF_STATUS_PRESENTED, K.FSF_PROT_QTCB_VERSION_ERROR,
   K.FSF_PROT_ERROR_STATE, K.FSF_PROT_SEQ_NUMB_ERROR, K.FSF_PROT_UNSUPP_QTCB_TYPE,
   K.FSF_PROT_HOST_CONNECTION_INITIALIZING, K.FSF_PROT_DUPLICATE_REQUEST_ID,
   K.FSF_PROT_LINK_DOWN, K.FSF_PROT_REEST_QUEUE].Nodup

/-- The case labels of the switch in `zfcp_fsf_fsfstatus_qual_eval` are
pairwise different. -/
def status_qual_distinct (K : Decls) : Prop :=
  [K.FSF_SQ_FCP_RSP_AVAILABLE, K.FSF_SQ_INVOKE_LINK_TEST_PROCEDURE, K.FSF_SQ_NO_RETRY_POSSIBLE,
   K.FSF_SQ_ULP_DEPENDENT_ERP_REQUIRED, K.FSF_SQ_COMMAND_ABORTED, K.FSF_SQ_NO_RECOM].Nodup

/-- The request and the adapter in `zfcp_fsf_req_complete` after `del_timer`
and the two status evaluations, right before the call through
`req->handler`. -/
def evaluated (K : Decls) (req : zfcp_fsf_req) (a : zfcp_adapter) : zfcp_fsf_req × zfcp_adapter :=
  let r2 := zfcp_fsf_protstatus_eval K req
    ({ a with completions := a.completions ++ [req] }.emit (.del_timer req.addr))
  zfcp_fsf_fsfstatus_eval K r2.1 r2.2

/-- The request and the adapter in `zfcp_fsf_req_complete` right after the
call through `req->handler` has returned. -/
def handled (K : Decls) (E : Env) (req : zfcp_fsf_req) (a : zfcp_adapter) :
    zfcp_fsf_req × zfcp_adapter :=
  E.handler (evaluated K req a).1.handler (evaluated K req a).1
    ((evaluated K req a).2.emit
      (.call_handler (evaluated K req a).1.handler (evaluated K req a).1.addr))

/-- The request `sample_req` with the given status flags and, in its control
block, the given transport-protocol status, protocol-command status and status
qualifier. -/
def sample_answered (status prot_status fsf_status word0 : Nat) : zfcp_fsf_req :=
  { sample_req with
    status := status,
    qtcb := some { pfx := { req_id := 1, ulp_info := 26, qtcb_type := 2, qtcb_version := 1,
                            prot_status := prot_status },
                   header := { req_handle := 1, fsf_command := 6, fsf_status := fsf_status,
                               fsf_status_qual_word0 := word0 } } }

/-- One instance of the further declarations, for evaluating the definitions
on concrete inputs. -/
def sample_more : MoreDecls :=
  { HZ := 100, addr_zfcp_fsf_open_unit_handler := 0x2000,
    ZFCP_STATUS_FSFREQ_TMFUNCFAILED := 0x200, FCP_TMF_CMPL := 0,
    ZFCP_STATUS_COMMON_OPEN := 0x04000000, ZFCP_STATUS_COMMON_ACCESS_DENIED := 0x00800000,
    ZFCP_STATUS_COMMON_ACCESS_BOXED := 0x00400000, ZFCP_STATUS_UNIT_SHARED := 0x00000004,
    ZFCP_STATUS_UNIT_READONLY := 0x00000008,
    FSF_GOOD := 0x0, FSF_PORT_HANDLE_NOT_VALID := 0x2, FSF_LUN_ALREADY_OPEN := 0x4,
    FSF_ACCESS_DENIED := 0x5, FSF_PORT_BOXED := 0x59, FSF_LUN_SHARING_VIOLATION := 0x13,
    FSF_MAXIMUM_NUMBER_OF_LUNS_EXCEEDED := 0x40, FSF_INVALID_COMMAND_OPTION := 0xE5,
    FSF_FEATURE_NPIV_MODE := 0x4, FSF_FEATURE_LUN_SHARING := 0x4,
    FSF_UNIT_ACCESS_EXCLUSIVE := 0x02000000, FSF_UNIT_ACCESS_OUTBOUND_TRANSFER := 0x10000000,
    FSF_OPEN_LUN_SUPPRESS_BOXING := 0x1, SBAL_SFLAGS0_TYPE_READ := 0x10,
    ZFCP_DID_MASK := 0xFFFFFF,
    FSF_STATUS_READ_PORT_CLOSED := 0x1, FSF_STATUS_READ_INCOMING_ELS := 0x2,
    FSF_STATUS_READ_SENSE_DATA_AVAIL := 0x3, FSF_STATUS_READ_BIT_ERROR_THRESHOLD := 0x4,
    FSF_STATUS_READ_LINK_DOWN := 0x5, FSF_STATUS_READ_LINK_UP := 0x6,
    FSF_STATUS_READ_NOTIFICATION_LOST := 0x9, FSF_STATUS_READ_CFDC_UPDATED := 0xA,
    FSF_STATUS_READ_FEATURE_UPDATE_ALERT := 0xC,
    FSF_STATUS_READ_SUB_NO_PHYSICAL_LINK := 0x0, FSF_STATUS_READ_SUB_FDISC_FAILED := 0x1,
    FSF_STATUS_READ_SUB_FIRMWARE_UPDATE := 0x2, FSF_STATUS_READ_SUB_ACT_UPDATED := 0x20,
    FSF_STATUS_READ_SUB_INCOMING_ELS := 0x1,
    FCH_EVT_LINKDOWN := 0x2, FCH_EVT_LINKUP := 0x1 }

/-- The two status evaluations in the order `zfcp_fsf_req_complete` runs them:
`zfcp_fsf_protstatus_eval`, then `zfcp_fsf_fsfstatus_eval` on its result. -/
def status_layers (K : Decls) (req : zfcp_fsf_req) (a : zfcp_adapter) :
    zfcp_fsf_req × zfcp_adapter :=
  zfcp_fsf_fsfstatus_eval K (zfcp_fsf_protstatus_eval K req a).1
    (zfcp_fsf_protstatus_eval K req a).2

/-- The calls that the two status evaluations can add to the log: the queue
dump, adapter recovery, and what `zfcp_fsf_link_down_info_eval` calls. -/
def from_status_eval (e : Ev) : Bool :=
  match e with
  | .zfcp_qdio_siosl => true
  | .zfcp_erp_adapter_reopen _ _ _ => true
  | .zfcp_erp_adapter_shutdown _ _ _ => true
  | .zfcp_erp_adapter_failed _ _ => true
  | .zfcp_erp_modify_adapter_status _ _ => true
  | .zfcp_scsi_schedule_rports_block => true
  | _ => false

/-- Number of calls of `zfcp_fsf_status_read_handler` in a log. -/
def status_read_calls (l : List Ev) : Nat :=
  (l.filter (fun e => match e with
    | .zfcp_fsf_status_read_handler _ => true
    | _ => false)).length

/-- The call `zfcp_erp_notify(req->erp_action, 0)` that `zfcp_fsf_req_complete`
makes when the request is linked to a recovery action. -/
def erp_notified (req : zfcp_fsf_req) : List Ev :=
  match req.erp_action with
  | some act => [.zfcp_erp_notify act 0]
  | none => []

/-- A request of kind unsolicited status at address 200 whose `data` points to
the status read buffer at address 300, with the given status flags. -/
def sample_unsolicited (status : Nat) : zfcp_fsf_req :=
  { addr := 200, req_id := 9, fsf_command := 0x6305, status := status, data := 300, pool := true }

/-- An adapter that holds one status read buffer, at address 300, which
reports that the link has come up. -/
def sample_status_read : zfcp_adapter :=
  { sample_adapter with status_read_bufs := [{ addr := 300, status_type := 0x6 }] }

/-- The request `sample_req` as a task management request with the given
status flags and, in its control block, the given response code. -/
def sample_tmf (status rsp_code : Nat) : zfcp_fsf_req :=
  { sample_req with
    status := status,
    qtcb := some { pfx := { req_id := 1 }, header := { req_handle := 1 },
                   bottom := { rsp_code := rsp_code } } }

/-- The recovery action that opens the unit at address 500 (LUN 7) behind the
port at address 400. -/
def sample_erp_action : zfcp_erp_action :=
  { addr := 600, port := { addr := 400, handle := 3 },
    unit := { addr := 500, fcp_lun := 7, port := 400 } }

/-- An adapter with four empty hash buckets whose queues are up, whose next
request identifier is 1 and which holds the unit of `sample_erp_action`. -/
def sample_open_start : zfcp_adapter :=
  { sample_adapter with
    status := 0x2, req_no := 1, units := [{ addr := 500, fcp_lun := 7, port := 400 }] }

/-- A response of the hardware to an open-LUN request: good transport status,
good command status and the LUN handle 77. -/
def sample_good_response (q : fsf_qtcb) : fsf_qtcb :=
  { q with pfx := { q.pfx with prot_status := 0x1 },
           header := { q.header with fsf_status := 0x0, lun_handle := 77 } }

/-- A close-physical-port request at address 100 for the port at address 400,
with the given protocol-command status in its control block. -/
def sample_close_phys (fsf_status : Nat) : zfcp_fsf_req :=
  { sample_answered 0 1 fsf_status 0 with data := 400 }

/-- An adapter with the port at address 400, physically open and open, two
open units on that port and one open unit on the port at address 401. -/
def sample_ports : zfcp_adapter :=
  { sample_adapter with
    port_list := [{ addr := 400, status := 0x04000001 }, { addr := 401, status := 0x04000001 }],
    units := [{ addr := 500, port := 400, status := 0x04000000 },
              { addr := 501, port := 401, status := 0x04000000 },
              { addr := 502, port := 400, status := 0x04000004 }] }

/-- A SCSI read command at address 700. -/
def sample_scsi_cmnd : scsi_cmnd :=
  { addr := 700, sc_data_direction := 2 }

/-- The adapter `sample_open_start` with the given number of free request
buffers. -/
def sample_queue (count : Int) : zfcp_adapter :=
  { sample_open_start with qdio := { req_q_count := count } }

end Zfcp

/-! # CMCI storm control and bank discovery (`mce_intel.c`) -/

namespace Mce

/-- Declarations of `asm/mce.h`, `asm/msr-index.h`, `mce-internal.h` and the
timer headers that `mce_intel.c` uses; they are not among the sources.
`BITS_PER_LONG` is the width of `jiffies`. -/
structure MceDecls where
  HZ : Nat
  BITS_PER_LONG : Nat
  INITIAL_CHECK_INTERVAL : Nat
  MAX_NR_BANKS : Nat
  MCI_CTL2_CMCI_EN : Nat
  MCI_CTL2_CMCI_THRESHOLD_MASK : Nat
  MCG_CMCI_P : Nat
  X86_VENDOR_INTEL : Nat

/-- Source `#define CMCI_THRESHOLD 1`. -/
def CMCI_THRESHOLD : Nat := 1

/-- Source `#define CMCI_POLL_INTERVAL (30 * HZ)`. -/
def CMCI_POLL_INTERVAL (M : MceDecls) : Nat := 30 * M.HZ

/-- Source `#define CMCI_STORM_INTERVAL (HZ)`. -/
def CMCI_STORM_INTERVAL (M : MceDecls) : Nat := M.HZ

/-- Source `#define CMCI_STORM_THRESHOLD 15`. -/
def CMCI_STORM_THRESHOLD : Nat := 15

/-- Source `enum`, first member. -/
def CMCI_STORM_NONE : Nat := 0

/-- Source `enum`, second member. -/
def CMCI_STORM_ACTIVE : Nat := 1

/-- Source `enum`, third member. -/
def CMCI_STORM_SUBSIDED : Nat := 2

/-- What the file reads of the machine and of the boot parameters: the
variables `mce_cmci_disabled`, `mce_ignore_ce`, `mce_bios_cmci_threshold` and
the bitmap `mce_banks_ce_disabled` of `mce.c`, `boot_cpu_data.x86_vendor`,
`cpu_has_apic`, `lapic_get_maxlvt()`, the register `MSR_IA32_MCG_CAP` of each
processor and `mce_available` of each processor.  `reg cpu bank` names the
hardware register that processor `cpu` reaches as `MSR_IA32_MCx_CTL2(bank)`:
processors that share a bank get the same name.  `cmci_capable r` tells
whether the enable bit of register `r` can be set (the bank supports CMCI). -/
structure mce_config where
  mce_cmci_disabled : Bool := false
  mce_ignore_ce : Bool := false
  mce_bios_cmci_threshold : Bool := false
  mce_banks_ce_disabled : Nat := 0
  x86_vendor : Nat := 0
  cpu_has_apic : Bool := true
  lapic_maxlvt : Nat := 6
  mcg_cap : Nat → Nat
  mce_available : Nat → Bool := fun _ => true
  reg : Nat → Nat → Nat
  cmci_capable : Nat → Bool := fun _ => true

/-- The per-processor variables of the file (`mce_banks_owned`,
`cmci_backoff_cnt`, `cmci_time_stamp`, `cmci_storm_cnt`, `cmci_storm_state`)
and the per-processor bitmap `mce_poll_banks` of `mce.c`.  Bitmaps are numbers
whose bit `i` is the bit of bank `i`. -/
structure cmci_cpu where
  mce_banks_owned : Nat := 0
  mce_poll_banks : Nat := 0
  cmci_backoff_cnt : Int := 0
  cmci_time_stamp : Nat := 0
  cmci_storm_cnt : Nat := 0
  cmci_storm_state : Nat := 0
  deriving DecidableEq, Repr

/-- Calls that leave `mce_intel.c`, in the order they are made, each with the
processor that makes it. -/
inductive MceEv where
  | machine_check_poll (cpu : Nat)
  | mce_notify_irq (cpu : Nat)
  | mce_timer_kick (cpu : Nat) (interval : Nat)
  | pr_notice (msg : String)
  | pr_info_once (msg : String)
  | WARN_ON (cpu : Nat) (bank : Nat)
  deriving DecidableEq, Repr

/-- The state the file works on: the per-processor variables, the registers
`MSR_IA32_MCx_CTL2` by hardware name, the counter `cmci_storm_on_cpus` and the
log of outgoing calls. -/
structure mce_state where
  cpu_vars : Nat → cmci_cpu
  ctl2 : Nat → Nat
  cmci_storm_on_cpus : Int := 0
  log : List MceEv := []

/-- Append one outgoing call to the log. -/
def mce_state.emit (s : mce_state) (e : MceEv) : mce_state :=
  { s with log := s.log ++ [e] }

/-- A store into the variables of processor `cpu`. -/
def set_cpu (cpu : Nat) (f : cmci_cpu → cmci_cpu) (s : mce_state) : mce_state :=
  { s with cpu_vars := fun c => if c = cpu then f (s.cpu_vars cpu) else s.cpu_vars c }

/-- Kernel `test_bit(nr, bitmap)`. -/
def test_bit (nr : Nat) (bitmap : Nat) : Bool :=
  bitmap.testBit nr

/-- Kernel `set_bit(nr, bitmap)`. -/
def set_bit (nr : Nat) (bitmap : Nat) : Nat :=
  bitmap ||| 1 <<< nr

/-- The value `v & ~mask`. -/
def clear_mask (mask v : Nat) : Nat :=
  v ^^^ (v &&& mask)

/-- Kernel `clear_bit(nr, bitmap)`. -/
def clear_bit (nr : Nat) (bitmap : Nat) : Nat :=
  clear_mask (1 <<< nr) bitmap

/-- Kernel `time_before_eq(a, b)` on `unsigned long` values of `w` bits:
`(long)(b) - (long)(a) >= 0`, the difference taken in two's complement. -/
def time_before_eq (w a b : Nat) : Bool :=
  (b % 2 ^ w + 2 ^ w - a % 2 ^ w) % 2 ^ w < 2 ^ (w - 1)

/-- Instruction `rdmsrl(MSR_IA32_MCx_CTL2(bank), val)` on processor `cpu`. -/
def rdmsrl (H : mce_config) (cpu bank : Nat) (s : mce_state) : Nat :=
  s.ctl2 (H.reg cpu bank)

/-- Instruction `wrmsrl(MSR_IA32_MCx_CTL2(bank), val)` on processor `cpu`.  The
register takes the value written, except that the enable bit stays clear in a
register whose bank does not support CMCI (the test "did the enable bit
stick?" of `cmci_discover` relies on that). -/
def wrmsrl (M : MceDecls) (H : mce_config) (cpu bank val : Nat) (s : mce_state) : mce_state :=
  { s with ctl2 := fun r =>
      if r = H.reg cpu bank then
        (if H.cmci_capable r then val else clear_mask M.MCI_CTL2_CMCI_EN val)
      else s.ctl2 r }

/-- Source `cmci_supported`: `none` when it returns 0, otherwise the number
stored through `banks`. -/
def cmci_supported (M : MceDecls) (H : mce_config) (cpu : Nat) : Option Nat :=
  if H.mce_cmci_disabled ∨ H.mce_ignore_ce then none
  else if H.x86_vendor ≠ M.X86_VENDOR_INTEL then none
  else if ¬ H.cpu_has_apic ∨ H.lapic_maxlvt < 6 then none
  else if H.mcg_cap cpu &&& M.MCG_CMCI_P ≠ 0 then
    some (min M.MAX_NR_BANKS (H.mcg_cap cpu &&& 0xff))
  else none

/-- Source `mce_intel_cmci_poll` on processor `cpu`; `polled` is what
`machine_check_poll` returns (whether it logged an error). -/
def mce_intel_cmci_poll (M : MceDecls) (cpu : Nat) (polled : Bool) (s : mce_state) :
    Bool × mce_state :=
  if (s.cpu_vars cpu).cmci_storm_state = CMCI_STORM_NONE then (false, s)
  else
    let s1 := s.emit (.machine_check_poll cpu)
    if polled then
      (true, set_cpu cpu (fun v => { v with cmci_backoff_cnt := M.INITIAL_CHECK_INTERVAL }) s1)
    else
      (true, set_cpu cpu (fun v => { v with cmci_backoff_cnt := v.cmci_backoff_cnt - 1 }) s1)

/-- Source `mce_intel_hcpu_update`. -/
def mce_intel_hcpu_update (cpu : Nat) (s : mce_state) : mce_state :=
  let s1 :=
    if (s.cpu_vars cpu).cmci_storm_state = CMCI_STORM_ACTIVE then
      { s with cmci_storm_on_cpus := s.cmci_storm_on_cpus - 1 }
    else s
  set_cpu cpu (fun v => { v with cmci_storm_state := CMCI_STORM_NONE }) s1

/-- One round of the loop of `cmci_storm_disable_banks`, for a bank whose bit
is set in `mce_banks_owned`. -/
def storm_disable_bank (M : MceDecls) (H : mce_config) (cpu : Nat) (s : mce_state)
    (bank : Nat) : mce_state :=
  wrmsrl M H cpu bank (clear_mask M.MCI_CTL2_CMCI_EN (rdmsrl H cpu bank s)) s

/-- Source `cmci_storm_disable_banks` on processor `cpu`:
`for_each_set_bit(bank, owned, MAX_NR_BANKS)`. -/
def cmci_storm_disable_banks (M : MceDecls) (H : mce_config) (cpu : Nat) (s : mce_state) :
    mce_state :=
  ((List.range M.MAX_NR_BANKS).filter
      (fun bank => test_bit bank (s.cpu_vars cpu).mce_banks_owned)).foldl
    (storm_disable_bank M H cpu) s

/-- Source `cmci_storm_detect` on processor `cpu`; `now` is the value of
`jiffies`.  The counter `cmci_storm_cnt` is an `unsigned int`. -/
def cmci_storm_detect (M : MceDecls) (H : mce_config) (cpu now : Nat) (s : mce_state) :
    Bool × mce_state :=
  if (s.cpu_vars cpu).cmci_storm_state ≠ CMCI_STORM_NONE then (true, s)
  else
    let s1 :=
      if time_before_eq M.BITS_PER_LONG now
          ((s.cpu_vars cpu).cmci_time_stamp + CMCI_STORM_INTERVAL M) then
        set_cpu cpu (fun v => { v with cmci_storm_cnt := (v.cmci_storm_cnt + 1) % 2 ^ 32 }) s
      else
        set_cpu cpu (fun v => { v with cmci_storm_cnt := 1, cmci_time_stamp := now }) s
    if (s1.cpu_vars cpu).cmci_storm_cnt ≤ CMCI_STORM_THRESHOLD then (false, s1)
    else
      let s2 := cmci_storm_disable_banks M H cpu s1
      let s3 := set_cpu cpu (fun v => { v with cmci_storm_state := CMCI_STORM_ACTIVE }) s2
      let s4 := { s3 with cmci_storm_on_cpus := s3.cmci_storm_on_cpus + 1 }
      let r := s4.cmci_storm_on_cpus
      let s5 := s4.emit (.mce_timer_kick cpu (CMCI_STORM_INTERVAL M))
      let s6 := set_cpu cpu (fun v => { v with cmci_backoff_cnt := M.INITIAL_CHECK_INTERVAL }) s5
      if r = 1 then
        (true, s6.emit (.pr_notice "CMCI storm detected: switching to poll mode"))
      else (true, s6)

/-- Source `intel_threshold_interrupt` on processor `cpu`, the handler of the
corrected-error interrupt; `now` is the value of `jiffies`. -/
def intel_threshold_interrupt (M : MceDecls) (H : mce_config) (cpu now : Nat) (s : mce_state) :
    mce_state :=
  let d := cmci_storm_detect M H cpu now s
  if d.1 then d.2
  else (d.2.emit (.machine_check_poll cpu)).emit (.mce_notify_irq cpu)

/-- The state of the loop of `cmci_discover`: the machine state and the local
variable `bios_wrong_thresh`. -/
structure discover_loop where
  s : mce_state
  bios_wrong_thresh : Bool := false

/-- The part of the loop of `cmci_discover` that sets the threshold in the
value read from the register. -/
def cmci_discover_threshold (M : MceDecls) (H : mce_config) (val : Nat) : Nat :=
  if ¬ H.mce_bios_cmci_threshold then
    clear_mask M.MCI_CTL2_CMCI_THRESHOLD_MASK val ||| CMCI_THRESHOLD
  else if val &&& M.MCI_CTL2_CMCI_THRESHOLD_MASK = 0 then val ||| CMCI_THRESHOLD
  else val

/-- One round of the loop of `cmci_discover` on processor `cpu`, for bank
`i`.  The local variable `bios_zero_thresh` is set exactly when
`mce_bios_cmci_threshold` is set and the threshold read is zero. -/
def cmci_discover_bank (M : MceDecls) (H : mce_config) (cpu : Nat) (st : discover_loop)
    (i : Nat) : discover_loop :=
  if test_bit i (st.s.cpu_vars cpu).mce_banks_owned then st
  else if test_bit i H.mce_banks_ce_disabled then st
  else if rdmsrl H cpu i st.s &&& M.MCI_CTL2_CMCI_EN ≠ 0 then
    { st with s := set_cpu cpu (fun v =>
        { v with mce_banks_owned := clear_bit i v.mce_banks_owned,
                 mce_poll_banks := clear_bit i v.mce_poll_banks }) st.s }
  else
    let val := rdmsrl H cpu i st.s
    let bios_zero_thresh : Bool :=
      H.mce_bios_cmci_threshold && decide (val &&& M.MCI_CTL2_CMCI_THRESHOLD_MASK = 0)
    let s1 := wrmsrl M H cpu i (cmci_discover_threshold M H val ||| M.MCI_CTL2_CMCI_EN) st.s
    let val2 := rdmsrl H cpu i s1
    if val2 &&& M.MCI_CTL2_CMCI_EN ≠ 0 then
      { s := set_cpu cpu (fun v =>
          { v with mce_banks_owned := set_bit i v.mce_banks_owned,
                   mce_poll_banks := clear_bit i v.mce_poll_banks }) s1,
        bios_wrong_thresh := st.bios_wrong_thresh
          || (H.mce_bios_cmci_threshold && bios_zero_thresh
              && decide (val2 &&& M.MCI_CTL2_CMCI_THRESHOLD_MASK ≠ 0)) }
    else if ¬ test_bit i (s1.cpu_vars cpu).mce_poll_banks then
      { st with s := s1.emit (.WARN_ON cpu i) }
    else { st with s := s1 }

/-- Source `cmci_discover` on processor `cpu`. -/
def cmci_discover (M : MceDecls) (H : mce_config) (cpu banks : Nat) (s : mce_state) :
    mce_state :=
  let st := (List.range banks).foldl (cmci_discover_bank M H cpu) { s := s }
  if H.mce_bios_cmci_threshold ∧ st.bios_wrong_thresh then
    (st.s.emit (.pr_info_once
      "bios_cmci_threshold: Some banks do not have valid thresholds set")).emit
      (.pr_info_once "bios_cmci_threshold: Make sure your BIOS supports this boot option")
  else st.s

/-- Source `cmci_recheck` on processor `cpu`. -/
def cmci_recheck (M : MceDecls) (H : mce_config) (cpu : Nat) (s : mce_state) : mce_state :=
  if ¬ H.mce_available cpu ∨ cmci_supported M H cpu = none then s
  else s.emit (.machine_check_poll cpu)

/-- Source `__cmci_disable_bank` on processor `cpu`. -/
def cmci_disable_bank_locked (M : MceDecls) (H : mce_config) (cpu : Nat) (s : mce_state)
    (bank : Nat) : mce_state :=
  if ¬ test_bit bank (s.cpu_vars cpu).mce_banks_owned then s
  else
    let s1 := wrmsrl M H cpu bank (clear_mask M.MCI_CTL2_CMCI_EN (rdmsrl H cpu bank s)) s
    set_cpu cpu (fun v => { v with mce_banks_owned := clear_bit bank v.mce_banks_owned }) s1

/-- Source `cmci_clear` on processor `cpu`. -/
def cmci_clear (M : MceDecls) (H : mce_config) (cpu : Nat) (s : mce_state) : mce_state :=
  match cmci_supported M H cpu with
  | none => s
  | some banks => (List.range banks).foldl (cmci_disable_bank_locked M H cpu) s

/-- Source `cmci_reenable` on processor `cpu`. -/
def cmci_reenable (M : MceDecls) (H : mce_config) (cpu : Nat) (s : mce_state) : mce_state :=
  match cmci_supported M H cpu with
  | none => s
  | some banks => cmci_discover M H cpu banks s

/-- Source `cmci_disable_bank` on processor `cpu`. -/
def cmci_disable_bank (M : MceDecls) (H : mce_config) (cpu bank : Nat) (s : mce_state) :
    mce_state :=
  match cmci_supported M H cpu with
  | none => s
  | some _ => cmci_disable_bank_locked M H cpu s bank

/-- Source `cmci_intel_adjust_timer` on processor `cpu`: the return value and
the state. -/
def cmci_intel_adjust_timer (M : MceDecls) (H : mce_config) (cpu interval : Nat)
    (s : mce_state) : Nat × mce_state :=
  if (s.cpu_vars cpu).cmci_backoff_cnt > 0
      ∧ (s.cpu_vars cpu).cmci_storm_state = CMCI_STORM_ACTIVE then
    (CMCI_STORM_INTERVAL M, s.emit (.mce_notify_irq cpu))
  else
    let subsided (b : mce_state) : Nat × mce_state :=
      if b.cmci_storm_on_cpus = 0 then
        (CMCI_POLL_INTERVAL M,
          cmci_recheck M H cpu (cmci_reenable M H cpu
            (set_cpu cpu (fun v => { v with cmci_storm_state := CMCI_STORM_NONE }) b)))
      else (CMCI_POLL_INTERVAL M, b)
    if (s.cpu_vars cpu).cmci_storm_state = CMCI_STORM_ACTIVE then
      let s1 := set_cpu cpu (fun v => { v with cmci_storm_state := CMCI_STORM_SUBSIDED }) s
      let s2 := { s1 with cmci_storm_on_cpus := s1.cmci_storm_on_cpus - 1 }
      let s3 :=
        if s2.cmci_storm_on_cpus = 0 then
          s2.emit (.pr_notice "CMCI storm subsided: switching to interrupt mode")
        else s2
      subsided s3
    else if (s.cpu_vars cpu).cmci_storm_state = CMCI_STORM_SUBSIDED then subsided s
    else (interval, s)

/-! ## Definitions used in the statements on the storm control -/

/-- A run of corrected-error interrupts on processor `cpu`, one call of
`intel_threshold_interrupt` for each value of `jiffies` in the list. -/
def interrupts (M : MceDecls) (H : mce_config) (cpu : Nat) (nows : List Nat) (s : mce_state) :
    mce_state :=
  nows.foldl (fun st now => intel_threshold_interrupt M H cpu now st) s

/-- A run of polls on processor `cpu`, one call of `mce_intel_cmci_poll` for
each entry of the list, which tells whether that poll logged an error. -/
def polls (M : MceDecls) (cpu : Nat) (polled : List Bool) (s : mce_state) : mce_state :=
  polled.foldl (fun st p => (mce_intel_cmci_poll M cpu p st).2) s

/-- The bit `MCI_CTL2_CMCI_EN` is set in the register of bank `bank` of
processor `cpu`. -/
def cmci_enabled (M : MceDecls) (H : mce_config) (cpu bank : Nat) (s : mce_state) : Bool :=
  rdmsrl H cpu bank s &&& M.MCI_CTL2_CMCI_EN != 0

/-- One instance of the declarations, for evaluating the definitions on
concrete inputs. -/
def sample_mce_decls : MceDecls :=
  { HZ := 1000, BITS_PER_LONG := 64, INITIAL_CHECK_INTERVAL := 300, MAX_NR_BANKS := 32,
    MCI_CTL2_CMCI_EN := 0x40000000, MCI_CTL2_CMCI_THRESHOLD_MASK := 0x7fff,
    MCG_CMCI_P := 0x400, X86_VENDOR_INTEL := 0 }

/-- A machine of Intel processors with four banks each, shared with no other
processor; banks 0 and 1 of each processor support CMCI, banks 2 and 3 do
not. -/
def sample_machine : mce_config :=
  { mcg_cap := fun _ => 0x404, reg := fun cpu bank => 32 * cpu + bank,
    cmci_capable := fun r => r % 32 < 2 }

/-- Processor 0 owns its banks 0 and 1, with the enable bit set and threshold
1 in both registers, and polls its banks 2 and 3; all processors are in state
NONE and no interrupt has arrived yet. -/
def sample_quiet : mce_state :=
  { cpu_vars := fun c => if c = 0 then { mce_banks_owned := 3, mce_poll_banks := 12 } else {},
    ctl2 := fun r => if r = 0 ∨ r = 1 then 0x40000001 else 0 }

/-- The end of a storm on processor 0 of `sample_quiet`: the processor is
ACTIVE, its backoff counter is down to 0, it is the only processor in a storm
and the enable bit is clear in the registers of its banks 0 and 1, as
`cmci_storm_disable_banks` left them. -/
def sample_storm_over : mce_state :=
  { cpu_vars := fun c =>
      if c = 0 then
        { mce_banks_owned := 3, mce_poll_banks := 12, cmci_storm_cnt := 16,
          cmci_storm_state := 1, cmci_backoff_cnt := 0 }
      else {},
    ctl2 := fun r => if r = 0 ∨ r = 1 then 0x1 else 0,
    cmci_storm_on_cpus := 1 }

/-- Seventeen values of `jiffies`: one interrupt at 5000, then eight at 6000
and eight at 6001. -/
def sample_burst : List Nat :=
  5000 :: (List.replicate 8 6000 ++ List.replicate 8 6001)

/-! ## Runs of the functions of the file on several processors -/

/-- One call of a function of the file, with the processor it runs on (for
`mce_intel_hcpu_update`: the processor it is called for) and its inputs. -/
inductive mce_call where
  | cmci_storm_detect (cpu now : Nat)
  | intel_threshold_interrupt (cpu now : Nat)
  | cmci_intel_adjust_timer (cpu interval : Nat)
  | mce_intel_cmci_poll (cpu : Nat) (polled : Bool)
  | mce_intel_hcpu_update (cpu : Nat)
  | cmci_discover (cpu banks : Nat)
  | cmci_reenable (cpu : Nat)
  | cmci_recheck (cpu : Nat)
  | cmci_clear (cpu : Nat)
  | cmci_disable_bank (cpu bank : Nat)
  deriving DecidableEq, Repr

/-- The processor of a call. -/
def mce_call.cpu : mce_call → Nat
  | .cmci_storm_detect cpu _ => cpu
  | .intel_threshold_interrupt cpu _ => cpu
  | .cmci_intel_adjust_timer cpu _ => cpu
  | .mce_intel_cmci_poll cpu _ => cpu
  | .mce_intel_hcpu_update cpu => cpu
  | .cmci_discover cpu _ => cpu
  | .cmci_reenable cpu => cpu
  | .cmci_recheck cpu => cpu
  | .cmci_clear cpu => cpu
  | .cmci_disable_bank cpu _ => cpu

/-- The state after one call. -/
def mce_step (M : MceDecls) (H : mce_config) (s : mce_state) : mce_call → mce_state
  | .cmci_storm_detect cpu now => (cmci_storm_detect M H cpu now s).2
  | .intel_threshold_interrupt cpu now => intel_threshold_interrupt M H cpu now s
  | .cmci_intel_adjust_timer cpu interval => (cmci_intel_adjust_timer M H cpu interval s).2
  | .mce_intel_cmci_poll cpu polled => (mce_intel_cmci_poll M cpu polled s).2
  | .mce_intel_hcpu_update cpu => mce_intel_hcpu_update cpu s
  | .cmci_discover cpu banks => cmci_discover M H cpu banks s
  | .cmci_reenable cpu => cmci_reenable M H cpu s
  | .cmci_recheck cpu => cmci_recheck M H cpu s
  | .cmci_clear cpu => cmci_clear M H cpu s
  | .cmci_disable_bank cpu bank => cmci_disable_bank M H cpu bank s

/-- The state after a sequence of calls, one after the other. -/
def mce_run (M : MceDecls) (H : mce_config) (calls : List mce_call) (s : mce_state) :
    mce_state :=
  calls.foldl (mce_step M H) s

/-- The number of processors below `ncpus` whose `cmci_storm_state` is
ACTIVE. -/
def storm_active_cpus (ncpus : Nat) (s : mce_state) : Nat :=
  (List.range ncpus).countP
    (fun c => decide ((s.cpu_vars c).cmci_storm_state = CMCI_STORM_ACTIVE))

/-- Processor `cpu` has the bit of bank `bank` set in `mce_banks_owned`. -/
def owns (cpu bank : Nat) (s : mce_state) : Bool :=
  test_bit bank (s.cpu_vars cpu).mce_banks_owned

/-- The state at boot: no processor owns or polls a bank, every register is
zero, every processor is in state NONE and `cmci_storm_on_cpus` is 0. -/
def sample_boot : mce_state :=
  { cpu_vars := fun _ => {}, ctl2 := fun _ => 0 }

/-- A machine of Intel processors with four banks each, all supporting CMCI:
bank 0 is one hardware register shared by all processors, banks 1 to 3 are
private to each processor. -/
def sample_shared_machine : mce_config :=
  { mcg_cap := fun _ => 0x404,
    reg := fun cpu bank => if bank = 0 then 0 else 32 * (cpu + 1) + bank }

/-- Processors 0 and 1 discover their banks, one after the other. -/
def sample_discovery : List mce_call :=
  [.cmci_discover 0 4, .cmci_discover 1 4]

/-- Sixteen corrected-error interrupts on processor 0 within one window. -/
def sample_storm : List mce_call :=
  List.replicate 16 (.cmci_storm_detect 0 900)

/-- Storms on processors 0 and 1, sixteen interrupts each within one window,
then 300 polls on processor 0 that log no error. -/
def sample_two_storms : List mce_call :=
  List.replicate 16 (.cmci_storm_detect 0 900) ++ List.replicate 16 (.cmci_storm_detect 1 900)
    ++ List.replicate 300 (.mce_intel_cmci_poll 0 false)

/-- A storm on processor 0 alone: sixteen interrupts within one window, then
300 polls that log no error. -/
def sample_one_storm : List mce_call :=
  sample_storm ++ List.replicate 300 (.mce_intel_cmci_poll 0 false)

/-- Both processors discover their banks, a storm is detected on processor 0,
and processor 1 runs `cmci_discover` again. -/
def sample_double_claim : List mce_call :=
  sample_discovery ++ sample_storm ++ [.cmci_discover 1 4]

/-- Both processors discover their banks, processor 0 gives up bank 0 through
`cmci_disable_bank`, and processor 1 runs `cmci_discover` again. -/
def sample_handover : List mce_call :=
  sample_discovery ++ [.cmci_disable_bank 0 0, .cmci_discover 1 4]

/-- The call is one that can find a storm: `cmci_storm_detect` itself or the
interrupt handler that calls it. -/
def mce_call.storm_detection : mce_call → Bool
  | .cmci_storm_detect _ _ => true
  | .intel_threshold_interrupt _ _ => true
  | _ => false

/-- Every bank that a processor owns has the enable bit set in its
register. -/
def owned_enabled (M : MceDecls) (H : mce_config) (s : mce_state) : Prop :=
  ∀ c b, owns c b s = true → s.ctl2 (H.reg c b) &&& M.MCI_CTL2_CMCI_EN ≠ 0

/-- No register is the register of two owned banks: a bank that processors
share is owned by at most one of them. -/
def exclusive_owners (H : mce_config) (s : mce_state) : Prop :=
  ∀ c1 b1 c2 b2, owns c1 b1 s = true → owns c2 b2 s = true →
    H.reg c1 b1 = H.reg c2 b2 → c1 = c2 ∧ b1 = b2

end Mce

namespace Zfcp

/-! ## Lemmas: log, frame and request table -/

@[simp] theorem emit_req_list (a : zfcp_adapter) (e : Ev) : (a.emit e).req_list = a.req_list := rfl
@[simp] theorem emit_req_no (a : zfcp_adapter) (e : Ev) : (a.emit e).req_no = a.req_no := rfl
@[simp] theorem emit_seq_no (a : zfcp_adapter) (e : Ev) :
    (a.emit e).fsf_req_seq_no = a.fsf_req_seq_no := rfl
@[simp] theorem emit_completions (a : zfcp_adapter) (e : Ev) :
    (a.emit e).completions = a.completions := rfl
@[simp] theorem emit_log (a : zfcp_adapter) (e : Ev) : (a.emit e).log = a.log ++ [e] := rfl
@[simp] theorem emit_status (a : zfcp_adapter) (e : Ev) : (a.emit e).status = a.status := rfl
@[simp] theorem emit_qdio (a : zfcp_adapter) (e : Ev) : (a.emit e).qdio = a.qdio := rfl


theorem same_table_refl (a : zfcp_adapter) : same_table a a := ⟨rfl, rfl, rfl, rfl⟩

theorem same_table_trans {a b c : zfcp_adapter} (h1 : same_table a b) (h2 : same_table b c) :
    same_table a c :=
  ⟨h2.1.trans h1.1, h2.2.1.trans h1.2.1, h2.2.2.1.trans h1.2.2.1, h2.2.2.2.trans h1.2.2.2⟩

theorem same_table_emit (a : zfcp_adapter) (e : Ev) : same_table a (a.emit e) := ⟨rfl, rfl, rfl, rfl⟩

theorem link_down_same_table (K : Decls) (req : zfcp_fsf_req) (id : String) (a : zfcp_adapter) :
    same_table a (zfcp_fsf_link_down_info_eval K req id a) := by
  unfold zfcp_fsf_link_down_info_eval
  split
  · exact same_table_refl a
  · exact ⟨rfl, rfl, rfl, rfl⟩

theorem qual_eval_same_table (K : Decls) (req : zfcp_fsf_req) (w : Nat) (a : zfcp_adapter) :
    same_table a (zfcp_fsf_fsfstatus_qual_eval K req w a).2 := by
  unfold zfcp_fsf_fsfstatus_qual_eval
  split
  · exact same_table_refl a
  · dsimp only
    split
    · exact same_table_refl a
    · split
      · exact ⟨rfl, rfl, rfl, rfl⟩
      · exact same_table_refl a

theorem fsfstatus_same_table (K : Decls) (req : zfcp_fsf_req) (a : zfcp_adapter) :
    same_table a (zfcp_fsf_fsfstatus_eval K req a).2 := by
  unfold zfcp_fsf_fsfstatus_eval
  split
  · exact same_table_refl a
  · split
    · exact same_table_refl a
    · split
      · exact ⟨rfl, rfl, rfl, rfl⟩
      · split
        · exact qual_eval_same_table K req _ a
        · exact same_table_refl a

theorem protstatus_same_table (K : Decls) (req : zfcp_fsf_req) (a : zfcp_adapter) :
    same_table a (zfcp_fsf_protstatus_eval K req a).2 := by
  unfold zfcp_fsf_protstatus_eval
  split
  · exact same_table_refl a
  · split
    · exact same_table_refl a
    · dsimp only
      split
      · exact same_table_refl a
      · dsimp only
        split_ifs
        · exact ⟨rfl, rfl, rfl, rfl⟩
        · exact ⟨rfl, rfl, rfl, rfl⟩
        · exact ⟨rfl, rfl, rfl, rfl⟩
        · exact ⟨rfl, rfl, rfl, rfl⟩
        · exact ⟨rfl, rfl, rfl, rfl⟩
        · exact same_table_trans (link_down_same_table K req _ a) (same_table_emit _ _)
        · exact ⟨rfl, rfl, rfl, rfl⟩
        · exact ⟨rfl, rfl, rfl, rfl⟩

theorem complete_frame (K : Decls) (E : Env) (hE : E.Frame) (req : zfcp_fsf_req) (a : zfcp_adapter) :
    (zfcp_fsf_req_complete K E req a).2.req_list = a.req_list
    ∧ (zfcp_fsf_req_complete K E req a).2.req_no = a.req_no
    ∧ (zfcp_fsf_req_complete K E req a).2.fsf_req_seq_no = a.fsf_req_seq_no
    ∧ (zfcp_fsf_req_complete K E req a).2.completions = a.completions ++ [req] := by
  unfold zfcp_fsf_req_complete
  dsimp only
  split
  · simp [hE.sr_req_list, hE.sr_req_no, hE.sr_seq_no, hE.sr_completions]
  · have h2 := protstatus_same_table K req
      ({ a with completions := a.completions ++ [req] }.emit (.del_timer req.addr))
    generalize zfcp_fsf_protstatus_eval K req
      ({ a with completions := a.completions ++ [req] }.emit (.del_timer req.addr)) = r2 at h2 ⊢
    have h3 := fsfstatus_same_table K r2.1 r2.2
    generalize zfcp_fsf_fsfstatus_eval K r2.1 r2.2 = r3 at h3 ⊢
    have h4 : same_table r3.2 (E.handler r3.1.handler r3.1
        (r3.2.emit (.call_handler r3.1.handler r3.1.addr))).2 :=
      ⟨hE.handler_req_list _ _ _, hE.handler_req_no _ _ _, hE.handler_seq_no _ _ _,
        hE.handler_completions _ _ _⟩
    generalize E.handler r3.1.handler r3.1
        (r3.2.emit (.call_handler r3.1.handler r3.1.addr)) = r4 at h4 ⊢
    have h5 := same_table_trans (same_table_trans h2 h3) h4
    obtain ⟨e1, e2, e3, e4⟩ := h5
    simp only [emit_req_list, emit_req_no, emit_seq_no, emit_completions] at e1 e2 e3 e4
    split <;> split <;> simp [e1, e2, e3, e4]

theorem list_add_tail_length (r : zfcp_fsf_req) (idx : Nat) (l : List (List zfcp_fsf_req)) :
    (list_add_tail r idx l).length = l.length := by
  induction l generalizing idx with
  | nil => cases idx <;> rfl
  | cons b bs ih =>
    cases idx with
    | zero => rfl
    | succ n => simp [list_add_tail, ih]

theorem getD_list_add_tail_self (r : zfcp_fsf_req) (idx : Nat) (l : List (List zfcp_fsf_req))
    (h : idx < l.length) : (list_add_tail r idx l).getD idx [] = l.getD idx [] ++ [r] := by
  induction l generalizing idx with
  | nil => simp at h
  | cons b bs ih =>
    cases idx with
    | zero => simp [list_add_tail]
    | succ n =>
      have hn : n < bs.length := by simpa using h
      simpa [list_add_tail] using ih n hn

theorem getD_list_add_tail_ne (r : zfcp_fsf_req) (idx j : Nat) (l : List (List zfcp_fsf_req))
    (h : j ≠ idx) : (list_add_tail r idx l).getD j [] = l.getD j [] := by
  induction l generalizing idx j with
  | nil => cases idx <;> rfl
  | cons b bs ih =>
    cases idx with
    | zero =>
      cases j with
      | zero => exact absurd rfl h
      | succ m => simp [list_add_tail]
    | succ n =>
      cases j with
      | zero => simp [list_add_tail]
      | succ m =>
        have : m ≠ n := fun e => h (by rw [e])
        simpa [list_add_tail] using ih n m this

theorem flatten_list_add_tail_perm (r : zfcp_fsf_req) (idx : Nat) (l : List (List zfcp_fsf_req))
    (h : idx < l.length) : (list_add_tail r idx l).flatten.Perm (r :: l.flatten) := by
  induction l generalizing idx with
  | nil => simp at h
  | cons b bs ih =>
    cases idx with
    | zero =>
      simp only [list_add_tail, List.flatten_cons, List.append_assoc]
      exact List.perm_middle
    | succ n =>
      have hn : n < bs.length := by simpa using h
      simp only [list_add_tail, List.flatten_cons]
      exact ((ih n hn).append_left b).trans List.perm_middle

theorem list_add_tail_of_le (r : zfcp_fsf_req) (idx : Nat) (l : List (List zfcp_fsf_req))
    (h : l.length ≤ idx) : list_add_tail r idx l = l := by
  induction l generalizing idx with
  | nil => cases idx <;> rfl
  | cons b bs ih =>
    cases idx with
    | zero => simp at h
    | succ n =>
      have hn : bs.length ≤ n := by simpa using h
      simp [list_add_tail, ih n hn]

theorem list_del_flatten (r : zfcp_fsf_req) (l : List (List zfcp_fsf_req)) :
    (list_del r l).flatten = l.flatten.filter (fun x => x.addr != r.addr) := by
  induction l with
  | nil => rfl
  | cons b bs ih =>
    have ih2 : (List.map (fun b => List.filter (fun x => x.addr != r.addr) b) bs).flatten
        = List.filter (fun x => x.addr != r.addr) bs.flatten := ih
    simp only [list_del, List.map_cons, List.flatten_cons, List.filter_append]
    rw [ih2]

theorem list_del_length (r : zfcp_fsf_req) (l : List (List zfcp_fsf_req)) :
    (list_del r l).length = l.length := by
  simp [list_del]

theorem getD_list_del (r : zfcp_fsf_req) (l : List (List zfcp_fsf_req)) (i : Nat) :
    (list_del r l).getD i [] = (l.getD i []).filter (fun x => x.addr != r.addr) := by
  induction l generalizing i with
  | nil => simp [list_del]
  | cons b bs ih =>
    cases i with
    | zero => simp [list_del]
    | succ n => simpa [list_del] using ih n

theorem list_del_list_add_tail (r : zfcp_fsf_req) (idx : Nat) (l : List (List zfcp_fsf_req))
    (h : ∀ x ∈ l.flatten, x.addr ≠ r.addr) : list_del r (list_add_tail r idx l) = l := by
  induction l generalizing idx with
  | nil => cases idx <;> rfl
  | cons b bs ih =>
    have hb : ∀ x ∈ b, x.addr ≠ r.addr := fun x hx => h x (by simp [hx])
    have hbs : ∀ x ∈ bs.flatten, x.addr ≠ r.addr := fun x hx => h x (by
      simp only [List.flatten_cons, List.mem_append]; exact Or.inr hx)
    have fb : b.filter (fun x => x.addr != r.addr) = b := by
      rw [List.filter_eq_self]; intro x hx; simpa using hb x hx
    have ih2 : ∀ idx, List.map (fun b => List.filter (fun x => x.addr != r.addr) b)
        (list_add_tail r idx bs) = bs := fun idx => ih idx hbs
    cases idx with
    | zero =>
      have : List.map (fun b => List.filter (fun x => x.addr != r.addr) b) bs = bs := by
        have := ih2 bs.length
        rwa [list_add_tail_of_le r bs.length bs (le_refl _)] at this
      simp [list_del, list_add_tail, List.filter_append, fb, this]
    | succ n =>
      simp [list_del, list_add_tail, fb, ih2 n]

theorem sample_env_frame : sample_env.Frame :=
  ⟨fun _ _ _ => rfl, fun _ _ _ => rfl, fun _ _ _ => rfl, fun _ _ _ => rfl,
   fun _ _ => rfl, fun _ _ => rfl, fun _ _ => rfl, fun _ _ => rfl⟩

theorem find_safe_none_iff (a : zfcp_adapter) (req : zfcp_fsf_req) :
    zfcp_reqlist_find_safe a req = none ↔ ∀ r ∈ registered a, r.addr ≠ req.addr := by
  unfold zfcp_reqlist_find_safe registered
  rw [List.find?_eq_none]
  simp

theorem registered_remove (a : zfcp_adapter) (req : zfcp_fsf_req) :
    ∀ r ∈ registered (zfcp_reqlist_remove a req), r.addr ≠ req.addr := by
  intro r hr
  unfold registered zfcp_reqlist_remove at hr
  rw [list_del_flatten] at hr
  simpa using (List.mem_filter.mp hr).2

theorem splice_step (l : List (List zfcp_fsf_req)) (k : Nat) (hk : k ≤ l.length) :
    (List.range k).foldl
      (fun (st : List (List zfcp_fsf_req) × List zfcp_fsf_req) i =>
        (st.1.set i [], st.1.getD i [] ++ st.2)) (l, [])
    = (List.replicate k [] ++ l.drop k, (l.take k).reverse.flatten) := by
  induction k with
  | zero => simp
  | succ n ih =>
    have hn : n < l.length := hk
    rw [List.range_succ, List.foldl_append, ih (Nat.le_of_lt hn)]
    simp only [List.foldl_cons, List.foldl_nil]
    have hd : l.drop n = l[n] :: l.drop (n + 1) := List.drop_eq_getElem_cons hn
    have h1 : (List.replicate n ([] : List zfcp_fsf_req) ++ l.drop n).set n []
        = List.replicate (n + 1) [] ++ l.drop (n + 1) := by
      rw [hd, List.set_append_right _ _ (by simp)]
      simp only [List.length_replicate, Nat.sub_self, List.set_cons_zero, List.replicate_succ',
        List.append_assoc, List.singleton_append]
    have h2 : (List.replicate n ([] : List zfcp_fsf_req) ++ l.drop n).getD n [] = l[n] := by
      rw [hd, List.getD_eq_getElem?_getD, List.getElem?_append_right (by simp)]
      simp only [List.length_replicate, Nat.sub_self, List.getElem?_cons_zero, Option.getD_some]
    have h3 : (l.take (n + 1)).reverse.flatten = l[n] ++ (l.take n).reverse.flatten := by
      rw [List.take_succ, List.getElem?_eq_getElem hn]
      simp only [Option.toList, List.reverse_append, List.reverse_cons, List.reverse_nil,
        List.nil_append, List.singleton_append, List.flatten_cons]
    rw [h1, h2, h3]

theorem splice_buckets_eq (K : Decls) (l : List (List zfcp_fsf_req))
    (h : l.length = K.REQUEST_LIST_SIZE) :
    splice_buckets K l = (List.replicate l.length [], l.reverse.flatten) := by
  unfold splice_buckets
  rw [← h, splice_step l l.length (le_refl _)]
  simp

theorem dismiss_queue_frame (K : Decls) (E : Env) (hE : E.Frame) (q : List zfcp_fsf_req)
    (a : zfcp_adapter) :
    (dismiss_queue K E q a).req_list = a.req_list
    ∧ (dismiss_queue K E q a).req_no = a.req_no
    ∧ (dismiss_queue K E q a).fsf_req_seq_no = a.fsf_req_seq_no
    ∧ (dismiss_queue K E q a).completions = a.completions ++ q.map (dismissed K) := by
  induction q generalizing a with
  | nil => simp [dismiss_queue]
  | cons r rs ih =>
    obtain ⟨c1, c2, c3, c4⟩ := complete_frame K E hE (dismissed K r) a
    obtain ⟨i1, i2, i3, i4⟩ := ih (zfcp_fsf_req_complete K E (dismissed K r) a).2
    simp only [dismiss_queue]
    refine ⟨i1.trans c1, i2.trans c2, i3.trans c3, ?_⟩
    rw [i4, c4]; simp

theorem or_and_self_right (s m : Nat) : (s ||| m) &&& m = m := by
  apply Nat.eq_of_testBit_eq
  intro i
  simp only [Nat.testBit_and, Nat.testBit_or]
  cases s.testBit i <;> cases m.testBit i <;> rfl

theorem reqid_check_loop_append (K : Decls) (E : Env) (sbal_idx : Nat)
    (pre l : List qdio_buffer_element) (a a1 : zfcp_adapter)
    (hflags : ∀ x ∈ pre, x.eflags &&& K.SBAL_EFLAGS_LAST_ENTRY = 0)
    (hpre : reqid_check_loop K E sbal_idx pre a = .returned a1) :
    reqid_check_loop K E sbal_idx (pre ++ l) a = reqid_check_loop K E sbal_idx l a1 := by
  induction pre generalizing a with
  | nil =>
    simp only [reqid_check_loop, Outcome.returned.injEq] at hpre
    simp [hpre]
  | cons x xs ih =>
    have hx : x.eflags &&& K.SBAL_EFLAGS_LAST_ENTRY = 0 := hflags x (List.mem_cons_self _ _)
    have hxs : ∀ y ∈ xs, y.eflags &&& K.SBAL_EFLAGS_LAST_ENTRY = 0 :=
      fun y hy => hflags y (List.mem_cons_of_mem _ hy)
    simp only [List.cons_append, reqid_check_loop] at hpre ⊢
    cases hf : zfcp_reqlist_find K a x.addr with
    | none => simp [hf] at hpre
    | some r =>
      simp only [hf, hx, ne_eq, not_true_eq_false, if_false] at hpre ⊢
      exact ih _ hxs hpre

theorem find_congr (K : Decls) (a b : zfcp_adapter) (h : a.req_list = b.req_list) (id : Nat) :
    zfcp_reqlist_find K a id = zfcp_reqlist_find K b id := by
  unfold zfcp_reqlist_find; rw [h]

theorem find_none_of_fresh (K : Decls) (a : zfcp_adapter) (id : Nat)
    (h : ∀ r ∈ registered a, r.req_id ≠ id) : zfcp_reqlist_find K a id = none := by
  unfold zfcp_reqlist_find
  rw [List.find?_eq_none]
  intro x hx
  have hm : x ∈ registered a := by
    unfold registered
    rw [List.mem_flatten]
    refine ⟨a.req_list.getD (K.zfcp_reqlist_hash id) [], ?_, hx⟩
    rw [List.getD_eq_getElem?_getD] at hx ⊢
    cases hg : a.req_list[K.zfcp_reqlist_hash id]? with
    | none => simp [hg] at hx
    | some b => simpa using List.getElem?_mem hg
  simpa using h x hm

theorem mem_registered_of_find (K : Decls) (a : zfcp_adapter) (id : Nat) (r : zfcp_fsf_req)
    (h : zfcp_reqlist_find K a id = some r) : r ∈ registered a ∧ r.req_id = id := by
  unfold zfcp_reqlist_find at h
  have hx := List.mem_of_find?_eq_some h
  have hp := List.find?_some h
  refine ⟨?_, by simpa using hp⟩
  unfold registered
  rw [List.mem_flatten]
  refine ⟨a.req_list.getD (K.zfcp_reqlist_hash id) [], ?_, hx⟩
  rw [List.getD_eq_getElem?_getD] at hx ⊢
  cases hg : a.req_list[K.zfcp_reqlist_hash id]? with
  | none => simp [hg] at hx
  | some b => simpa using List.getElem?_mem hg

theorem send_ok_req_list (K : Decls) (req : zfcp_fsf_req) (clock : Nat) (a : zfcp_adapter) :
    (zfcp_fsf_req_send K req clock 0 a).2.req_list
      = list_add_tail (stamped req clock a) (K.zfcp_reqlist_hash req.req_id) a.req_list := by
  unfold zfcp_fsf_req_send
  cases req.qtcb <;> simp

theorem send_ok_completions (K : Decls) (req : zfcp_fsf_req) (clock : Nat) (a : zfcp_adapter) :
    (zfcp_fsf_req_send K req clock 0 a).2.completions = a.completions := by
  unfold zfcp_fsf_req_send
  cases req.qtcb <;> simp

theorem find_after_send (K : Decls) (req : zfcp_fsf_req) (clock : Nat) (a : zfcp_adapter)
    (hidx : K.zfcp_reqlist_hash req.req_id < a.req_list.length)
    (hid : ∀ r ∈ registered a, r.req_id ≠ req.req_id) :
    zfcp_reqlist_find K (zfcp_fsf_req_send K req clock 0 a).2 req.req_id
      = some (stamped req clock a) := by
  have hnone := find_none_of_fresh K a req.req_id hid
  unfold zfcp_reqlist_find at hnone ⊢
  rw [send_ok_req_list, getD_list_add_tail_self _ _ _ hidx, List.find?_append, hnone]
  simp [stamped]

theorem reqid_check_loop_cons (K : Decls) (E : Env) (hE : E.Frame) (sbal_idx : Nat)
    (e : qdio_buffer_element) (rest : List qdio_buffer_element) (a : zfcp_adapter)
    (r : zfcp_fsf_req) (hf : zfcp_reqlist_find K a e.addr = some r) :
    ∃ a2,
      reqid_check_loop K E sbal_idx (e :: rest) a
        = (if e.eflags &&& K.SBAL_EFLAGS_LAST_ENTRY ≠ 0 then .returned a2
           else reqid_check_loop K E sbal_idx rest a2)
      ∧ a2.req_list = list_del r a.req_list
      ∧ a2.completions = a.completions ++ [answered r sbal_idx a]
      ∧ a2.req_no = a.req_no ∧ a2.fsf_req_seq_no = a.fsf_req_seq_no := by
  obtain ⟨c1, c2, c3, c4⟩ := complete_frame K E hE
    (answered r sbal_idx { a with req_list := list_del r a.req_list })
    { a with req_list := list_del r a.req_list }
  exact ⟨_, by simp only [reqid_check_loop, hf], c1, c4, c2, c3⟩

theorem reqid_check_loop_none (K : Decls) (E : Env) (sbal_idx : Nat)
    (e : qdio_buffer_element) (rest : List qdio_buffer_element) (a : zfcp_adapter)
    (hf : zfcp_reqlist_find K a e.addr = none) :
    reqid_check_loop K E sbal_idx (e :: rest) a = .halted (a.emit .zfcp_qdio_siosl) := by
  simp only [reqid_check_loop, hf]

theorem mem_registered_of_mem_bucket (a : zfcp_adapter) (i : Nat) (x : zfcp_fsf_req)
    (hx : x ∈ a.req_list.getD i []) : x ∈ registered a := by
  unfold registered
  rw [List.mem_flatten]
  refine ⟨a.req_list.getD i [], ?_, hx⟩
  rw [List.getD_eq_getElem?_getD] at hx ⊢
  cases hg : a.req_list[i]? with
  | none => simp [hg] at hx
  | some b => simpa using List.getElem?_mem hg

theorem find_of_mem_bucket (K : Decls) (a : zfcp_adapter) (r : zfcp_fsf_req)
    (hb : r ∈ a.req_list.getD (K.zfcp_reqlist_hash r.req_id) [])
    (huniq : ∀ x ∈ registered a, x.req_id = r.req_id → x = r) :
    zfcp_reqlist_find K a r.req_id = some r := by
  cases hf : zfcp_reqlist_find K a r.req_id with
  | none =>
    unfold zfcp_reqlist_find at hf
    rw [List.find?_eq_none] at hf
    exact absurd (by simp) (hf r hb)
  | some x =>
    obtain ⟨hm, hid⟩ := mem_registered_of_find K a _ x hf
    rw [huniq x hm hid]

theorem mem_registered_list_del (a : zfcp_adapter) (r x : zfcp_fsf_req) :
    x ∈ (list_del r a.req_list).flatten ↔ x ∈ registered a ∧ x.addr ≠ r.addr := by
  rw [list_del_flatten, List.mem_filter]
  unfold registered
  simp

theorem examined_nil (K : Decls) : examined K [] = [] := rfl

theorem examined_cons (K : Decls) (e : qdio_buffer_element) (es : List qdio_buffer_element) :
    examined K (e :: es)
      = if e.eflags &&& K.SBAL_EFLAGS_LAST_ENTRY ≠ 0 then [e] else e :: examined K es := by
  unfold examined
  by_cases h : e.eflags &&& K.SBAL_EFLAGS_LAST_ENTRY = 0
  · simp [List.findIdx_cons, h]
  · have hb : (e.eflags &&& K.SBAL_EFLAGS_LAST_ENTRY != 0) = true := by simpa using h
    simp only [List.findIdx_cons, hb, cond_true, Nat.zero_add, List.take_succ_cons,
      List.take_zero, ne_eq, h, not_false_eq_true, if_true]

theorem reqid_check_loop_examined (K : Decls) (E : Env) (sbal_idx : Nat)
    (elems : List qdio_buffer_element) (a : zfcp_adapter) :
    reqid_check_loop K E sbal_idx elems a
      = reqid_check_loop K E sbal_idx (examined K elems) a := by
  induction elems generalizing a with
  | nil => rfl
  | cons e es ih =>
    rw [examined_cons]
    by_cases h : e.eflags &&& K.SBAL_EFLAGS_LAST_ENTRY = 0
    · simp only [h, ne_eq, not_true_eq_false, if_false, reqid_check_loop]
      cases zfcp_reqlist_find K a e.addr with
      | none => rfl
      | some r => exact ih _
    · simp only [h, ne_eq, not_false_eq_true, if_true, reqid_check_loop]

theorem find?_filter_of_imp {α : Type} (p q : α → Bool) (l : List α)
    (h : ∀ x ∈ l, q x = true → p x = true) :
    (l.filter p).find? q = l.find? q := by
  induction l with
  | nil => rfl
  | cons x xs ih =>
    have ihx := ih (fun y hy => h y (List.mem_cons_of_mem _ hy))
    by_cases hq : q x = true
    · have hp := h x (List.mem_cons_self _ _) hq
      simp [List.filter_cons, hp, hq]
    · by_cases hp : p x = true
      · simp [List.filter_cons, hp, hq, ihx]
      · simp [List.filter_cons, hp, hq, ihx]

theorem find_list_del_of_ne (K : Decls) (a b : zfcp_adapter) (r : zfcp_fsf_req) (id : Nat)
    (hb : b.req_list = list_del r a.req_list) (hinj : addr_inj a) (hr : r ∈ registered a)
    (hne : r.req_id ≠ id) : zfcp_reqlist_find K b id = zfcp_reqlist_find K a id := by
  unfold zfcp_reqlist_find
  rw [hb, getD_list_del]
  apply find?_filter_of_imp
  intro x hx hq
  have hxr : x ∈ registered a := mem_registered_of_mem_bucket a _ x hx
  have hxid : x.req_id = id := by simpa using hq
  have : x.addr ≠ r.addr := fun hxa => hne (by rw [← hinj x hxr r hr hxa]; exact hxid)
  simpa using this

theorem addr_inj_list_del (a b : zfcp_adapter) (r : zfcp_fsf_req)
    (hb : b.req_list = list_del r a.req_list) (hinj : addr_inj a) : addr_inj b := by
  intro x hx y hy hxy
  have hx2 : x ∈ registered a := by
    unfold registered at hx; rw [hb] at hx
    exact ((mem_registered_list_del a r x).mp hx).1
  have hy2 : y ∈ registered a := by
    unfold registered at hy; rw [hb] at hy
    exact ((mem_registered_list_del a r y).mp hy).1
  exact hinj x hx2 y hy2 hxy

theorem reqid_check_loop_all_found (K : Decls) (E : Env) (hE : E.Frame) (sbal_idx : Nat)
    (elems : List qdio_buffer_element) (a : zfcp_adapter)
    (hinj : addr_inj a)
    (hids : ((examined K elems).map (fun e => e.addr)).Nodup)
    (hreg : ∀ e ∈ examined K elems, zfcp_reqlist_find K a e.addr ≠ none) :
    ∃ a2, reqid_check_loop K E sbal_idx elems a = .returned a2
      ∧ a2.completions.map (fun r => r.addr) = a.completions.map (fun r => r.addr)
          ++ (examined K elems).filterMap
              (fun e => (zfcp_reqlist_find K a e.addr).map (fun r => r.addr))
      ∧ a2.completions.map (fun r => r.req_id) = a.completions.map (fun r => r.req_id)
          ++ (examined K elems).map (fun e => e.addr) := by
  induction elems generalizing a with
  | nil => exact ⟨a, rfl, by simp [examined_nil], by simp [examined_nil]⟩
  | cons e es ih =>
    rw [examined_cons] at hids hreg ⊢
    by_cases h : e.eflags &&& K.SBAL_EFLAGS_LAST_ENTRY = 0
    · simp only [h, ne_eq, not_true_eq_false, if_false] at hids hreg ⊢
      cases hf : zfcp_reqlist_find K a e.addr with
      | none => exact absurd hf (hreg e (List.mem_cons_self _ _))
      | some r =>
        obtain ⟨hrm, hrid⟩ := mem_registered_of_find K a _ r hf
        obtain ⟨a1, hstep, hl, hc, _, _⟩ := reqid_check_loop_cons K E hE sbal_idx e es a r hf
        simp only [h, ne_eq, not_true_eq_false, if_false] at hstep
        have hnd := List.nodup_cons.mp hids
        have hfind : ∀ x ∈ examined K es,
            zfcp_reqlist_find K a1 x.addr = zfcp_reqlist_find K a x.addr := by
          intro x hx
          apply find_list_del_of_ne K a a1 r x.addr hl hinj hrm
          rw [hrid]
          intro hex
          exact hnd.1 (List.mem_map.mpr ⟨x, hx, hex.symm⟩)
        obtain ⟨a2, h1, h2, h3⟩ := ih a1 (addr_inj_list_del a a1 r hl hinj) hnd.2
          (fun x hx => by rw [hfind x hx]; exact hreg x (List.mem_cons_of_mem _ hx))
        refine ⟨a2, hstep.trans h1, ?_, ?_⟩
        · rw [h2, hc]
          have : (examined K es).filterMap
                (fun e => (zfcp_reqlist_find K a1 e.addr).map (fun r => r.addr))
              = (examined K es).filterMap
                (fun e => (zfcp_reqlist_find K a e.addr).map (fun r => r.addr)) := by
            apply List.filterMap_congr
            intro x hx; rw [hfind x hx]
          rw [this]
          simp [hf, answered]
        · rw [h3, hc]
          simp [answered, hrid]
    · simp only [h, ne_eq, not_false_eq_true, if_true] at hids hreg ⊢
      cases hf : zfcp_reqlist_find K a e.addr with
      | none => exact absurd hf (hreg e (List.mem_singleton_self _))
      | some r =>
        obtain ⟨_, hrid⟩ := mem_registered_of_find K a _ r hf
        obtain ⟨a1, hstep, _, hc, _, _⟩ := reqid_check_loop_cons K E hE sbal_idx e es a r hf
        simp only [h, ne_eq, not_false_eq_true, if_true] at hstep
        exact ⟨a1, hstep, by rw [hc]; simp [hf, answered], by rw [hc]; simp [answered, hrid]⟩

theorem reqid_check_loop_returned_ids (K : Decls) (E : Env) (hE : E.Frame) (sbal_idx : Nat)
    (pre : List qdio_buffer_element) (a a1 : zfcp_adapter)
    (hflags : ∀ x ∈ pre, x.eflags &&& K.SBAL_EFLAGS_LAST_ENTRY = 0)
    (hpre : reqid_check_loop K E sbal_idx pre a = .returned a1) :
    a1.completions.map (fun r => r.req_id)
      = a.completions.map (fun r => r.req_id) ++ pre.map (fun e => e.addr) := by
  induction pre generalizing a with
  | nil =>
    simp only [reqid_check_loop, Outcome.returned.injEq] at hpre
    simp [hpre]
  | cons x xs ih =>
    have hx : x.eflags &&& K.SBAL_EFLAGS_LAST_ENTRY = 0 := hflags x (List.mem_cons_self _ _)
    have hxs : ∀ y ∈ xs, y.eflags &&& K.SBAL_EFLAGS_LAST_ENTRY = 0 :=
      fun y hy => hflags y (List.mem_cons_of_mem _ hy)
    cases hf : zfcp_reqlist_find K a x.addr with
    | none => rw [reqid_check_loop_none K E sbal_idx x xs a hf] at hpre; cases hpre
    | some r =>
      obtain ⟨_, hrid⟩ := mem_registered_of_find K a _ r hf
      obtain ⟨a2, hstep, _, hc, _, _⟩ := reqid_check_loop_cons K E hE sbal_idx x xs a r hf
      simp only [hx, ne_eq, not_true_eq_false, if_false] at hstep
      rw [hstep] at hpre
      rw [ih a2 hxs hpre, hc]
      simp [answered, hrid]

theorem create_req_list (K : Decls) (fsf_cmd : Nat) (pool : Bool) (alloc : Option Nat)
    (alloc_qtcb : Bool) (a : zfcp_adapter) :
    (zfcp_fsf_req_create K fsf_cmd pool alloc alloc_qtcb a).2.req_list = a.req_list := by
  unfold zfcp_fsf_req_create
  cases alloc with
  | none => rfl
  | some p =>
    dsimp only
    split <;> split <;> (try split) <;> rfl

theorem flatten_list_add_tail_sublist (r : zfcp_fsf_req) (idx : Nat)
    (l : List (List zfcp_fsf_req)) :
    ∃ l2, (list_add_tail r idx l).flatten.Perm l2 ∧ l2.Sublist (r :: l.flatten) := by
  by_cases h : idx < l.length
  · exact ⟨r :: l.flatten, flatten_list_add_tail_perm r idx l h, List.Sublist.refl _⟩
  · rw [list_add_tail_of_le r idx l (Nat.le_of_not_lt h)]
    exact ⟨l.flatten, List.Perm.refl _, List.sublist_cons_self _ _⟩

theorem nodup_ids_list_add_tail (r : zfcp_fsf_req) (idx : Nat) (l : List (List zfcp_fsf_req))
    (hn : (l.flatten.map (fun x => x.req_id)).Nodup)
    (hfresh : ∀ x ∈ l.flatten, x.req_id ≠ r.req_id) :
    ((list_add_tail r idx l).flatten.map (fun x => x.req_id)).Nodup := by
  obtain ⟨l2, hp, hs⟩ := flatten_list_add_tail_sublist r idx l
  have h1 : ((r :: l.flatten).map (fun x => x.req_id)).Nodup := by
    rw [List.map_cons, List.nodup_cons]
    refine ⟨?_, hn⟩
    intro hm
    obtain ⟨x, hx, hxe⟩ := List.mem_map.mp hm
    exact hfresh x hx hxe
  exact ((hp.map _).nodup_iff).mpr (h1.sublist (hs.map _))

theorem send_registered_sublist (K : Decls) (req : zfcp_fsf_req) (clock : Nat)
    (qdio_send : Int) (a : zfcp_adapter) :
    (registered (zfcp_fsf_req_send K req clock qdio_send a).2).Sublist
      (list_add_tail (stamped req clock a) (K.zfcp_reqlist_hash req.req_id) a.req_list).flatten := by
  unfold zfcp_fsf_req_send registered
  dsimp only
  split
  · split
    · simp only [zfcp_reqlist_remove, emit_req_list]
      rw [list_del_flatten]
      exact List.filter_sublist _
    · exact List.Sublist.refl _
  · split <;> exact List.Sublist.refl _

theorem reqid_check_loop_sublist (K : Decls) (E : Env) (hE : E.Frame) (sbal_idx : Nat)
    (elems : List qdio_buffer_element) (a a2 : zfcp_adapter)
    (h : reqid_check_loop K E sbal_idx elems a = .returned a2) :
    (registered a2).Sublist (registered a) := by
  induction elems generalizing a with
  | nil =>
    simp only [reqid_check_loop, Outcome.returned.injEq] at h
    rw [h]
  | cons e es ih =>
    cases hf : zfcp_reqlist_find K a e.addr with
    | none => rw [reqid_check_loop_none K E sbal_idx e es a hf] at h; cases h
    | some r =>
      obtain ⟨a1, hstep, hl, _, _, _⟩ := reqid_check_loop_cons K E hE sbal_idx e es a r hf
      have h1 : (registered a1).Sublist (registered a) := by
        unfold registered
        rw [hl, list_del_flatten]
        exact List.filter_sublist _
      rw [hstep] at h
      split at h
      · simp only [Outcome.returned.injEq] at h
        rw [← h]; exact h1
      · exact (ih a1 h).trans h1

theorem flatten_set_nil_sublist (l : List (List zfcp_fsf_req)) (i : Nat) :
    (l.set i []).flatten.Sublist l.flatten := by
  induction l generalizing i with
  | nil => simp
  | cons b bs ih =>
    cases i with
    | zero => simp
    | succ n =>
      simp only [List.set_cons_succ, List.flatten_cons]
      exact (List.Sublist.refl b).append (ih n)

theorem splice_fold_sublist (is : List Nat)
    (st : List (List zfcp_fsf_req) × List zfcp_fsf_req) :
    ((is.foldl (fun (st : List (List zfcp_fsf_req) × List zfcp_fsf_req) i =>
        (st.1.set i [], st.1.getD i [] ++ st.2)) st).1.flatten).Sublist st.1.flatten := by
  induction is generalizing st with
  | nil => exact List.Sublist.refl _
  | cons i is ih =>
    simp only [List.foldl_cons]
    exact (ih _).trans (flatten_set_nil_sublist st.1 i)

theorem dismiss_all_sublist (K : Decls) (E : Env) (hE : E.Frame) (a a2 : zfcp_adapter)
    (h : zfcp_fsf_req_dismiss_all K E a = .returned a2) :
    (registered a2).Sublist (registered a) := by
  unfold zfcp_fsf_req_dismiss_all at h
  split at h
  · cases h
  · simp only [Outcome.returned.injEq] at h
    have hfr := (dismiss_queue_frame K E hE (splice_buckets K a.req_list).2
      { a with req_list := (splice_buckets K a.req_list).1 }).1
    rw [h] at hfr
    unfold registered
    rw [hfr]
    exact splice_fold_sublist _ _

theorem create_req_no (K : Decls) (fsf_cmd : Nat) (pool : Bool) (p : Nat)
    (alloc_qtcb : Bool) (a : zfcp_adapter) :
    (zfcp_fsf_req_create K fsf_cmd pool (some p) alloc_qtcb a).2.req_no
      = if a.req_no = 0 then 1 % 2 ^ K.BITS_PER_LONG else a.req_no := by
  unfold zfcp_fsf_req_create
  dsimp only
  by_cases h0 : a.req_no = 0
  · simp only [h0, if_true]
    split <;> (try split) <;> simp
  · simp only [h0, if_false]
    split <;> (try split) <;> simp

theorem create_none (K : Decls) (fsf_cmd : Nat) (pool : Bool) (alloc_qtcb : Bool)
    (a : zfcp_adapter) :
    zfcp_fsf_req_create K fsf_cmd pool none alloc_qtcb a = (.error (-ENOMEM), a) := rfl

theorem create_ok_req_id (K : Decls) (fsf_cmd : Nat) (pool : Bool) (alloc : Option Nat)
    (alloc_qtcb : Bool) (a a1 : zfcp_adapter) (req : zfcp_fsf_req)
    (h : zfcp_fsf_req_create K fsf_cmd pool alloc alloc_qtcb a = (.ok req, a1)) :
    req.req_id = a1.req_no
    ∧ a1.req_no = (if a.req_no = 0 then 1 % 2 ^ K.BITS_PER_LONG else a.req_no) := by
  cases alloc with
  | none => rw [create_none] at h; cases h
  | some p =>
    have hn := create_req_no K fsf_cmd pool p alloc_qtcb a
    rw [h] at hn
    refine ⟨?_, hn⟩
    rw [hn]
    unfold zfcp_fsf_req_create at h
    dsimp only at h
    by_cases h0 : a.req_no = 0
    · simp only [h0, if_true] at h ⊢
      split at h
      · split at h
        · simp only [Prod.mk.injEq, Except.ok.injEq] at h
          rw [← h.1]
        · simp at h
      · simp only [Prod.mk.injEq, Except.ok.injEq] at h
        rw [← h.1]
    · simp only [h0, if_false] at h ⊢
      split at h
      · split at h
        · simp only [Prod.mk.injEq, Except.ok.injEq] at h
          rw [← h.1]
        · simp at h
      · simp only [Prod.mk.injEq, Except.ok.injEq] at h
        rw [← h.1]

theorem send_ok_req_no (K : Decls) (req : zfcp_fsf_req) (clock : Nat) (a : zfcp_adapter) :
    (zfcp_fsf_req_send K req clock 0 a).2.req_no = (a.req_no + 1) % 2 ^ K.BITS_PER_LONG := by
  unfold zfcp_fsf_req_send
  cases req.qtcb <;> simp

theorem find_ne_none_of_list_del (K : Decls) (a b : zfcp_adapter) (r : zfcp_fsf_req) (id : Nat)
    (hb : b.req_list = list_del r a.req_list) (h : zfcp_reqlist_find K b id ≠ none) :
    zfcp_reqlist_find K a id ≠ none := by
  intro hn
  apply h
  unfold zfcp_reqlist_find at hn ⊢
  rw [List.find?_eq_none] at hn ⊢
  intro x hx
  rw [hb, getD_list_del] at hx
  exact hn x (List.mem_filter.mp hx).1

theorem find_none_after_del (K : Decls) (a b : zfcp_adapter) (r : zfcp_fsf_req)
    (hb : b.req_list = list_del r a.req_list)
    (huniq : ∀ x ∈ registered a, x.req_id = r.req_id → x = r) :
    zfcp_reqlist_find K b r.req_id = none := by
  apply find_none_of_fresh
  intro x hx hxid
  have hx2 : x ∈ (list_del r a.req_list).flatten := by
    unfold registered at hx; rw [hb] at hx; exact hx
  obtain ⟨hxa, hne⟩ := (mem_registered_list_del a r x).mp hx2
  exact hne (by rw [huniq x hxa hxid])

/-- The two conditions on the buffer in `reqid_check_completes_examined` are
necessary: on a table without repeated identifiers the loop only returns when
the examined identifiers are pairwise different and all registered. -/
theorem reqid_check_loop_returned_distinct (K : Decls) (E : Env) (hE : E.Frame) (sbal_idx : Nat)
    (elems : List qdio_buffer_element) (a a2 : zfcp_adapter)
    (huniq : ∀ x ∈ registered a, ∀ y ∈ registered a, x.req_id = y.req_id → x = y)
    (h : reqid_check_loop K E sbal_idx elems a = .returned a2) :
    ((examined K elems).map (fun e => e.addr)).Nodup
    ∧ ∀ e ∈ examined K elems, zfcp_reqlist_find K a e.addr ≠ none := by
  induction elems generalizing a with
  | nil => simp [examined_nil]
  | cons e es ih =>
    cases hf : zfcp_reqlist_find K a e.addr with
    | none => rw [reqid_check_loop_none K E sbal_idx e es a hf] at h; cases h
    | some r =>
      obtain ⟨hrm, hrid⟩ := mem_registered_of_find K a _ r hf
      obtain ⟨a1, hstep, hl, _, _, _⟩ := reqid_check_loop_cons K E hE sbal_idx e es a r hf
      rw [hstep] at h
      rw [examined_cons]
      by_cases hfl : e.eflags &&& K.SBAL_EFLAGS_LAST_ENTRY = 0
      · simp only [hfl, ne_eq, not_true_eq_false, if_false] at h ⊢
        have hsub : ∀ x ∈ registered a1, x ∈ registered a := by
          intro x hx
          have hx2 : x ∈ (list_del r a.req_list).flatten := by
            unfold registered at hx; rw [hl] at hx; exact hx
          exact ((mem_registered_list_del a r x).mp hx2).1
        obtain ⟨ihn, ihr⟩ := ih a1
          (fun x hx y hy hxy => huniq x (hsub x hx) y (hsub y hy) hxy) h
        have hgone : zfcp_reqlist_find K a1 e.addr = none := by
          rw [← hrid]
          exact find_none_after_del K a a1 r hl (fun x hx hxid => huniq x hx r hrm hxid)
        refine ⟨?_, ?_⟩
        · rw [List.map_cons, List.nodup_cons]
          refine ⟨?_, ihn⟩
          intro hm
          obtain ⟨x, hx, hxe⟩ := List.mem_map.mp hm
          have hxe2 : x.addr = e.addr := hxe
          exact ihr x hx (by rw [hxe2]; exact hgone)
        · intro x hx
          rcases List.mem_cons.mp hx with hxe | hxm
          · rw [hxe, hf]; exact Option.some_ne_none r
          · exact find_ne_none_of_list_del K a a1 r _ hl (ihr x hxm)
      · simp only [hfl, ne_eq, not_false_eq_true, if_true]
        refine ⟨by simp, ?_⟩
        intro x hx
        rw [List.mem_singleton.mp hx, hf]; exact Option.some_ne_none r

/-! ## Lemmas: status evaluation and handlers -/

theorem or_or_self (s m : Nat) : (s ||| m) ||| m = s ||| m := by
  rw [Nat.lor_assoc, Nat.or_self]

theorem or_and_ne_zero (s m : Nat) (h : m ≠ 0) : (s ||| m) &&& m ≠ 0 := by
  rw [or_and_self_right]; exact h

theorem prot_status_distinct_ne (K : Decls) (h : prot_status_distinct K) :
    K.FSF_PROT_GOOD ≠ K.FSF_PROT_FSF_STATUS_PRESENTED
    ∧ K.FSF_PROT_GOOD ≠ K.FSF_PROT_QTCB_VERSION_ERROR
    ∧ K.FSF_PROT_GOOD ≠ K.FSF_PROT_ERROR_STATE
    ∧ K.FSF_PROT_GOOD ≠ K.FSF_PROT_SEQ_NUMB_ERROR
    ∧ K.FSF_PROT_GOOD ≠ K.FSF_PROT_UNSUPP_QTCB_TYPE
    ∧ K.FSF_PROT_GOOD ≠ K.FSF_PROT_HOST_CONNECTION_INITIALIZING
    ∧ K.FSF_PROT_GOOD ≠ K.FSF_PROT_DUPLICATE_REQUEST_ID
    ∧ K.FSF_PROT_GOOD ≠ K.FSF_PROT_LINK_DOWN
    ∧ K.FSF_PROT_GOOD ≠ K.FSF_PROT_REEST_QUEUE
    ∧ K.FSF_PROT_FSF_STATUS_PRESENTED ≠ K.FSF_PROT_QTCB_VERSION_ERROR
    ∧ K.FSF_PROT_FSF_STATUS_PRESENTED ≠ K.FSF_PROT_ERROR_STATE
    ∧ K.FSF_PROT_FSF_STATUS_PRESENTED ≠ K.FSF_PROT_SEQ_NUMB_ERROR
    ∧ K.FSF_PROT_FSF_STATUS_PRESENTED ≠ K.FSF_PROT_UNSUPP_QTCB_TYPE
    ∧ K.FSF_PROT_FSF_STATUS_PRESENTED ≠ K.FSF_PROT_HOST_CONNECTION_INITIALIZING
    ∧ K.FSF_PROT_FSF_STATUS_PRESENTED ≠ K.FSF_PROT_DUPLICATE_REQUEST_ID
    ∧ K.FSF_PROT_FSF_STATUS_PRESENTED ≠ K.FSF_PROT_LINK_DOWN
    ∧ K.FSF_PROT_FSF_STATUS_PRESENTED ≠ K.FSF_PROT_REEST_QUEUE
    ∧ K.FSF_PROT_QTCB_VERSION_ERROR ≠ K.FSF_PROT_ERROR_STATE
    ∧ K.FSF_PROT_QTCB_VERSION_ERROR ≠ K.FSF_PROT_SEQ_NUMB_ERROR
    ∧ K.FSF_PROT_QTCB_VERSION_ERROR ≠ K.FSF_PROT_UNSUPP_QTCB_TYPE
    ∧ K.FSF_PROT_QTCB_VERSION_ERROR ≠ K.FSF_PROT_HOST_CONNECTION_INITIALIZING
    ∧ K.FSF_PROT_QTCB_VERSION_ERROR ≠ K.FSF_PROT_DUPLICATE_REQUEST_ID
    ∧ K.FSF_PROT_QTCB_VERSION_ERROR ≠ K.FSF_PROT_LINK_DOWN
    ∧ K.FSF_PROT_QTCB_VERSION_ERROR ≠ K.FSF_PROT_REEST_QUEUE
    ∧ K.FSF_PROT_ERROR_STATE ≠ K.FSF_PROT_UNSUPP_QTCB_TYPE
    ∧ K.FSF_PROT_ERROR_STATE ≠ K.FSF_PROT_HOST_CONNECTION_INITIALIZING
    ∧ K.FSF_PROT_ERROR_STATE ≠ K.FSF_PROT_DUPLICATE_REQUEST_ID
    ∧ K.FSF_PROT_ERROR_STATE ≠ K.FSF_PROT_LINK_DOWN
    ∧ K.FSF_PROT_ERROR_STATE ≠ K.FSF_PROT_REEST_QUEUE
    ∧ K.FSF_PROT_SEQ_NUMB_ERROR ≠ K.FSF_PROT_UNSUPP_QTCB_TYPE
    ∧ K.FSF_PROT_SEQ_NUMB_ERROR ≠ K.FSF_PROT_HOST_CONNECTION_INITIALIZING
    ∧ K.FSF_PROT_SEQ_NUMB_ERROR ≠ K.FSF_PROT_DUPLICATE_REQUEST_ID
    ∧ K.FSF_PROT_SEQ_NUMB_ERROR ≠ K.FSF_PROT_LINK_DOWN
    ∧ K.FSF_PROT_SEQ_NUMB_ERROR ≠ K.FSF_PROT_REEST_QUEUE
    ∧ K.FSF_PROT_UNSUPP_QTCB_TYPE ≠ K.FSF_PROT_HOST_CONNECTION_INITIALIZING
    ∧ K.FSF_PROT_UNSUPP_QTCB_TYPE ≠ K.FSF_PROT_DUPLICATE_REQUEST_ID
    ∧ K.FSF_PROT_UNSUPP_QTCB_TYPE ≠ K.FSF_PROT_LINK_DOWN
    ∧ K.FSF_PROT_UNSUPP_QTCB_TYPE ≠ K.FSF_PROT_REEST_QUEUE
    ∧ K.FSF_PROT_HOST_CONNECTION_INITIALIZING ≠ K.FSF_PROT_DUPLICATE_REQUEST_ID
    ∧ K.FSF_PROT_HOST_CONNECTION_INITIALIZING ≠ K.FSF_PROT_LINK_DOWN
    ∧ K.FSF_PROT_HOST_CONNECTION_INITIALIZING ≠ K.FSF_PROT_REEST_QUEUE
    ∧ K.FSF_PROT_DUPLICATE_REQUEST_ID ≠ K.FSF_PROT_LINK_DOWN
    ∧ K.FSF_PROT_DUPLICATE_REQUEST_ID ≠ K.FSF_PROT_REEST_QUEUE
    ∧ K.FSF_PROT_LINK_DOWN ≠ K.FSF_PROT_REEST_QUEUE := by
  unfold prot_status_distinct at h
  simp only [List.nodup_cons, List.mem_cons, List.mem_singleton, List.not_mem_nil, or_false,
    not_or, List.nodup_nil, and_true] at h
  obtain ⟨h1, h2, h3, h4, h5, h6, h7, h8, h9⟩ := h
  refine ⟨h1.1, h1.2.1, h1.2.2.1, h1.2.2.2.1, h1.2.2.2.2.1, h1.2.2.2.2.2.1, h1.2.2.2.2.2.2.1,
    h1.2.2.2.2.2.2.2.1, h1.2.2.2.2.2.2.2.2, h2.1, h2.2.1, h2.2.2.1, h2.2.2.2.1, h2.2.2.2.2.1,
    h2.2.2.2.2.2.1, h2.2.2.2.2.2.2.1, h2.2.2.2.2.2.2.2, h3.1, h3.2.1, h3.2.2.1, h3.2.2.2.1,
    h3.2.2.2.2.1, h3.2.2.2.2.2.1, h3.2.2.2.2.2.2, h4.2.1, h4.2.2.1, h4.2.2.2.1, h4.2.2.2.2.1,
    h4.2.2.2.2.2, h5.1, h5.2.1, h5.2.2.1, h5.2.2.2.1, h5.2.2.2.2, h6.1, h6.2.1, h6.2.2.1,
    h6.2.2.2, h7.1, h7.2.1, h7.2.2, h8.1, h8.2, h9.1⟩

theorem link_down_counts (K : Decls) (req : zfcp_fsf_req) (id : String) (a : zfcp_adapter) :
    adapter_shutdowns (zfcp_fsf_link_down_info_eval K req id a).log = adapter_shutdowns a.log
    ∧ adapter_reopens (zfcp_fsf_link_down_info_eval K req id a).log = adapter_reopens a.log := by
  unfold zfcp_fsf_link_down_info_eval
  split
  · exact ⟨rfl, rfl⟩
  · simp [adapter_shutdowns, adapter_reopens, zfcp_adapter.emit, List.filter_append]

theorem status_qual_distinct_ne (K : Decls) (h : status_qual_distinct K) :
    K.FSF_SQ_FCP_RSP_AVAILABLE ≠ K.FSF_SQ_COMMAND_ABORTED
    ∧ K.FSF_SQ_INVOKE_LINK_TEST_PROCEDURE ≠ K.FSF_SQ_COMMAND_ABORTED
    ∧ K.FSF_SQ_NO_RETRY_POSSIBLE ≠ K.FSF_SQ_COMMAND_ABORTED
    ∧ K.FSF_SQ_ULP_DEPENDENT_ERP_REQUIRED ≠ K.FSF_SQ_COMMAND_ABORTED
    ∧ K.FSF_SQ_FCP_RSP_AVAILABLE ≠ K.FSF_SQ_NO_RECOM
    ∧ K.FSF_SQ_INVOKE_LINK_TEST_PROCEDURE ≠ K.FSF_SQ_NO_RECOM
    ∧ K.FSF_SQ_NO_RETRY_POSSIBLE ≠ K.FSF_SQ_NO_RECOM
    ∧ K.FSF_SQ_ULP_DEPENDENT_ERP_REQUIRED ≠ K.FSF_SQ_NO_RECOM
    ∧ K.FSF_SQ_COMMAND_ABORTED ≠ K.FSF_SQ_NO_RECOM := by
  unfold status_qual_distinct at h
  simp only [List.nodup_cons, List.mem_cons, List.mem_singleton, List.not_mem_nil, or_false,
    not_or, List.nodup_nil, and_true] at h
  obtain ⟨h1, h2, h3, h4, h5⟩ := h
  exact ⟨h1.2.2.2.1, h2.2.2.1, h3.2.1, h4.1, h1.2.2.2.2, h2.2.2.2, h3.2.2, h4.2, h5.1⟩

theorem eval_log_refl (a : zfcp_adapter) :
    ∃ evs, a.log = a.log ++ evs ∧ ∀ e ∈ evs, from_status_eval e = true :=
  ⟨[], by simp, by simp⟩

theorem eval_log_emit (a b : zfcp_adapter) (e : Ev) (he : from_status_eval e = true)
    (h : ∃ evs, b.log = a.log ++ evs ∧ ∀ x ∈ evs, from_status_eval x = true) :
    ∃ evs, (b.emit e).log = a.log ++ evs ∧ ∀ x ∈ evs, from_status_eval x = true := by
  obtain ⟨evs, h1, h2⟩ := h
  refine ⟨evs ++ [e], by simp [h1], ?_⟩
  intro x hx
  rcases List.mem_append.mp hx with hx | hx
  · exact h2 x hx
  · rw [List.mem_singleton.mp hx]; exact he

theorem link_down_log (K : Decls) (req : zfcp_fsf_req) (id : String) (a : zfcp_adapter) :
    ∃ evs, (zfcp_fsf_link_down_info_eval K req id a).log = a.log ++ evs
      ∧ ∀ x ∈ evs, from_status_eval x = true := by
  unfold zfcp_fsf_link_down_info_eval
  split
  · exact eval_log_refl a
  · exact eval_log_emit a _ _ rfl (eval_log_emit a _ _ rfl ⟨[], by simp, by simp⟩)

theorem qual_eval_log (K : Decls) (req : zfcp_fsf_req) (w : Nat) (a : zfcp_adapter) :
    ∃ evs, (zfcp_fsf_fsfstatus_qual_eval K req w a).2.log = a.log ++ evs
      ∧ ∀ x ∈ evs, from_status_eval x = true := by
  unfold zfcp_fsf_fsfstatus_qual_eval
  split
  · exact eval_log_refl a
  · dsimp only
    split
    · exact eval_log_refl a
    · split
      · exact eval_log_emit a _ _ rfl (eval_log_emit a _ _ rfl (eval_log_refl a))
      · exact eval_log_refl a

theorem fsfstatus_log (K : Decls) (req : zfcp_fsf_req) (a : zfcp_adapter) :
    ∃ evs, (zfcp_fsf_fsfstatus_eval K req a).2.log = a.log ++ evs
      ∧ ∀ x ∈ evs, from_status_eval x = true := by
  unfold zfcp_fsf_fsfstatus_eval
  split
  · exact eval_log_refl a
  · split
    · exact eval_log_refl a
    · split
      · exact eval_log_emit a _ _ rfl (eval_log_refl a)
      · split
        · exact qual_eval_log K req _ a
        · exact eval_log_refl a

theorem protstatus_log (K : Decls) (req : zfcp_fsf_req) (a : zfcp_adapter) :
    ∃ evs, (zfcp_fsf_protstatus_eval K req a).2.log = a.log ++ evs
      ∧ ∀ x ∈ evs, from_status_eval x = true := by
  unfold zfcp_fsf_protstatus_eval
  split
  · exact eval_log_refl a
  · split
    · exact eval_log_refl a
    · dsimp only
      split
      · exact eval_log_refl a
      · dsimp only
        split_ifs
        · exact eval_log_emit a _ _ rfl (eval_log_refl a)
        · exact eval_log_emit a _ _ rfl (eval_log_refl a)
        · exact eval_log_emit a _ _ rfl (eval_log_refl a)
        · exact eval_log_refl a
        · exact eval_log_emit a _ _ rfl (eval_log_refl a)
        · exact eval_log_emit a _ _ rfl (link_down_log K req _ a)
        · exact eval_log_emit a _ _ rfl (eval_log_emit a _ _ rfl ⟨[], by simp, by simp⟩)
        · exact eval_log_emit a _ _ rfl (eval_log_emit a _ _ rfl (eval_log_refl a))

theorem evaluated_log (K : Decls) (req : zfcp_fsf_req) (a : zfcp_adapter) :
    ∃ evs, (evaluated K req a).2.log = a.log ++ Ev.del_timer req.addr :: evs
      ∧ ∀ x ∈ evs, from_status_eval x = true := by
  unfold evaluated
  obtain ⟨e1, h1, p1⟩ := protstatus_log K req
    ({ a with completions := a.completions ++ [req] }.emit (.del_timer req.addr))
  obtain ⟨e2, h2, p2⟩ := fsfstatus_log K
    (zfcp_fsf_protstatus_eval K req
      ({ a with completions := a.completions ++ [req] }.emit (.del_timer req.addr))).1
    (zfcp_fsf_protstatus_eval K req
      ({ a with completions := a.completions ++ [req] }.emit (.del_timer req.addr))).2
  refine ⟨e1 ++ e2, ?_, ?_⟩
  · dsimp only
    rw [h2, h1]; simp
  · intro x hx
    rcases List.mem_append.mp hx with hx | hx
    · exact p1 x hx
    · exact p2 x hx

theorem handler_calls_append (l m : List Ev) :
    handler_calls (l ++ m) = handler_calls l + handler_calls m := by
  simp [handler_calls, List.filter_append]

theorem handler_calls_of_eval (evs : List Ev) (h : ∀ x ∈ evs, from_status_eval x = true) :
    handler_calls evs = 0 := by
  unfold handler_calls
  rw [List.length_eq_zero, List.filter_eq_nil_iff]
  intro x hx
  have := h x hx
  cases x <;> simp_all [from_status_eval]

theorem complete_eq (K : Decls) (E : Env) (req : zfcp_fsf_req) (a : zfcp_adapter)
    (hk : req.fsf_command ≠ K.FSF_QTCB_UNSOLICITED_STATUS) :
    zfcp_fsf_req_complete K E req a
      = ((handled K E req a).1,
         { (handled K E req a).2 with
           log := (handled K E req a).2.log ++ erp_notified (handled K E req a).1
             ++ [if (handled K E req a).1.status &&& K.ZFCP_STATUS_FSFREQ_CLEANUP ≠ 0
                 then Ev.zfcp_fsf_req_free (handled K E req a).1.addr
                 else Ev.complete (handled K E req a).1.addr] }) := by
  unfold zfcp_fsf_req_complete
  simp only [hk, if_false]
  show _ = _
  unfold handled evaluated erp_notified
  dsimp only
  split <;> split <;> simp_all [zfcp_adapter.emit]

theorem quiet_refl (a : zfcp_adapter) :
    ∃ evs, a.log = a.log ++ evs ∧ solicited_calls evs = 0 ∧ status_read_calls evs = 0 :=
  ⟨[], by simp, rfl, rfl⟩

theorem quiet_emit (a b : zfcp_adapter) (e : Ev)
    (he : solicited_calls [e] = 0 ∧ status_read_calls [e] = 0)
    (h : ∃ evs, b.log = a.log ++ evs ∧ solicited_calls evs = 0 ∧ status_read_calls evs = 0) :
    ∃ evs, (b.emit e).log = a.log ++ evs ∧ solicited_calls evs = 0
      ∧ status_read_calls evs = 0 := by
  obtain ⟨evs, h1, h2, h3⟩ := h
  refine ⟨evs ++ [e], by simp [h1], ?_, ?_⟩
  · unfold solicited_calls at h2 he ⊢
    rw [List.filter_append, List.length_append, h2, he.1]
  · unfold status_read_calls at h3 he ⊢
    rw [List.filter_append, List.length_append, h3, he.2]

theorem quiet_same_log (a b c : zfcp_adapter) (hc : c.log = b.log)
    (h : ∃ evs, b.log = a.log ++ evs ∧ solicited_calls evs = 0 ∧ status_read_calls evs = 0) :
    ∃ evs, c.log = a.log ++ evs ∧ solicited_calls evs = 0 ∧ status_read_calls evs = 0 := by
  rw [hc]; exact h

theorem quiet_link_down (K : Decls) (req : zfcp_fsf_req) (id : String) (a : zfcp_adapter) :
    ∃ evs, (zfcp_fsf_link_down_info_eval K req id a).log = a.log ++ evs
      ∧ solicited_calls evs = 0 ∧ status_read_calls evs = 0 := by
  unfold zfcp_fsf_link_down_info_eval
  split
  · exact quiet_refl a
  · exact quiet_emit a _ _ ⟨rfl, rfl⟩ (quiet_emit a _ _ ⟨rfl, rfl⟩ ⟨[], by simp, rfl, rfl⟩)

theorem quiet_port_closed (U : MoreDecls) (req : zfcp_fsf_req)
    (sr_buf : fsf_status_read_buffer) (a : zfcp_adapter) :
    ∃ evs, (zfcp_fsf_status_read_port_closed U req sr_buf a).log = a.log ++ evs
      ∧ solicited_calls evs = 0 ∧ status_read_calls evs = 0 := by
  unfold zfcp_fsf_status_read_port_closed
  split
  · exact quiet_emit a _ _ ⟨rfl, rfl⟩ (quiet_refl a)
  · exact quiet_refl a

theorem quiet_read_link_down (K : Decls) (U : MoreDecls) (req : zfcp_fsf_req)
    (sr_buf : fsf_status_read_buffer) (a : zfcp_adapter) :
    ∃ evs, (zfcp_fsf_status_read_link_down K U req sr_buf a).log = a.log ++ evs
      ∧ solicited_calls evs = 0 ∧ status_read_calls evs = 0 := by
  unfold zfcp_fsf_status_read_link_down
  split_ifs
  · exact quiet_link_down K req _ a
  · exact quiet_link_down K req _ a
  · exact quiet_link_down K req _ a
  · exact quiet_refl a

theorem quiet_switch (K : Decls) (U : MoreDecls) (req : zfcp_fsf_req)
    (sr_buf : fsf_status_read_buffer) (a : zfcp_adapter) :
    ∃ evs, (status_read_switch K U req sr_buf a).log = a.log ++ evs
      ∧ solicited_calls evs = 0 ∧ status_read_calls evs = 0 := by
  unfold status_read_switch
  split
  · exact quiet_port_closed U req sr_buf a
  split
  · exact quiet_emit a _ _ ⟨rfl, rfl⟩ (quiet_refl a)
  split
  · exact quiet_refl a
  split
  · exact quiet_refl a
  split
  · exact quiet_emit a _ _ ⟨rfl, rfl⟩ (quiet_read_link_down K U req sr_buf a)
  split
  · exact quiet_emit a _ _ ⟨rfl, rfl⟩ (quiet_emit a _ _ ⟨rfl, rfl⟩
      (quiet_emit a _ _ ⟨rfl, rfl⟩ ⟨[], by simp, rfl, rfl⟩))
  split
  · dsimp only
    split
    · split
      · exact quiet_emit a _ _ ⟨rfl, rfl⟩ (quiet_emit a _ _ ⟨rfl, rfl⟩ (quiet_refl a))
      · exact quiet_emit a _ _ ⟨rfl, rfl⟩ (quiet_refl a)
    · split
      · exact quiet_emit a _ _ ⟨rfl, rfl⟩ (quiet_refl a)
      · exact quiet_refl a
  split
  · exact quiet_emit a _ _ ⟨rfl, rfl⟩ (quiet_refl a)
  split
  · exact ⟨[], by simp, rfl, rfl⟩
  · exact quiet_refl a

theorem quiet_status_read_handler (K : Decls) (U : MoreDecls) (req : zfcp_fsf_req)
    (a : zfcp_adapter) :
    ∃ evs, (zfcp_fsf_status_read_handler K U req a).log = a.log ++ evs
      ∧ solicited_calls evs = 0 ∧ status_read_calls evs = 0 := by
  unfold zfcp_fsf_status_read_handler
  by_cases hd : req.status &&& K.ZFCP_STATUS_FSFREQ_DISMISSED ≠ 0
  · rw [if_pos hd]
    exact quiet_emit a _ _ ⟨rfl, rfl⟩ (quiet_emit a _ _ ⟨rfl, rfl⟩ (quiet_refl a))
  · rw [if_neg hd]
    have inner : ∃ evs, (match status_read_buf_at a req.data with
        | none => a
        | some sr_buf => status_read_switch K U req sr_buf a).log = a.log ++ evs
          ∧ solicited_calls evs = 0 ∧ status_read_calls evs = 0 := by
      split
      · exact quiet_refl a
      · exact quiet_switch K U req _ a
    exact quiet_emit a _ _ ⟨rfl, rfl⟩ (quiet_same_log a _ _ rfl
      (quiet_emit a _ _ ⟨rfl, rfl⟩ (quiet_emit a _ _ ⟨rfl, rfl⟩ inner)))

theorem or_and_disjoint (s m e : Nat) (h : m &&& e = 0) : (s ||| m) &&& e = s &&& e := by
  apply Nat.eq_of_testBit_eq; intro i
  have := congrArg (fun x => Nat.testBit x i) h
  simp at this ⊢
  cases hs : s.testBit i <;> cases hm : m.testBit i <;> cases he : e.testBit i <;> simp_all

theorem unit_at_emit (a : zfcp_adapter) (e : Ev) (p : Nat) : unit_at (a.emit e) p = unit_at a p := rfl

theorem unit_at_update (p : Nat) (f : zfcp_unit → zfcp_unit) (a : zfcp_adapter)
    (hf : ∀ u, (f u).addr = u.addr) :
    unit_at (unit_update p f a) p = (unit_at a p).map f := by
  unfold unit_at unit_update
  show List.find? _ (List.map _ a.units) = _
  induction a.units with
  | nil => rfl
  | cons u us ih =>
    rw [List.map_cons]
    by_cases hu : u.addr = p
    · rw [if_pos hu, List.find?_cons_of_pos, List.find?_cons_of_pos]
      · rfl
      · simpa using hu
      · simpa [hf] using hu
    · rw [if_neg hu, List.find?_cons_of_neg, List.find?_cons_of_neg, ih]
      · simpa using hu
      · simpa using hu

theorem unit_update_req_list (p : Nat) (f : zfcp_unit → zfcp_unit) (a : zfcp_adapter) :
    (unit_update p f a).req_list = a.req_list := rfl

theorem unit_update_log (p : Nat) (f : zfcp_unit → zfcp_unit) (a : zfcp_adapter) :
    (unit_update p f a).log = a.log := rfl



theorem or_or_and_self (s m x : Nat) (h : s &&& m = m) : (s ||| x) &&& m = m := by
  apply Nat.eq_of_testBit_eq; intro i
  have := congrArg (fun y => Nat.testBit y i) h
  simp at this ⊢
  cases hs : s.testBit i <;> cases hm : m.testBit i <;> cases hx : x.testBit i <;> simp_all

theorem open_unit_handler_good (K : Decls) (U : MoreDecls) (req : zfcp_fsf_req) (q : fsf_qtcb)
    (u : zfcp_unit) (a : zfcp_adapter)
    (herr : req.status &&& K.ZFCP_STATUS_FSFREQ_ERROR = 0)
    (hq : req.qtcb = some q) (hu : unit_at a req.data = some u)
    (hs : q.header.fsf_status = U.FSF_GOOD)
    (hgood : U.FSF_GOOD ∉ [U.FSF_PORT_HANDLE_NOT_VALID, U.FSF_LUN_ALREADY_OPEN,
      U.FSF_ACCESS_DENIED, U.FSF_PORT_BOXED, U.FSF_LUN_SHARING_VIOLATION,
      U.FSF_MAXIMUM_NUMBER_OF_LUNS_EXCEEDED, U.FSF_INVALID_COMMAND_OPTION,
      K.FSF_ADAPTER_STATUS_AVAILABLE]) :
    (zfcp_fsf_open_unit_handler K U req a).2.req_list = a.req_list
    ∧ (∃ u2, unit_at (zfcp_fsf_open_unit_handler K U req a).2 req.data = some u2
        ∧ u2.handle = q.header.lun_handle
        ∧ u2.status &&& U.ZFCP_STATUS_COMMON_OPEN = U.ZFCP_STATUS_COMMON_OPEN)
    ∧ ∃ evs, (zfcp_fsf_open_unit_handler K U req a).2.log = a.log ++ evs := by
  simp only [List.mem_cons, List.mem_singleton, not_or, List.not_mem_nil, or_false] at hgood
  obtain ⟨g1, g2, g3, g4, g5, g6, g7, g8⟩ := hgood
  have hne : ¬ (req.status &&& K.ZFCP_STATUS_FSFREQ_ERROR ≠ 0) := not_not.mpr herr
  unfold zfcp_fsf_open_unit_handler
  rw [if_neg hne]
  simp only [hq, hu, hs, if_neg g1, if_neg g2, if_neg g3, if_neg g4, if_neg g5, if_neg g6,
    if_neg g7, if_neg g8, if_true]
  have hupd : ∀ (f : zfcp_unit → zfcp_unit) (b : zfcp_adapter), (∀ v, (f v).addr = v.addr) →
      unit_at (unit_update req.data f b) req.data = (unit_at b req.data).map f :=
    fun f b hf => unit_at_update req.data f b hf
  have o1 := or_and_self_right
  have o2 := fun s m x => or_or_and_self (s ||| m) m x (or_and_self_right s m)
  have o3 := fun s m x y => or_or_and_self ((s ||| m) ||| x) m y (o2 s m x)
  split
  · split <;> split <;> split <;> (try split) <;>
      (dsimp only
       refine ⟨by simp only [emit_req_list, unit_update_req_list], ?_,
         by first
           | (simp only [unit_update_log]; exact ⟨[], (List.append_nil _).symm⟩)
           | (simp only [unit_update_log, emit_log, List.append_assoc]; exact ⟨_, rfl⟩)⟩
       try simp only [unit_at_emit]
       repeat rw [hupd]
       · rw [hu]
         refine ⟨_, rfl, rfl, ?_⟩
         first | exact o1 _ _ | exact o2 _ _ _ | exact o3 _ _ _ _
       all_goals (intro v; rfl))
  · dsimp only
    refine ⟨by simp only [unit_update_req_list], ?_,
      by simp only [unit_update_log]; exact ⟨[], (List.append_nil _).symm⟩⟩
    rw [hupd, hupd, hu]
    · exact ⟨_, rfl, rfl, o1 _ _⟩
    all_goals (intro v; rfl)

theorem map_buckets_empty (g : zfcp_fsf_req → zfcp_fsf_req) (l : List (List zfcp_fsf_req))
    (h : l.flatten = []) : l.map (List.map g) = l := by
  rw [List.flatten_eq_nil_iff] at h
  induction l with
  | nil => rfl
  | cons b bs ih =>
    have hb : b = [] := h b (by simp)
    rw [List.map_cons, ih (fun x hx => h x (by simp [hx])), hb]
    rfl

theorem map_list_add_tail (g : zfcp_fsf_req → zfcp_fsf_req) (r : zfcp_fsf_req) (idx : Nat)
    (l : List (List zfcp_fsf_req)) :
    (list_add_tail r idx l).map (List.map g) = list_add_tail (g r) idx (l.map (List.map g)) := by
  induction l generalizing idx with
  | nil => cases idx <;> rfl
  | cons b bs ih =>
    cases idx with
    | zero => simp [list_add_tail]
    | succ n => simp [list_add_tail, ih n]

theorem flatten_list_add_tail_empty (r : zfcp_fsf_req) (idx : Nat) (l : List (List zfcp_fsf_req))
    (hidx : idx < l.length) (h : l.flatten = []) : (list_add_tail r idx l).flatten = [r] := by
  have hp := flatten_list_add_tail_perm r idx l hidx
  rw [h] at hp
  exact List.perm_singleton.mp hp

theorem find_list_add_tail_empty (K : Decls) (a b : zfcp_adapter) (r : zfcp_fsf_req)
    (hb : b.req_list = list_add_tail r (K.zfcp_reqlist_hash r.req_id) a.req_list)
    (hidx : K.zfcp_reqlist_hash r.req_id < a.req_list.length) (h : registered a = []) :
    zfcp_reqlist_find K b r.req_id = some r := by
  have hnone := find_none_of_fresh K a r.req_id (by rw [h]; intro x hx; cases hx)
  unfold zfcp_reqlist_find at hnone ⊢
  rw [hb, getD_list_add_tail_self _ _ _ hidx, List.find?_append, hnone]
  simp

theorem sbal_get_ok (K : Decls) (ret : Int) (a : zfcp_adapter)
    (hup : a.status &&& K.ZFCP_STATUS_ADAPTER_QDIOUP ≠ 0) (hret : ret > 0) :
    zfcp_fsf_req_sbal_get K ret a = (0, a) := by
  unfold zfcp_fsf_req_sbal_get
  rw [if_neg hup, if_pos hret]

theorem create_qtcb_ok (K : Decls) (fsf_cmd : Nat) (pool : Bool) (p : Nat) (a : zfcp_adapter)
    (hkind : fsf_cmd ≠ K.FSF_QTCB_UNSOLICITED_STATUS) (hno : a.req_no ≠ 0) :
    ∃ req a1, zfcp_fsf_req_create K fsf_cmd pool (some p) true a = (.ok req, a1)
      ∧ req.addr = p ∧ req.req_id = a.req_no ∧ req.fsf_command = fsf_cmd ∧ req.status = 0
      ∧ (∃ q, req.qtcb = some q)
      ∧ a1.req_list = a.req_list ∧ a1.units = a.units ∧ a1.req_no = a.req_no
      ∧ (∃ evs, a1.log = a.log ++ evs) := by
  unfold zfcp_fsf_req_create
  simp only [if_neg hno, if_pos hkind, if_true]
  exact ⟨_, _, rfl, rfl, rfl, rfl, rfl, ⟨_, rfl⟩, rfl, rfl, rfl, ⟨_, by simp [zfcp_adapter.emit]; rfl⟩⟩

theorem send_ok (K : Decls) (req : zfcp_fsf_req) (clock : Nat) (a : zfcp_adapter) :
    (zfcp_fsf_req_send K req clock 0 a).1 = 0
    ∧ (zfcp_fsf_req_send K req clock 0 a).2.units = a.units
    ∧ (zfcp_fsf_req_send K req clock 0 a).2.log = a.log := by
  unfold zfcp_fsf_req_send
  cases req.qtcb <;> simp

theorem open_unit_sent (K : Decls) (U : MoreDecls) (erp_action : zfcp_erp_action) (ret : Int)
    (p clock : Nat) (a : zfcp_adapter)
    (hup : a.status &&& K.ZFCP_STATUS_ADAPTER_QDIOUP ≠ 0) (hret : ret > 0)
    (hkind : K.FSF_QTCB_OPEN_LUN ≠ K.FSF_QTCB_UNSOLICITED_STATUS) (hno : a.req_no ≠ 0) :
    ∃ req a4, zfcp_fsf_open_unit K U erp_action ret (some p) true clock 0 a
        = zfcp_fsf_req_send K req clock 0 a4
      ∧ req.addr = p ∧ req.req_id = a.req_no ∧ req.fsf_command = K.FSF_QTCB_OPEN_LUN
      ∧ req.status = 0 ||| K.ZFCP_STATUS_FSFREQ_CLEANUP
      ∧ (∃ q, req.qtcb = some q)
      ∧ req.handler = U.addr_zfcp_fsf_open_unit_handler
      ∧ req.data = erp_action.unit.addr
      ∧ req.erp_action = some erp_action.addr
      ∧ a4.req_list = a.req_list ∧ a4.units = a.units ∧ a4.req_no = a.req_no := by
  obtain ⟨req, a1, hc, c1, c2, c3, c4, ⟨q, c5⟩, c6, c7, c8, _⟩ :=
    create_qtcb_ok K K.FSF_QTCB_OPEN_LUN true p a hkind hno
  unfold zfcp_fsf_open_unit
  simp only [sbal_get_ok K ret a hup hret, hc, ne_eq, not_true_eq_false, if_false,
    (send_ok K _ clock _).1]
  by_cases hn : a1.connection_features &&& U.FSF_FEATURE_NPIV_MODE = 0
  · have hn2 : (((a1.emit (.sbale_write req.queue_req.sbal_last 0 "sflags|"
        U.SBAL_SFLAGS0_TYPE_READ)).emit (.sbale_write req.queue_req.sbal_last 1 "eflags|"
        K.SBAL_EFLAGS_LAST_ENTRY)).emit
        (.erp_action_fsf_req erp_action.addr (some req.addr))).connection_features
        &&& U.FSF_FEATURE_NPIV_MODE = 0 := hn
    simp only [hn2, if_true]
    exact ⟨_, _, rfl, c1, c2, c3, by rw [c4], ⟨_, by rw [c5]; rfl⟩, rfl, rfl, rfl, c6, c7, c8⟩
  · have hn2 : ¬ (((a1.emit (.sbale_write req.queue_req.sbal_last 0 "sflags|"
        U.SBAL_SFLAGS0_TYPE_READ)).emit (.sbale_write req.queue_req.sbal_last 1 "eflags|"
        K.SBAL_EFLAGS_LAST_ENTRY)).emit
        (.erp_action_fsf_req erp_action.addr (some req.addr))).connection_features
        &&& U.FSF_FEATURE_NPIV_MODE = 0 := hn
    simp only [hn2, if_false]
    exact ⟨_, _, rfl, c1, c2, c3, by rw [c4], ⟨_, by rw [c5]; rfl⟩, rfl, rfl, rfl, c6, c7, c8⟩

theorem evaluated_good (K : Decls) (req : zfcp_fsf_req) (q : fsf_qtcb) (a : zfcp_adapter)
    (hnd : req.status &&& K.ZFCP_STATUS_FSFREQ_DISMISSED = 0)
    (herr : req.status &&& K.ZFCP_STATUS_FSFREQ_ERROR = 0)
    (hq : req.qtcb = some q) (hp : q.pfx.prot_status = K.FSF_PROT_GOOD)
    (h1 : q.header.fsf_status ≠ K.FSF_UNKNOWN_COMMAND)
    (h2 : q.header.fsf_status ≠ K.FSF_ADAPTER_STATUS_AVAILABLE) :
    evaluated K req a
      = (req, { a with completions := a.completions ++ [req] }.emit (.del_timer req.addr)) := by
  have e1 : ∀ b, zfcp_fsf_protstatus_eval K req b = (req, b) := by
    intro b
    unfold zfcp_fsf_protstatus_eval
    rw [if_neg (not_not.mpr hnd)]
    simp only [hq, hp, true_or, if_true]
  have e2 : ∀ b, zfcp_fsf_fsfstatus_eval K req b = (req, b) := by
    intro b
    unfold zfcp_fsf_fsfstatus_eval
    rw [if_neg (not_not.mpr herr)]
    simp only [hq, if_neg h1, if_neg h2]
  unfold evaluated
  simp only [e1, e2]

theorem dispatch_open_unit_good (K : Decls) (U : MoreDecls)
    (other : Nat → zfcp_fsf_req → zfcp_adapter → zfcp_fsf_req × zfcp_adapter)
    (sbal_idx : Nat) (b : zfcp_adapter) (l : List (List zfcp_fsf_req)) (r : zfcp_fsf_req)
    (q : fsf_qtcb) (u : zfcp_unit) (sbale : qdio_buffer_element)
    (rest : List qdio_buffer_element)
    (hresp : b.qdio.resp_q_sbal.getD sbal_idx [] = sbale :: rest)
    (haddr : sbale.addr = r.req_id)
    (hlast : sbale.eflags &&& K.SBAL_EFLAGS_LAST_ENTRY ≠ 0)
    (hb : b.req_list = list_add_tail r (K.zfcp_reqlist_hash r.req_id) l)
    (hidx : K.zfcp_reqlist_hash r.req_id < l.length) (hl : l.flatten = [])
    (hk : r.fsf_command ≠ K.FSF_QTCB_UNSOLICITED_STATUS)
    (hnd : r.status &&& K.ZFCP_STATUS_FSFREQ_DISMISSED = 0)
    (herr : r.status &&& K.ZFCP_STATUS_FSFREQ_ERROR = 0)
    (hq : r.qtcb = some q) (hp : q.pfx.prot_status = K.FSF_PROT_GOOD)
    (hs : q.header.fsf_status = U.FSF_GOOD)
    (hh : r.handler = U.addr_zfcp_fsf_open_unit_handler)
    (hu : unit_at b r.data = some u)
    (hgood : U.FSF_GOOD ∉ [K.FSF_UNKNOWN_COMMAND, K.FSF_ADAPTER_STATUS_AVAILABLE,
      U.FSF_PORT_HANDLE_NOT_VALID, U.FSF_LUN_ALREADY_OPEN, U.FSF_ACCESS_DENIED, U.FSF_PORT_BOXED,
      U.FSF_LUN_SHARING_VIOLATION, U.FSF_MAXIMUM_NUMBER_OF_LUNS_EXCEEDED,
      U.FSF_INVALID_COMMAND_OPTION]) :
    ∃ a2 u2, zfcp_fsf_reqid_check K (zfcp_env K U other) sbal_idx b = .returned a2
      ∧ Ev.call_handler U.addr_zfcp_fsf_open_unit_handler r.addr ∈ a2.log
      ∧ unit_at a2 r.data = some u2
      ∧ u2.handle = q.header.lun_handle
      ∧ u2.status &&& U.ZFCP_STATUS_COMMON_OPEN = U.ZFCP_STATUS_COMMON_OPEN
      ∧ a2.req_list = l := by
  have hfind : zfcp_reqlist_find K b r.req_id = some r :=
    find_list_add_tail_empty K { b with req_list := l } b r hb hidx hl
  have hdel : list_del r b.req_list = l := by
    rw [hb]
    exact list_del_list_add_tail r _ l (by rw [hl]; intro x hx; cases hx)
  have hgood2 := hgood
  simp only [List.mem_cons, List.mem_singleton, not_or, List.not_mem_nil, or_false] at hgood2
  have hgood8 : U.FSF_GOOD ∉ [U.FSF_PORT_HANDLE_NOT_VALID, U.FSF_LUN_ALREADY_OPEN,
      U.FSF_ACCESS_DENIED, U.FSF_PORT_BOXED, U.FSF_LUN_SHARING_VIOLATION,
      U.FSF_MAXIMUM_NUMBER_OF_LUNS_EXCEEDED, U.FSF_INVALID_COMMAND_OPTION,
      K.FSF_ADAPTER_STATUS_AVAILABLE] := by
    simp only [List.mem_cons, List.mem_singleton, not_or, List.not_mem_nil, or_false]
    exact ⟨hgood2.2.2.1, hgood2.2.2.2.1, hgood2.2.2.2.2.1, hgood2.2.2.2.2.2.1,
      hgood2.2.2.2.2.2.2.1, hgood2.2.2.2.2.2.2.2.1, hgood2.2.2.2.2.2.2.2.2, hgood2.2.1⟩
  have hrun : zfcp_fsf_reqid_check K (zfcp_env K U other) sbal_idx b
      = .returned (zfcp_fsf_req_complete K (zfcp_env K U other)
          (answered r sbal_idx { b with req_list := l }) { b with req_list := l }).2 := by
    unfold zfcp_fsf_reqid_check
    rw [hresp]
    simp only [reqid_check_loop, haddr, hfind, hdel]
    rw [if_pos hlast]
  have hc := complete_eq K (zfcp_env K U other) (answered r sbal_idx { b with req_list := l })
    { b with req_list := l } hk
  have he := evaluated_good K (answered r sbal_idx { b with req_list := l }) q
    { b with req_list := l } hnd herr hq hp (by rw [hs]; exact hgood2.1)
    (by rw [hs]; exact hgood2.2.1)
  have hhd : handled K (zfcp_env K U other) (answered r sbal_idx { b with req_list := l })
        { b with req_list := l }
      = zfcp_fsf_open_unit_handler K U (answered r sbal_idx { b with req_list := l })
          ((evaluated K (answered r sbal_idx { b with req_list := l })
            { b with req_list := l }).2.emit
            (.call_handler U.addr_zfcp_fsf_open_unit_handler r.addr)) := by
    unfold handled
    rw [he]
    show (if r.handler = U.addr_zfcp_fsf_open_unit_handler then _ else _) = _
    rw [if_pos hh]
    show zfcp_fsf_open_unit_handler K U _
      (zfcp_adapter.emit _ (.call_handler r.handler r.addr)) = _
    rw [hh]
  obtain ⟨g1, ⟨u2, g2, g3, g4⟩, ⟨evs, g5⟩⟩ := open_unit_handler_good K U
    (answered r sbal_idx { b with req_list := l }) q u
    ((evaluated K (answered r sbal_idx { b with req_list := l })
      { b with req_list := l }).2.emit
      (.call_handler U.addr_zfcp_fsf_open_unit_handler r.addr))
    herr hq (by rw [he]; exact hu) hs hgood8
  rw [← hhd] at g1 g2 g5
  refine ⟨_, u2, hrun, ?_, ?_, g3, g4, ?_⟩
  · rw [hc]
    show _ ∈ (handled K (zfcp_env K U other) _ _).2.log ++ _ ++ _
    rw [g5]
    simp
  · rw [hc]
    exact g2
  · rw [hc]
    show (handled K (zfcp_env K U other) _ _).2.req_list = l
    rw [g1, he]
    rfl


theorem clear_mask_and_self (m v : Nat) : atomic_clear_mask m v &&& m = 0 := by
  unfold atomic_clear_mask
  apply Nat.eq_of_testBit_eq; intro i
  simp

theorem clear_mask_and_disjoint (m o v : Nat) (h : m &&& o = 0) :
    atomic_clear_mask m v &&& o = v &&& o := by
  unfold atomic_clear_mask
  apply Nat.eq_of_testBit_eq; intro i
  have := congrArg (fun x => Nat.testBit x i) h
  simp at this ⊢
  cases hv : v.testBit i <;> cases hm : m.testBit i <;> cases ho : o.testBit i <;> simp_all

theorem port_at_phys_port_closed (U : MoreDecls) (V : IoDecls) (p : Nat) (a : zfcp_adapter) :
    port_at (phys_port_closed U V p a) p
      = (port_at a p).map (fun port =>
          { port with status := atomic_clear_mask V.ZFCP_STATUS_PORT_PHYS_OPEN port.status }) := by
  unfold port_at phys_port_closed
  show List.find? _ (List.map _ a.port_list) = _
  induction a.port_list with
  | nil => rfl
  | cons x xs ih =>
    rw [List.map_cons]
    by_cases hx : x.addr = p
    · rw [if_pos hx, List.find?_cons_of_pos, List.find?_cons_of_pos]
      · rfl
      · simpa using hx
      · simpa using hx
    · rw [if_neg hx, List.find?_cons_of_neg, List.find?_cons_of_neg, ih]
      · simpa using hx
      · simpa using hx

theorem neg_EIO_ne_zero : - EIO ≠ 0 := by decide

theorem adapter_reopens_emit_reopen (l : List Ev) (clear : Nat) (id : String) (ref : Option Nat) :
    adapter_reopens (l ++ [Ev.zfcp_erp_adapter_reopen clear id ref]) = adapter_reopens l + 1 := by
  simp [adapter_reopens, List.filter_append]

theorem or_and_distrib (a b m : Nat) : (a ||| b) &&& m = (a &&& m) ||| (b &&& m) := by
  apply Nat.eq_of_testBit_eq; intro i
  simp only [Nat.testBit_and, Nat.testBit_or]
  cases a.testBit i <;> cases b.testBit i <;> cases m.testBit i <;> rfl

theorem or_eq_zero (x y : Nat) : x ||| y = 0 ↔ x = 0 ∧ y = 0 := by
  constructor
  · intro h
    constructor
    · apply Nat.eq_of_testBit_eq; intro i
      have := congrArg (fun n => n.testBit i) h
      simp only [Nat.testBit_or, Nat.zero_testBit, Bool.or_eq_false_iff] at this
      rw [this.1, Nat.zero_testBit]
    · apply Nat.eq_of_testBit_eq; intro i
      have := congrArg (fun n => n.testBit i) h
      simp only [Nat.testBit_or, Nat.zero_testBit, Bool.or_eq_false_iff] at this
      rw [this.2, Nat.zero_testBit]
  · rintro ⟨rfl, rfl⟩
    rfl

theorem or_mod_two_pow (x y w : Nat) : (x ||| y) % 2 ^ w = x % 2 ^ w ||| y % 2 ^ w := by
  apply Nat.eq_of_testBit_eq; intro i
  simp only [Nat.testBit_mod_two_pow, Nat.testBit_or]
  cases decide (i < w) <;> simp

/-- What one of the seven statements of `zfcp_fsf_convert_portspeed`
contributes: the transport-class flag `c` when the input has a bit of `m`. -/
theorem portspeed_step (c : Prop) [Decidable c] (acc v : Nat) :
    (if c then acc ||| v else acc) = acc ||| (if c then v else 0) := by
  split
  · rfl
  · rw [Nat.or_zero]

theorem portspeed_flag_or (a b m v : Nat) :
    (if (a ||| b) &&& m ≠ 0 then v else 0)
      = (if a &&& m ≠ 0 then v else 0) ||| (if b &&& m ≠ 0 then v else 0) := by
  rw [or_and_distrib]
  by_cases ha : a &&& m = 0 <;> by_cases hb : b &&& m = 0
  · simp [ha, hb]
  · simp [ha, hb]
  · simp [ha, hb]
  · have : ¬ (a &&& m ||| b &&& m = 0) := fun h => ha ((or_eq_zero _ _).mp h).1
    simp [ha, hb, this]

theorem portspeed_flag_masked (a k : Nat) (hk : ZFCP_FSF_PORTSPEED_FLAGS.testBit k = true) :
    (a &&& ZFCP_FSF_PORTSPEED_FLAGS) &&& 1 <<< k = a &&& 1 <<< k := by
  apply Nat.eq_of_testBit_eq; intro i
  simp only [Nat.testBit_and, Nat.one_shiftLeft, Nat.testBit_two_pow]
  by_cases hi : k = i
  · subst hi
    simp [hk]
  · simp [hi]

theorem portspeed_flag_single (k j v : Nat) :
    (if (1 <<< k) &&& (1 <<< j) ≠ 0 then v else 0) = if k = j then v else 0 := by
  by_cases h : k = j
  · subst h
    rw [Nat.and_self, if_pos rfl, if_pos]
    rw [Nat.one_shiftLeft]
    exact Nat.pos_iff_ne_zero.mp (Nat.two_pow_pos k)
  · rw [if_neg h, if_neg]
    rw [not_not]
    apply Nat.eq_of_testBit_eq; intro i
    simp only [Nat.testBit_and, Nat.one_shiftLeft, Nat.testBit_two_pow, Nat.zero_testBit]
    by_cases hi : k = i
    · subst hi
      simp [Ne.symm h]
    · simp [hi]

/-- The function `zfcp_fsf_convert_portspeed` as the union of what its seven
statements contribute. -/
theorem convert_portspeed_eq (W : ScsiDecls) (x : Nat) :
    zfcp_fsf_convert_portspeed W x
      = ((if x &&& ZFCP_FSF_PORTSPEED_1GBIT ≠ 0 then W.FC_PORTSPEED_1GBIT else 0)
        ||| (if x &&& ZFCP_FSF_PORTSPEED_2GBIT ≠ 0 then W.FC_PORTSPEED_2GBIT else 0)
        ||| (if x &&& ZFCP_FSF_PORTSPEED_4GBIT ≠ 0 then W.FC_PORTSPEED_4GBIT else 0)
        ||| (if x &&& ZFCP_FSF_PORTSPEED_10GBIT ≠ 0 then W.FC_PORTSPEED_10GBIT else 0)
        ||| (if x &&& ZFCP_FSF_PORTSPEED_8GBIT ≠ 0 then W.FC_PORTSPEED_8GBIT else 0)
        ||| (if x &&& ZFCP_FSF_PORTSPEED_16GBIT ≠ 0 then W.FC_PORTSPEED_16GBIT else 0)
        ||| (if x &&& ZFCP_FSF_PORTSPEED_NOT_NEGOTIATED ≠ 0 then W.FC_PORTSPEED_NOT_NEGOTIATED
              else 0)) % 2 ^ 32 := by
  unfold zfcp_fsf_convert_portspeed
  simp only [portspeed_step, Nat.zero_or]

theorem mem_flatten_list_add_tail (r x : zfcp_fsf_req) (idx : Nat)
    (l : List (List zfcp_fsf_req)) (hx : x ∈ l.flatten) :
    x ∈ (list_add_tail r idx l).flatten := by
  by_cases h : idx < l.length
  · exact (flatten_list_add_tail_perm r idx l h).symm.subset (List.mem_cons_of_mem r hx)
  · rw [list_add_tail_of_le r idx l (Nat.le_of_not_lt h)]
    exact hx

/-- What a refused send leaves of the adapter: both counters, and every
registered request other than the object that was to be sent. -/
theorem send_fail_frame (K : Decls) (req : zfcp_fsf_req) (clock : Nat) (qdio_send : Int)
    (a : zfcp_adapter) (hsend : qdio_send ≠ 0) :
    (zfcp_fsf_req_send K req clock qdio_send a).2.req_no = a.req_no
    ∧ (zfcp_fsf_req_send K req clock qdio_send a).2.fsf_req_seq_no = a.fsf_req_seq_no
    ∧ (∀ r ∈ registered a, r.addr ≠ req.addr →
        r ∈ registered (zfcp_fsf_req_send K req clock qdio_send a).2)
    ∧ ((∀ r ∈ registered a, r.addr ≠ req.addr) →
        (zfcp_fsf_req_send K req clock qdio_send a).2.req_list = a.req_list) := by
  refine ⟨?_, ?_, ?_, ?_⟩
  · unfold zfcp_fsf_req_send
    simp only [hsend, ne_eq, not_false_eq_true, if_true]
    split <;> simp [zfcp_reqlist_remove, zfcp_adapter.emit]
  · unfold zfcp_fsf_req_send
    simp only [hsend, ne_eq, not_false_eq_true, if_true]
    split <;> simp [zfcp_reqlist_remove, zfcp_adapter.emit]
  · intro r hr hne
    have hadd := mem_flatten_list_add_tail (stamped req clock a) r
      (K.zfcp_reqlist_hash req.req_id) a.req_list hr
    unfold zfcp_fsf_req_send registered
    simp only [hsend, ne_eq, not_false_eq_true, if_true]
    split
    · simp only [zfcp_reqlist_remove, emit_req_list]
      rw [list_del_flatten, List.mem_filter]
      refine ⟨hadd, ?_⟩
      simpa [stamped] using hne
    · simp only [emit_req_list]
      exact hadd
  · intro hfresh
    unfold zfcp_fsf_req_send
    simp only [hsend, ne_eq, not_false_eq_true, if_true]
    split
    · simp only [zfcp_reqlist_remove, emit_req_list]
      exact list_del_list_add_tail _ _ _ (fun x hx => hfresh x hx)
    · rename_i hnone
      have hn := (find_safe_none_iff _ _).mp (Option.not_isSome_iff_eq_none.mp hnone)
      by_cases hidx : K.zfcp_reqlist_hash req.req_id < a.req_list.length
      · exfalso
        have hp := flatten_list_add_tail_perm (stamped req clock a) _ a.req_list hidx
        exact hn _ (hp.symm.subset (List.mem_cons_self _ _)) rfl
      · simp only [emit_req_list]
        exact list_add_tail_of_le _ _ _ (Nat.le_of_not_lt hidx)

/-- The sequence number of a request that `zfcp_fsf_req_create` returns: the
adapter's counter for a request with control block, zero for a request for
unsolicited status, which gets no control block. -/
theorem create_ok_seq_no (K : Decls) (fsf_cmd : Nat) (pool : Bool) (alloc : Option Nat)
    (alloc_qtcb : Bool) (a a1 : zfcp_adapter) (req : zfcp_fsf_req)
    (h : zfcp_fsf_req_create K fsf_cmd pool alloc alloc_qtcb a = (.ok req, a1)) :
    a1.fsf_req_seq_no = a.fsf_req_seq_no
    ∧ (fsf_cmd ≠ K.FSF_QTCB_UNSOLICITED_STATUS →
        req.seq_no = a.fsf_req_seq_no
        ∧ req.qtcb.map (fun q => q.pfx.req_seq_no) = some a.fsf_req_seq_no)
    ∧ (fsf_cmd = K.FSF_QTCB_UNSOLICITED_STATUS → req.seq_no = 0 ∧ req.qtcb = none) := by
  cases alloc with
  | none => rw [create_none] at h; cases h
  | some p =>
    unfold zfcp_fsf_req_create at h
    dsimp only at h
    by_cases hu : fsf_cmd = K.FSF_QTCB_UNSOLICITED_STATUS
    · simp only [hu, ne_eq, not_true_eq_false, if_false, Prod.mk.injEq, Except.ok.injEq] at h
      obtain ⟨h1, h2⟩ := h
      subst h1; subst h2
      refine ⟨?_, fun hn => absurd hu hn, fun _ => ⟨rfl, rfl⟩⟩
      split <;> rfl
    · simp only [hu, ne_eq, not_false_eq_true, if_true] at h
      cases alloc_qtcb with
      | false => simp at h
      | true =>
        simp only [if_true, Prod.mk.injEq, Except.ok.injEq] at h
        obtain ⟨h1, h2⟩ := h
        subst h1; subst h2
        refine ⟨?_, fun _ => ⟨?_, ?_⟩, fun hn => absurd hn hu⟩
        · split <;> rfl
        · dsimp only
          split <;> rfl
        · dsimp only [Option.map]
          split <;> rfl

theorem scsi_done_calls_append (l1 l2 : List Ev) :
    scsi_done_calls (l1 ++ l2) = scsi_done_calls l1 + scsi_done_calls l2 := by
  unfold scsi_done_calls
  rw [List.filter_append, List.length_append]

/-- The part of `zfcp_fsf_send_fcp_command_task_handler` from the label
`skip_fsfstatus` on: one trace call, the store of `NULL` into
`host_scribble`, the callback, the unlock. -/
theorem task_handler_tail (scpnt reqaddr result retries : Nat) (a b : zfcp_adapter)
    (pre : List Ev)
    (hb : b = { a with log := a.log ++ [.read_lock_irqsave "abort_lock"] ++ pre })
    (hpre : scsi_done_calls pre = 0) :
    ∃ mid,
      (((if result ≠ 0 then b.emit (.zfcp_dbf_scsi_result "erro" 3 scpnt reqaddr)
          else if retries > 0 then b.emit (.zfcp_dbf_scsi_result "retr" 4 scpnt reqaddr)
          else b.emit (.zfcp_dbf_scsi_result "norm" 6 scpnt reqaddr)).emit
            (.host_scribble scpnt 0)).emit (.scsi_done scpnt)).emit
              (.read_unlock_irqrestore "abort_lock")
        = { a with log := a.log ++ [.read_lock_irqsave "abort_lock"] ++ mid
              ++ [.host_scribble scpnt 0, .scsi_done scpnt,
                  .read_unlock_irqrestore "abort_lock"] }
      ∧ scsi_done_calls mid = 0 := by
  subst hb
  split
  · refine ⟨pre ++ [.zfcp_dbf_scsi_result "erro" 3 scpnt reqaddr], by simp [zfcp_adapter.emit], ?_⟩
    rw [scsi_done_calls_append, hpre]; rfl
  · split
    · refine ⟨pre ++ [.zfcp_dbf_scsi_result "retr" 4 scpnt reqaddr],
        by simp [zfcp_adapter.emit], ?_⟩
      rw [scsi_done_calls_append, hpre]; rfl
    · refine ⟨pre ++ [.zfcp_dbf_scsi_result "norm" 6 scpnt reqaddr],
        by simp [zfcp_adapter.emit], ?_⟩
      rw [scsi_done_calls_append, hpre]; rfl

/-- The shape of a run of `zfcp_fsf_send_fcp_command_task_handler` for a
request that refers to a command: the lock is taken, some calls that are not
the callback follow, then `host_scribble` is cleared, the callback is made and
the lock is released. -/
theorem task_handler_shape (K : Decls) (W : ScsiDecls) (req : zfcp_fsf_req)
    (result retries : Nat) (a : zfcp_adapter)
    (hdata : req.data ≠ 0)
    (hq : req.status &&& K.ZFCP_STATUS_FSFREQ_ERROR ≠ 0 ∨ req.qtcb ≠ none) :
    ∃ mid, zfcp_fsf_send_fcp_command_task_handler K W req result retries a
        = { a with log := a.log ++ [.read_lock_irqsave "abort_lock"] ++ mid
              ++ [.host_scribble req.data 0, .scsi_done req.data,
                  .read_unlock_irqrestore "abort_lock"] }
      ∧ scsi_done_calls mid = 0 := by
  unfold zfcp_fsf_send_fcp_command_task_handler
  dsimp only
  rw [if_neg hdata]
  by_cases herr : req.status &&& K.ZFCP_STATUS_FSFREQ_ERROR ≠ 0
  · rw [if_pos herr]
    exact task_handler_tail _ _ _ _ a _
      [.set_host_byte req.data W.DID_TRANSPORT_DISRUPTED] (by simp [zfcp_adapter.emit]) rfl
  · rw [if_neg herr]
    rcases hq with h | h
    · exact absurd h herr
    · cases hqt : req.qtcb with
      | none => exact absurd hqt h
      | some qtcb =>
        dsimp only
        by_cases h1 : qtcb.header.fsf_status = W.FSF_INCONSISTENT_PROT_DATA
            ∨ qtcb.header.fsf_status = W.FSF_INVALID_PROT_PARM
        · rw [if_pos h1]
          exact task_handler_tail _ _ _ _ a _
            [.set_host_byte req.data W.DID_ERROR] (by simp [zfcp_adapter.emit]) rfl
        · rw [if_neg h1]
          by_cases h2 : qtcb.header.fsf_status = W.FSF_BLOCK_GUARD_CHECK_FAILURE
          · rw [if_pos h2]
            exact task_handler_tail _ _ _ _ a _
              [.zfcp_scsi_dif_sense_error req.data 0x1] (by simp [zfcp_adapter.emit]) rfl
          · rw [if_neg h2]
            by_cases h3 : qtcb.header.fsf_status = W.FSF_APP_TAG_CHECK_FAILURE
            · rw [if_pos h3]
              exact task_handler_tail _ _ _ _ a _
                [.zfcp_scsi_dif_sense_error req.data 0x2] (by simp [zfcp_adapter.emit]) rfl
            · rw [if_neg h3]
              by_cases h4 : qtcb.header.fsf_status = W.FSF_REF_TAG_CHECK_FAILURE
              · rw [if_pos h4]
                exact task_handler_tail _ _ _ _ a _
                  [.zfcp_scsi_dif_sense_error req.data 0x3] (by simp [zfcp_adapter.emit]) rfl
              · rw [if_neg h4]
                have e1 : ((a.emit (.read_lock_irqsave "abort_lock")).emit
                    (.zfcp_fc_eval_fcp_rsp req.addr req.data)).adapter_features
                    = a.adapter_features := rfl
                rw [e1]
                by_cases hf : a.adapter_features &&& W.FSF_FEATURE_MEASUREMENT_DATA ≠ 0
                · rw [if_pos hf]
                  exact task_handler_tail _ _ _ _ a _
                    [.zfcp_fc_eval_fcp_rsp req.addr req.data, .zfcp_fsf_req_latency req.addr,
                      .zfcp_fsf_trace_latency req.addr] (by simp [zfcp_adapter.emit]) rfl
                · rw [if_neg hf]
                  exact task_handler_tail _ _ _ _ a _
                    [.zfcp_fc_eval_fcp_rsp req.addr req.data,
                      .zfcp_fsf_trace_latency req.addr] (by simp [zfcp_adapter.emit]) rfl

theorem mem_of_mem_flatten_list_add_tail (r x : zfcp_fsf_req) (idx : Nat)
    (l : List (List zfcp_fsf_req)) (hx : x ∈ (list_add_tail r idx l).flatten) :
    x = r ∨ x ∈ l.flatten := by
  obtain ⟨l2, hp, hs⟩ := flatten_list_add_tail_sublist r idx l
  exact List.mem_cons.mp (hs.subset (hp.subset hx))

/-- A refused send registers nothing: every request in the table afterwards
was in it before. -/
theorem send_fail_registered_subset (K : Decls) (req : zfcp_fsf_req) (clock : Nat)
    (qdio_send : Int) (a : zfcp_adapter) (hsend : qdio_send ≠ 0) :
    ∀ r ∈ registered (zfcp_fsf_req_send K req clock qdio_send a).2, r ∈ registered a := by
  intro r hr
  have hne : r.addr ≠ req.addr := by
    revert r
    unfold zfcp_fsf_req_send
    simp only [hsend, ne_eq, not_false_eq_true, if_true]
    split
    · intro r hr
      exact registered_remove _ _ r hr
    · rename_i hnone
      intro r hr
      exact (find_safe_none_iff _ _).mp (Option.not_isSome_iff_eq_none.mp hnone) r hr
  have hsub := (send_registered_sublist K req clock qdio_send a).subset hr
  rcases mem_of_mem_flatten_list_add_tail _ _ _ _ hsub with h | h
  · rw [h] at hne
    exact absurd rfl hne
  · exact h

theorem reqid_check_loop_req_no (K : Decls) (E : Env) (hE : E.Frame) (sbal_idx : Nat)
    (elems : List qdio_buffer_element) (a a2 : zfcp_adapter)
    (h : reqid_check_loop K E sbal_idx elems a = .returned a2) :
    a2.req_no = a.req_no := by
  induction elems generalizing a with
  | nil =>
    simp only [reqid_check_loop, Outcome.returned.injEq] at h
    rw [h]
  | cons e es ih =>
    cases hf : zfcp_reqlist_find K a e.addr with
    | none => rw [reqid_check_loop_none K E sbal_idx e es a hf] at h; cases h
    | some r =>
      obtain ⟨a1, hstep, _, _, hno, _⟩ := reqid_check_loop_cons K E hE sbal_idx e es a r hf
      rw [hstep] at h
      split at h
      · simp only [Outcome.returned.injEq] at h
        rw [← h]; exact hno
      · exact (ih a1 h).trans hno

theorem dismiss_all_req_no (K : Decls) (E : Env) (hE : E.Frame) (a a2 : zfcp_adapter)
    (h : zfcp_fsf_req_dismiss_all K E a = .returned a2) : a2.req_no = a.req_no := by
  unfold zfcp_fsf_req_dismiss_all at h
  split at h
  · cases h
  · simp only [Outcome.returned.injEq] at h
    have hfr := (dismiss_queue_frame K E hE (splice_buckets K a.req_list).2
      { a with req_list := (splice_buckets K a.req_list).1 }).2.1
    rw [h] at hfr
    exact hfr

end Zfcp

namespace Mce

/-! ## Lemmas on the storm control -/

theorem set_cpu_self (cpu : Nat) (f : cmci_cpu → cmci_cpu) (s : mce_state) :
    (set_cpu cpu f s).cpu_vars cpu = f (s.cpu_vars cpu) := by
  simp [set_cpu]

theorem set_cpu_other (cpu c : Nat) (f : cmci_cpu → cmci_cpu) (s : mce_state) (h : c ≠ cpu) :
    (set_cpu cpu f s).cpu_vars c = s.cpu_vars c := by
  simp [set_cpu, h]

theorem set_cpu_ctl2 (cpu : Nat) (f : cmci_cpu → cmci_cpu) (s : mce_state) :
    (set_cpu cpu f s).ctl2 = s.ctl2 := rfl

theorem set_cpu_on_cpus (cpu : Nat) (f : cmci_cpu → cmci_cpu) (s : mce_state) :
    (set_cpu cpu f s).cmci_storm_on_cpus = s.cmci_storm_on_cpus := rfl

theorem set_cpu_log (cpu : Nat) (f : cmci_cpu → cmci_cpu) (s : mce_state) :
    (set_cpu cpu f s).log = s.log := rfl

theorem emit_cpu_vars (s : mce_state) (e : MceEv) : (s.emit e).cpu_vars = s.cpu_vars := rfl

theorem emit_ctl2 (s : mce_state) (e : MceEv) : (s.emit e).ctl2 = s.ctl2 := rfl

theorem emit_on_cpus (s : mce_state) (e : MceEv) :
    (s.emit e).cmci_storm_on_cpus = s.cmci_storm_on_cpus := rfl

theorem wrmsrl_cpu_vars (M : MceDecls) (H : mce_config) (cpu bank val : Nat) (s : mce_state) :
    (wrmsrl M H cpu bank val s).cpu_vars = s.cpu_vars := rfl

theorem wrmsrl_on_cpus (M : MceDecls) (H : mce_config) (cpu bank val : Nat) (s : mce_state) :
    (wrmsrl M H cpu bank val s).cmci_storm_on_cpus = s.cmci_storm_on_cpus := rfl

theorem wrmsrl_log (M : MceDecls) (H : mce_config) (cpu bank val : Nat) (s : mce_state) :
    (wrmsrl M H cpu bank val s).log = s.log := rfl

theorem clear_mask_and_mask (m v : Nat) : clear_mask m v &&& m = 0 := by
  unfold clear_mask
  apply Nat.eq_of_testBit_eq; intro i
  simp

theorem clear_mask_idem (m v : Nat) : clear_mask m (clear_mask m v) = clear_mask m v := by
  unfold clear_mask
  apply Nat.eq_of_testBit_eq; intro i
  simp
  cases v.testBit i <;> cases m.testBit i <;> rfl

theorem clear_mask_of_clear (m v : Nat) (h : v &&& m = 0) : clear_mask m v = v := by
  unfold clear_mask
  rw [h, Nat.xor_zero]

/-- One round of `cmci_storm_disable_banks`, register by register. -/
theorem storm_disable_bank_ctl2 (M : MceDecls) (H : mce_config) (cpu bank : Nat) (s : mce_state)
    (r : Nat) :
    (storm_disable_bank M H cpu s bank).ctl2 r
      = if r = H.reg cpu bank then clear_mask M.MCI_CTL2_CMCI_EN (s.ctl2 r) else s.ctl2 r := by
  unfold storm_disable_bank wrmsrl rdmsrl
  by_cases hr : r = H.reg cpu bank
  · subst hr
    simp only [if_true]
    split
    · rfl
    · exact clear_mask_idem _ _
  · simp only [if_neg hr]

theorem storm_disable_fold (M : MceDecls) (H : mce_config) (cpu : Nat) (l : List Nat)
    (s : mce_state) :
    (l.foldl (storm_disable_bank M H cpu) s).cpu_vars = s.cpu_vars
    ∧ (l.foldl (storm_disable_bank M H cpu) s).cmci_storm_on_cpus = s.cmci_storm_on_cpus
    ∧ (l.foldl (storm_disable_bank M H cpu) s).log = s.log
    ∧ ∀ r, (l.foldl (storm_disable_bank M H cpu) s).ctl2 r
        = if ∃ b ∈ l, r = H.reg cpu b then clear_mask M.MCI_CTL2_CMCI_EN (s.ctl2 r)
          else s.ctl2 r := by
  induction l generalizing s with
  | nil => simp
  | cons b bs ih =>
    obtain ⟨i1, i2, i3, i4⟩ := ih (storm_disable_bank M H cpu s b)
    rw [List.foldl_cons]
    refine ⟨i1, i2, i3, ?_⟩
    intro r
    rw [i4 r, storm_disable_bank_ctl2]
    by_cases hb : r = H.reg cpu b
    · simp only [hb, if_true, clear_mask_idem, List.mem_cons, exists_eq_or_imp, true_or,
        ite_self]
    · simp only [hb, if_false, List.mem_cons, exists_eq_or_imp, false_or]

/-- What `cmci_storm_disable_banks` leaves: the enable bit is clear in the
register of every owned bank below `MAX_NR_BANKS`, and nothing else changes. -/
theorem storm_disable_banks_spec (M : MceDecls) (H : mce_config) (cpu : Nat) (s : mce_state) :
    (cmci_storm_disable_banks M H cpu s).cpu_vars = s.cpu_vars
    ∧ (cmci_storm_disable_banks M H cpu s).cmci_storm_on_cpus = s.cmci_storm_on_cpus
    ∧ (cmci_storm_disable_banks M H cpu s).log = s.log
    ∧ (∀ bank, bank < M.MAX_NR_BANKS → test_bit bank (s.cpu_vars cpu).mce_banks_owned = true →
        (cmci_storm_disable_banks M H cpu s).ctl2 (H.reg cpu bank) &&& M.MCI_CTL2_CMCI_EN = 0)
    ∧ (∀ r, clear_mask M.MCI_CTL2_CMCI_EN ((cmci_storm_disable_banks M H cpu s).ctl2 r)
        = clear_mask M.MCI_CTL2_CMCI_EN (s.ctl2 r))
    ∧ (∀ r, (∀ bank, bank < M.MAX_NR_BANKS →
          test_bit bank (s.cpu_vars cpu).mce_banks_owned = true → r ≠ H.reg cpu bank) →
        (cmci_storm_disable_banks M H cpu s).ctl2 r = s.ctl2 r) := by
  obtain ⟨f1, f2, f3, f4⟩ := storm_disable_fold M H cpu
    ((List.range M.MAX_NR_BANKS).filter
      (fun bank => test_bit bank (s.cpu_vars cpu).mce_banks_owned)) s
  refine ⟨f1, f2, f3, ?_, ?_, ?_⟩
  · intro bank hb ho
    unfold cmci_storm_disable_banks
    rw [f4, if_pos ⟨bank, by simp [hb, ho], rfl⟩]
    exact clear_mask_and_mask _ _
  · intro r
    unfold cmci_storm_disable_banks
    rw [f4]
    split
    · exact clear_mask_idem _ _
    · rfl
  · intro r hr
    unfold cmci_storm_disable_banks
    rw [f4, if_neg]
    rintro ⟨b, hb, rfl⟩
    simp only [List.mem_filter, List.mem_range] at hb
    exact hr b hb.1 hb.2 rfl

/-- The interrupt at `now` falls in the window that the time stamp of
processor `cpu` opened. -/
theorem detect_none_in_window_below (M : MceDecls) (H : mce_config) (cpu now : Nat)
    (s : mce_state)
    (hnone : (s.cpu_vars cpu).cmci_storm_state = CMCI_STORM_NONE)
    (hin : time_before_eq M.BITS_PER_LONG now
      ((s.cpu_vars cpu).cmci_time_stamp + CMCI_STORM_INTERVAL M) = true)
    (hcnt : (s.cpu_vars cpu).cmci_storm_cnt + 1 ≤ CMCI_STORM_THRESHOLD) :
    cmci_storm_detect M H cpu now s
      = (false, set_cpu cpu (fun v => { v with cmci_storm_cnt := v.cmci_storm_cnt + 1 }) s) := by
  have hmod : ((s.cpu_vars cpu).cmci_storm_cnt + 1) % 2 ^ 32
      = (s.cpu_vars cpu).cmci_storm_cnt + 1 := by
    apply Nat.mod_eq_of_lt
    unfold CMCI_STORM_THRESHOLD at hcnt
    omega
  unfold cmci_storm_detect
  rw [if_neg (not_not.mpr hnone)]
  simp only [hin, if_true, set_cpu_self, hmod]
  rw [if_pos hcnt]
  unfold set_cpu
  simp only [hmod]

theorem detect_none_new_window (M : MceDecls) (H : mce_config) (cpu now : Nat)
    (s : mce_state)
    (hnone : (s.cpu_vars cpu).cmci_storm_state = CMCI_STORM_NONE)
    (hout : time_before_eq M.BITS_PER_LONG now
      ((s.cpu_vars cpu).cmci_time_stamp + CMCI_STORM_INTERVAL M) = false) :
    cmci_storm_detect M H cpu now s
      = (false, set_cpu cpu (fun v => { v with cmci_storm_cnt := 1, cmci_time_stamp := now }) s) := by
  unfold cmci_storm_detect
  rw [if_neg (not_not.mpr hnone)]
  simp only [hout, Bool.false_eq_true, if_false, set_cpu_self]
  rw [if_pos (by decide)]

theorem detect_not_none (M : MceDecls) (H : mce_config) (cpu now : Nat) (s : mce_state)
    (h : (s.cpu_vars cpu).cmci_storm_state ≠ CMCI_STORM_NONE) :
    cmci_storm_detect M H cpu now s = (true, s) := by
  unfold cmci_storm_detect
  rw [if_pos h]

/-- The state that `cmci_storm_detect` leaves when it finds a storm, before
the notice is printed. -/
theorem detect_none_in_window_above (M : MceDecls) (H : mce_config) (cpu now : Nat)
    (s : mce_state)
    (hnone : (s.cpu_vars cpu).cmci_storm_state = CMCI_STORM_NONE)
    (hin : time_before_eq M.BITS_PER_LONG now
      ((s.cpu_vars cpu).cmci_time_stamp + CMCI_STORM_INTERVAL M) = true)
    (hcnt : (s.cpu_vars cpu).cmci_storm_cnt = CMCI_STORM_THRESHOLD) :
    (cmci_storm_detect M H cpu now s).1 = true
    ∧ ((cmci_storm_detect M H cpu now s).2.cpu_vars cpu).cmci_storm_state = CMCI_STORM_ACTIVE
    ∧ ((cmci_storm_detect M H cpu now s).2.cpu_vars cpu).cmci_backoff_cnt
        = M.INITIAL_CHECK_INTERVAL
    ∧ ((cmci_storm_detect M H cpu now s).2.cpu_vars cpu).mce_banks_owned
        = (s.cpu_vars cpu).mce_banks_owned
    ∧ (cmci_storm_detect M H cpu now s).2.cmci_storm_on_cpus = s.cmci_storm_on_cpus + 1
    ∧ (cmci_storm_detect M H cpu now s).2.ctl2
        = (cmci_storm_disable_banks M H cpu s).ctl2
    ∧ (∀ c, c ≠ cpu → (cmci_storm_detect M H cpu now s).2.cpu_vars c = s.cpu_vars c) := by
  have hmod : ((s.cpu_vars cpu).cmci_storm_cnt + 1) % 2 ^ 32 = 16 := by
    rw [hcnt]; rfl
  have hdis := storm_disable_banks_spec M H cpu
    (set_cpu cpu (fun v => { v with cmci_storm_cnt := (v.cmci_storm_cnt + 1) % 2 ^ 32 }) s)
  obtain ⟨d1, d2, d3, _, _, _⟩ := hdis
  have hctl : (cmci_storm_disable_banks M H cpu
      (set_cpu cpu (fun v => { v with cmci_storm_cnt := (v.cmci_storm_cnt + 1) % 2 ^ 32 }) s)).ctl2
      = (cmci_storm_disable_banks M H cpu s).ctl2 := by
    unfold cmci_storm_disable_banks
    funext r
    rw [set_cpu_self]
    rw [(storm_disable_fold M H cpu _ _).2.2.2 r, (storm_disable_fold M H cpu _ _).2.2.2 r]
    rfl
  unfold cmci_storm_detect
  rw [if_neg (not_not.mpr hnone)]
  simp only [hin, if_true, set_cpu_self, hmod]
  rw [if_neg (by decide)]
  split <;>
    refine ⟨rfl, ?_, ?_, ?_, ?_, ?_, ?_⟩ <;>
    simp only [emit_cpu_vars, emit_ctl2, emit_on_cpus, set_cpu_self, set_cpu_ctl2,
      set_cpu_on_cpus, d1, d2, hctl] <;>
    first
    | rfl
    | (intro c hc; simp only [set_cpu_other _ _ _ _ hc, emit_cpu_vars, d1])

theorem storm_disable_banks_ctl2_congr (M : MceDecls) (H : mce_config) (cpu : Nat)
    (s t : mce_state) (hc : t.ctl2 = s.ctl2)
    (ho : (t.cpu_vars cpu).mce_banks_owned = (s.cpu_vars cpu).mce_banks_owned) :
    (cmci_storm_disable_banks M H cpu t).ctl2 = (cmci_storm_disable_banks M H cpu s).ctl2 := by
  unfold cmci_storm_disable_banks
  funext r
  rw [(storm_disable_fold M H cpu _ _).2.2.2 r, (storm_disable_fold M H cpu _ _).2.2.2 r, ho, hc]

theorem interrupt_not_none (M : MceDecls) (H : mce_config) (cpu now : Nat) (s : mce_state)
    (h : (s.cpu_vars cpu).cmci_storm_state ≠ CMCI_STORM_NONE) :
    intel_threshold_interrupt M H cpu now s = s := by
  unfold intel_threshold_interrupt
  rw [detect_not_none M H cpu now s h]
  rfl

theorem interrupts_not_none (M : MceDecls) (H : mce_config) (cpu : Nat) (nows : List Nat)
    (s : mce_state) (h : (s.cpu_vars cpu).cmci_storm_state ≠ CMCI_STORM_NONE) :
    interrupts M H cpu nows s = s := by
  induction nows with
  | nil => rfl
  | cons n ns ih =>
    unfold interrupts at ih ⊢
    rw [List.foldl_cons, interrupt_not_none M H cpu n s h]
    exact ih

theorem interrupts_cons (M : MceDecls) (H : mce_config) (cpu now : Nat) (nows : List Nat)
    (s : mce_state) :
    interrupts M H cpu (now :: nows) s
      = interrupts M H cpu nows (intel_threshold_interrupt M H cpu now s) := rfl

/-- A run of interrupts that all fall in the window of the time stamp, from a
processor in state NONE whose count is at most the threshold. -/
theorem interrupts_in_window (M : MceDecls) (H : mce_config) (cpu : Nat) (nows : List Nat)
    (s : mce_state)
    (hnone : (s.cpu_vars cpu).cmci_storm_state = CMCI_STORM_NONE)
    (hcnt : (s.cpu_vars cpu).cmci_storm_cnt ≤ CMCI_STORM_THRESHOLD)
    (hin : ∀ n ∈ nows, time_before_eq M.BITS_PER_LONG n
      ((s.cpu_vars cpu).cmci_time_stamp + CMCI_STORM_INTERVAL M) = true) :
    ((s.cpu_vars cpu).cmci_storm_cnt + nows.length ≤ CMCI_STORM_THRESHOLD →
      (interrupts M H cpu nows s).cpu_vars cpu
          = { s.cpu_vars cpu with
              cmci_storm_cnt := (s.cpu_vars cpu).cmci_storm_cnt + nows.length }
      ∧ (interrupts M H cpu nows s).ctl2 = s.ctl2
      ∧ (interrupts M H cpu nows s).cmci_storm_on_cpus = s.cmci_storm_on_cpus
      ∧ ∀ c, c ≠ cpu → (interrupts M H cpu nows s).cpu_vars c = s.cpu_vars c)
    ∧ (CMCI_STORM_THRESHOLD < (s.cpu_vars cpu).cmci_storm_cnt + nows.length →
      ((interrupts M H cpu nows s).cpu_vars cpu).cmci_storm_state = CMCI_STORM_ACTIVE
      ∧ ((interrupts M H cpu nows s).cpu_vars cpu).cmci_backoff_cnt = M.INITIAL_CHECK_INTERVAL
      ∧ ((interrupts M H cpu nows s).cpu_vars cpu).mce_banks_owned
          = (s.cpu_vars cpu).mce_banks_owned
      ∧ (interrupts M H cpu nows s).cmci_storm_on_cpus = s.cmci_storm_on_cpus + 1
      ∧ (interrupts M H cpu nows s).ctl2 = (cmci_storm_disable_banks M H cpu s).ctl2
      ∧ ∀ c, c ≠ cpu → (interrupts M H cpu nows s).cpu_vars c = s.cpu_vars c) := by
  induction nows generalizing s with
  | nil =>
    refine ⟨fun _ => ⟨rfl, rfl, rfl, fun _ _ => rfl⟩, fun h => ?_⟩
    simp only [List.length_nil, Nat.add_zero] at h
    omega
  | cons n ns ih =>
    have hn := hin n (List.mem_cons_self n ns)
    rw [interrupts_cons]
    by_cases hlt : (s.cpu_vars cpu).cmci_storm_cnt + 1 ≤ CMCI_STORM_THRESHOLD
    · have hstep : intel_threshold_interrupt M H cpu n s
          = ((set_cpu cpu (fun v => { v with cmci_storm_cnt := v.cmci_storm_cnt + 1 }) s).emit
              (.machine_check_poll cpu)).emit (.mce_notify_irq cpu) := by
        unfold intel_threshold_interrupt
        rw [detect_none_in_window_below M H cpu n s hnone hn hlt]
        rfl
      rw [hstep]
      have hv : (((set_cpu cpu (fun v => { v with cmci_storm_cnt := v.cmci_storm_cnt + 1 })
          s).emit (.machine_check_poll cpu)).emit (.mce_notify_irq cpu)).cpu_vars cpu
          = { s.cpu_vars cpu with cmci_storm_cnt := (s.cpu_vars cpu).cmci_storm_cnt + 1 } := by
        rw [emit_cpu_vars, emit_cpu_vars]
        exact set_cpu_self cpu _ s
      obtain ⟨i1, i2⟩ := ih
        (((set_cpu cpu (fun v => { v with cmci_storm_cnt := v.cmci_storm_cnt + 1 }) s).emit
          (.machine_check_poll cpu)).emit (.mce_notify_irq cpu))
        (by rw [hv]; exact hnone) (by rw [hv]; exact hlt)
        (by rw [hv]; exact fun m hm => hin m (List.mem_cons_of_mem n hm))
      rw [hv] at i1 i2
      have hlen : (s.cpu_vars cpu).cmci_storm_cnt + (n :: ns).length
          = (s.cpu_vars cpu).cmci_storm_cnt + 1 + ns.length := by
        rw [List.length_cons]; omega
      rw [hlen]
      constructor
      · intro h
        obtain ⟨a1, a2, a3, a4⟩ := i1 h
        refine ⟨a1, a2, a3, fun c hc => ?_⟩
        rw [a4 c hc, emit_cpu_vars, emit_cpu_vars]
        exact set_cpu_other cpu c _ s hc
      · intro h
        obtain ⟨a1, a2, a3, a4, a5, a6⟩ := i2 h
        refine ⟨a1, a2, a3, a4, ?_, fun c hc => ?_⟩
        · rw [a5]
          exact storm_disable_banks_ctl2_congr M H cpu s _ rfl (by rw [hv])
        · rw [a6 c hc, emit_cpu_vars, emit_cpu_vars]
          exact set_cpu_other cpu c _ s hc
    · have heq : (s.cpu_vars cpu).cmci_storm_cnt = CMCI_STORM_THRESHOLD := by omega
      obtain ⟨b1, b2, b3, b4, b5, b6, b7⟩ := detect_none_in_window_above M H cpu n s hnone hn heq
      have hstep : intel_threshold_interrupt M H cpu n s = (cmci_storm_detect M H cpu n s).2 := by
        unfold intel_threshold_interrupt
        simp only [b1, if_true]
      rw [hstep, interrupts_not_none M H cpu ns _ (by rw [b2]; decide)]
      constructor
      · intro h
        rw [List.length_cons] at h
        omega
      · intro _
        exact ⟨b2, b3, b4, b5, b6, b7⟩

theorem test_bit_set_bit_ne (i b bitmap : Nat) (h : b ≠ i) :
    test_bit b (set_bit i bitmap) = test_bit b bitmap := by
  unfold test_bit set_bit
  rw [Nat.testBit_or, Nat.one_shiftLeft, Nat.testBit_two_pow_of_ne (Ne.symm h), Bool.or_false]

theorem test_bit_clear_bit_ne (i b bitmap : Nat) (h : b ≠ i) :
    test_bit b (clear_bit i bitmap) = test_bit b bitmap := by
  unfold test_bit clear_bit clear_mask
  rw [Nat.testBit_xor, Nat.testBit_and, Nat.one_shiftLeft, Nat.testBit_two_pow_of_ne (Ne.symm h),
    Bool.and_false, Bool.xor_false]

theorem wrmsrl_ctl2_ne (M : MceDecls) (H : mce_config) (cpu bank val : Nat) (s : mce_state)
    (r : Nat) (h : r ≠ H.reg cpu bank) : (wrmsrl M H cpu bank val s).ctl2 r = s.ctl2 r := by
  unfold wrmsrl
  simp only [if_neg h]

/-- One round of `cmci_discover` leaves alone every bank that the processor
owns already: its bit stays set and its register is not written. -/
theorem discover_bank_keeps_owned (M : MceDecls) (H : mce_config) (cpu : Nat)
    (st : discover_loop) (i b : Nat)
    (hinj : ∀ b1 b2, H.reg cpu b1 = H.reg cpu b2 → b1 = b2)
    (hb : test_bit b (st.s.cpu_vars cpu).mce_banks_owned = true) :
    test_bit b ((cmci_discover_bank M H cpu st i).s.cpu_vars cpu).mce_banks_owned = true
    ∧ (cmci_discover_bank M H cpu st i).s.ctl2 (H.reg cpu b) = st.s.ctl2 (H.reg cpu b)
    ∧ (cmci_discover_bank M H cpu st i).s.cmci_storm_on_cpus = st.s.cmci_storm_on_cpus
    ∧ ((cmci_discover_bank M H cpu st i).s.cpu_vars cpu).cmci_storm_state
        = (st.s.cpu_vars cpu).cmci_storm_state := by
  unfold cmci_discover_bank
  by_cases hi : test_bit i (st.s.cpu_vars cpu).mce_banks_owned = true
  · rw [if_pos hi]
    exact ⟨hb, rfl, rfl, rfl⟩
  · have hne : b ≠ i := by
      intro h; rw [h] at hb; exact hi hb
    have hreg : H.reg cpu b ≠ H.reg cpu i := fun h => hne (hinj b i h)
    rw [if_neg hi]
    split
    · exact ⟨hb, rfl, rfl, rfl⟩
    · split
      · refine ⟨?_, rfl, rfl, ?_⟩
        · rw [set_cpu_self]
          show test_bit b (clear_bit i _) = true
          rw [test_bit_clear_bit_ne i b _ hne]
          exact hb
        · rw [set_cpu_self]
      · dsimp only
        split
        · refine ⟨?_, ?_, rfl, ?_⟩
          · rw [set_cpu_self]
            show test_bit b (set_bit i _) = true
            rw [test_bit_set_bit_ne i b _ hne]
            exact hb
          · rw [set_cpu_ctl2]
            exact wrmsrl_ctl2_ne M H cpu i _ st.s _ hreg
          · rw [set_cpu_self]
            rfl
        · split
          · exact ⟨hb, wrmsrl_ctl2_ne M H cpu i _ st.s _ hreg, rfl, rfl⟩
          · exact ⟨hb, wrmsrl_ctl2_ne M H cpu i _ st.s _ hreg, rfl, rfl⟩

theorem discover_fold_keeps_owned (M : MceDecls) (H : mce_config) (cpu : Nat) (l : List Nat)
    (st : discover_loop) (b : Nat)
    (hinj : ∀ b1 b2, H.reg cpu b1 = H.reg cpu b2 → b1 = b2)
    (hb : test_bit b (st.s.cpu_vars cpu).mce_banks_owned = true) :
    test_bit b ((l.foldl (cmci_discover_bank M H cpu) st).s.cpu_vars cpu).mce_banks_owned = true
    ∧ (l.foldl (cmci_discover_bank M H cpu) st).s.ctl2 (H.reg cpu b) = st.s.ctl2 (H.reg cpu b)
    ∧ (l.foldl (cmci_discover_bank M H cpu) st).s.cmci_storm_on_cpus = st.s.cmci_storm_on_cpus
    ∧ ((l.foldl (cmci_discover_bank M H cpu) st).s.cpu_vars cpu).cmci_storm_state
        = (st.s.cpu_vars cpu).cmci_storm_state := by
  induction l generalizing st with
  | nil => exact ⟨hb, rfl, rfl, rfl⟩
  | cons i is ih =>
    obtain ⟨k1, k2, k3, k4⟩ := discover_bank_keeps_owned M H cpu st i b hinj hb
    obtain ⟨j1, j2, j3, j4⟩ := ih (cmci_discover_bank M H cpu st i) k1
    rw [List.foldl_cons]
    exact ⟨j1, j2.trans k2, j3.trans k3, j4.trans k4⟩

/-- `cmci_discover`, and so `cmci_reenable`, passes over the banks that the
processor owns: their registers are as before the call. -/
theorem reenable_keeps_owned (M : MceDecls) (H : mce_config) (cpu : Nat) (s : mce_state)
    (b : Nat) (hinj : ∀ b1 b2, H.reg cpu b1 = H.reg cpu b2 → b1 = b2)
    (hb : test_bit b (s.cpu_vars cpu).mce_banks_owned = true) :
    test_bit b ((cmci_reenable M H cpu s).cpu_vars cpu).mce_banks_owned = true
    ∧ (cmci_reenable M H cpu s).ctl2 (H.reg cpu b) = s.ctl2 (H.reg cpu b)
    ∧ (cmci_reenable M H cpu s).cmci_storm_on_cpus = s.cmci_storm_on_cpus
    ∧ ((cmci_reenable M H cpu s).cpu_vars cpu).cmci_storm_state
        = (s.cpu_vars cpu).cmci_storm_state := by
  unfold cmci_reenable
  split
  · exact ⟨hb, rfl, rfl, rfl⟩
  · rename_i banks _
    obtain ⟨j1, j2, j3, j4⟩ := discover_fold_keeps_owned M H cpu (List.range banks)
      { s := s } b hinj hb
    unfold cmci_discover
    dsimp only
    split
    · exact ⟨j1, j2, j3, j4⟩
    · exact ⟨j1, j2, j3, j4⟩

theorem recheck_frame (M : MceDecls) (H : mce_config) (cpu : Nat) (s : mce_state) :
    (cmci_recheck M H cpu s).cpu_vars = s.cpu_vars
    ∧ (cmci_recheck M H cpu s).ctl2 = s.ctl2
    ∧ (cmci_recheck M H cpu s).cmci_storm_on_cpus = s.cmci_storm_on_cpus := by
  unfold cmci_recheck
  split
  · exact ⟨rfl, rfl, rfl⟩
  · exact ⟨rfl, rfl, rfl⟩

/-- One round of `cmci_discover` touches the two bitmaps of the processor and
one register, nothing else. -/
theorem discover_bank_frame (M : MceDecls) (H : mce_config) (cpu : Nat)
    (st : discover_loop) (i : Nat) :
    (cmci_discover_bank M H cpu st i).s.cmci_storm_on_cpus = st.s.cmci_storm_on_cpus
    ∧ ((cmci_discover_bank M H cpu st i).s.cpu_vars cpu).cmci_storm_state
        = (st.s.cpu_vars cpu).cmci_storm_state
    ∧ ((cmci_discover_bank M H cpu st i).s.cpu_vars cpu).cmci_backoff_cnt
        = (st.s.cpu_vars cpu).cmci_backoff_cnt
    ∧ ∀ c, c ≠ cpu → (cmci_discover_bank M H cpu st i).s.cpu_vars c = st.s.cpu_vars c := by
  unfold cmci_discover_bank
  split
  · exact ⟨rfl, rfl, rfl, fun _ _ => rfl⟩
  · split
    · exact ⟨rfl, rfl, rfl, fun _ _ => rfl⟩
    · split
      · refine ⟨rfl, ?_, ?_, fun c hc => ?_⟩
        · rw [set_cpu_self]
        · rw [set_cpu_self]
        · dsimp only
          exact set_cpu_other cpu c _ st.s hc
      · dsimp only
        split
        · refine ⟨rfl, ?_, ?_, fun c hc => ?_⟩
          · rw [set_cpu_self]; rfl
          · rw [set_cpu_self]; rfl
          · rw [set_cpu_other cpu c _ _ hc]; rfl
        · split
          · exact ⟨rfl, rfl, rfl, fun _ _ => rfl⟩
          · exact ⟨rfl, rfl, rfl, fun _ _ => rfl⟩

theorem discover_fold_frame (M : MceDecls) (H : mce_config) (cpu : Nat) (l : List Nat)
    (st : discover_loop) :
    (l.foldl (cmci_discover_bank M H cpu) st).s.cmci_storm_on_cpus = st.s.cmci_storm_on_cpus
    ∧ ((l.foldl (cmci_discover_bank M H cpu) st).s.cpu_vars cpu).cmci_storm_state
        = (st.s.cpu_vars cpu).cmci_storm_state
    ∧ ((l.foldl (cmci_discover_bank M H cpu) st).s.cpu_vars cpu).cmci_backoff_cnt
        = (st.s.cpu_vars cpu).cmci_backoff_cnt
    ∧ ∀ c, c ≠ cpu → (l.foldl (cmci_discover_bank M H cpu) st).s.cpu_vars c
        = st.s.cpu_vars c := by
  induction l generalizing st with
  | nil => exact ⟨rfl, rfl, rfl, fun _ _ => rfl⟩
  | cons i is ih =>
    obtain ⟨k1, k2, k3, k4⟩ := discover_bank_frame M H cpu st i
    obtain ⟨j1, j2, j3, j4⟩ := ih (cmci_discover_bank M H cpu st i)
    rw [List.foldl_cons]
    exact ⟨j1.trans k1, j2.trans k2, j3.trans k3, fun c hc => (j4 c hc).trans (k4 c hc)⟩

/-- `cmci_reenable` leaves the storm state of every processor and the counter
`cmci_storm_on_cpus` as they are. -/
theorem reenable_frame (M : MceDecls) (H : mce_config) (cpu : Nat) (s : mce_state) :
    (cmci_reenable M H cpu s).cmci_storm_on_cpus = s.cmci_storm_on_cpus
    ∧ ((cmci_reenable M H cpu s).cpu_vars cpu).cmci_storm_state
        = (s.cpu_vars cpu).cmci_storm_state
    ∧ ((cmci_reenable M H cpu s).cpu_vars cpu).cmci_backoff_cnt
        = (s.cpu_vars cpu).cmci_backoff_cnt
    ∧ ∀ c, c ≠ cpu → (cmci_reenable M H cpu s).cpu_vars c = s.cpu_vars c := by
  unfold cmci_reenable
  split
  · exact ⟨rfl, rfl, rfl, fun _ _ => rfl⟩
  · rename_i banks _
    obtain ⟨j1, j2, j3, j4⟩ := discover_fold_frame M H cpu (List.range banks) { s := s }
    unfold cmci_discover
    dsimp only
    split
    · exact ⟨j1, j2, j3, j4⟩
    · exact ⟨j1, j2, j3, j4⟩

/-- The shape of `cmci_intel_adjust_timer` at the end of the last storm. -/
theorem adjust_timer_last_storm (M : MceDecls) (H : mce_config) (cpu interval : Nat)
    (s : mce_state)
    (hact : (s.cpu_vars cpu).cmci_storm_state = CMCI_STORM_ACTIVE)
    (hback : (s.cpu_vars cpu).cmci_backoff_cnt ≤ 0)
    (hone : s.cmci_storm_on_cpus = 1) :
    ∃ t, cmci_intel_adjust_timer M H cpu interval s
        = (CMCI_POLL_INTERVAL M, cmci_recheck M H cpu (cmci_reenable M H cpu t))
      ∧ t.cpu_vars cpu = { s.cpu_vars cpu with cmci_storm_state := CMCI_STORM_NONE }
      ∧ (∀ c, c ≠ cpu → t.cpu_vars c = s.cpu_vars c)
      ∧ t.ctl2 = s.ctl2 ∧ t.cmci_storm_on_cpus = 0 := by
  refine ⟨set_cpu cpu (fun v => { v with cmci_storm_state := CMCI_STORM_NONE })
      ({ set_cpu cpu (fun v => { v with cmci_storm_state := CMCI_STORM_SUBSIDED }) s with
          cmci_storm_on_cpus := s.cmci_storm_on_cpus - 1 }.emit
        (.pr_notice "CMCI storm subsided: switching to interrupt mode")), ?_, ?_, ?_, ?_, ?_⟩
  · unfold cmci_intel_adjust_timer
    rw [if_neg (by omega)]
    simp only [hact, if_true, set_cpu_on_cpus, hone, emit_on_cpus]
    rfl
  · simp [set_cpu, mce_state.emit]
  · intro c hc
    simp [set_cpu, mce_state.emit, hc]
  · rfl
  · show s.cmci_storm_on_cpus - 1 = 0
    rw [hone]; rfl

theorem poll_no_error (M : MceDecls) (cpu : Nat) (s : mce_state)
    (h : (s.cpu_vars cpu).cmci_storm_state ≠ CMCI_STORM_NONE) :
    ((mce_intel_cmci_poll M cpu false s).2.cpu_vars cpu)
        = { s.cpu_vars cpu with cmci_backoff_cnt := (s.cpu_vars cpu).cmci_backoff_cnt - 1 }
    ∧ (mce_intel_cmci_poll M cpu false s).2.ctl2 = s.ctl2
    ∧ (mce_intel_cmci_poll M cpu false s).2.cmci_storm_on_cpus = s.cmci_storm_on_cpus := by
  unfold mce_intel_cmci_poll
  rw [if_neg h]
  simp only [Bool.false_eq_true, if_false]
  exact ⟨set_cpu_self cpu _ _, rfl, rfl⟩

/-- A run of polls that log no error takes one off the backoff counter each,
on a processor that is not in state NONE. -/
theorem polls_no_error (M : MceDecls) (cpu n : Nat) (s : mce_state)
    (h : (s.cpu_vars cpu).cmci_storm_state ≠ CMCI_STORM_NONE) :
    ((polls M cpu (List.replicate n false) s).cpu_vars cpu)
        = { s.cpu_vars cpu with cmci_backoff_cnt := (s.cpu_vars cpu).cmci_backoff_cnt - n }
    ∧ (polls M cpu (List.replicate n false) s).ctl2 = s.ctl2
    ∧ (polls M cpu (List.replicate n false) s).cmci_storm_on_cpus = s.cmci_storm_on_cpus := by
  induction n generalizing s with
  | zero => exact ⟨by simp [polls], rfl, rfl⟩
  | succ k ih =>
    obtain ⟨p1, p2, p3⟩ := poll_no_error M cpu s h
    obtain ⟨i1, i2, i3⟩ := ih (mce_intel_cmci_poll M cpu false s).2 (by rw [p1]; exact h)
    have hc : polls M cpu (List.replicate (k + 1) false) s
        = polls M cpu (List.replicate k false) (mce_intel_cmci_poll M cpu false s).2 := rfl
    rw [hc]
    refine ⟨?_, i2.trans p2, i3.trans p3⟩
    rw [i1, p1]
    simp only [cmci_cpu.mk.injEq, true_and, and_true]
    push_cast
    omega

/-- Changing a predicate at one place of a range changes the count by what that place contributes. -/
theorem countP_range_update (n cpu : Nat) (p q : Nat → Bool) (hcpu : cpu < n)
    (h : ∀ c, c ≠ cpu → q c = p c) :
    (List.range n).countP q + (if p cpu then 1 else 0)
      = (List.range n).countP p + (if q cpu then 1 else 0) := by
  induction n with
  | zero => omega
  | succ k ih =>
    rw [List.range_succ, List.countP_append, List.countP_append]
    simp only [List.countP_cons, List.countP_nil, Nat.zero_add]
    by_cases hk : cpu = k
    · subst hk
      have hsame : (List.range cpu).countP q = (List.range cpu).countP p := by
        apply List.countP_congr
        intro c hc
        rw [List.mem_range] at hc
        rw [h c (by omega)]
      rw [hsame]
      omega
    · have := ih (by omega)
      rw [h k (Ne.symm hk)]
      omega

theorem disable_bank_locked_frame (M : MceDecls) (H : mce_config) (cpu : Nat) (s : mce_state)
    (bank : Nat) :
    (cmci_disable_bank_locked M H cpu s bank).cmci_storm_on_cpus = s.cmci_storm_on_cpus
    ∧ ((cmci_disable_bank_locked M H cpu s bank).cpu_vars cpu).cmci_storm_state
        = (s.cpu_vars cpu).cmci_storm_state
    ∧ ((cmci_disable_bank_locked M H cpu s bank).cpu_vars cpu).cmci_backoff_cnt
        = (s.cpu_vars cpu).cmci_backoff_cnt
    ∧ ∀ c, c ≠ cpu → (cmci_disable_bank_locked M H cpu s bank).cpu_vars c = s.cpu_vars c := by
  unfold cmci_disable_bank_locked
  split
  · exact ⟨rfl, rfl, rfl, fun _ _ => rfl⟩
  · refine ⟨rfl, ?_, ?_, fun c hc => ?_⟩
    · rw [set_cpu_self]; rfl
    · rw [set_cpu_self]; rfl
    · rw [set_cpu_other cpu c _ _ hc]; rfl

theorem clear_frame (M : MceDecls) (H : mce_config) (cpu : Nat) (s : mce_state) :
    (cmci_clear M H cpu s).cmci_storm_on_cpus = s.cmci_storm_on_cpus
    ∧ ((cmci_clear M H cpu s).cpu_vars cpu).cmci_storm_state
        = (s.cpu_vars cpu).cmci_storm_state
    ∧ ((cmci_clear M H cpu s).cpu_vars cpu).cmci_backoff_cnt
        = (s.cpu_vars cpu).cmci_backoff_cnt
    ∧ ∀ c, c ≠ cpu → (cmci_clear M H cpu s).cpu_vars c = s.cpu_vars c := by
  unfold cmci_clear
  split
  · exact ⟨rfl, rfl, rfl, fun _ _ => rfl⟩
  · rename_i banks _
    generalize List.range banks = l
    induction l generalizing s with
    | nil => exact ⟨rfl, rfl, rfl, fun _ _ => rfl⟩
    | cons i is ih =>
      obtain ⟨k1, k2, k3, k4⟩ := disable_bank_locked_frame M H cpu s i
      obtain ⟨j1, j2, j3, j4⟩ := ih (cmci_disable_bank_locked M H cpu s i)
      rw [List.foldl_cons]
      exact ⟨j1.trans k1, j2.trans k2, j3.trans k3, fun c hc => (j4 c hc).trans (k4 c hc)⟩

theorem discover_frame (M : MceDecls) (H : mce_config) (cpu banks : Nat) (s : mce_state) :
    (cmci_discover M H cpu banks s).cmci_storm_on_cpus = s.cmci_storm_on_cpus
    ∧ ((cmci_discover M H cpu banks s).cpu_vars cpu).cmci_storm_state
        = (s.cpu_vars cpu).cmci_storm_state
    ∧ ((cmci_discover M H cpu banks s).cpu_vars cpu).cmci_backoff_cnt
        = (s.cpu_vars cpu).cmci_backoff_cnt
    ∧ ∀ c, c ≠ cpu → (cmci_discover M H cpu banks s).cpu_vars c = s.cpu_vars c := by
  obtain ⟨j1, j2, j3, j4⟩ := discover_fold_frame M H cpu (List.range banks) { s := s }
  unfold cmci_discover
  dsimp only
  split
  · exact ⟨j1, j2, j3, j4⟩
  · exact ⟨j1, j2, j3, j4⟩

/-- What `cmci_storm_detect` does to the storm states and to the counter
`cmci_storm_on_cpus`: the counter moves with the number of ACTIVE processors. -/
theorem detect_counts (M : MceDecls) (H : mce_config) (cpu now : Nat) (s : mce_state) :
    (∀ c, c ≠ cpu → (cmci_storm_detect M H cpu now s).2.cpu_vars c = s.cpu_vars c)
    ∧ (cmci_storm_detect M H cpu now s).2.cmci_storm_on_cpus
        + (if (s.cpu_vars cpu).cmci_storm_state = CMCI_STORM_ACTIVE then 1 else 0)
      = s.cmci_storm_on_cpus
        + (if ((cmci_storm_detect M H cpu now s).2.cpu_vars cpu).cmci_storm_state
            = CMCI_STORM_ACTIVE then 1 else 0) := by
  unfold cmci_storm_detect
  by_cases hn : (s.cpu_vars cpu).cmci_storm_state = CMCI_STORM_NONE
  · have hna : (s.cpu_vars cpu).cmci_storm_state ≠ CMCI_STORM_ACTIVE := by
      rw [hn]; decide
    rw [if_neg (not_not.mpr hn)]
    have d1 := fun t => (storm_disable_banks_spec M H cpu t).1
    have d2 := fun t => (storm_disable_banks_spec M H cpu t).2.1
    dsimp only
    split
    · split
      · refine ⟨fun c hc => ?_, ?_⟩
        · dsimp only
          exact set_cpu_other cpu c _ s hc
        simp only [set_cpu_self, set_cpu_on_cpus, hna, if_false]
      · split <;>
        · refine ⟨fun c hc => ?_, ?_⟩
          · simp only [emit_cpu_vars, set_cpu_other _ _ _ _ hc, d1]
          · simp only [emit_cpu_vars, emit_on_cpus, set_cpu_self, set_cpu_on_cpus, d2, hna,
              if_false, if_true, Int.add_zero]
    · split
      · refine ⟨fun c hc => ?_, ?_⟩
        · dsimp only
          exact set_cpu_other cpu c _ s hc
        simp only [set_cpu_self, set_cpu_on_cpus, hna, if_false]
      · split <;>
        · refine ⟨fun c hc => ?_, ?_⟩
          · simp only [emit_cpu_vars, set_cpu_other _ _ _ _ hc, d1]
          · simp only [emit_cpu_vars, emit_on_cpus, set_cpu_self, set_cpu_on_cpus, d2, hna,
              if_false, if_true, Int.add_zero]
  · rw [if_pos hn]
    exact ⟨fun _ _ => rfl, rfl⟩

theorem adjust_timer_backoff (M : MceDecls) (H : mce_config) (cpu interval : Nat)
    (s : mce_state)
    (hact : (s.cpu_vars cpu).cmci_storm_state = CMCI_STORM_ACTIVE)
    (hback : 0 < (s.cpu_vars cpu).cmci_backoff_cnt) :
    cmci_intel_adjust_timer M H cpu interval s
      = (CMCI_STORM_INTERVAL M, s.emit (.mce_notify_irq cpu)) := by
  unfold cmci_intel_adjust_timer
  rw [if_pos ⟨hback, hact⟩]

theorem adjust_timer_active_more (M : MceDecls) (H : mce_config) (cpu interval : Nat)
    (s : mce_state)
    (hact : (s.cpu_vars cpu).cmci_storm_state = CMCI_STORM_ACTIVE)
    (hback : (s.cpu_vars cpu).cmci_backoff_cnt ≤ 0)
    (hmore : s.cmci_storm_on_cpus - 1 ≠ 0) :
    cmci_intel_adjust_timer M H cpu interval s
      = (CMCI_POLL_INTERVAL M,
          { set_cpu cpu (fun v => { v with cmci_storm_state := CMCI_STORM_SUBSIDED }) s with
            cmci_storm_on_cpus := s.cmci_storm_on_cpus - 1 }) := by
  unfold cmci_intel_adjust_timer
  rw [if_neg (by omega)]
  simp only [hact, if_true, set_cpu_on_cpus, hmore, if_false]

theorem adjust_timer_subsided_wait (M : MceDecls) (H : mce_config) (cpu interval : Nat)
    (s : mce_state)
    (hsub : (s.cpu_vars cpu).cmci_storm_state = CMCI_STORM_SUBSIDED)
    (hmore : s.cmci_storm_on_cpus ≠ 0) :
    cmci_intel_adjust_timer M H cpu interval s = (CMCI_POLL_INTERVAL M, s) := by
  have hna : ¬ CMCI_STORM_SUBSIDED = CMCI_STORM_ACTIVE := by decide
  unfold cmci_intel_adjust_timer
  simp only [hsub, hna, and_false, if_false, if_true, hmore]

theorem adjust_timer_subsided_done (M : MceDecls) (H : mce_config) (cpu interval : Nat)
    (s : mce_state)
    (hsub : (s.cpu_vars cpu).cmci_storm_state = CMCI_STORM_SUBSIDED)
    (hzero : s.cmci_storm_on_cpus = 0) :
    cmci_intel_adjust_timer M H cpu interval s
      = (CMCI_POLL_INTERVAL M, cmci_recheck M H cpu (cmci_reenable M H cpu
          (set_cpu cpu (fun v => { v with cmci_storm_state := CMCI_STORM_NONE }) s))) := by
  have hna : ¬ CMCI_STORM_SUBSIDED = CMCI_STORM_ACTIVE := by decide
  unfold cmci_intel_adjust_timer
  simp only [hsub, hna, and_false, if_false, if_true, hzero]

theorem adjust_timer_other (M : MceDecls) (H : mce_config) (cpu interval : Nat)
    (s : mce_state)
    (hna : (s.cpu_vars cpu).cmci_storm_state ≠ CMCI_STORM_ACTIVE)
    (hns : (s.cpu_vars cpu).cmci_storm_state ≠ CMCI_STORM_SUBSIDED) :
    cmci_intel_adjust_timer M H cpu interval s = (interval, s) := by
  unfold cmci_intel_adjust_timer
  simp only [hna, hns, and_false, if_false]

/-- The storm state and the counter after `cmci_recheck (cmci_reenable t)`. -/
theorem recheck_reenable_frame (M : MceDecls) (H : mce_config) (cpu : Nat) (t : mce_state) :
    (cmci_recheck M H cpu (cmci_reenable M H cpu t)).cmci_storm_on_cpus = t.cmci_storm_on_cpus
    ∧ ((cmci_recheck M H cpu (cmci_reenable M H cpu t)).cpu_vars cpu).cmci_storm_state
        = (t.cpu_vars cpu).cmci_storm_state
    ∧ ((cmci_recheck M H cpu (cmci_reenable M H cpu t)).cpu_vars cpu).cmci_backoff_cnt
        = (t.cpu_vars cpu).cmci_backoff_cnt
    ∧ ∀ c, c ≠ cpu →
        (cmci_recheck M H cpu (cmci_reenable M H cpu t)).cpu_vars c = t.cpu_vars c := by
  obtain ⟨r1, _, r3⟩ := recheck_frame M H cpu (cmci_reenable M H cpu t)
  obtain ⟨e1, e2, e3, e4⟩ := reenable_frame M H cpu t
  rw [r1, r3]
  exact ⟨e1, e2, e3, e4⟩

theorem adjust_timer_counts (M : MceDecls) (H : mce_config) (cpu interval : Nat)
    (s : mce_state) :
    (∀ c, c ≠ cpu → (cmci_intel_adjust_timer M H cpu interval s).2.cpu_vars c = s.cpu_vars c)
    ∧ (cmci_intel_adjust_timer M H cpu interval s).2.cmci_storm_on_cpus
        + (if (s.cpu_vars cpu).cmci_storm_state = CMCI_STORM_ACTIVE then 1 else 0)
      = s.cmci_storm_on_cpus
        + (if ((cmci_intel_adjust_timer M H cpu interval s).2.cpu_vars cpu).cmci_storm_state
            = CMCI_STORM_ACTIVE then 1 else 0) := by
  have hsa : ¬ CMCI_STORM_SUBSIDED = CMCI_STORM_ACTIVE := by decide
  have hnoa : ¬ CMCI_STORM_NONE = CMCI_STORM_ACTIVE := by decide
  by_cases hact : (s.cpu_vars cpu).cmci_storm_state = CMCI_STORM_ACTIVE
  · by_cases hback : 0 < (s.cpu_vars cpu).cmci_backoff_cnt
    · rw [adjust_timer_backoff M H cpu interval s hact hback]
      exact ⟨fun _ _ => rfl, rfl⟩
    · by_cases hmore : s.cmci_storm_on_cpus - 1 = 0
      · obtain ⟨t, hres, t1, t2, _, t4⟩ := adjust_timer_last_storm M H cpu interval s hact
          (by omega) (by omega)
        obtain ⟨f1, f2, _, f4⟩ := recheck_reenable_frame M H cpu t
        rw [hres]
        dsimp only
        refine ⟨fun c hc => by rw [f4 c hc, t2 c hc], ?_⟩
        rw [f1, f2, t1, t4]
        simp only [hact, if_true, hnoa, if_false]
        omega
      · rw [adjust_timer_active_more M H cpu interval s hact (by omega) hmore]
        dsimp only
        refine ⟨fun c hc => set_cpu_other cpu c _ s hc, ?_⟩
        rw [set_cpu_self]
        simp only [hact, if_true, hsa, if_false]
        omega
  · by_cases hsub : (s.cpu_vars cpu).cmci_storm_state = CMCI_STORM_SUBSIDED
    · by_cases hzero : s.cmci_storm_on_cpus = 0
      · rw [adjust_timer_subsided_done M H cpu interval s hsub hzero]
        obtain ⟨f1, f2, _, f4⟩ := recheck_reenable_frame M H cpu
          (set_cpu cpu (fun v => { v with cmci_storm_state := CMCI_STORM_NONE }) s)
        dsimp only
        refine ⟨fun c hc => by rw [f4 c hc, set_cpu_other cpu c _ s hc], ?_⟩
        rw [f1, f2, set_cpu_self]
        simp only [hact, if_false, hnoa, set_cpu_on_cpus]
      · rw [adjust_timer_subsided_wait M H cpu interval s hsub hzero]
        exact ⟨fun _ _ => rfl, rfl⟩
    · rw [adjust_timer_other M H cpu interval s hact hsub]
      exact ⟨fun _ _ => rfl, rfl⟩

theorem poll_counts (M : MceDecls) (cpu : Nat) (polled : Bool) (s : mce_state) :
    (∀ c, c ≠ cpu → (mce_intel_cmci_poll M cpu polled s).2.cpu_vars c = s.cpu_vars c)
    ∧ (mce_intel_cmci_poll M cpu polled s).2.cmci_storm_on_cpus = s.cmci_storm_on_cpus
    ∧ ((mce_intel_cmci_poll M cpu polled s).2.cpu_vars cpu).cmci_storm_state
        = (s.cpu_vars cpu).cmci_storm_state := by
  unfold mce_intel_cmci_poll
  split
  · exact ⟨fun _ _ => rfl, rfl, rfl⟩
  · split
    · refine ⟨fun c hc => ?_, rfl, ?_⟩
      · dsimp only
        rw [set_cpu_other cpu c _ _ hc]; rfl
      · dsimp only
        rw [set_cpu_self]; rfl
    · refine ⟨fun c hc => ?_, rfl, ?_⟩
      · dsimp only
        rw [set_cpu_other cpu c _ _ hc]; rfl
      · dsimp only
        rw [set_cpu_self]; rfl

theorem hcpu_update_counts (cpu : Nat) (s : mce_state) :
    (∀ c, c ≠ cpu → (mce_intel_hcpu_update cpu s).cpu_vars c = s.cpu_vars c)
    ∧ ((mce_intel_hcpu_update cpu s).cpu_vars cpu).cmci_storm_state = CMCI_STORM_NONE
    ∧ (mce_intel_hcpu_update cpu s).cmci_storm_on_cpus
        + (if (s.cpu_vars cpu).cmci_storm_state = CMCI_STORM_ACTIVE then 1 else 0)
      = s.cmci_storm_on_cpus := by
  unfold mce_intel_hcpu_update
  dsimp only
  refine ⟨fun c hc => ?_, ?_, ?_⟩
  · rw [set_cpu_other cpu c _ _ hc]
    split <;> rfl
  · rw [set_cpu_self]
  · rw [set_cpu_on_cpus]
    split
    · show s.cmci_storm_on_cpus - 1 + 1 = s.cmci_storm_on_cpus
      omega
    · show s.cmci_storm_on_cpus + 0 = s.cmci_storm_on_cpus
      omega

/-- Every call leaves the storm state of the other processors alone and moves
the counter `cmci_storm_on_cpus` with the number of ACTIVE processors. -/
theorem step_counts (M : MceDecls) (H : mce_config) (s : mce_state) (c : mce_call) :
    (∀ p, p ≠ c.cpu →
        ((mce_step M H s c).cpu_vars p).cmci_storm_state = (s.cpu_vars p).cmci_storm_state)
    ∧ (mce_step M H s c).cmci_storm_on_cpus
        + (if (s.cpu_vars c.cpu).cmci_storm_state = CMCI_STORM_ACTIVE then 1 else 0)
      = s.cmci_storm_on_cpus
        + (if ((mce_step M H s c).cpu_vars c.cpu).cmci_storm_state
            = CMCI_STORM_ACTIVE then 1 else 0) := by
  have hnoa : ¬ CMCI_STORM_NONE = CMCI_STORM_ACTIVE := by decide
  cases c with
  | cmci_storm_detect cpu now =>
    obtain ⟨h1, h2⟩ := detect_counts M H cpu now s
    exact ⟨fun p hp => by rw [show (mce_step M H s (.cmci_storm_detect cpu now))
      = (cmci_storm_detect M H cpu now s).2 from rfl, h1 p hp], h2⟩
  | intel_threshold_interrupt cpu now =>
    obtain ⟨h1, h2⟩ := detect_counts M H cpu now s
    have hs : (mce_step M H s (.intel_threshold_interrupt cpu now)).cpu_vars
          = (cmci_storm_detect M H cpu now s).2.cpu_vars
        ∧ (mce_step M H s (.intel_threshold_interrupt cpu now)).cmci_storm_on_cpus
          = (cmci_storm_detect M H cpu now s).2.cmci_storm_on_cpus := by
      show (intel_threshold_interrupt M H cpu now s).cpu_vars = _
        ∧ (intel_threshold_interrupt M H cpu now s).cmci_storm_on_cpus = _
      unfold intel_threshold_interrupt
      dsimp only
      split
      · exact ⟨rfl, rfl⟩
      · exact ⟨rfl, rfl⟩
    rw [hs.1, hs.2]
    exact ⟨fun p hp => by rw [h1 p hp], h2⟩
  | cmci_intel_adjust_timer cpu interval =>
    obtain ⟨h1, h2⟩ := adjust_timer_counts M H cpu interval s
    exact ⟨fun p hp => by rw [show (mce_step M H s (.cmci_intel_adjust_timer cpu interval))
      = (cmci_intel_adjust_timer M H cpu interval s).2 from rfl, h1 p hp], h2⟩
  | mce_intel_cmci_poll cpu polled =>
    obtain ⟨h1, h2, h3⟩ := poll_counts M cpu polled s
    refine ⟨fun p hp => by rw [show (mce_step M H s (.mce_intel_cmci_poll cpu polled))
      = (mce_intel_cmci_poll M cpu polled s).2 from rfl, h1 p hp], ?_⟩
    show (mce_intel_cmci_poll M cpu polled s).2.cmci_storm_on_cpus + _
      = _ + (if ((mce_intel_cmci_poll M cpu polled s).2.cpu_vars cpu).cmci_storm_state
            = CMCI_STORM_ACTIVE then 1 else 0)
    rw [h2, h3]
    rfl
  | mce_intel_hcpu_update cpu =>
    obtain ⟨h1, h2, h3⟩ := hcpu_update_counts cpu s
    refine ⟨fun p hp => by rw [show (mce_step M H s (.mce_intel_hcpu_update cpu))
      = mce_intel_hcpu_update cpu s from rfl, h1 p hp], ?_⟩
    show (mce_intel_hcpu_update cpu s).cmci_storm_on_cpus + _
      = _ + (if ((mce_intel_hcpu_update cpu s).cpu_vars cpu).cmci_storm_state
            = CMCI_STORM_ACTIVE then 1 else 0)
    rw [h2, if_neg hnoa, Int.add_zero]
    exact h3
  | cmci_discover cpu banks =>
    obtain ⟨h1, h2, _, h4⟩ := discover_frame M H cpu banks s
    refine ⟨fun p hp => by rw [show (mce_step M H s (.cmci_discover cpu banks))
      = cmci_discover M H cpu banks s from rfl, h4 p hp], ?_⟩
    show (cmci_discover M H cpu banks s).cmci_storm_on_cpus + _
      = _ + (if ((cmci_discover M H cpu banks s).cpu_vars cpu).cmci_storm_state
            = CMCI_STORM_ACTIVE then 1 else 0)
    rw [h1, h2]
    rfl
  | cmci_reenable cpu =>
    obtain ⟨h1, h2, _, h4⟩ := reenable_frame M H cpu s
    refine ⟨fun p hp => by rw [show (mce_step M H s (.cmci_reenable cpu))
      = cmci_reenable M H cpu s from rfl, h4 p hp], ?_⟩
    show (cmci_reenable M H cpu s).cmci_storm_on_cpus + _
      = _ + (if ((cmci_reenable M H cpu s).cpu_vars cpu).cmci_storm_state
            = CMCI_STORM_ACTIVE then 1 else 0)
    rw [h1, h2]
    rfl
  | cmci_recheck cpu =>
    obtain ⟨h1, _, h3⟩ := recheck_frame M H cpu s
    refine ⟨fun p _ => by rw [show (mce_step M H s (.cmci_recheck cpu))
      = cmci_recheck M H cpu s from rfl, h1], ?_⟩
    show (cmci_recheck M H cpu s).cmci_storm_on_cpus + _
      = _ + (if ((cmci_recheck M H cpu s).cpu_vars cpu).cmci_storm_state
            = CMCI_STORM_ACTIVE then 1 else 0)
    rw [h1, h3]
    rfl
  | cmci_clear cpu =>
    obtain ⟨h1, h2, _, h4⟩ := clear_frame M H cpu s
    refine ⟨fun p hp => by rw [show (mce_step M H s (.cmci_clear cpu))
      = cmci_clear M H cpu s from rfl, h4 p hp], ?_⟩
    show (cmci_clear M H cpu s).cmci_storm_on_cpus + _
      = _ + (if ((cmci_clear M H cpu s).cpu_vars cpu).cmci_storm_state
            = CMCI_STORM_ACTIVE then 1 else 0)
    rw [h1, h2]
    rfl
  | cmci_disable_bank cpu bank =>
    have hf : (cmci_disable_bank M H cpu bank s).cmci_storm_on_cpus = s.cmci_storm_on_cpus
        ∧ ((cmci_disable_bank M H cpu bank s).cpu_vars cpu).cmci_storm_state
            = (s.cpu_vars cpu).cmci_storm_state
        ∧ ∀ c, c ≠ cpu → (cmci_disable_bank M H cpu bank s).cpu_vars c = s.cpu_vars c := by
      unfold cmci_disable_bank
      split
      · exact ⟨rfl, rfl, fun _ _ => rfl⟩
      · obtain ⟨k1, k2, _, k4⟩ := disable_bank_locked_frame M H cpu s bank
        exact ⟨k1, k2, k4⟩
    obtain ⟨h1, h2, h4⟩ := hf
    refine ⟨fun p hp => by rw [show (mce_step M H s (.cmci_disable_bank cpu bank))
      = cmci_disable_bank M H cpu bank s from rfl, h4 p hp], ?_⟩
    show (cmci_disable_bank M H cpu bank s).cmci_storm_on_cpus + _
      = _ + (if ((cmci_disable_bank M H cpu bank s).cpu_vars cpu).cmci_storm_state
            = CMCI_STORM_ACTIVE then 1 else 0)
    rw [h1, h2]
    rfl

theorem mce_run_cons (M : MceDecls) (H : mce_config) (c : mce_call) (calls : List mce_call)
    (s : mce_state) :
    mce_run M H (c :: calls) s = mce_run M H calls (mce_step M H s c) := rfl

/-- One call keeps the counter equal to the number of ACTIVE processors. -/
theorem step_keeps_count (M : MceDecls) (H : mce_config) (ncpus : Nat) (s : mce_state)
    (c : mce_call) (hc : c.cpu < ncpus)
    (hinv : s.cmci_storm_on_cpus = storm_active_cpus ncpus s) :
    (mce_step M H s c).cmci_storm_on_cpus = storm_active_cpus ncpus (mce_step M H s c) := by
  obtain ⟨h1, h2⟩ := step_counts M H s c
  have hcount := countP_range_update ncpus c.cpu
    (fun p => decide ((s.cpu_vars p).cmci_storm_state = CMCI_STORM_ACTIVE))
    (fun p => decide (((mce_step M H s c).cpu_vars p).cmci_storm_state = CMCI_STORM_ACTIVE))
    hc (fun p hp => by simp only [h1 p hp])
  unfold storm_active_cpus at hinv ⊢
  rw [hinv] at h2
  simp only [decide_eq_true_eq] at hcount
  split at h2 <;> split at h2 <;> rename_i ha hb <;>
    simp only [ha, hb, if_true, if_false] at hcount <;> omega

/-- Every run that starts with the counter equal to the number of ACTIVE
processors ends so. -/
theorem run_keeps_count (M : MceDecls) (H : mce_config) (ncpus : Nat)
    (calls : List mce_call) (s : mce_state)
    (hcpus : ∀ c ∈ calls, c.cpu < ncpus)
    (hinv : s.cmci_storm_on_cpus = storm_active_cpus ncpus s) :
    (mce_run M H calls s).cmci_storm_on_cpus = storm_active_cpus ncpus (mce_run M H calls s) := by
  induction calls generalizing s with
  | nil => exact hinv
  | cons c cs ih =>
    rw [mce_run_cons]
    exact ih _ (fun d hd => hcpus d (List.mem_cons_of_mem c hd))
      (step_keeps_count M H ncpus s c (hcpus c (List.mem_cons_self c cs)) hinv)

/-- A run leaves the storm state of a processor that makes no call alone. -/
theorem run_keeps_idle (M : MceDecls) (H : mce_config) (calls : List mce_call) (s : mce_state)
    (p : Nat) (hp : ∀ c ∈ calls, c.cpu ≠ p) :
    ((mce_run M H calls s).cpu_vars p).cmci_storm_state = (s.cpu_vars p).cmci_storm_state := by
  induction calls generalizing s with
  | nil => rfl
  | cons c cs ih =>
    rw [mce_run_cons, ih _ (fun d hd => hp d (List.mem_cons_of_mem c hd))]
    exact (step_counts M H s c).1 p (Ne.symm (hp c (List.mem_cons_self c cs)))

theorem active_cpus_none (ncpus : Nat) (s : mce_state)
    (h : ∀ c, (s.cpu_vars c).cmci_storm_state = CMCI_STORM_NONE) :
    storm_active_cpus ncpus s = 0 := by
  unfold storm_active_cpus
  rw [List.countP_eq_zero]
  intro c _
  rw [h c]
  decide

/-- An ACTIVE processor below `ncpus` is counted. -/
theorem active_cpus_pos (ncpus p : Nat) (s : mce_state) (hp : p < ncpus)
    (h : (s.cpu_vars p).cmci_storm_state = CMCI_STORM_ACTIVE) :
    0 < storm_active_cpus ncpus s := by
  unfold storm_active_cpus
  rw [List.countP_pos_iff]
  exact ⟨p, List.mem_range.mpr hp, by simp [h]⟩

/-- Two ACTIVE processors below `ncpus` are both counted. -/
theorem active_cpus_two (ncpus p q : Nat) (s : mce_state) (hp : p < ncpus) (hq : q < ncpus)
    (hpq : p ≠ q)
    (h1 : (s.cpu_vars p).cmci_storm_state = CMCI_STORM_ACTIVE)
    (h2 : (s.cpu_vars q).cmci_storm_state = CMCI_STORM_ACTIVE) :
    2 ≤ storm_active_cpus ncpus s := by
  have hcount := countP_range_update ncpus p
    (fun c => decide ((s.cpu_vars c).cmci_storm_state = CMCI_STORM_ACTIVE))
    (fun c => !decide (c = p) && decide ((s.cpu_vars c).cmci_storm_state = CMCI_STORM_ACTIVE))
    hp (fun c hc => by simp [hc])
  have hpos : 0 < (List.range ncpus).countP
      (fun c => !decide (c = p) && decide ((s.cpu_vars c).cmci_storm_state = CMCI_STORM_ACTIVE)) := by
    rw [List.countP_pos_iff]
    exact ⟨q, List.mem_range.mpr hq, by simp [h2, Ne.symm hpq]⟩
  unfold storm_active_cpus
  simp only [h1, decide_True, if_true, decide_True, Bool.not_true, Bool.false_and,
    Bool.false_eq_true, if_false, Nat.add_zero] at hcount
  omega

theorem or_and_self_mask (x m : Nat) : (x ||| m) &&& m = m := by
  apply Nat.eq_of_testBit_eq; intro i
  simp only [Nat.testBit_and, Nat.testBit_or]
  cases x.testBit i <;> cases m.testBit i <;> rfl

theorem test_bit_set_bit_self (i bitmap : Nat) : test_bit i (set_bit i bitmap) = true := by
  unfold test_bit set_bit
  rw [Nat.testBit_or, Nat.one_shiftLeft, Nat.testBit_two_pow_self, Bool.or_true]

theorem test_bit_clear_bit_self (i bitmap : Nat) : test_bit i (clear_bit i bitmap) = false := by
  unfold test_bit clear_bit clear_mask
  rw [Nat.testBit_xor, Nat.testBit_and, Nat.one_shiftLeft, Nat.testBit_two_pow_self,
    Bool.and_true, Bool.xor_self]

theorem wrmsrl_ctl2_self (M : MceDecls) (H : mce_config) (cpu bank val : Nat) (s : mce_state) :
    (wrmsrl M H cpu bank val s).ctl2 (H.reg cpu bank)
      = if H.cmci_capable (H.reg cpu bank) then val else clear_mask M.MCI_CTL2_CMCI_EN val := by
  unfold wrmsrl
  simp only [if_true]

/-- One round of `cmci_discover`, for bank `i`, leaves the ownership bit and
the register of every other bank of the processor as they are. -/
theorem discover_bank_other (M : MceDecls) (H : mce_config) (cpu : Nat)
    (st : discover_loop) (i b : Nat)
    (hinj : ∀ b1 b2, H.reg cpu b1 = H.reg cpu b2 → b1 = b2) (hne : b ≠ i) :
    test_bit b ((cmci_discover_bank M H cpu st i).s.cpu_vars cpu).mce_banks_owned
        = test_bit b (st.s.cpu_vars cpu).mce_banks_owned
    ∧ (cmci_discover_bank M H cpu st i).s.ctl2 (H.reg cpu b) = st.s.ctl2 (H.reg cpu b) := by
  have hreg : H.reg cpu b ≠ H.reg cpu i := fun h => hne (hinj b i h)
  unfold cmci_discover_bank
  split
  · exact ⟨rfl, rfl⟩
  · split
    · exact ⟨rfl, rfl⟩
    · split
      · refine ⟨?_, rfl⟩
        rw [set_cpu_self]
        exact test_bit_clear_bit_ne i b _ hne
      · dsimp only
        split
        · refine ⟨?_, ?_⟩
          · rw [set_cpu_self]
            exact test_bit_set_bit_ne i b _ hne
          · rw [set_cpu_ctl2]
            exact wrmsrl_ctl2_ne M H cpu i _ st.s _ hreg
        · split
          · exact ⟨rfl, wrmsrl_ctl2_ne M H cpu i _ st.s _ hreg⟩
          · exact ⟨rfl, wrmsrl_ctl2_ne M H cpu i _ st.s _ hreg⟩

/-- The round of `cmci_discover` for a bank that the processor does not own,
that is not in firmware-first mode, supports CMCI and has the enable bit
clear: the processor claims the bank and the enable bit is set. -/
theorem discover_bank_claims (M : MceDecls) (H : mce_config) (cpu : Nat)
    (st : discover_loop) (b : Nat)
    (hEN : M.MCI_CTL2_CMCI_EN ≠ 0)
    (hown : test_bit b (st.s.cpu_vars cpu).mce_banks_owned = false)
    (hce : test_bit b H.mce_banks_ce_disabled = false)
    (hcap : H.cmci_capable (H.reg cpu b) = true)
    (hen : st.s.ctl2 (H.reg cpu b) &&& M.MCI_CTL2_CMCI_EN = 0) :
    test_bit b ((cmci_discover_bank M H cpu st b).s.cpu_vars cpu).mce_banks_owned = true
    ∧ (cmci_discover_bank M H cpu st b).s.ctl2 (H.reg cpu b) &&& M.MCI_CTL2_CMCI_EN ≠ 0 := by
  have hstick : rdmsrl H cpu b (wrmsrl M H cpu b
      (cmci_discover_threshold M H (rdmsrl H cpu b st.s) ||| M.MCI_CTL2_CMCI_EN) st.s)
        &&& M.MCI_CTL2_CMCI_EN ≠ 0 := by
    unfold rdmsrl
    rw [wrmsrl_ctl2_self, if_pos hcap, or_and_self_mask]
    exact hEN
  unfold cmci_discover_bank
  rw [if_neg (by rw [hown]; decide), if_neg (by rw [hce]; decide),
    if_neg (by unfold rdmsrl; rw [hen]; decide)]
  dsimp only
  rw [if_pos hstick]
  dsimp only
  refine ⟨?_, ?_⟩
  · rw [set_cpu_self]
    exact test_bit_set_bit_self b _
  · rw [set_cpu_ctl2]
    exact hstick

/-- A run of rounds of `cmci_discover` that comes by a bank whose enable bit
is clear, that supports CMCI and is not in firmware-first mode, leaves the
bank owned by the processor, with its enable bit set if the processor did not
own it before. -/
theorem discover_fold_claims (M : MceDecls) (H : mce_config) (cpu : Nat) (l : List Nat)
    (st : discover_loop) (b : Nat)
    (hinj : ∀ b1 b2, H.reg cpu b1 = H.reg cpu b2 → b1 = b2)
    (hEN : M.MCI_CTL2_CMCI_EN ≠ 0)
    (hmem : b ∈ l)
    (hce : test_bit b H.mce_banks_ce_disabled = false)
    (hcap : H.cmci_capable (H.reg cpu b) = true)
    (hen : st.s.ctl2 (H.reg cpu b) &&& M.MCI_CTL2_CMCI_EN = 0) :
    test_bit b ((l.foldl (cmci_discover_bank M H cpu) st).s.cpu_vars cpu).mce_banks_owned = true
    ∧ (test_bit b (st.s.cpu_vars cpu).mce_banks_owned = false →
        (l.foldl (cmci_discover_bank M H cpu) st).s.ctl2 (H.reg cpu b)
          &&& M.MCI_CTL2_CMCI_EN ≠ 0) := by
  induction l generalizing st with
  | nil => exact absurd hmem (List.not_mem_nil b)
  | cons i is ih =>
    rw [List.foldl_cons]
    cases hown : test_bit b (st.s.cpu_vars cpu).mce_banks_owned with
    | true =>
      exact ⟨(discover_fold_keeps_owned M H cpu is _ b hinj
        (discover_bank_keeps_owned M H cpu st i b hinj hown).1).1, fun h => by cases h⟩
    | false =>
      by_cases hbi : b = i
      · subst hbi
        obtain ⟨c1, c2⟩ := discover_bank_claims M H cpu st b hEN hown hce hcap hen
        obtain ⟨k1, k2, _, _⟩ := discover_fold_keeps_owned M H cpu is _ b hinj c1
        exact ⟨k1, fun _ => by rw [k2]; exact c2⟩
      · obtain ⟨o1, o2⟩ := discover_bank_other M H cpu st i b hinj hbi
        have hmem2 : b ∈ is := by
          rcases List.mem_cons.mp hmem with h | h
          · exact absurd h hbi
          · exact h
        obtain ⟨j1, j2⟩ := ih (cmci_discover_bank M H cpu st i) hmem2 (by rw [o2]; exact hen)
        exact ⟨j1, fun _ => j2 (by rw [o1]; exact hown)⟩

/-- What `cmci_discover` does with a bank below its bank count whose enable
bit is clear, that supports CMCI and is not in firmware-first mode. -/
theorem discover_claims (M : MceDecls) (H : mce_config) (cpu banks : Nat) (s : mce_state)
    (b : Nat)
    (hinj : ∀ b1 b2, H.reg cpu b1 = H.reg cpu b2 → b1 = b2)
    (hEN : M.MCI_CTL2_CMCI_EN ≠ 0)
    (hb : b < banks)
    (hce : test_bit b H.mce_banks_ce_disabled = false)
    (hcap : H.cmci_capable (H.reg cpu b) = true)
    (hen : s.ctl2 (H.reg cpu b) &&& M.MCI_CTL2_CMCI_EN = 0) :
    owns cpu b (cmci_discover M H cpu banks s) = true
    ∧ (owns cpu b s = false → cmci_enabled M H cpu b (cmci_discover M H cpu banks s) = true) := by
  obtain ⟨j1, j2⟩ := discover_fold_claims M H cpu (List.range banks) { s := s } b hinj hEN
    (List.mem_range.mpr hb) hce hcap hen
  unfold owns cmci_enabled rdmsrl cmci_discover
  dsimp only
  split
  · refine ⟨j1, fun h => ?_⟩
    simp only [emit_ctl2, bne_iff_ne]
    exact j2 h
  · refine ⟨j1, fun h => ?_⟩
    simp only [bne_iff_ne]
    exact j2 h

/-- What `__cmci_disable_bank` does to the ownership bits and to the
registers. -/
theorem disable_bank_locked_spec (M : MceDecls) (H : mce_config) (cpu : Nat) (s : mce_state)
    (bank : Nat) :
    (∀ b, test_bit b ((cmci_disable_bank_locked M H cpu s bank).cpu_vars cpu).mce_banks_owned
        = (test_bit b (s.cpu_vars cpu).mce_banks_owned && decide (b ≠ bank)))
    ∧ (∀ r, (cmci_disable_bank_locked M H cpu s bank).ctl2 r
        = if test_bit bank (s.cpu_vars cpu).mce_banks_owned = true ∧ r = H.reg cpu bank then
            clear_mask M.MCI_CTL2_CMCI_EN (s.ctl2 r)
          else s.ctl2 r)
    ∧ ((cmci_disable_bank_locked M H cpu s bank).cpu_vars cpu).mce_poll_banks
        = (s.cpu_vars cpu).mce_poll_banks
    ∧ (cmci_disable_bank_locked M H cpu s bank).log = s.log := by
  unfold cmci_disable_bank_locked
  by_cases ho : test_bit bank (s.cpu_vars cpu).mce_banks_owned = true
  · rw [if_neg (not_not.mpr ho)]
    dsimp only
    refine ⟨fun b => ?_, fun r => ?_, ?_, rfl⟩
    · rw [set_cpu_self]
      show test_bit b (clear_bit bank _) = _
      by_cases hb : b = bank
      · subst hb
        rw [test_bit_clear_bit_self]
        simp
      · rw [test_bit_clear_bit_ne bank b _ hb]
        simp [hb]
        rfl
    · rw [set_cpu_ctl2]
      by_cases hr : r = H.reg cpu bank
      · subst hr
        have hc : test_bit bank (s.cpu_vars cpu).mce_banks_owned = true
            ∧ H.reg cpu bank = H.reg cpu bank := ⟨ho, rfl⟩
        rw [wrmsrl_ctl2_self, if_pos hc]
        unfold rdmsrl
        split
        · rfl
        · exact clear_mask_idem _ _
      · rw [wrmsrl_ctl2_ne M H cpu bank _ s r hr, if_neg (fun h => hr h.2)]
    · rw [set_cpu_self]
      rfl
  · rw [if_pos ho]
    refine ⟨fun b => ?_, fun r => ?_, rfl, rfl⟩
    · by_cases hb : b = bank
      · subst hb
        simp only [Bool.not_eq_true] at ho
        rw [ho]
        rfl
      · simp [hb]
    · rw [if_neg (fun h => ho h.1)]

/-- What the loop of `cmci_clear` does, for any list of banks. -/
theorem clear_fold_spec (M : MceDecls) (H : mce_config) (cpu : Nat) (l : List Nat)
    (s : mce_state) :
    (∀ b, test_bit b ((l.foldl (cmci_disable_bank_locked M H cpu) s).cpu_vars cpu).mce_banks_owned
        = (test_bit b (s.cpu_vars cpu).mce_banks_owned && decide (b ∉ l)))
    ∧ (∀ r, (l.foldl (cmci_disable_bank_locked M H cpu) s).ctl2 r
        = if ∃ b ∈ l, test_bit b (s.cpu_vars cpu).mce_banks_owned = true ∧ r = H.reg cpu b then
            clear_mask M.MCI_CTL2_CMCI_EN (s.ctl2 r)
          else s.ctl2 r)
    ∧ ((l.foldl (cmci_disable_bank_locked M H cpu) s).cpu_vars cpu).mce_poll_banks
        = (s.cpu_vars cpu).mce_poll_banks
    ∧ (l.foldl (cmci_disable_bank_locked M H cpu) s).log = s.log := by
  induction l generalizing s with
  | nil =>
    refine ⟨fun b => by simp, fun r => by simp, rfl, rfl⟩
  | cons i is ih =>
    obtain ⟨k1, k2, k3, k4⟩ := disable_bank_locked_spec M H cpu s i
    obtain ⟨j1, j2, j3, j4⟩ := ih (cmci_disable_bank_locked M H cpu s i)
    rw [List.foldl_cons]
    refine ⟨fun b => ?_, fun r => ?_, j3.trans k3, j4.trans k4⟩
    · rw [j1 b, k1 b]
      by_cases hb : b = i
      · simp [hb]
      · simp [hb]
    · rw [j2 r, k2 r]
      simp only [k1]
      by_cases hi : test_bit i (s.cpu_vars cpu).mce_banks_owned = true ∧ r = H.reg cpu i
      · have hex : ∃ b ∈ i :: is,
            test_bit b (s.cpu_vars cpu).mce_banks_owned = true ∧ r = H.reg cpu b :=
          ⟨i, List.mem_cons_self i is, hi⟩
        rw [if_pos hi, if_pos hex]
        split
        · exact clear_mask_idem _ _
        · rfl
      · rw [if_neg hi]
        by_cases hex : ∃ b ∈ i :: is,
            test_bit b (s.cpu_vars cpu).mce_banks_owned = true ∧ r = H.reg cpu b
        · rw [if_pos hex]
          obtain ⟨b, hb, hbo, hbr⟩ := hex
          have hbi : b ≠ i := by
            intro h; subst h; exact hi ⟨hbo, hbr⟩
          have hbis : b ∈ is := by
            rcases List.mem_cons.mp hb with h | h
            · exact absurd h hbi
            · exact h
          rw [if_pos ⟨b, hbis, by simp [hbo, hbi], hbr⟩]
        · rw [if_neg hex, if_neg]
          rintro ⟨b, hb, hbo, hbr⟩
          simp only [Bool.and_eq_true, decide_eq_true_eq] at hbo
          exact hex ⟨b, List.mem_cons_of_mem i hb, hbo.1, hbr⟩

/-- Ownership that shrinks, with the registers of the banks still owned
untouched, keeps the two properties of the discovery protocol. -/
theorem inv_of_subset (M : MceDecls) (H : mce_config) (s t : mce_state)
    (hinv : owned_enabled M H s ∧ exclusive_owners H s)
    (hsub : ∀ c b, owns c b t = true → owns c b s = true)
    (hreg : ∀ c b, owns c b t = true → t.ctl2 (H.reg c b) = s.ctl2 (H.reg c b)) :
    owned_enabled M H t ∧ exclusive_owners H t := by
  refine ⟨fun c b ho => ?_, fun c1 b1 c2 b2 h1 h2 hr => ?_⟩
  · rw [hreg c b ho]
    exact hinv.1 c b (hsub c b ho)
  · exact hinv.2 c1 b1 c2 b2 (hsub c1 b1 h1) (hsub c2 b2 h2) hr

theorem inv_congr (M : MceDecls) (H : mce_config) (s t : mce_state)
    (hinv : owned_enabled M H s ∧ exclusive_owners H s)
    (hown : ∀ c, (t.cpu_vars c).mce_banks_owned = (s.cpu_vars c).mce_banks_owned)
    (hctl : t.ctl2 = s.ctl2) :
    owned_enabled M H t ∧ exclusive_owners H t := by
  apply inv_of_subset M H s t hinv
  · intro c b h
    unfold owns at h ⊢
    rw [← hown c]; exact h
  · intro c b _
    rw [hctl]

theorem owns_set_cpu_other (cpu c b : Nat) (f : cmci_cpu → cmci_cpu) (s : mce_state)
    (h : c ≠ cpu) : owns c b (set_cpu cpu f s) = owns c b s := by
  unfold owns
  rw [set_cpu_other cpu c f s h]

/-- One round of `cmci_discover` keeps the two properties of the discovery
protocol. -/
theorem discover_bank_inv (M : MceDecls) (H : mce_config) (cpu : Nat) (st : discover_loop)
    (i : Nat) (hinv : owned_enabled M H st.s ∧ exclusive_owners H st.s) :
    owned_enabled M H (cmci_discover_bank M H cpu st i).s
    ∧ exclusive_owners H (cmci_discover_bank M H cpu st i).s := by
  unfold cmci_discover_bank
  split
  · exact hinv
  · split
    · exact hinv
    · rename_i hno _
      split
      · apply inv_of_subset M H st.s _ hinv
        · intro c b h
          by_cases hc : c = cpu
          · subst hc
            unfold owns at h ⊢
            rw [set_cpu_self] at h
            by_cases hb : b = i
            · subst hb
              rw [show test_bit b (clear_bit b (st.s.cpu_vars c).mce_banks_owned) = false from
                test_bit_clear_bit_self b _] at h
              cases h
            · rw [show test_bit b (clear_bit i (st.s.cpu_vars c).mce_banks_owned)
                  = test_bit b (st.s.cpu_vars c).mce_banks_owned from
                test_bit_clear_bit_ne i b _ hb] at h
              exact h
          · rw [owns_set_cpu_other cpu c b _ _ hc] at h
            exact h
        · intro c b _
          rfl
      · rename_i hen
        have hclear : st.s.ctl2 (H.reg cpu i) &&& M.MCI_CTL2_CMCI_EN = 0 := by
          unfold rdmsrl at hen
          exact not_not.mp hen
        have hfree : ∀ c b, owns c b st.s = true → H.reg c b ≠ H.reg cpu i := by
          intro c b ho hr
          have := hinv.1 c b ho
          rw [hr] at this
          exact this hclear
        dsimp only
        split
        · rename_i hstick
          refine ⟨fun c b ho => ?_, fun c1 b1 c2 b2 h1 h2 hr => ?_⟩
          · rw [set_cpu_ctl2]
            by_cases hr : H.reg c b = H.reg cpu i
            · rw [hr]
              exact hstick
            · rw [wrmsrl_ctl2_ne M H cpu i _ st.s _ hr]
              apply hinv.1 c b
              by_cases hc : c = cpu
              · subst hc
                unfold owns at ho ⊢
                rw [set_cpu_self] at ho
                by_cases hb : b = i
                · subst hb; exact absurd rfl hr
                · rw [show test_bit b (set_bit i ((wrmsrl M H c i _ st.s).cpu_vars
                      c).mce_banks_owned) = test_bit b (st.s.cpu_vars c).mce_banks_owned from
                    test_bit_set_bit_ne i b _ hb] at ho
                  exact ho
              · rw [owns_set_cpu_other cpu c b _ _ hc] at ho
                exact ho
          · have hold : ∀ c b, owns c b (set_cpu cpu (fun v =>
                { v with mce_banks_owned := set_bit i v.mce_banks_owned,
                         mce_poll_banks := clear_bit i v.mce_poll_banks })
                (wrmsrl M H cpu i
                  (cmci_discover_threshold M H (rdmsrl H cpu i st.s) ||| M.MCI_CTL2_CMCI_EN)
                  st.s)) = true → (c = cpu ∧ b = i) ∨ owns c b st.s = true := by
              intro c b ho
              by_cases hc : c = cpu
              · subst hc
                by_cases hb : b = i
                · exact Or.inl ⟨rfl, hb⟩
                · right
                  unfold owns at ho ⊢
                  rw [set_cpu_self] at ho
                  rw [show test_bit b (set_bit i ((wrmsrl M H c i _ st.s).cpu_vars
                      c).mce_banks_owned) = test_bit b (st.s.cpu_vars c).mce_banks_owned from
                    test_bit_set_bit_ne i b _ hb] at ho
                  exact ho
              · right
                rw [owns_set_cpu_other cpu c b _ _ hc] at ho
                exact ho
            rcases hold c1 b1 h1 with ⟨e1, e2⟩ | o1
            · rcases hold c2 b2 h2 with ⟨f1, f2⟩ | o2
              · exact ⟨e1.trans f1.symm, e2.trans f2.symm⟩
              · exact absurd (by rw [← hr, e1, e2]) (hfree c2 b2 o2)
            · rcases hold c2 b2 h2 with ⟨f1, f2⟩ | o2
              · exact absurd (by rw [hr, f1, f2]) (hfree c1 b1 o1)
              · exact hinv.2 c1 b1 c2 b2 o1 o2 hr
        · split
          · apply inv_of_subset M H st.s _ hinv
            · intro c b h; exact h
            · intro c b ho
              rw [emit_ctl2]
              exact wrmsrl_ctl2_ne M H cpu i _ st.s _ (hfree c b ho)
          · apply inv_of_subset M H st.s _ hinv
            · intro c b h; exact h
            · intro c b ho
              exact wrmsrl_ctl2_ne M H cpu i _ st.s _ (hfree c b ho)

theorem discover_inv (M : MceDecls) (H : mce_config) (cpu banks : Nat) (s : mce_state)
    (hinv : owned_enabled M H s ∧ exclusive_owners H s) :
    owned_enabled M H (cmci_discover M H cpu banks s)
    ∧ exclusive_owners H (cmci_discover M H cpu banks s) := by
  have hfold : ∀ (l : List Nat) (st : discover_loop),
      owned_enabled M H st.s ∧ exclusive_owners H st.s →
      owned_enabled M H (l.foldl (cmci_discover_bank M H cpu) st).s
      ∧ exclusive_owners H (l.foldl (cmci_discover_bank M H cpu) st).s := by
    intro l
    induction l with
    | nil => exact fun _ h => h
    | cons i is ih =>
      intro st h
      rw [List.foldl_cons]
      exact ih _ (discover_bank_inv M H cpu st i h)
  have h := hfold (List.range banks) { s := s } hinv
  unfold cmci_discover
  dsimp only
  split
  · exact inv_congr M H _ _ h (fun _ => rfl) rfl
  · exact h

theorem disable_bank_locked_inv (M : MceDecls) (H : mce_config) (cpu : Nat) (s : mce_state)
    (bank : Nat) (hinv : owned_enabled M H s ∧ exclusive_owners H s) :
    owned_enabled M H (cmci_disable_bank_locked M H cpu s bank)
    ∧ exclusive_owners H (cmci_disable_bank_locked M H cpu s bank) := by
  obtain ⟨k1, k2, _, _⟩ := disable_bank_locked_spec M H cpu s bank
  obtain ⟨_, _, _, g4⟩ := disable_bank_locked_frame M H cpu s bank
  have hsub : ∀ c b, owns c b (cmci_disable_bank_locked M H cpu s bank) = true →
      owns c b s = true ∧ ¬ (c = cpu ∧ b = bank) := by
    intro c b ho
    by_cases hc : c = cpu
    · subst hc
      unfold owns at ho ⊢
      rw [k1 b] at ho
      simp only [Bool.and_eq_true, decide_eq_true_eq] at ho
      exact ⟨ho.1, fun h => ho.2 h.2⟩
    · unfold owns at ho ⊢
      rw [g4 c hc] at ho
      exact ⟨ho, fun h => hc h.1⟩
  apply inv_of_subset M H s _ hinv (fun c b ho => (hsub c b ho).1)
  intro c b ho
  rw [k2]
  by_cases hcase : test_bit bank (s.cpu_vars cpu).mce_banks_owned = true
      ∧ H.reg c b = H.reg cpu bank
  · exact absurd (hinv.2 c b cpu bank (hsub c b ho).1 hcase.1 hcase.2) (hsub c b ho).2
  · rw [if_neg hcase]

theorem clear_inv (M : MceDecls) (H : mce_config) (cpu : Nat) (s : mce_state)
    (hinv : owned_enabled M H s ∧ exclusive_owners H s) :
    owned_enabled M H (cmci_clear M H cpu s) ∧ exclusive_owners H (cmci_clear M H cpu s) := by
  unfold cmci_clear
  split
  · exact hinv
  · rename_i banks _
    generalize List.range banks = l
    induction l generalizing s with
    | nil => exact hinv
    | cons i is ih =>
      rw [List.foldl_cons]
      exact ih _ (disable_bank_locked_inv M H cpu s i hinv)

theorem reenable_inv (M : MceDecls) (H : mce_config) (cpu : Nat) (s : mce_state)
    (hinv : owned_enabled M H s ∧ exclusive_owners H s) :
    owned_enabled M H (cmci_reenable M H cpu s)
    ∧ exclusive_owners H (cmci_reenable M H cpu s) := by
  unfold cmci_reenable
  split
  · exact hinv
  · exact discover_inv M H cpu _ s hinv

theorem recheck_inv (M : MceDecls) (H : mce_config) (cpu : Nat) (s : mce_state)
    (hinv : owned_enabled M H s ∧ exclusive_owners H s) :
    owned_enabled M H (cmci_recheck M H cpu s)
    ∧ exclusive_owners H (cmci_recheck M H cpu s) := by
  obtain ⟨r1, r2, _⟩ := recheck_frame M H cpu s
  exact inv_congr M H s _ hinv (fun c => by rw [r1]) r2

theorem inv_set_cpu_state (M : MceDecls) (H : mce_config) (cpu : Nat) (s : mce_state)
    (f : cmci_cpu → cmci_cpu) (hf : ∀ v, (f v).mce_banks_owned = v.mce_banks_owned)
    (hinv : owned_enabled M H s ∧ exclusive_owners H s) :
    owned_enabled M H (set_cpu cpu f s) ∧ exclusive_owners H (set_cpu cpu f s) := by
  refine inv_congr M H s _ hinv (fun c => ?_) rfl
  by_cases hc : c = cpu
  · subst hc
    rw [set_cpu_self, hf]
  · rw [set_cpu_other cpu c f s hc]

theorem adjust_timer_inv (M : MceDecls) (H : mce_config) (cpu interval : Nat) (s : mce_state)
    (hinv : owned_enabled M H s ∧ exclusive_owners H s) :
    owned_enabled M H (cmci_intel_adjust_timer M H cpu interval s).2
    ∧ exclusive_owners H (cmci_intel_adjust_timer M H cpu interval s).2 := by
  by_cases hact : (s.cpu_vars cpu).cmci_storm_state = CMCI_STORM_ACTIVE
  · by_cases hback : 0 < (s.cpu_vars cpu).cmci_backoff_cnt
    · rw [adjust_timer_backoff M H cpu interval s hact hback]
      exact inv_congr M H s _ hinv (fun _ => rfl) rfl
    · by_cases hmore : s.cmci_storm_on_cpus - 1 = 0
      · obtain ⟨t, hres, t1, t2, t3, _⟩ := adjust_timer_last_storm M H cpu interval s hact
          (by omega) (by omega)
        rw [hres]
        apply recheck_inv
        apply reenable_inv
        apply inv_congr M H s t hinv _ t3
        intro c
        by_cases hc : c = cpu
        · subst hc; rw [t1]
        · rw [t2 c hc]
      · rw [adjust_timer_active_more M H cpu interval s hact (by omega) hmore]
        exact inv_congr M H _ _
          (inv_set_cpu_state M H cpu s
            (fun v => { v with cmci_storm_state := CMCI_STORM_SUBSIDED }) (fun _ => rfl) hinv)
          (fun _ => rfl) rfl
  · by_cases hsub : (s.cpu_vars cpu).cmci_storm_state = CMCI_STORM_SUBSIDED
    · by_cases hzero : s.cmci_storm_on_cpus = 0
      · rw [adjust_timer_subsided_done M H cpu interval s hsub hzero]
        apply recheck_inv
        apply reenable_inv
        exact inv_set_cpu_state M H cpu s
          (fun v => { v with cmci_storm_state := CMCI_STORM_NONE }) (fun _ => rfl) hinv
      · rw [adjust_timer_subsided_wait M H cpu interval s hsub hzero]
        exact hinv
    · rw [adjust_timer_other M H cpu interval s hact hsub]
      exact hinv

/-- Every call other than the storm detection keeps the two properties of the
discovery protocol. -/
theorem step_inv (M : MceDecls) (H : mce_config) (s : mce_state) (c : mce_call)
    (hc : c.storm_detection = false)
    (hinv : owned_enabled M H s ∧ exclusive_owners H s) :
    owned_enabled M H (mce_step M H s c) ∧ exclusive_owners H (mce_step M H s c) := by
  cases c with
  | cmci_storm_detect cpu now => cases hc
  | intel_threshold_interrupt cpu now => cases hc
  | cmci_intel_adjust_timer cpu interval => exact adjust_timer_inv M H cpu interval s hinv
  | mce_intel_cmci_poll cpu polled =>
    show owned_enabled M H (mce_intel_cmci_poll M cpu polled s).2
      ∧ exclusive_owners H (mce_intel_cmci_poll M cpu polled s).2
    unfold mce_intel_cmci_poll
    split
    · exact hinv
    · dsimp only
      split
      · exact inv_set_cpu_state M H cpu (s.emit (.machine_check_poll cpu))
          (fun v => { v with cmci_backoff_cnt := M.INITIAL_CHECK_INTERVAL }) (fun _ => rfl)
          (inv_congr M H s _ hinv (fun _ => rfl) rfl)
      · exact inv_set_cpu_state M H cpu (s.emit (.machine_check_poll cpu))
          (fun v => { v with cmci_backoff_cnt := v.cmci_backoff_cnt - 1 }) (fun _ => rfl)
          (inv_congr M H s _ hinv (fun _ => rfl) rfl)
  | mce_intel_hcpu_update cpu =>
    show owned_enabled M H (mce_intel_hcpu_update cpu s)
      ∧ exclusive_owners H (mce_intel_hcpu_update cpu s)
    unfold mce_intel_hcpu_update
    dsimp only
    refine inv_set_cpu_state M H cpu _
      (fun v => { v with cmci_storm_state := CMCI_STORM_NONE }) (fun _ => rfl) ?_
    split
    · exact inv_congr M H s _ hinv (fun _ => rfl) rfl
    · exact hinv
  | cmci_discover cpu banks => exact discover_inv M H cpu banks s hinv
  | cmci_reenable cpu => exact reenable_inv M H cpu s hinv
  | cmci_recheck cpu => exact recheck_inv M H cpu s hinv
  | cmci_clear cpu => exact clear_inv M H cpu s hinv
  | cmci_disable_bank cpu bank =>
    show owned_enabled M H (cmci_disable_bank M H cpu bank s)
      ∧ exclusive_owners H (cmci_disable_bank M H cpu bank s)
    unfold cmci_disable_bank
    split
    · exact hinv
    · exact disable_bank_locked_inv M H cpu s bank hinv

/-- The discovery protocol by itself keeps ownership exclusive: in every
state reached from one in which no bank is owned, by calls on any processors
among which there is no storm detection, every owned bank has the enable bit
set and no register is the register of two owned banks. -/
theorem exclusive_without_storm (M : MceDecls) (H : mce_config) (calls : List mce_call)
    (s : mce_state)
    (hnone : ∀ c b, owns c b s = false)
    (hcalls : ∀ c ∈ calls, c.storm_detection = false) :
    owned_enabled M H (mce_run M H calls s) ∧ exclusive_owners H (mce_run M H calls s) := by
  have hstart : owned_enabled M H s ∧ exclusive_owners H s := by
    refine ⟨fun c b h => ?_, fun c1 b1 _ _ h _ _ => ?_⟩
    · rw [hnone c b] at h; cases h
    · rw [hnone c1 b1] at h; cases h
  have hgen : ∀ (l : List mce_call) (t : mce_state),
      (∀ c ∈ l, c.storm_detection = false) →
      owned_enabled M H t ∧ exclusive_owners H t →
      owned_enabled M H (mce_run M H l t) ∧ exclusive_owners H (mce_run M H l t) := by
    intro l
    induction l with
    | nil => exact fun _ _ h => h
    | cons c cs ih =>
      intro t hl ht
      rw [mce_run_cons]
      exact ih _ (fun d hd => hl d (List.mem_cons_of_mem c hd))
        (step_inv M H t c (hl c (List.mem_cons_self c cs)) ht)
  exact hgen calls s hcalls hstart

end Mce

namespace Zfcp

/-! ## The claims -/

/-- C1: a request that `zfcp_fsf_req_send` has put in the table (it stands in
the bucket of its `req_id`, no other registered request has its identifier
or its address) and that an element of the response buffer names is unlinked
by `zfcp_fsf_reqid_check` and completed once: one completion is added, for this
request; the table is the old one without it, so every other request stays;
its identifier is no longer found, and an element that names the identifier
again makes the loop halt in `panic` without a further completion. -/
theorem registered_request_dispatched_once (K : Decls) (E : Env) (hE : E.Frame)
    (a : zfcp_adapter) (r : zfcp_fsf_req) (sbal_idx : Nat)
    (e : qdio_buffer_element) (rest : List qdio_buffer_element)
    (hb : r ∈ a.req_list.getD (K.zfcp_reqlist_hash r.req_id) [])
    (huniq : ∀ x ∈ registered a, x.req_id = r.req_id → x = r)
    (haddr : ∀ x ∈ registered a, x.addr = r.addr → x = r)
    (he : e.addr = r.req_id) :
    ∃ a2,
      reqid_check_loop K E sbal_idx (e :: rest) a
        = (if e.eflags &&& K.SBAL_EFLAGS_LAST_ENTRY ≠ 0 then .returned a2
           else reqid_check_loop K E sbal_idx rest a2)
      ∧ a2.completions = a.completions ++ [answered r sbal_idx a]
      ∧ a2.req_list = list_del r a.req_list
      ∧ (∀ x, x ∈ registered a2 ↔ x ∈ registered a ∧ x ≠ r)
      ∧ zfcp_reqlist_find K a2 r.req_id = none
      ∧ ∀ (e2 : qdio_buffer_element) (rest2 : List qdio_buffer_element),
          e2.addr = r.req_id →
          reqid_check_loop K E sbal_idx (e2 :: rest2) a2 = .halted (a2.emit .zfcp_qdio_siosl)
            ∧ (a2.emit .zfcp_qdio_siosl).completions = a2.completions := by
  have hfind : zfcp_reqlist_find K a e.addr = some r := by
    rw [he]; exact find_of_mem_bucket K a r hb huniq
  obtain ⟨a2, hstep, hl, hc, _, _⟩ := reqid_check_loop_cons K E hE sbal_idx e rest a r hfind
  have hmem : ∀ x, x ∈ registered a2 ↔ x ∈ registered a ∧ x ≠ r := by
    intro x
    have h1 : x ∈ registered a2 ↔ x ∈ (list_del r a.req_list).flatten := by
      unfold registered; rw [hl]
    rw [h1, mem_registered_list_del]
    constructor
    · rintro ⟨hx, hne⟩
      exact ⟨hx, fun hxr => hne (by rw [hxr])⟩
    · rintro ⟨hx, hne⟩
      exact ⟨hx, fun hxa => hne (haddr x hx hxa)⟩
  have hfresh : zfcp_reqlist_find K a2 r.req_id = none := by
    apply find_none_of_fresh
    intro x hx hxid
    obtain ⟨hxa, hne⟩ := (hmem x).mp hx
    exact hne (huniq x hxa hxid)
  refine ⟨a2, hstep, hc, hl, hmem, hfresh, ?_⟩
  intro e2 rest2 he2
  refine ⟨reqid_check_loop_none K E sbal_idx e2 rest2 a2 ?_, rfl⟩
  rw [he2]; exact hfresh

theorem registered_request_dispatched_once_witness :
    sample_env.Frame
    ∧ (zfcp_fsf_req_send sample_decls sample_req 77 0 sample_adapter).1 = 0
    ∧ stamped sample_req 77 sample_adapter
        ∈ (zfcp_fsf_req_send sample_decls sample_req 77 0 sample_adapter).2.req_list.getD
            (sample_decls.zfcp_reqlist_hash (stamped sample_req 77 sample_adapter).req_id) []
    ∧ ∃ a2,
      reqid_check_loop sample_decls sample_env 3 [{ addr := 1, eflags := 0x40 }]
          (zfcp_fsf_req_send sample_decls sample_req 77 0 sample_adapter).2 = .returned a2
      ∧ a2.req_list = [[], [], [], []]
      ∧ a2.completions.length = 1 := by
  have hb : stamped sample_req 77 sample_adapter
      ∈ (zfcp_fsf_req_send sample_decls sample_req 77 0 sample_adapter).2.req_list.getD
          (sample_decls.zfcp_reqlist_hash (stamped sample_req 77 sample_adapter).req_id) [] := by
    decide
  obtain ⟨a2, h1, h2, h3, _, _, _⟩ :=
    registered_request_dispatched_once sample_decls sample_env sample_env_frame
      (zfcp_fsf_req_send sample_decls sample_req 77 0 sample_adapter).2
      (stamped sample_req 77 sample_adapter) 3 { addr := 1, eflags := 0x40 } []
      hb (by decide) (by decide) rfl
  refine ⟨sample_env_frame, rfl, hb, a2, ?_, ?_, ?_⟩
  · rw [h1]; rfl
  · rw [h3]; rfl
  · rw [h2]; rfl

/-- C2: when `zfcp_fsf_reqid_check` reaches an element whose identifier is not
in the table (the elements `pre` before it were handled and none of them is
flagged as last entry), it halts in `panic`, after `zfcp_qdio_siosl`, in the
state the elements before left: the completions on record are those of the
elements before, one each; none is run for this element or a later one, and
the table is untouched. -/
theorem reqid_check_unknown_halts (K : Decls) (E : Env) (hE : E.Frame) (sbal_idx : Nat)
    (pre : List qdio_buffer_element) (e : qdio_buffer_element)
    (rest : List qdio_buffer_element) (a a1 : zfcp_adapter)
    (hbuf : a.qdio.resp_q_sbal.getD sbal_idx [] = pre ++ e :: rest)
    (hflags : ∀ x ∈ pre, x.eflags &&& K.SBAL_EFLAGS_LAST_ENTRY = 0)
    (hpre : reqid_check_loop K E sbal_idx pre a = .returned a1)
    (hnone : zfcp_reqlist_find K a1 e.addr = none) :
    ∃ a2, zfcp_fsf_reqid_check K E sbal_idx a = .halted a2
      ∧ a2.log = a1.log ++ [Ev.zfcp_qdio_siosl]
      ∧ a2.req_list = a1.req_list
      ∧ a2.completions = a1.completions
      ∧ a2.completions.map (fun r => r.req_id)
          = a.completions.map (fun r => r.req_id) ++ pre.map (fun x => x.addr) := by
  refine ⟨a1.emit .zfcp_qdio_siosl, ?_, rfl, rfl, rfl, ?_⟩
  · unfold zfcp_fsf_reqid_check
    rw [hbuf, reqid_check_loop_append K E sbal_idx pre (e :: rest) a a1 hflags hpre]
    exact reqid_check_loop_none K E sbal_idx e rest a1 hnone
  · exact reqid_check_loop_returned_ids K E hE sbal_idx pre a a1 hflags hpre

theorem reqid_check_unknown_halts_witness :
    ∃ a1 a2, reqid_check_loop sample_decls sample_env 1 [{ addr := 2 }] sample_busy = .returned a1
      ∧ zfcp_reqlist_find sample_decls a1 7 = none
      ∧ zfcp_fsf_reqid_check sample_decls sample_env 1 sample_busy = .halted a2
      ∧ a2.completions.map (fun r => r.req_id) = [2] := by
  obtain ⟨a2, h1, _, _, _, h5⟩ :=
    reqid_check_unknown_halts sample_decls sample_env sample_env_frame 1
      [{ addr := 2 }] { addr := 7 } [{ addr := 1 }] sample_busy
      _ rfl (by decide) rfl rfl
  exact ⟨_, a2, by rfl, by rfl, h1, h5⟩

/-- C3: for a response buffer whose examined elements (up to and including
the first one flagged `SBAL_EFLAGS_LAST_ENTRY`, all of them when none is
flagged) name pairwise different identifiers that are all registered,
`zfcp_fsf_reqid_check` returns after completing exactly the requests these
elements name, in element order; the elements after the flagged one are not
read: every buffer with the same examined elements gives the same result. -/
theorem reqid_check_completes_examined (K : Decls) (E : Env) (hE : E.Frame) (sbal_idx : Nat)
    (elems : List qdio_buffer_element) (a : zfcp_adapter)
    (hbuf : a.qdio.resp_q_sbal.getD sbal_idx [] = elems)
    (hinj : addr_inj a)
    (hids : ((examined K elems).map (fun e => e.addr)).Nodup)
    (hreg : ∀ e ∈ examined K elems, zfcp_reqlist_find K a e.addr ≠ none) :
    ∃ a2, zfcp_fsf_reqid_check K E sbal_idx a = .returned a2
      ∧ a2.completions.map (fun r => r.addr) = a.completions.map (fun r => r.addr)
          ++ (examined K elems).filterMap
              (fun e => (zfcp_reqlist_find K a e.addr).map (fun r => r.addr))
      ∧ a2.completions.map (fun r => r.req_id) = a.completions.map (fun r => r.req_id)
          ++ (examined K elems).map (fun e => e.addr)
      ∧ a2.completions.length = a.completions.length + (examined K elems).length
      ∧ ∀ elems2, examined K elems2 = examined K elems →
          reqid_check_loop K E sbal_idx elems2 a = .returned a2 := by
  obtain ⟨a2, h1, h2, h3⟩ := reqid_check_loop_all_found K E hE sbal_idx elems a hinj hids hreg
  refine ⟨a2, ?_, h2, h3, ?_, ?_⟩
  · unfold zfcp_fsf_reqid_check; rw [hbuf]; exact h1
  · have := congrArg List.length h3
    simpa using this
  · intro elems2 h
    rw [reqid_check_loop_examined, h, ← reqid_check_loop_examined]; exact h1

theorem reqid_check_completes_examined_witness :
    sample_busy.qdio.resp_q_sbal.getD 0 []
        = [{ addr := 5 }, { addr := 1, eflags := 0x40 }, { addr := 2 }]
    ∧ examined sample_decls [{ addr := 5 }, { addr := 1, eflags := 0x40 }, { addr := 2 }]
        = [{ addr := 5 }, { addr := 1, eflags := 0x40 }]
    ∧ ∃ a2, zfcp_fsf_reqid_check sample_decls sample_env 0 sample_busy = .returned a2
      ∧ a2.completions.map (fun r => r.addr) = [108, 100]
      ∧ a2.completions.map (fun r => r.req_id) = [5, 1] := by
  obtain ⟨a2, h1, h2, h3, _, _⟩ :=
    reqid_check_completes_examined sample_decls sample_env sample_env_frame 0
      [{ addr := 5 }, { addr := 1, eflags := 0x40 }, { addr := 2 }] sample_busy rfl
      (by unfold addr_inj; decide) (by decide) (by decide)
  exact ⟨rfl, by decide, a2, h1, h2, h3⟩

/-- C4: in every state reachable from an empty request table through
`zfcp_fsf_req_create`, `zfcp_fsf_req_create` followed by `zfcp_fsf_req_send`,
`zfcp_fsf_reqid_check` and `zfcp_fsf_req_dismiss_all`, no two registered
requests have the same `req_id`.  As long as the counter `req_no` has not
wrapped around since the table was empty this follows from the counter alone:
every registered request has an identifier below `req_no`, and a submission
issues `req_no` itself.  Once the counter has wrapped it holds as long as no
submission issues an identifier that is still registered. -/
theorem reachable_ids_unique (K : Decls) (E : Env) (hE : E.Frame) (wrapped : Bool)
    (a : zfcp_adapter) (h : Reachable K E wrapped a) :
    ((registered a).map (fun r => r.req_id)).Nodup
    ∧ (wrapped = false → ∀ r ∈ registered a, r.req_id < a.req_no) := by
  induction h with
  | init a hempty =>
    rw [hempty]
    exact ⟨List.nodup_nil, fun _ r hr => absurd hr (List.not_mem_nil r)⟩
  | create wrapped a fsf_cmd pool alloc alloc_qtcb _ ih =>
    have hl : registered (zfcp_fsf_req_create K fsf_cmd pool alloc alloc_qtcb a).2
        = registered a := by
      unfold registered
      rw [create_req_list]
    rw [hl]
    refine ⟨ih.1, fun hw r hr => ?_⟩
    have hlt := ih.2 hw r hr
    cases alloc with
    | none => rw [create_none]; exact hlt
    | some p =>
      rw [create_req_no]
      split
      · omega
      · exact hlt
  | submit wrapped wrapped2 a a1 fsf_cmd pool alloc alloc_qtcb req req2 clock qdio_send _
      hcreate hsame hwrapped hfresh ih =>
    have hl : a1.req_list = a.req_list := by
      have := create_req_list K fsf_cmd pool alloc alloc_qtcb a
      rw [hcreate] at this; exact this
    obtain ⟨i1, i2⟩ := create_ok_req_id K fsf_cmd pool alloc alloc_qtcb a a1 req hcreate
    have hbelow : wrapped = false → ∀ r ∈ registered a, r.req_id < a1.req_no := by
      intro hw r hr
      have hlt := ih.2 hw r hr
      rw [i2]
      split
      · omega
      · exact hlt
    have hnew : ∀ r ∈ registered a, r.req_id ≠ req.req_id := by
      cases hw : wrapped with
      | true => exact hfresh hw
      | false =>
        intro r hr
        have := hbelow hw r hr
        omega
    have hn := nodup_ids_list_add_tail (stamped req2 clock a1)
      (K.zfcp_reqlist_hash req2.req_id) a1.req_list
      (by have := ih.1; unfold registered at this; rw [hl]; exact this)
      (by
        intro x hx
        rw [hl] at hx
        have : (stamped req2 clock a1).req_id = req.req_id := hsame
        rw [this]; exact hnew x hx)
    refine ⟨hn.sublist ((send_registered_sublist K req2 clock qdio_send a1).map _),
      fun hw2 r hr => ?_⟩
    rw [hw2] at hwrapped
    have hw : wrapped = false := by
      cases wrapped with
      | false => rfl
      | true => simp at hwrapped
    rw [hw] at hwrapped
    by_cases hsend : qdio_send = 0
    · subst hsend
      have hno : a1.req_no + 1 < 2 ^ K.BITS_PER_LONG := by
        simpa using hwrapped
      rw [send_ok_req_no, Nat.mod_eq_of_lt hno]
      have hsub := (send_registered_sublist K req2 clock 0 a1).subset hr
      rcases mem_of_mem_flatten_list_add_tail _ _ _ _ hsub with h | h
      · rw [h]
        have : (stamped req2 clock a1).req_id = req.req_id := hsame
        rw [this, i1]
        omega
      · rw [hl] at h
        have := hbelow hw r h
        omega
    · rw [(send_fail_frame K req2 clock qdio_send a1 hsend).1]
      have hin := send_fail_registered_subset K req2 clock qdio_send a1 hsend r hr
      unfold registered at hin
      rw [hl] at hin
      exact hbelow hw r hin
  | dispatch wrapped a a2 q sbal_idx _ hret ih =>
    have hs := reqid_check_loop_sublist K E hE sbal_idx _ _ a2 hret
    have hno : a2.req_no = a.req_no :=
      reqid_check_loop_req_no K E hE sbal_idx _ { a with qdio := q } a2 hret
    refine ⟨ih.1.sublist (hs.map _), fun hw r hr => ?_⟩
    rw [hno]
    exact ih.2 hw r (hs.subset hr)
  | dismiss wrapped a a2 status _ hret ih =>
    have hs := dismiss_all_sublist K E hE _ a2 hret
    have hno : a2.req_no = a.req_no :=
      dismiss_all_req_no K E hE { a with status := status } a2 hret
    refine ⟨ih.1.sublist (hs.map _), fun hw r hr => ?_⟩
    rw [hno]
    exact ih.2 hw r (hs.subset hr)

/-- C4, instance: two submissions on the adapter with four empty buckets and
the counter at 0 register the identifiers 1 and 2 and leave the counter at 3.
On an adapter whose counter is at its greatest value, a submission registers
that identifier and wraps the counter; the next one registers identifier 1,
which is not registered at that moment. -/
theorem reachable_ids_unique_witness :
    sample_env.Frame
    ∧ (∃ a2, Reachable sample_decls sample_env false a2
        ∧ (registered a2).map (fun r => r.req_id) = [1, 2]
        ∧ a2.req_no = 3
        ∧ ((registered a2).map (fun r => r.req_id)).Nodup
        ∧ ∀ r ∈ registered a2, r.req_id < a2.req_no)
    ∧ (∃ a3, Reachable sample_decls sample_env true a3
        ∧ (registered a3).map (fun r => r.req_id) = [1, 2 ^ 64 - 1]
        ∧ a3.req_no = 2
        ∧ ((registered a3).map (fun r => r.req_id)).Nodup) := by
  have h1 : Reachable sample_decls sample_env false
      (zfcp_fsf_req_send sample_decls sample_req 77 0
        (zfcp_fsf_req_create sample_decls 6 false (some 100) true sample_adapter).2).2 :=
    Reachable.submit false false sample_adapter _ 6 false (some 100) true sample_req sample_req
      77 0 (Reachable.init sample_adapter rfl) rfl rfl (by decide) (by intro h; cases h)
  have h2 := Reachable.submit false false _ _ 6 false (some 104) true _ (sample_req_at 104 2)
    78 0 h1 rfl (by decide) (by decide) (by intro h; cases h)
  have h3 : Reachable sample_decls sample_env true
      (zfcp_fsf_req_send sample_decls (sample_req_at 100 (2 ^ 64 - 1)) 77 0
        (zfcp_fsf_req_create sample_decls 6 false (some 100) true
          { sample_adapter with req_no := 2 ^ 64 - 1 }).2).2 :=
    Reachable.submit false true { sample_adapter with req_no := 2 ^ 64 - 1 } _ 6 false
      (some 100) true _ (sample_req_at 100 (2 ^ 64 - 1)) 77 0 (Reachable.init _ rfl) rfl
      (by decide) (by decide) (by intro h; cases h)
  have h4 := Reachable.submit true true _ _ 6 false (some 104) true _ (sample_req_at 104 1)
    78 0 h3 rfl (by decide) (by decide) (fun _ => by decide)
  have t2 := reachable_ids_unique sample_decls sample_env sample_env_frame false _ h2
  have t4 := reachable_ids_unique sample_decls sample_env sample_env_frame true _ h4
  exact ⟨sample_env_frame, ⟨_, h2, by decide, by decide, t2.1, t2.2 rfl⟩,
    ⟨_, h4, by decide, by decide, t4.1⟩⟩

/-- C6: every request that `zfcp_fsf_req_create` returns has a non-zero
`req_id`, whatever the value of the counter `req_no`, zero included (the
counter is moved to one first).  An `unsigned long` has at least one bit. -/
theorem create_req_id_ne_zero (K : Decls) (hK : 0 < K.BITS_PER_LONG) (fsf_cmd : Nat)
    (pool : Bool) (alloc : Option Nat) (alloc_qtcb : Bool) (a : zfcp_adapter)
    (req : zfcp_fsf_req)
    (h : (zfcp_fsf_req_create K fsf_cmd pool alloc alloc_qtcb a).1 = .ok req) :
    req.req_id ≠ 0 := by
  have h1 : (1 : Nat) % 2 ^ K.BITS_PER_LONG = 1 :=
    Nat.mod_eq_of_lt (Nat.one_lt_two_pow (Nat.pos_iff_ne_zero.mp hK))
  unfold zfcp_fsf_req_create at h
  cases alloc with
  | none => simp at h
  | some p =>
    by_cases h0 : a.req_no = 0
    · simp only [h0, if_true] at h
      split at h
      · split at h
        · simp only [Except.ok.injEq] at h
          rw [← h]; simp [zfcp_adapter.emit, h1]
        · simp at h
      · simp only [Except.ok.injEq] at h
        rw [← h]; simp [zfcp_adapter.emit, h1]
    · simp only [h0, if_false] at h
      split at h
      · split at h
        · simp only [Except.ok.injEq] at h
          rw [← h]; simpa [zfcp_adapter.emit] using h0
        · simp at h
      · simp only [Except.ok.injEq] at h
        rw [← h]; simpa [zfcp_adapter.emit] using h0

theorem create_req_id_ne_zero_witness :
    0 < sample_decls.BITS_PER_LONG
    ∧ (zfcp_fsf_req_create sample_decls 6 false (some 100) true sample_adapter).1 = .ok sample_req
    ∧ sample_req.req_id ≠ 0 :=
  ⟨by decide, rfl,
    create_req_id_ne_zero sample_decls (by decide) 6 false (some 100) true sample_adapter
      sample_req rfl⟩

/-- C7: when the transport accepts the buffer set (`zfcp_qdio_send` returns 0),
`zfcp_fsf_req_send` returns 0; the request stands at the end of the bucket of
its `req_id`, the other buckets are as before, and the lookup by `req_id` finds
it when no older request of that bucket carries the identifier; `req_no` is
advanced by one (as an `unsigned long`, so modulo the word size), and
`fsf_req_seq_no` is advanced by one (as a `u32`) when the request has a QTCB
and stays when it has none. -/
theorem send_accepted (K : Decls) (req : zfcp_fsf_req) (clock : Nat) (qdio_send : Int)
    (a : zfcp_adapter) (hsend : qdio_send = 0)
    (hidx : K.zfcp_reqlist_hash req.req_id < a.req_list.length) :
    (zfcp_fsf_req_send K req clock qdio_send a).1 = 0
    ∧ (zfcp_fsf_req_send K req clock qdio_send a).2.req_list.getD
          (K.zfcp_reqlist_hash req.req_id) []
        = a.req_list.getD (K.zfcp_reqlist_hash req.req_id) [] ++ [stamped req clock a]
    ∧ (∀ j, j ≠ K.zfcp_reqlist_hash req.req_id →
        (zfcp_fsf_req_send K req clock qdio_send a).2.req_list.getD j [] = a.req_list.getD j [])
    ∧ ((∀ r ∈ a.req_list.getD (K.zfcp_reqlist_hash req.req_id) [], r.req_id ≠ req.req_id) →
        zfcp_reqlist_find K (zfcp_fsf_req_send K req clock qdio_send a).2 req.req_id
          = some (stamped req clock a))
    ∧ (zfcp_fsf_req_send K req clock qdio_send a).2.req_no
        = (a.req_no + 1) % 2 ^ K.BITS_PER_LONG
    ∧ (a.req_no + 1 < 2 ^ K.BITS_PER_LONG →
        (zfcp_fsf_req_send K req clock qdio_send a).2.req_no = a.req_no + 1)
    ∧ (req.qtcb ≠ none →
        (zfcp_fsf_req_send K req clock qdio_send a).2.fsf_req_seq_no
          = (a.fsf_req_seq_no + 1) % 2 ^ 32)
    ∧ (req.qtcb ≠ none → a.fsf_req_seq_no + 1 < 2 ^ 32 →
        (zfcp_fsf_req_send K req clock qdio_send a).2.fsf_req_seq_no = a.fsf_req_seq_no + 1)
    ∧ (req.qtcb = none →
        (zfcp_fsf_req_send K req clock qdio_send a).2.fsf_req_seq_no = a.fsf_req_seq_no) := by
  subst hsend
  have hb := getD_list_add_tail_self (stamped req clock a) _ a.req_list hidx
  have hl : (zfcp_fsf_req_send K req clock 0 a).2.req_list
      = list_add_tail (stamped req clock a) (K.zfcp_reqlist_hash req.req_id) a.req_list := by
    unfold zfcp_fsf_req_send
    cases req.qtcb <;> simp
  have hn : (zfcp_fsf_req_send K req clock 0 a).2.req_no
      = (a.req_no + 1) % 2 ^ K.BITS_PER_LONG := by
    unfold zfcp_fsf_req_send
    cases req.qtcb <;> simp
  have hs1 : req.qtcb ≠ none → (zfcp_fsf_req_send K req clock 0 a).2.fsf_req_seq_no
      = (a.fsf_req_seq_no + 1) % 2 ^ 32 := by
    intro hq
    unfold zfcp_fsf_req_send
    cases hq' : req.qtcb with
    | none => exact absurd hq' hq
    | some q => simp
  refine ⟨?_, ?_, ?_, ?_, hn, ?_, hs1, ?_, ?_⟩
  · unfold zfcp_fsf_req_send; simp
  · rw [hl]; exact hb
  · intro j hj; rw [hl]; exact getD_list_add_tail_ne _ _ _ _ hj
  · intro hfresh
    unfold zfcp_reqlist_find
    rw [hl, hb, List.find?_append]
    have : List.find? (fun r => r.req_id == req.req_id)
        (a.req_list.getD (K.zfcp_reqlist_hash req.req_id) []) = none := by
      rw [List.find?_eq_none]; intro x hx; simpa using hfresh x hx
    rw [this]
    simp [stamped]
  · intro h; rw [hn]; exact Nat.mod_eq_of_lt h
  · intro hq h; rw [hs1 hq]; exact Nat.mod_eq_of_lt h
  · intro hq
    unfold zfcp_fsf_req_send
    simp [hq]

theorem send_accepted_witness :
    (0 : Int) = 0
    ∧ sample_decls.zfcp_reqlist_hash sample_req.req_id < sample_adapter.req_list.length
    ∧ (zfcp_fsf_req_send sample_decls sample_req 77 0 sample_adapter).1 = 0
    ∧ (zfcp_fsf_req_send sample_decls sample_req 77 0 sample_adapter).2.req_no = 1
    ∧ (zfcp_fsf_req_send sample_decls sample_req 77 0 sample_adapter).2.fsf_req_seq_no = 1 :=
  have h := send_accepted sample_decls sample_req 77 0 sample_adapter rfl (by decide)
  ⟨rfl, by decide, h.1, h.2.2.2.2.2.1 (by decide),
    h.2.2.2.2.2.2.2.1 (by decide) (by decide)⟩

/-- C8: when the transport send fails (`zfcp_qdio_send` returns non-zero),
`zfcp_fsf_req_send` returns `-EIO`; the request object is not in the table
afterwards, and the table is the one before the call when the object was not
linked already; the timer is deleted and `zfcp_erp_adapter_reopen` is called
once, and both counters stay. -/
theorem send_refused (K : Decls) (req : zfcp_fsf_req) (clock : Nat) (qdio_send : Int)
    (a : zfcp_adapter) (hsend : qdio_send ≠ 0) :
    (zfcp_fsf_req_send K req clock qdio_send a).1 = - EIO
    ∧ zfcp_reqlist_find_safe (zfcp_fsf_req_send K req clock qdio_send a).2 req = none
    ∧ (∀ r ∈ registered (zfcp_fsf_req_send K req clock qdio_send a).2, r.addr ≠ req.addr)
    ∧ ((∀ r ∈ registered a, r.addr ≠ req.addr) →
        (zfcp_fsf_req_send K req clock qdio_send a).2.req_list = a.req_list)
    ∧ (zfcp_fsf_req_send K req clock qdio_send a).2.log
        = a.log ++ [Ev.del_timer req.addr, Ev.zfcp_erp_adapter_reopen 0 "fsrs__1" (some req.addr)]
    ∧ (zfcp_fsf_req_send K req clock qdio_send a).2.req_no = a.req_no
    ∧ (zfcp_fsf_req_send K req clock qdio_send a).2.fsf_req_seq_no = a.fsf_req_seq_no := by
  have hreg : ∀ r ∈ registered (zfcp_fsf_req_send K req clock qdio_send a).2,
      r.addr ≠ req.addr := by
    unfold zfcp_fsf_req_send
    simp only [hsend, ne_eq, not_false_eq_true, if_true]
    split
    · intro r hr
      exact registered_remove _ _ r hr
    · rename_i hnone
      intro r hr
      exact (find_safe_none_iff _ _).mp (Option.not_isSome_iff_eq_none.mp hnone) r hr
  refine ⟨?_, ?_, hreg, ?_, ?_, ?_, ?_⟩
  · unfold zfcp_fsf_req_send; simp [hsend]
  · exact (find_safe_none_iff _ _).mpr hreg
  · intro hfresh
    unfold zfcp_fsf_req_send
    simp only [hsend, ne_eq, not_false_eq_true, if_true]
    split
    · simp only [zfcp_reqlist_remove, emit_req_list]
      exact list_del_list_add_tail _ _ _ (fun x hx => hfresh x hx)
    · rename_i hnone
      have hn := (find_safe_none_iff _ _).mp (Option.not_isSome_iff_eq_none.mp hnone)
      by_cases hidx : K.zfcp_reqlist_hash req.req_id < a.req_list.length
      · exfalso
        have hp := flatten_list_add_tail_perm (stamped req clock a) _ a.req_list hidx
        exact hn _ (hp.symm.subset (List.mem_cons_self _ _)) rfl
      · simp only [emit_req_list]
        exact list_add_tail_of_le _ _ _ (Nat.le_of_not_lt hidx)
  · unfold zfcp_fsf_req_send
    simp only [hsend, ne_eq, not_false_eq_true, if_true]
    split <;> simp [zfcp_reqlist_remove, zfcp_adapter.emit]
  · unfold zfcp_fsf_req_send
    simp only [hsend, ne_eq, not_false_eq_true, if_true]
    split <;> simp [zfcp_reqlist_remove, zfcp_adapter.emit]
  · unfold zfcp_fsf_req_send
    simp only [hsend, ne_eq, not_false_eq_true, if_true]
    split <;> simp [zfcp_reqlist_remove, zfcp_adapter.emit]

theorem send_refused_witness :
    (-5 : Int) ≠ 0
    ∧ (zfcp_fsf_req_send sample_decls sample_req 77 (-5) sample_adapter).1 = - EIO
    ∧ (zfcp_fsf_req_send sample_decls sample_req 77 (-5) sample_adapter).2.req_list
        = [[], [], [], []] :=
  have h := send_refused sample_decls sample_req 77 (-5) sample_adapter (by decide)
  ⟨by decide, h.1, h.2.2.2.1 (by decide)⟩

/-- C9: on an adapter whose transport is down (`ZFCP_STATUS_ADAPTER_QDIOUP`
clear), with `N` requests in the table, whatever their buckets,
`zfcp_fsf_req_dismiss_all` returns after it has run `zfcp_fsf_req_complete`
exactly `N` times: the completions it adds are the registered requests, each
once and each with `ZFCP_STATUS_FSFREQ_DISMISSED` already set (the buckets are
taken from the last to the first), and every bucket is empty afterwards. -/
theorem dismiss_all_completes_each (K : Decls) (E : Env) (hE : E.Frame) (N : Nat)
    (a : zfcp_adapter) (hlen : a.req_list.length = K.REQUEST_LIST_SIZE)
    (hN : (registered a).length = N)
    (hdown : a.status &&& K.ZFCP_STATUS_ADAPTER_QDIOUP = 0) :
    ∃ a2, zfcp_fsf_req_dismiss_all K E a = .returned a2
      ∧ a2.completions = a.completions ++ (a.req_list.reverse.flatten).map (dismissed K)
      ∧ ((a.req_list.reverse.flatten).map (dismissed K)).length = N
      ∧ ((a.req_list.reverse.flatten).map (dismissed K)).Perm ((registered a).map (dismissed K))
      ∧ (∀ r ∈ (a.req_list.reverse.flatten).map (dismissed K),
          r.status &&& K.ZFCP_STATUS_FSFREQ_DISMISSED = K.ZFCP_STATUS_FSFREQ_DISMISSED)
      ∧ a2.req_list.length = K.REQUEST_LIST_SIZE
      ∧ (∀ b ∈ a2.req_list, b = [])
      ∧ registered a2 = [] := by
  have hperm : (a.req_list.reverse.flatten).Perm (registered a) := by
    unfold registered
    exact (List.reverse_perm a.req_list).flatten
  have hsp := splice_buckets_eq K a.req_list hlen
  have hfr := dismiss_queue_frame K E hE (a.req_list.reverse.flatten)
    { a with req_list := List.replicate a.req_list.length [] }
  refine ⟨dismiss_queue K E (a.req_list.reverse.flatten)
    { a with req_list := List.replicate a.req_list.length [] }, ?_, hfr.2.2.2, ?_, ?_, ?_, ?_, ?_, ?_⟩
  · unfold zfcp_fsf_req_dismiss_all
    simp only [hdown, ne_eq, not_true_eq_false, if_false, hsp]
  · rw [List.length_map, hperm.length_eq, hN]
  · exact hperm.map _
  · intro r hr
    obtain ⟨x, _, rfl⟩ := List.mem_map.mp hr
    exact or_and_self_right _ _
  · rw [hfr.1]; simp [hlen]
  · rw [hfr.1]; intro b hb; exact (List.mem_replicate.mp hb).2
  · unfold registered; rw [hfr.1]; simp

theorem dismiss_all_completes_each_witness :
    sample_env.Frame
    ∧ sample_busy.req_list.length = sample_decls.REQUEST_LIST_SIZE
    ∧ (registered sample_busy).length = 3
    ∧ sample_busy.status &&& sample_decls.ZFCP_STATUS_ADAPTER_QDIOUP = 0
    ∧ ∃ a2, zfcp_fsf_req_dismiss_all sample_decls sample_env sample_busy = .returned a2
      ∧ a2.completions.map (fun r => (r.addr, r.status)) = [(104, 0x1000), (100, 0x1000), (108, 0x1000)]
      ∧ registered a2 = [] := by
  obtain ⟨a2, h1, h2, _, _, _, _, _, h9⟩ :=
    dismiss_all_completes_each sample_decls sample_env sample_env_frame 3 sample_busy
      rfl rfl rfl
  refine ⟨sample_env_frame, rfl, rfl, rfl, a2, h1, ?_, h9⟩
  rw [h2]; decide

/-- C10: called while `ZFCP_STATUS_ADAPTER_QDIOUP` is still set in the adapter
status, `zfcp_fsf_req_dismiss_all` halts in `BUG_ON` with the adapter exactly
as it was: no request has left the table, none is flagged as dismissed, no
completion has run and nothing was logged. -/
theorem dismiss_all_qdioup_halts (K : Decls) (E : Env) (a : zfcp_adapter)
    (h : a.status &&& K.ZFCP_STATUS_ADAPTER_QDIOUP ≠ 0) :
    zfcp_fsf_req_dismiss_all K E a = .halted a := by
  unfold zfcp_fsf_req_dismiss_all
  rw [if_pos h]

theorem dismiss_all_qdioup_halts_witness :
    ({ sample_busy with status := 0x2 } : zfcp_adapter).status
        &&& sample_decls.ZFCP_STATUS_ADAPTER_QDIOUP ≠ 0
    ∧ zfcp_fsf_req_dismiss_all sample_decls sample_env { sample_busy with status := 0x2 }
        = .halted { sample_busy with status := 0x2 } :=
  ⟨by decide, dismiss_all_qdioup_halts sample_decls sample_env _ (by decide)⟩

/-! ## The claims on status evaluation, completion and handlers -/

/-- C11, counterexample: a request flagged `ZFCP_STATUS_FSFREQ_DISMISSED`
whose control block carries `FSF_PROT_GOOD` and whose ERROR flag is clear
leaves `zfcp_fsf_protstatus_eval` with the ERROR flag set. -/
theorem protstatus_dismissed_good_sets_error :
    (sample_answered 0x1000 1 0 0).status &&& sample_decls.ZFCP_STATUS_FSFREQ_DISMISSED ≠ 0
    ∧ (sample_answered 0x1000 1 0 0).qtcb.map (fun q => q.pfx.prot_status)
        = some sample_decls.FSF_PROT_GOOD
    ∧ (sample_answered 0x1000 1 0 0).status &&& sample_decls.ZFCP_STATUS_FSFREQ_ERROR = 0
    ∧ (zfcp_fsf_protstatus_eval sample_decls (sample_answered 0x1000 1 0 0) sample_adapter).1.status
        &&& sample_decls.ZFCP_STATUS_FSFREQ_ERROR ≠ 0 := by
  decide

/-- C11, as amended: for every request that is not flagged as dismissed and
every value of the transport-protocol status, `zfcp_fsf_protstatus_eval` leaves
the request and the adapter as they are when the status is `FSF_PROT_GOOD` or
`FSF_PROT_FSF_STATUS_PRESENTED` (no flag changes, no recovery action), and
otherwise returns the request with the ERROR flag set and nothing else
changed in it. -/
theorem protstatus_error_iff (K : Decls) (req : zfcp_fsf_req) (q : fsf_qtcb) (a : zfcp_adapter)
    (hnd : req.status &&& K.ZFCP_STATUS_FSFREQ_DISMISSED = 0) (hq : req.qtcb = some q) :
    ((q.pfx.prot_status = K.FSF_PROT_GOOD ∨ q.pfx.prot_status = K.FSF_PROT_FSF_STATUS_PRESENTED) →
      zfcp_fsf_protstatus_eval K req a = (req, a))
    ∧ (¬ (q.pfx.prot_status = K.FSF_PROT_GOOD
          ∨ q.pfx.prot_status = K.FSF_PROT_FSF_STATUS_PRESENTED) →
      (zfcp_fsf_protstatus_eval K req a).1
        = { req with status := req.status ||| K.ZFCP_STATUS_FSFREQ_ERROR }) := by
  constructor
  · intro h
    unfold zfcp_fsf_protstatus_eval
    simp only [hnd, ne_eq, not_true_eq_false, if_false, hq, h, if_true]
  · intro h
    unfold zfcp_fsf_protstatus_eval
    simp only [hnd, ne_eq, not_true_eq_false, if_false, hq, h]
    split_ifs <;> simp [or_or_self, hq]

theorem protstatus_error_iff_witness :
    (sample_answered 0 0x10 0 0).status &&& sample_decls.ZFCP_STATUS_FSFREQ_DISMISSED = 0
    ∧ (zfcp_fsf_protstatus_eval sample_decls (sample_answered 0 0x10 0 0) sample_adapter).1.status
        = 0x8
    ∧ zfcp_fsf_protstatus_eval sample_decls (sample_answered 0 0x100 0 0) sample_adapter
        = (sample_answered 0 0x100 0 0, sample_adapter) :=
  ⟨by decide,
   by
    have h := (protstatus_error_iff sample_decls (sample_answered 0 0x10 0 0) _ sample_adapter
      (by decide) rfl).2 (by decide)
    rw [h]; rfl,
   (protstatus_error_iff sample_decls (sample_answered 0 0x100 0 0) _ sample_adapter
      (by decide) rfl).1 (by decide)⟩

/-- C12: for a request that is not dismissed, `zfcp_fsf_protstatus_eval` leaves
the adapter as follows, by transport-protocol status: version error,
unsupported QTCB type and duplicate request identifier add one
`zfcp_erp_adapter_shutdown` to the log and nothing else; a value that is none
of the case labels adds `zfcp_qdio_siosl` and one `zfcp_erp_adapter_shutdown`;
error state and sequence number error add one `zfcp_erp_adapter_reopen`;
host connection initializing adds nothing and sets
`ZFCP_STATUS_ADAPTER_HOST_CON_INIT` in the adapter status; link down runs
`zfcp_fsf_link_down_info_eval` and then adds one `zfcp_erp_adapter_reopen`
(one reopen and no shutdown in all); queue re-establish sets
`ZFCP_STATUS_COMMON_RUNNING` through `zfcp_erp_modify_adapter_status` and then
adds one `zfcp_erp_adapter_reopen`; good and status presented change
nothing. -/
theorem protstatus_recovery (K : Decls) (req : zfcp_fsf_req) (q : fsf_qtcb) (a : zfcp_adapter)
    (hdist : prot_status_distinct K)
    (hnd : req.status &&& K.ZFCP_STATUS_FSFREQ_DISMISSED = 0) (hq : req.qtcb = some q) :
    (q.pfx.prot_status = K.FSF_PROT_QTCB_VERSION_ERROR →
      (zfcp_fsf_protstatus_eval K req a).2
        = a.emit (.zfcp_erp_adapter_shutdown 0 "fspse_1" (some req.addr)))
    ∧ (q.pfx.prot_status = K.FSF_PROT_UNSUPP_QTCB_TYPE →
      (zfcp_fsf_protstatus_eval K req a).2
        = a.emit (.zfcp_erp_adapter_shutdown 0 "fspse_3" (some req.addr)))
    ∧ (q.pfx.prot_status = K.FSF_PROT_DUPLICATE_REQUEST_ID →
      (zfcp_fsf_protstatus_eval K req a).2
        = a.emit (.zfcp_erp_adapter_shutdown 0 "fspse_4" (some req.addr)))
    ∧ (q.pfx.prot_status ∉ [K.FSF_PROT_GOOD, K.FSF_PROT_FSF_STATUS_PRESENTED,
          K.FSF_PROT_QTCB_VERSION_ERROR, K.FSF_PROT_ERROR_STATE, K.FSF_PROT_SEQ_NUMB_ERROR,
          K.FSF_PROT_UNSUPP_QTCB_TYPE, K.FSF_PROT_HOST_CONNECTION_INITIALIZING,
          K.FSF_PROT_DUPLICATE_REQUEST_ID, K.FSF_PROT_LINK_DOWN, K.FSF_PROT_REEST_QUEUE] →
      (zfcp_fsf_protstatus_eval K req a).2
        = (a.emit .zfcp_qdio_siosl).emit
            (.zfcp_erp_adapter_shutdown 0 "fspse_9" (some req.addr)))
    ∧ (q.pfx.prot_status = K.FSF_PROT_ERROR_STATE
        ∨ q.pfx.prot_status = K.FSF_PROT_SEQ_NUMB_ERROR →
      (zfcp_fsf_protstatus_eval K req a).2
        = a.emit (.zfcp_erp_adapter_reopen 0 "fspse_2" (some req.addr)))
    ∧ (q.pfx.prot_status = K.FSF_PROT_HOST_CONNECTION_INITIALIZING →
      (zfcp_fsf_protstatus_eval K req a).2
        = { a with status := a.status ||| K.ZFCP_STATUS_ADAPTER_HOST_CON_INIT })
    ∧ (q.pfx.prot_status = K.FSF_PROT_LINK_DOWN →
      (zfcp_fsf_protstatus_eval K req a).2
          = (zfcp_fsf_link_down_info_eval K req "fspse_5" a).emit
              (.zfcp_erp_adapter_reopen 0 "fspse_6" (some req.addr))
        ∧ adapter_reopens (zfcp_fsf_protstatus_eval K req a).2.log = adapter_reopens a.log + 1
        ∧ adapter_shutdowns (zfcp_fsf_protstatus_eval K req a).2.log = adapter_shutdowns a.log)
    ∧ (q.pfx.prot_status = K.FSF_PROT_REEST_QUEUE →
      (zfcp_fsf_protstatus_eval K req a).2
        = ({ a with status := a.status ||| K.ZFCP_STATUS_COMMON_RUNNING }.emit
            (.zfcp_erp_modify_adapter_status "fspse_7" K.ZFCP_STATUS_COMMON_RUNNING)).emit
            (.zfcp_erp_adapter_reopen
              (K.ZFCP_STATUS_ADAPTER_LINK_UNPLUGGED ||| K.ZFCP_STATUS_COMMON_ERP_FAILED)
              "fspse_8" (some req.addr)))
    ∧ (q.pfx.prot_status = K.FSF_PROT_GOOD
        ∨ q.pfx.prot_status = K.FSF_PROT_FSF_STATUS_PRESENTED →
      (zfcp_fsf_protstatus_eval K req a).2 = a) := by
  have hd := prot_status_distinct_ne K hdist
  have hunf : zfcp_fsf_protstatus_eval K req a =
      if q.pfx.prot_status = K.FSF_PROT_GOOD
          ∨ q.pfx.prot_status = K.FSF_PROT_FSF_STATUS_PRESENTED then (req, a)
      else
        let ra : zfcp_fsf_req × zfcp_adapter :=
          if q.pfx.prot_status = K.FSF_PROT_QTCB_VERSION_ERROR then
            (req, a.emit (.zfcp_erp_adapter_shutdown 0 "fspse_1" (some req.addr)))
          else if q.pfx.prot_status = K.FSF_PROT_ERROR_STATE
              ∨ q.pfx.prot_status = K.FSF_PROT_SEQ_NUMB_ERROR then
            ({ req with status := req.status ||| K.ZFCP_STATUS_FSFREQ_ERROR },
              a.emit (.zfcp_erp_adapter_reopen 0 "fspse_2" (some req.addr)))
          else if q.pfx.prot_status = K.FSF_PROT_UNSUPP_QTCB_TYPE then
            (req, a.emit (.zfcp_erp_adapter_shutdown 0 "fspse_3" (some req.addr)))
          else if q.pfx.prot_status = K.FSF_PROT_HOST_CONNECTION_INITIALIZING then
            (req, { a with status := a.status ||| K.ZFCP_STATUS_ADAPTER_HOST_CON_INIT })
          else if q.pfx.prot_status = K.FSF_PROT_DUPLICATE_REQUEST_ID then
            (req, a.emit (.zfcp_erp_adapter_shutdown 0 "fspse_4" (some req.addr)))
          else if q.pfx.prot_status = K.FSF_PROT_LINK_DOWN then
            (req, (zfcp_fsf_link_down_info_eval K req "fspse_5" a).emit
              (.zfcp_erp_adapter_reopen 0 "fspse_6" (some req.addr)))
          else if q.pfx.prot_status = K.FSF_PROT_REEST_QUEUE then
            (req, (zfcp_erp_modify_adapter_status_set "fspse_7" K.ZFCP_STATUS_COMMON_RUNNING a).emit
              (.zfcp_erp_adapter_reopen
                (K.ZFCP_STATUS_ADAPTER_LINK_UNPLUGGED ||| K.ZFCP_STATUS_COMMON_ERP_FAILED)
                "fspse_8" (some req.addr)))
          else
            (req, (a.emit .zfcp_qdio_siosl).emit
              (.zfcp_erp_adapter_shutdown 0 "fspse_9" (some req.addr)))
        ({ ra.1 with status := ra.1.status ||| K.ZFCP_STATUS_FSFREQ_ERROR }, ra.2) := by
    unfold zfcp_fsf_protstatus_eval
    simp only [hnd, ne_eq, not_true_eq_false, if_false, hq]
  rw [hunf]
  clear hunf hq hnd hdist
  generalize q.pfx.prot_status = ps
  obtain ⟨d1, d2, d3, d4, d5, d6, d7, d8, d9, d10, d11, d12, d13, d14, d15, d16, d17, d18, d19,
    d20, d21, d22, d23, d24, d25, d26, d27, d28, d29, d30, d31, d32, d33, d34, d35, d36, d37,
    d38, d39, d40, d41, d42, d43, d44⟩ := hd
  refine ⟨?_, ?_, ?_, ?_, ?_, ?_, ?_, ?_, ?_⟩
  · intro h
    subst h
    simp only [d2.symm, d10.symm, false_or, or_self, if_false, if_true]
  · intro h
    subst h
    simp only [d5.symm, d13.symm, d20.symm, d25.symm, d30.symm, false_or, or_self, if_false,
      if_true]
  · intro h
    subst h
    simp only [d7.symm, d15.symm, d22.symm, d27.symm, d32.symm, d36.symm, d39.symm, false_or,
      or_self, if_false, if_true]
  · intro h
    simp only [List.mem_cons, List.mem_singleton, List.not_mem_nil, or_false, not_or] at h
    obtain ⟨n1, n2, n3, n4, n5, n6, n7, n8, n9, n10⟩ := h
    simp only [n1, n2, n3, n4, n5, n6, n7, n8, n9, n10, false_or, or_self, if_false]
  · intro h
    rcases h with h | h
    · subst h
      simp only [d3.symm, d11.symm, d18.symm, false_or, or_self, if_false, true_or, if_true]
    · subst h
      simp only [d4.symm, d12.symm, d19.symm, false_or, or_self, if_false, or_true, if_true]
  · intro h
    subst h
    simp only [d6.symm, d14.symm, d21.symm, d26.symm, d31.symm, d35.symm, false_or, or_self,
      if_false, if_true]
  · intro h
    subst h
    have hc := link_down_counts K req "fspse_5" a
    simp only [d8.symm, d16.symm, d23.symm, d28.symm, d33.symm, d37.symm, d40.symm, d42.symm,
      false_or, or_self, if_false, if_true, true_and]
    constructor
    · simp only [adapter_reopens, emit_log, List.filter_append] at hc ⊢
      simp [hc.2]
    · simp only [adapter_shutdowns, emit_log, List.filter_append] at hc ⊢
      simp [hc.1]
  · intro h
    subst h
    simp only [d9.symm, d17.symm, d24.symm, d29.symm, d34.symm, d38.symm, d41.symm, d43.symm,
      d44.symm, false_or, or_self, if_false, if_true, zfcp_erp_modify_adapter_status_set]
  · intro h
    simp only [h, if_true]

theorem protstatus_recovery_witness :
    prot_status_distinct sample_decls
    ∧ (sample_answered 0 0x10 0 0).status &&& sample_decls.ZFCP_STATUS_FSFREQ_DISMISSED = 0
    ∧ (zfcp_fsf_protstatus_eval sample_decls (sample_answered 0 0x10 0 0) sample_adapter).2.log
        = [Ev.zfcp_erp_adapter_shutdown 0 "fspse_1" (some 100)]
    ∧ (zfcp_fsf_protstatus_eval sample_decls (sample_answered 0 0x400 0 0) sample_adapter).2.log
        = [Ev.zfcp_scsi_schedule_rports_block, Ev.zfcp_erp_adapter_failed "fspse_5" (some 100),
           Ev.zfcp_erp_adapter_reopen 0 "fspse_6" (some 100)] := by
  have hd : prot_status_distinct sample_decls := by unfold prot_status_distinct; decide
  have h1 := (protstatus_recovery sample_decls (sample_answered 0 0x10 0 0) _ sample_adapter hd
    (by decide) rfl).1 rfl
  have h2 := ((protstatus_recovery sample_decls (sample_answered 0 0x400 0 0) _ sample_adapter hd
    (by decide) rfl).2.2.2.2.2.2.1 rfl).1
  refine ⟨hd, by decide, ?_, ?_⟩
  · rw [h1]; rfl
  · rw [h2]; rfl

/-- C13, counterexample: for a request flagged as dismissed whose control
block carries `FSF_PROT_QTCB_VERSION_ERROR`, the two status evaluations call
`zfcp_erp_adapter_shutdown` not once but never: they add nothing to the
log. -/
theorem version_error_dismissed_no_shutdown :
    (sample_answered 0x1000 0x10 0 0).qtcb.map (fun q => q.pfx.prot_status)
        = some sample_decls.FSF_PROT_QTCB_VERSION_ERROR
    ∧ adapter_shutdowns
        (status_layers sample_decls (sample_answered 0x1000 0x10 0 0) sample_adapter).2.log
        = adapter_shutdowns sample_adapter.log
    ∧ (status_layers sample_decls (sample_answered 0x1000 0x10 0 0) sample_adapter).2.log = [] := by
  decide

/-- C13, as amended: for every request that is not flagged as dismissed and
whose control block carries the transport status
`FSF_PROT_QTCB_VERSION_ERROR`, the two status evaluations run by
`zfcp_fsf_req_complete` leave the request with the ERROR flag set and nothing
else changed, and add exactly one call, `zfcp_erp_adapter_shutdown`, to the
log: the second evaluation is skipped because of the ERROR flag. -/
theorem version_error_layers (K : Decls) (req : zfcp_fsf_req) (q : fsf_qtcb) (a : zfcp_adapter)
    (herr : K.ZFCP_STATUS_FSFREQ_ERROR ≠ 0)
    (hg : K.FSF_PROT_QTCB_VERSION_ERROR ≠ K.FSF_PROT_GOOD)
    (hp : K.FSF_PROT_QTCB_VERSION_ERROR ≠ K.FSF_PROT_FSF_STATUS_PRESENTED)
    (hnd : req.status &&& K.ZFCP_STATUS_FSFREQ_DISMISSED = 0) (hq : req.qtcb = some q)
    (hv : q.pfx.prot_status = K.FSF_PROT_QTCB_VERSION_ERROR) :
    (status_layers K req a).1 = { req with status := req.status ||| K.ZFCP_STATUS_FSFREQ_ERROR }
    ∧ (status_layers K req a).1.status &&& K.ZFCP_STATUS_FSFREQ_ERROR ≠ 0
    ∧ (status_layers K req a).2
        = a.emit (.zfcp_erp_adapter_shutdown 0 "fspse_1" (some req.addr))
    ∧ adapter_shutdowns (status_layers K req a).2.log = adapter_shutdowns a.log + 1
    ∧ adapter_reopens (status_layers K req a).2.log = adapter_reopens a.log := by
  have h1 : zfcp_fsf_protstatus_eval K req a
      = ({ req with status := req.status ||| K.ZFCP_STATUS_FSFREQ_ERROR },
         a.emit (.zfcp_erp_adapter_shutdown 0 "fspse_1" (some req.addr))) := by
    unfold zfcp_fsf_protstatus_eval
    simp only [hnd, ne_eq, not_true_eq_false, if_false, hq, hv, hg, hp, or_self, if_true]
  have h2 : status_layers K req a
      = ({ req with status := req.status ||| K.ZFCP_STATUS_FSFREQ_ERROR },
         a.emit (.zfcp_erp_adapter_shutdown 0 "fspse_1" (some req.addr))) := by
    unfold status_layers
    rw [h1]
    unfold zfcp_fsf_fsfstatus_eval
    simp only [or_and_ne_zero _ _ herr, ne_eq, not_false_eq_true, if_true]
  rw [h2]
  refine ⟨rfl, or_and_ne_zero _ _ herr, rfl, ?_, ?_⟩
  · simp [adapter_shutdowns, List.filter_append]
  · simp [adapter_reopens, List.filter_append]

theorem version_error_layers_witness :
    sample_decls.ZFCP_STATUS_FSFREQ_ERROR ≠ 0
    ∧ (sample_answered 0 0x10 0xE2 0).status &&& sample_decls.ZFCP_STATUS_FSFREQ_DISMISSED = 0
    ∧ (status_layers sample_decls (sample_answered 0 0x10 0xE2 0) sample_adapter).1.status = 0x8
    ∧ adapter_shutdowns
        (status_layers sample_decls (sample_answered 0 0x10 0xE2 0) sample_adapter).2.log = 1 := by
  have h := version_error_layers sample_decls (sample_answered 0 0x10 0xE2 0) _ sample_adapter
    (by decide) (by decide) (by decide) (by decide) rfl rfl
  refine ⟨by decide, by decide, ?_, ?_⟩
  · rw [h.1]; rfl
  · rw [h.2.2.2.1]; rfl

/-- C14: for a request with the ERROR flag clear, `zfcp_fsf_fsfstatus_eval`
does the following, by protocol-command status: `FSF_UNKNOWN_COMMAND` adds one
`zfcp_erp_adapter_shutdown` and sets ERROR; `FSF_ADAPTER_STATUS_AVAILABLE` with
qualifier FCP response available, invoke link test, no retry possible or
ULP-dependent ERP required changes nothing; with qualifier command aborted it
sets ERROR and calls nothing; with qualifier no recommendation it adds
`zfcp_qdio_siosl` and one `zfcp_erp_adapter_shutdown` and sets ERROR; with
any other qualifier it sets ERROR and calls nothing; every other status leaves
request and adapter as they are. -/
theorem fsfstatus_classification (K : Decls) (req : zfcp_fsf_req) (q : fsf_qtcb)
    (a : zfcp_adapter)
    (hcodes : K.FSF_UNKNOWN_COMMAND ≠ K.FSF_ADAPTER_STATUS_AVAILABLE)
    (hdist : status_qual_distinct K)
    (herr : req.status &&& K.ZFCP_STATUS_FSFREQ_ERROR = 0) (hq : req.qtcb = some q) :
    (q.header.fsf_status = K.FSF_UNKNOWN_COMMAND →
      zfcp_fsf_fsfstatus_eval K req a
        = ({ req with status := req.status ||| K.ZFCP_STATUS_FSFREQ_ERROR },
           a.emit (.zfcp_erp_adapter_shutdown 0 "fsfse_1" (some req.addr))))
    ∧ (q.header.fsf_status = K.FSF_ADAPTER_STATUS_AVAILABLE →
        (q.header.fsf_status_qual_word0 = K.FSF_SQ_FCP_RSP_AVAILABLE
          ∨ q.header.fsf_status_qual_word0 = K.FSF_SQ_INVOKE_LINK_TEST_PROCEDURE
          ∨ q.header.fsf_status_qual_word0 = K.FSF_SQ_NO_RETRY_POSSIBLE
          ∨ q.header.fsf_status_qual_word0 = K.FSF_SQ_ULP_DEPENDENT_ERP_REQUIRED) →
      zfcp_fsf_fsfstatus_eval K req a = (req, a))
    ∧ (q.header.fsf_status = K.FSF_ADAPTER_STATUS_AVAILABLE →
        q.header.fsf_status_qual_word0 = K.FSF_SQ_COMMAND_ABORTED →
      zfcp_fsf_fsfstatus_eval K req a
        = ({ req with status := req.status ||| K.ZFCP_STATUS_FSFREQ_ERROR }, a))
    ∧ (q.header.fsf_status = K.FSF_ADAPTER_STATUS_AVAILABLE →
        q.header.fsf_status_qual_word0 = K.FSF_SQ_NO_RECOM →
      zfcp_fsf_fsfstatus_eval K req a
        = ({ req with status := req.status ||| K.ZFCP_STATUS_FSFREQ_ERROR },
           (a.emit .zfcp_qdio_siosl).emit
             (.zfcp_erp_adapter_shutdown 0 "fsfsqe1" (some req.addr))))
    ∧ (q.header.fsf_status = K.FSF_ADAPTER_STATUS_AVAILABLE →
        q.header.fsf_status_qual_word0 ∉ [K.FSF_SQ_FCP_RSP_AVAILABLE,
          K.FSF_SQ_INVOKE_LINK_TEST_PROCEDURE, K.FSF_SQ_NO_RETRY_POSSIBLE,
          K.FSF_SQ_ULP_DEPENDENT_ERP_REQUIRED, K.FSF_SQ_COMMAND_ABORTED, K.FSF_SQ_NO_RECOM] →
      zfcp_fsf_fsfstatus_eval K req a
        = ({ req with status := req.status ||| K.ZFCP_STATUS_FSFREQ_ERROR }, a))
    ∧ (q.header.fsf_status ≠ K.FSF_UNKNOWN_COMMAND →
        q.header.fsf_status ≠ K.FSF_ADAPTER_STATUS_AVAILABLE →
      zfcp_fsf_fsfstatus_eval K req a = (req, a)) := by
  obtain ⟨s1, s2, s3, s4, s5, s6, s7, s8, s9⟩ := status_qual_distinct_ne K hdist
  have hunf : zfcp_fsf_fsfstatus_eval K req a =
      if q.header.fsf_status = K.FSF_UNKNOWN_COMMAND then
        ({ req with status := req.status ||| K.ZFCP_STATUS_FSFREQ_ERROR },
          a.emit (.zfcp_erp_adapter_shutdown 0 "fsfse_1" (some req.addr)))
      else if q.header.fsf_status = K.FSF_ADAPTER_STATUS_AVAILABLE then
        zfcp_fsf_fsfstatus_qual_eval K req q.header.fsf_status_qual_word0 a
      else (req, a) := by
    unfold zfcp_fsf_fsfstatus_eval
    simp only [herr, ne_eq, not_true_eq_false, if_false, hq]
  rw [hunf]
  clear hunf hq herr hdist
  generalize q.header.fsf_status = st
  generalize q.header.fsf_status_qual_word0 = w
  refine ⟨?_, ?_, ?_, ?_, ?_, ?_⟩
  · intro h
    simp only [h, if_true]
  · intro h hw
    subst h
    simp only [hcodes.symm, if_false, if_true, zfcp_fsf_fsfstatus_qual_eval, hw]
  · intro h hw
    subst h; subst hw
    simp only [hcodes.symm, if_false, if_true, zfcp_fsf_fsfstatus_qual_eval, s1.symm, s2.symm,
      s3.symm, s4.symm, or_self]
  · intro h hw
    subst h; subst hw
    simp only [hcodes.symm, if_false, if_true, zfcp_fsf_fsfstatus_qual_eval, s5.symm, s6.symm,
      s7.symm, s8.symm, s9.symm, or_self]
  · intro h hw
    subst h
    simp only [List.mem_cons, List.mem_singleton, List.not_mem_nil, or_false, not_or] at hw
    obtain ⟨n1, n2, n3, n4, n5, n6⟩ := hw
    simp only [hcodes.symm, if_false, if_true, zfcp_fsf_fsfstatus_qual_eval, n1, n2, n3, n4, n5,
      n6, or_self]
  · intro h1 h2
    simp only [h1, h2, if_false]

theorem fsfstatus_classification_witness :
    sample_decls.FSF_UNKNOWN_COMMAND ≠ sample_decls.FSF_ADAPTER_STATUS_AVAILABLE
    ∧ status_qual_distinct sample_decls
    ∧ (sample_answered 0 0x1 0xAD 0x7).status &&& sample_decls.ZFCP_STATUS_FSFREQ_ERROR = 0
    ∧ (zfcp_fsf_fsfstatus_eval sample_decls (sample_answered 0 0x1 0xAD 0x7) sample_adapter).1.status
        = 0x8
    ∧ (zfcp_fsf_fsfstatus_eval sample_decls (sample_answered 0 0x1 0xAD 0x7) sample_adapter).2.log
        = [Ev.zfcp_qdio_siosl, Ev.zfcp_erp_adapter_shutdown 0 "fsfsqe1" (some 100)] := by
  have hd : status_qual_distinct sample_decls := by unfold status_qual_distinct; decide
  have h := (fsfstatus_classification sample_decls (sample_answered 0 0x1 0xAD 0x7) _
    sample_adapter (by decide) hd (by decide) rfl).2.2.2.1 rfl rfl
  refine ⟨by decide, hd, by decide, ?_, ?_⟩
  · rw [h]; rfl
  · rw [h]; rfl

/-- C15: when the ERROR flag of the request is already set,
`zfcp_fsf_fsfstatus_eval` returns the request and the adapter as they are,
whatever the protocol-command status and the qualifier: no flag changes and
no call is made. -/
theorem fsfstatus_skipped_on_error (K : Decls) (req : zfcp_fsf_req) (a : zfcp_adapter)
    (herr : req.status &&& K.ZFCP_STATUS_FSFREQ_ERROR ≠ 0) :
    zfcp_fsf_fsfstatus_eval K req a = (req, a) := by
  unfold zfcp_fsf_fsfstatus_eval
  rw [if_pos herr]

theorem fsfstatus_skipped_on_error_witness :
    (sample_answered 0x8 0x1 0xE2 0).status &&& sample_decls.ZFCP_STATUS_FSFREQ_ERROR ≠ 0
    ∧ zfcp_fsf_fsfstatus_eval sample_decls (sample_answered 0x8 0x1 0xE2 0) sample_adapter
        = (sample_answered 0x8 0x1 0xE2 0, sample_adapter) :=
  ⟨by decide, fsfstatus_skipped_on_error sample_decls _ sample_adapter (by decide)⟩

/-- C16: for every request of another kind than unsolicited status, whatever
its flags (ERROR, DISMISSED), `zfcp_fsf_req_complete` calls through
`req->handler` exactly once: the handler receives the request and the adapter
that the two status evaluations leave, nothing before that call and nothing
after it is a call through the pointer, and the log holds one more such call
than before when the handler makes none of its own. -/
theorem complete_calls_handler_once (K : Decls) (E : Env) (req : zfcp_fsf_req)
    (a : zfcp_adapter) (hk : req.fsf_command ≠ K.FSF_QTCB_UNSOLICITED_STATUS) :
    evaluated K req a
        = status_layers K req
            ({ a with completions := a.completions ++ [req] }.emit (.del_timer req.addr))
    ∧ handler_calls (evaluated K req a).2.log = handler_calls a.log
    ∧ handled K E req a
        = E.handler (evaluated K req a).1.handler (evaluated K req a).1
            ((evaluated K req a).2.emit
              (.call_handler (evaluated K req a).1.handler (evaluated K req a).1.addr))
    ∧ (zfcp_fsf_req_complete K E req a).1 = (handled K E req a).1
    ∧ (∃ tail, (zfcp_fsf_req_complete K E req a).2.log = (handled K E req a).2.log ++ tail
        ∧ handler_calls tail = 0)
    ∧ ((∀ fn r b, handler_calls (E.handler fn r b).2.log = handler_calls b.log) →
        handler_calls (zfcp_fsf_req_complete K E req a).2.log = handler_calls a.log + 1) := by
  have heq := complete_eq K E req a hk
  obtain ⟨evs, hl, hp⟩ := evaluated_log K req a
  have hev : handler_calls (evaluated K req a).2.log = handler_calls a.log := by
    rw [hl, handler_calls_append]
    have : handler_calls (Ev.del_timer req.addr :: evs) = 0 := by
      have h0 := handler_calls_of_eval evs hp
      unfold handler_calls at h0 ⊢
      simpa [List.filter_cons] using h0
    rw [this]; rfl
  have htail : handler_calls (erp_notified (handled K E req a).1
      ++ [if (handled K E req a).1.status &&& K.ZFCP_STATUS_FSFREQ_CLEANUP ≠ 0
          then Ev.zfcp_fsf_req_free (handled K E req a).1.addr
          else Ev.complete (handled K E req a).1.addr]) = 0 := by
    unfold erp_notified handler_calls
    split <;> split <;> simp [List.filter_cons]
  refine ⟨rfl, hev, rfl, by rw [heq], ⟨_, by rw [heq, List.append_assoc], htail⟩, ?_⟩
  intro hquiet
  have hh : handler_calls (handled K E req a).2.log = handler_calls a.log + 1 := by
    unfold handled
    rw [hquiet, emit_log, handler_calls_append, hev]
    simp [handler_calls]
  rw [heq]
  show handler_calls ((handled K E req a).2.log ++ erp_notified (handled K E req a).1
      ++ [if (handled K E req a).1.status &&& K.ZFCP_STATUS_FSFREQ_CLEANUP ≠ 0
          then Ev.zfcp_fsf_req_free (handled K E req a).1.addr
          else Ev.complete (handled K E req a).1.addr]) = handler_calls a.log + 1
  rw [List.append_assoc, handler_calls_append, htail, hh]

theorem complete_calls_handler_once_witness :
    (sample_answered 0x1008 0x1 0 0).fsf_command ≠ sample_decls.FSF_QTCB_UNSOLICITED_STATUS
    ∧ (zfcp_fsf_req_complete sample_decls sample_env (sample_answered 0x1008 0x1 0 0)
        sample_adapter).2.log
        = [Ev.del_timer 100, Ev.call_handler 0 100, Ev.complete 100]
    ∧ handler_calls (zfcp_fsf_req_complete sample_decls sample_env
        (sample_answered 0x1008 0x1 0 0) sample_adapter).2.log = 1 := by
  have h := (complete_calls_handler_once sample_decls sample_env
    (sample_answered 0x1008 0x1 0 0) sample_adapter (by decide)).2.2.2.2.2
    (fun _ _ _ => rfl)
  exact ⟨by decide, by decide, h⟩

/-- C17: for a request of another kind than unsolicited status,
`zfcp_fsf_req_complete` ends in one of two ways, by the CLEANUP flag as it is
after the handler: with the flag set the last call is `zfcp_fsf_req_free` and
the completion is not signalled; with the flag clear the last call is
`complete` and the request is not released.  Before it stands only the
notification of the recovery action, when the request has one. -/
theorem complete_frees_or_signals (K : Decls) (E : Env) (req : zfcp_fsf_req)
    (a : zfcp_adapter) (hk : req.fsf_command ≠ K.FSF_QTCB_UNSOLICITED_STATUS) :
    (zfcp_fsf_req_complete K E req a).1 = (handled K E req a).1
    ∧ ((handled K E req a).1.status &&& K.ZFCP_STATUS_FSFREQ_CLEANUP ≠ 0 →
        (zfcp_fsf_req_complete K E req a).2.log
          = (handled K E req a).2.log ++ erp_notified (handled K E req a).1
              ++ [Ev.zfcp_fsf_req_free (handled K E req a).1.addr])
    ∧ ((handled K E req a).1.status &&& K.ZFCP_STATUS_FSFREQ_CLEANUP = 0 →
        (zfcp_fsf_req_complete K E req a).2.log
          = (handled K E req a).2.log ++ erp_notified (handled K E req a).1
              ++ [Ev.complete (handled K E req a).1.addr]) := by
  have heq := complete_eq K E req a hk
  refine ⟨by rw [heq], ?_, ?_⟩
  · intro h
    rw [heq]
    simp only [h, ne_eq, not_false_eq_true, if_true]
  · intro h
    rw [heq]
    simp only [h, ne_eq, not_true_eq_false, if_false]

theorem complete_frees_or_signals_witness :
    (sample_answered 0x20 0x1 0 0).fsf_command ≠ sample_decls.FSF_QTCB_UNSOLICITED_STATUS
    ∧ (zfcp_fsf_req_complete sample_decls sample_env
        { sample_answered 0x20 0x1 0 0 with erp_action := some 7 } sample_adapter).2.log
        = [Ev.del_timer 100, Ev.call_handler 0 100, Ev.zfcp_erp_notify 7 0,
           Ev.zfcp_fsf_req_free 100]
    ∧ (zfcp_fsf_req_complete sample_decls sample_env
        (sample_answered 0 0x1 0 0) sample_adapter).2.log
        = [Ev.del_timer 100, Ev.call_handler 0 100, Ev.complete 100] := by
  have h1 := (complete_frees_or_signals sample_decls sample_env
    { sample_answered 0x20 0x1 0 0 with erp_action := some 7 } sample_adapter
    (by decide)).2.1 (by decide)
  have h2 := (complete_frees_or_signals sample_decls sample_env
    (sample_answered 0 0x1 0 0) sample_adapter (by decide)).2.2 (by decide)
  refine ⟨by decide, ?_, ?_⟩
  · rw [h1]; decide
  · rw [h2]; decide

/-- C18: for a request of kind unsolicited status, `zfcp_fsf_req_complete`
is the call of the unsolicited-status handler and nothing else: the request is
returned as it was (no status evaluation touches it) and the adapter is the one
that `zfcp_fsf_status_read_handler` leaves. With the handler of the source, the
log gains exactly one `zfcp_fsf_status_read_handler` entry and no `del_timer`,
no call through `req->handler`, no `zfcp_erp_notify` and no `complete`. -/
theorem complete_unsolicited (K : Decls) (U : MoreDecls) (E : Env)
    (other : Nat → zfcp_fsf_req → zfcp_adapter → zfcp_fsf_req × zfcp_adapter)
    (req : zfcp_fsf_req) (a : zfcp_adapter)
    (hk : req.fsf_command = K.FSF_QTCB_UNSOLICITED_STATUS) :
    zfcp_fsf_req_complete K E req a
        = (req, E.status_read_handler req
            ({ a with completions := a.completions ++ [req] }.emit
              (.zfcp_fsf_status_read_handler req.addr)))
    ∧ (zfcp_fsf_req_complete K (zfcp_env K U other) req a).1 = req
    ∧ (zfcp_fsf_req_complete K (zfcp_env K U other) req a).2
        = zfcp_fsf_status_read_handler K U req
            ({ a with completions := a.completions ++ [req] }.emit
              (.zfcp_fsf_status_read_handler req.addr))
    ∧ status_read_calls (zfcp_fsf_req_complete K (zfcp_env K U other) req a).2.log
        = status_read_calls a.log + 1
    ∧ solicited_calls (zfcp_fsf_req_complete K (zfcp_env K U other) req a).2.log
        = solicited_calls a.log := by
  have hgen : ∀ E2 : Env, zfcp_fsf_req_complete K E2 req a
      = (req, E2.status_read_handler req
          ({ a with completions := a.completions ++ [req] }.emit
            (.zfcp_fsf_status_read_handler req.addr))) := by
    intro E2
    unfold zfcp_fsf_req_complete
    simp only [hk, if_true]
  obtain ⟨evs, h1, h2, h3⟩ := quiet_status_read_handler K U req
    ({ a with completions := a.completions ++ [req] }.emit
      (.zfcp_fsf_status_read_handler req.addr))
  have hlog : (zfcp_fsf_req_complete K (zfcp_env K U other) req a).2.log
      = a.log ++ (Ev.zfcp_fsf_status_read_handler req.addr :: evs) := by
    rw [hgen]
    show (zfcp_fsf_status_read_handler K U req _).log = _
    rw [h1]; simp
  refine ⟨hgen E, by rw [hgen], by rw [hgen]; rfl, ?_, ?_⟩
  · rw [hlog]
    unfold status_read_calls at h3 ⊢
    rw [List.filter_append, List.length_append, List.filter_cons]
    simp only [if_true, List.length_cons, h3]
  · rw [hlog]
    unfold solicited_calls at h2 ⊢
    rw [List.filter_append, List.length_append, List.filter_cons]
    simp only [Bool.false_eq_true, if_false, h2]
    rfl

/-- C18, instance: an unsolicited status request whose buffer reports link up
is completed with the calls of the status read handler only. -/
theorem complete_unsolicited_witness :
    (sample_unsolicited 0).fsf_command = sample_decls.FSF_QTCB_UNSOLICITED_STATUS
    ∧ (zfcp_fsf_req_complete sample_decls (zfcp_env sample_decls sample_more sample_env.handler)
        (sample_unsolicited 0) sample_status_read).2.log
        = [Ev.zfcp_fsf_status_read_handler 200,
           Ev.zfcp_erp_modify_adapter_status "fssrh_1" 0x40000000,
           Ev.zfcp_erp_adapter_reopen 0x20000200 "fssrh_2" (some 200),
           Ev.zfcp_fc_enqueue_event 1, Ev.mempool_free_status_read_data 300,
           Ev.zfcp_fsf_req_free 200, Ev.queue_work_stat_work]
    ∧ solicited_calls (zfcp_fsf_req_complete sample_decls
        (zfcp_env sample_decls sample_more sample_env.handler)
        (sample_unsolicited 0) sample_status_read).2.log = 0 := by
  have h := (complete_unsolicited sample_decls sample_more sample_env sample_env.handler
    (sample_unsolicited 0) sample_status_read rfl).2.2.2.2
  exact ⟨rfl, by decide, h⟩

/-- C19: for a request with a control block, `zfcp_fsf_send_fcp_ctm_handler`
ORs `ZFCP_STATUS_FSFREQ_TMFUNCFAILED` into the status exactly when the response
code differs from `FCP_TMF_CMPL` or the ERROR flag is set, and otherwise
returns the request as it is; for a request that enters with TMFUNCFAILED
clear, the flag is set afterwards if and only if that condition holds; and the
ERROR flag is the same before and after. -/
theorem ctm_handler_tmfuncfailed (K : Decls) (U : MoreDecls) (req : zfcp_fsf_req) (q : fsf_qtcb)
    (hq : req.qtcb = some q)
    (hbits : U.ZFCP_STATUS_FSFREQ_TMFUNCFAILED &&& K.ZFCP_STATUS_FSFREQ_ERROR = 0)
    (htmf : U.ZFCP_STATUS_FSFREQ_TMFUNCFAILED ≠ 0) :
    zfcp_fsf_send_fcp_ctm_handler K U req
        = (if q.bottom.rsp_code ≠ U.FCP_TMF_CMPL ∨ req.status &&& K.ZFCP_STATUS_FSFREQ_ERROR ≠ 0
           then { req with status := req.status ||| U.ZFCP_STATUS_FSFREQ_TMFUNCFAILED }
           else req)
    ∧ (req.status &&& U.ZFCP_STATUS_FSFREQ_TMFUNCFAILED = 0 →
        ((zfcp_fsf_send_fcp_ctm_handler K U req).status &&& U.ZFCP_STATUS_FSFREQ_TMFUNCFAILED
            = U.ZFCP_STATUS_FSFREQ_TMFUNCFAILED
          ↔ (q.bottom.rsp_code ≠ U.FCP_TMF_CMPL
              ∨ req.status &&& K.ZFCP_STATUS_FSFREQ_ERROR ≠ 0)))
    ∧ (zfcp_fsf_send_fcp_ctm_handler K U req).status &&& K.ZFCP_STATUS_FSFREQ_ERROR
        = req.status &&& K.ZFCP_STATUS_FSFREQ_ERROR := by
  have heq : zfcp_fsf_send_fcp_ctm_handler K U req
        = (if q.bottom.rsp_code ≠ U.FCP_TMF_CMPL ∨ req.status &&& K.ZFCP_STATUS_FSFREQ_ERROR ≠ 0
           then { req with status := req.status ||| U.ZFCP_STATUS_FSFREQ_TMFUNCFAILED }
           else req) := by
    unfold zfcp_fsf_send_fcp_ctm_handler
    rw [hq]
  refine ⟨heq, ?_, ?_⟩
  · intro hclear
    rw [heq]
    by_cases hc : q.bottom.rsp_code ≠ U.FCP_TMF_CMPL ∨ req.status &&& K.ZFCP_STATUS_FSFREQ_ERROR ≠ 0
    · rw [if_pos hc]
      exact ⟨fun _ => hc, fun _ => or_and_self_right _ _⟩
    · rw [if_neg hc]
      constructor
      · intro h
        rw [hclear] at h
        exact absurd h.symm htmf
      · intro h
        exact absurd h hc
  · rw [heq]
    by_cases hc : q.bottom.rsp_code ≠ U.FCP_TMF_CMPL ∨ req.status &&& K.ZFCP_STATUS_FSFREQ_ERROR ≠ 0
    · rw [if_pos hc]
      exact or_and_disjoint _ _ _ hbits
    · rw [if_neg hc]

/-- C19, instance: response code 4 sets TMFUNCFAILED, response code
`FCP_TMF_CMPL` with ERROR clear does not, and ERROR stays clear. -/
theorem ctm_handler_tmfuncfailed_witness :
    (sample_tmf 0 4).qtcb.map (fun q => q.bottom.rsp_code) = some 4
    ∧ sample_more.FCP_TMF_CMPL = 0
    ∧ (zfcp_fsf_send_fcp_ctm_handler sample_decls sample_more (sample_tmf 0 4)).status = 0x200
    ∧ (zfcp_fsf_send_fcp_ctm_handler sample_decls sample_more (sample_tmf 0 0)).status = 0
    ∧ (zfcp_fsf_send_fcp_ctm_handler sample_decls sample_more (sample_tmf 0 4)).status
        &&& sample_decls.ZFCP_STATUS_FSFREQ_ERROR = 0 := by
  have h := ctm_handler_tmfuncfailed sample_decls sample_more (sample_tmf 0 4)
    { pfx := { req_id := 1 }, header := { req_handle := 1 }, bottom := { rsp_code := 4 } }
    rfl (by decide) (by decide)
  exact ⟨rfl, rfl, by decide, by decide, h.2.2⟩

/-- C20: starting from an empty registry with next identifier 1 and the
queues up, `zfcp_fsf_open_unit` with a free request buffer, successful
allocations and a transport that accepts the send returns 0 and leaves the
registry holding exactly identifier 1. When the hardware then stores good
transport and command status and the LUN handle `h` in the control block and
the response buffer names identifier 1, `zfcp_fsf_reqid_check` returns, has
called `zfcp_fsf_open_unit_handler` on that request, the unit has the handle
`h` and `ZFCP_STATUS_COMMON_OPEN` set, and the registry is empty. -/
theorem open_unit_then_response (K : Decls) (U : MoreDecls)
    (other : Nat → zfcp_fsf_req → zfcp_adapter → zfcp_fsf_req × zfcp_adapter)
    (erp_action : zfcp_erp_action) (ret : Int) (p clock sbal_idx h : Nat) (a : zfcp_adapter)
    (u : zfcp_unit) (f : fsf_qtcb → fsf_qtcb) (resp : List (List qdio_buffer_element))
    (sbale : qdio_buffer_element) (rest : List qdio_buffer_element)
    (hkind : K.FSF_QTCB_OPEN_LUN ≠ K.FSF_QTCB_UNSOLICITED_STATUS)
    (hflags : K.ZFCP_STATUS_FSFREQ_CLEANUP &&& K.ZFCP_STATUS_FSFREQ_DISMISSED = 0
      ∧ K.ZFCP_STATUS_FSFREQ_CLEANUP &&& K.ZFCP_STATUS_FSFREQ_ERROR = 0)
    (hgood : U.FSF_GOOD ∉ [K.FSF_UNKNOWN_COMMAND, K.FSF_ADAPTER_STATUS_AVAILABLE,
      U.FSF_PORT_HANDLE_NOT_VALID, U.FSF_LUN_ALREADY_OPEN, U.FSF_ACCESS_DENIED, U.FSF_PORT_BOXED,
      U.FSF_LUN_SHARING_VIOLATION, U.FSF_MAXIMUM_NUMBER_OF_LUNS_EXCEEDED,
      U.FSF_INVALID_COMMAND_OPTION])
    (hup : a.status &&& K.ZFCP_STATUS_ADAPTER_QDIOUP ≠ 0)
    (hempty : registered a = []) (hno : a.req_no = 1)
    (hidx : K.zfcp_reqlist_hash 1 < a.req_list.length)
    (hunit : unit_at a erp_action.unit.addr = some u)
    (hret : ret > 0)
    (hresp : resp.getD sbal_idx [] = sbale :: rest) (haddr : sbale.addr = 1)
    (hlast : sbale.eflags &&& K.SBAL_EFLAGS_LAST_ENTRY ≠ 0)
    (hf : ∀ q, (f q).pfx.prot_status = K.FSF_PROT_GOOD ∧ (f q).header.fsf_status = U.FSF_GOOD
      ∧ (f q).header.lun_handle = h) :
    (zfcp_fsf_open_unit K U erp_action ret (some p) true clock 0 a).1 = 0
    ∧ (registered (zfcp_fsf_open_unit K U erp_action ret (some p) true clock 0 a).2).map
        (fun r => r.req_id) = [1]
    ∧ ∃ a2 u2,
        zfcp_fsf_reqid_check K (zfcp_env K U other) sbal_idx
            (hw_respond 1 f resp (zfcp_fsf_open_unit K U erp_action ret (some p) true clock 0 a).2)
          = .returned a2
        ∧ Ev.call_handler U.addr_zfcp_fsf_open_unit_handler p ∈ a2.log
        ∧ unit_at a2 erp_action.unit.addr = some u2
        ∧ u2.handle = h
        ∧ u2.status &&& U.ZFCP_STATUS_COMMON_OPEN = U.ZFCP_STATUS_COMMON_OPEN
        ∧ registered a2 = [] := by
  have hno0 : a.req_no ≠ 0 := by rw [hno]; decide
  obtain ⟨req, a4, hopen, r1, r2, r3, r4, ⟨q, r5⟩, r6, r7, r8, t1, t2, t3⟩ :=
    open_unit_sent K U erp_action ret p clock a hup hret hkind hno0
  rw [hno] at r2
  rw [hopen]
  have hl : (zfcp_fsf_req_send K req clock 0 a4).2.req_list
      = list_add_tail (stamped req clock a4) (K.zfcp_reqlist_hash 1) a.req_list := by
    rw [send_ok_req_list, r2, t1]
  have hflat : a.req_list.flatten = [] := hempty
  refine ⟨(send_ok K req clock a4).1, ?_, ?_⟩
  · unfold registered
    rw [hl, flatten_list_add_tail_empty _ _ _ hidx hflat]
    show [req.req_id] = [1]
    rw [r2]
  · have hid : (stamped req clock a4).req_id = 1 := r2
    have hsq : (stamped req clock a4).qtcb = some q := r5
    have hmap : (hw_respond 1 f resp (zfcp_fsf_req_send K req clock 0 a4).2).req_list
        = list_add_tail { stamped req clock a4 with qtcb := some (f q) }
            (K.zfcp_reqlist_hash 1) a.req_list := by
      show List.map (List.map (fun r => if r.req_id = 1
          then { r with qtcb := r.qtcb.map f } else r))
        (zfcp_fsf_req_send K req clock 0 a4).2.req_list = _
      rw [hl, map_list_add_tail, map_buckets_empty _ _ hflat, if_pos hid, hsq]
      rfl
    have hunits : (hw_respond 1 f resp (zfcp_fsf_req_send K req clock 0 a4).2).units = a.units := by
      show (zfcp_fsf_req_send K req clock 0 a4).2.units = a.units
      rw [(send_ok K req clock a4).2.1, t2]
    have hst : req.status &&& K.ZFCP_STATUS_FSFREQ_DISMISSED = 0
        ∧ req.status &&& K.ZFCP_STATUS_FSFREQ_ERROR = 0 := by
      rw [r4, Nat.zero_or]
      exact hflags
    obtain ⟨a2, u2, d1, d2, d3, d4, d5, d6⟩ := dispatch_open_unit_good K U other sbal_idx
      (hw_respond 1 f resp (zfcp_fsf_req_send K req clock 0 a4).2) a.req_list
      { stamped req clock a4 with qtcb := some (f q) } (f q) u sbale rest
      hresp (haddr.trans r2.symm) hlast
      (by rw [hmap]; show _ = list_add_tail _ (K.zfcp_reqlist_hash req.req_id) _; rw [r2])
      (by show K.zfcp_reqlist_hash req.req_id < _; rw [r2]; exact hidx)
      hflat
      (by show req.fsf_command ≠ _; rw [r3]; exact hkind)
      hst.1 hst.2 rfl (hf q).1 (hf q).2.1 r6
      (by
        show unit_at _ req.data = some u
        rw [r7]
        unfold unit_at at hunit ⊢
        rw [hunits]
        exact hunit)
      hgood
    refine ⟨a2, u2, d1, ?_, ?_, ?_, d5, ?_⟩
    · have : Ev.call_handler U.addr_zfcp_fsf_open_unit_handler req.addr ∈ a2.log := d2
      rwa [r1] at this
    · have : unit_at a2 req.data = some u2 := d3
      rwa [r7] at this
    · rw [d4]
      exact (hf q).2.2
    · unfold registered
      rw [d6]
      exact hflat

/-- C20, instance: the scenario on an adapter with four buckets, for the unit at
address 500 and the LUN handle 77. -/
theorem open_unit_then_response_witness :
    sample_open_start.status &&& sample_decls.ZFCP_STATUS_ADAPTER_QDIOUP ≠ 0
    ∧ registered sample_open_start = [] ∧ sample_open_start.req_no = 1
    ∧ (zfcp_fsf_open_unit sample_decls sample_more sample_erp_action 1 (some 100) true 5 0
        sample_open_start).1 = 0
    ∧ (registered (zfcp_fsf_open_unit sample_decls sample_more sample_erp_action 1 (some 100)
        true 5 0 sample_open_start).2).map (fun r => r.req_id) = [1]
    ∧ ∃ a2 u2,
        zfcp_fsf_reqid_check sample_decls (zfcp_env sample_decls sample_more sample_env.handler) 0
            (hw_respond 1 sample_good_response [[{ addr := 1, eflags := 0x40 }]]
              (zfcp_fsf_open_unit sample_decls sample_more sample_erp_action 1 (some 100) true 5 0
                sample_open_start).2)
          = .returned a2
        ∧ Ev.call_handler sample_more.addr_zfcp_fsf_open_unit_handler 100 ∈ a2.log
        ∧ unit_at a2 sample_erp_action.unit.addr = some u2
        ∧ u2.handle = 77
        ∧ u2.status &&& sample_more.ZFCP_STATUS_COMMON_OPEN = sample_more.ZFCP_STATUS_COMMON_OPEN
        ∧ registered a2 = [] := by
  have h := open_unit_then_response sample_decls sample_more sample_env.handler
    sample_erp_action 1 100 5 0 77 sample_open_start { addr := 500, fcp_lun := 7, port := 400 }
    sample_good_response [[{ addr := 1, eflags := 0x40 }]] { addr := 1, eflags := 0x40 } []
    (by decide) (by decide) (by decide) (by decide) rfl rfl (by decide) rfl (by decide) rfl rfl
    (by decide) (fun _ => ⟨rfl, rfl, rfl⟩)
  exact ⟨by decide, rfl, rfl, h⟩

/-! ## The claims on ports, capacity, request creation and the request timer -/

/-- C21: for a close-physical-port response with status `FSF_PORT_BOXED` or
`FSF_GOOD` and the ERROR flag clear, `zfcp_fsf_close_physical_port_handler`
leaves the port with `ZFCP_STATUS_PORT_PHYS_OPEN` clear and with
`ZFCP_STATUS_COMMON_OPEN` as it was, and every unit of that port with
`ZFCP_STATUS_COMMON_OPEN` clear; the other ports and units are as before. -/
theorem close_physical_port_boxed_or_good (K : Decls) (U : MoreDecls) (V : IoDecls)
    (req : zfcp_fsf_req) (q : fsf_qtcb) (port : zfcp_port) (a : zfcp_adapter)
    (hlabels : [U.FSF_PORT_HANDLE_NOT_VALID, U.FSF_ACCESS_DENIED, U.FSF_PORT_BOXED,
      K.FSF_ADAPTER_STATUS_AVAILABLE, U.FSF_GOOD].Nodup)
    (hbits : V.ZFCP_STATUS_PORT_PHYS_OPEN &&& U.ZFCP_STATUS_COMMON_OPEN = 0)
    (herr : req.status &&& K.ZFCP_STATUS_FSFREQ_ERROR = 0)
    (hq : req.qtcb = some q) (hport : port_at a req.data = some port)
    (hs : q.header.fsf_status = U.FSF_PORT_BOXED ∨ q.header.fsf_status = U.FSF_GOOD) :
    (∃ port2, port_at (zfcp_fsf_close_physical_port_handler K U V req a).2 req.data = some port2
      ∧ port2.status &&& V.ZFCP_STATUS_PORT_PHYS_OPEN = 0
      ∧ port2.status &&& U.ZFCP_STATUS_COMMON_OPEN = port.status &&& U.ZFCP_STATUS_COMMON_OPEN)
    ∧ (zfcp_fsf_close_physical_port_handler K U V req a).2.units
        = a.units.map (fun u =>
            if u.port = req.data then
              { u with status := atomic_clear_mask U.ZFCP_STATUS_COMMON_OPEN u.status }
            else u)
    ∧ (∀ u ∈ (zfcp_fsf_close_physical_port_handler K U V req a).2.units,
        u.port = req.data → u.status &&& U.ZFCP_STATUS_COMMON_OPEN = 0)
    ∧ (zfcp_fsf_close_physical_port_handler K U V req a).2.port_list
        = a.port_list.map (fun x =>
            if x.addr = req.data then
              { x with status := atomic_clear_mask V.ZFCP_STATUS_PORT_PHYS_OPEN x.status }
            else x) := by
  simp only [List.nodup_cons, List.mem_cons, List.mem_singleton, not_or, List.not_mem_nil,
    not_false_eq_true, List.nodup_nil, and_true] at hlabels
  obtain ⟨⟨l1, l2, l3, l4⟩, ⟨l5, l6, l7⟩, ⟨l8, l9⟩, l10⟩ := hlabels
  have hres : (zfcp_fsf_close_physical_port_handler K U V req a).2
      = phys_port_closed U V req.data a
      ∨ (zfcp_fsf_close_physical_port_handler K U V req a).2
      = (phys_port_closed U V req.data a).emit
          (.zfcp_erp_port_boxed port.addr "fscpph2" (some req.addr)) := by
    unfold zfcp_fsf_close_physical_port_handler
    rw [if_neg (not_not.mpr herr)]
    rcases hs with hs | hs
    · right
      simp only [hq, hport, hs, if_neg (Ne.symm l2), if_neg (Ne.symm l5), if_true]
    · left
      simp only [hq, hport, hs, if_neg (Ne.symm l4), if_neg (Ne.symm l7), if_neg (Ne.symm l9),
        if_neg (Ne.symm l10), if_true]
  have hp : port_at (zfcp_fsf_close_physical_port_handler K U V req a).2 req.data
      = port_at (phys_port_closed U V req.data a) req.data := by
    rcases hres with h | h
    · rw [h]
    · rw [h]; rfl
  have hu : (zfcp_fsf_close_physical_port_handler K U V req a).2.units
      = (phys_port_closed U V req.data a).units := by
    rcases hres with h | h
    · rw [h]
    · rw [h]; rfl
  have hpl : (zfcp_fsf_close_physical_port_handler K U V req a).2.port_list
      = (phys_port_closed U V req.data a).port_list := by
    rcases hres with h | h
    · rw [h]
    · rw [h]; rfl
  refine ⟨⟨{ port with status := atomic_clear_mask V.ZFCP_STATUS_PORT_PHYS_OPEN port.status },
    ?_, clear_mask_and_self _ port.status,
    clear_mask_and_disjoint _ _ port.status hbits⟩, ?_, ?_, ?_⟩
  · rw [hp, port_at_phys_port_closed, hport]
    rfl
  · rw [hu]; rfl
  · rw [hu]
    intro u hu2 hup
    have hu3 : u ∈ a.units.map (fun u =>
        if u.port = req.data then
          { u with status := atomic_clear_mask U.ZFCP_STATUS_COMMON_OPEN u.status }
        else u) := hu2
    rw [List.mem_map] at hu3
    obtain ⟨v, _, hv⟩ := hu3
    by_cases hvp : v.port = req.data
    · rw [if_pos hvp] at hv
      rw [← hv]
      exact clear_mask_and_self _ _
    · rw [if_neg hvp] at hv
      rw [hv] at hvp
      exact absurd hup hvp
  · rw [hpl]; rfl

/-- C21, instance: port 400 answered with `FSF_PORT_BOXED`; its two units lose
the open bit, the port keeps it, port 401 and its unit are untouched. -/
theorem close_physical_port_boxed_or_good_witness :
    (sample_close_phys 0x59).status &&& sample_decls.ZFCP_STATUS_FSFREQ_ERROR = 0
    ∧ sample_more.FSF_PORT_BOXED = 0x59
    ∧ (zfcp_fsf_close_physical_port_handler sample_decls sample_more sample_io
        (sample_close_phys 0x59) sample_ports).2.port_list
        = [{ addr := 400, status := 0x04000000 }, { addr := 401, status := 0x04000001 }]
    ∧ (zfcp_fsf_close_physical_port_handler sample_decls sample_more sample_io
        (sample_close_phys 0x59) sample_ports).2.units
        = [{ addr := 500, port := 400, status := 0 },
           { addr := 501, port := 401, status := 0x04000000 },
           { addr := 502, port := 400, status := 0x4 }]
    ∧ ∀ u ∈ (zfcp_fsf_close_physical_port_handler sample_decls sample_more sample_io
        (sample_close_phys 0x59) sample_ports).2.units,
        u.port = (sample_close_phys 0x59).data →
          u.status &&& sample_more.ZFCP_STATUS_COMMON_OPEN = 0 := by
  have h := close_physical_port_boxed_or_good sample_decls sample_more sample_io
    (sample_close_phys 0x59) _ { addr := 400, status := 0x04000001 } sample_ports
    (by decide) (by decide) (by decide) rfl (by decide) (Or.inl rfl)
  exact ⟨by decide, rfl, by decide, by decide, h.2.2.1⟩

/-- C22: with the adapter up (QDIOUP set) at the end of the wait,
`zfcp_fsf_req_sbal_get` on a timeout (the wait returns 0) adds one to
`req_q_full`, calls `zfcp_erp_adapter_reopen` once and nothing else, and
returns the error `-EIO`; when the wait ends with a free buffer (a positive
return) it returns 0 and leaves the adapter, counter and log included, as it
is. -/
theorem sbal_get_timeout_or_capacity (K : Decls) (ret : Int) (a : zfcp_adapter)
    (hup : a.status &&& K.ZFCP_STATUS_ADAPTER_QDIOUP ≠ 0) :
    (ret = 0 →
      zfcp_fsf_req_sbal_get K ret a
          = (- EIO, { a with qdio := { a.qdio with req_q_full := a.qdio.req_q_full + 1 } }.emit
              (.zfcp_erp_adapter_reopen 0 "fsrsg_1" none))
      ∧ (zfcp_fsf_req_sbal_get K ret a).1 ≠ 0
      ∧ (zfcp_fsf_req_sbal_get K ret a).2.qdio.req_q_full = a.qdio.req_q_full + 1
      ∧ (zfcp_fsf_req_sbal_get K ret a).2.log
          = a.log ++ [Ev.zfcp_erp_adapter_reopen 0 "fsrsg_1" none]
      ∧ adapter_reopens (zfcp_fsf_req_sbal_get K ret a).2.log = adapter_reopens a.log + 1)
    ∧ (ret > 0 → zfcp_fsf_req_sbal_get K ret a = (0, a)) := by
  constructor
  · intro h0
    have hr : zfcp_fsf_req_sbal_get K ret a
        = (- EIO, { a with qdio := { a.qdio with req_q_full := a.qdio.req_q_full + 1 } }.emit
            (.zfcp_erp_adapter_reopen 0 "fsrsg_1" none)) := by
      unfold zfcp_fsf_req_sbal_get
      rw [if_neg hup, if_neg (by omega), if_pos h0]
    rw [hr]
    refine ⟨rfl, neg_EIO_ne_zero, rfl, rfl, ?_⟩
    exact adapter_reopens_emit_reopen a.log 0 "fsrsg_1" none
  · intro hpos
    exact sbal_get_ok K ret a hup hpos

/-- C22, instance: a timeout and a wake-up with capacity on an adapter that is
up. -/
theorem sbal_get_timeout_or_capacity_witness :
    sample_open_start.status &&& sample_decls.ZFCP_STATUS_ADAPTER_QDIOUP ≠ 0
    ∧ (zfcp_fsf_req_sbal_get sample_decls 0 sample_open_start).1 = - EIO
    ∧ (zfcp_fsf_req_sbal_get sample_decls 0 sample_open_start).2.qdio.req_q_full = 1
    ∧ (zfcp_fsf_req_sbal_get sample_decls 0 sample_open_start).2.log
        = [Ev.zfcp_erp_adapter_reopen 0 "fsrsg_1" none]
    ∧ zfcp_fsf_req_sbal_get sample_decls 3 sample_open_start = (0, sample_open_start) := by
  have h := sbal_get_timeout_or_capacity sample_decls 3 sample_open_start (by decide)
  exact ⟨by decide, by decide, by decide, by decide, h.2 (by decide)⟩

/-- C23: when the adapter is not up (QDIOUP clear) at the end of the wait,
`zfcp_fsf_req_sbal_get` returns the error `-EIO` whatever the wait returned,
a positive value included, and leaves the adapter as it is: `req_q_full` is
not incremented and nothing is added to the log. -/
theorem sbal_get_adapter_down (K : Decls) (ret : Int) (a : zfcp_adapter)
    (hdown : a.status &&& K.ZFCP_STATUS_ADAPTER_QDIOUP = 0) :
    zfcp_fsf_req_sbal_get K ret a = (- EIO, a)
    ∧ (zfcp_fsf_req_sbal_get K ret a).1 ≠ 0
    ∧ (zfcp_fsf_req_sbal_get K ret a).2.qdio.req_q_full = a.qdio.req_q_full
    ∧ adapter_reopens (zfcp_fsf_req_sbal_get K ret a).2.log = adapter_reopens a.log := by
  have hr : zfcp_fsf_req_sbal_get K ret a = (- EIO, a) := by
    unfold zfcp_fsf_req_sbal_get
    rw [if_pos hdown]
  rw [hr]
  exact ⟨rfl, neg_EIO_ne_zero, rfl, rfl⟩

/-- C23, instance: the wait ended with capacity on an adapter whose queues are
down. -/
theorem sbal_get_adapter_down_witness :
    sample_adapter.status &&& sample_decls.ZFCP_STATUS_ADAPTER_QDIOUP = 0
    ∧ zfcp_fsf_req_sbal_get sample_decls 3 sample_adapter = (- EIO, sample_adapter)
    ∧ zfcp_fsf_req_sbal_get sample_decls 0 sample_adapter = (- EIO, sample_adapter) :=
  ⟨by decide, (sbal_get_adapter_down sample_decls 3 sample_adapter (by decide)).1,
    (sbal_get_adapter_down sample_decls 0 sample_adapter (by decide)).1⟩

/-- C24: `zfcp_fsf_send_fcp_command_task` takes no outcome of a wait: it
decides on the state it finds.  When the unit is not unblocked it returns
`-EBUSY` and leaves the adapter as it is.  Otherwise, when the request queue
has no free buffer (`req_q.count <= 0`), it returns `-EIO` and the only
change is that `req_q_full` is one higher: no request is created or
registered, nothing is written to the queue and no recovery action is
called. -/
theorem send_fcp_command_task_fails_fast (K : Decls) (U : MoreDecls) (V : IoDecls)
    (unit : zfcp_unit) (cmnd : scsi_cmnd) (port_handle : Nat)
    (alloc : Option Nat) (alloc_qtcb : Bool) (sg_prot sg_data : Int) (prot_bytes : Nat)
    (multi_buffer : Bool) (clock : Nat) (qdio_send : Int) (a : zfcp_adapter) :
    (unit.status &&& V.ZFCP_STATUS_COMMON_UNBLOCKED = 0 →
      zfcp_fsf_send_fcp_command_task K U V unit cmnd port_handle alloc alloc_qtcb sg_prot
        sg_data prot_bytes multi_buffer clock qdio_send a = (- EBUSY, a))
    ∧ (unit.status &&& V.ZFCP_STATUS_COMMON_UNBLOCKED ≠ 0 → a.qdio.req_q_count ≤ 0 →
      zfcp_fsf_send_fcp_command_task K U V unit cmnd port_handle alloc alloc_qtcb sg_prot
          sg_data prot_bytes multi_buffer clock qdio_send a
        = (- EIO, { a with qdio := { a.qdio with req_q_full := a.qdio.req_q_full + 1 } })
      ∧ (zfcp_fsf_send_fcp_command_task K U V unit cmnd port_handle alloc alloc_qtcb sg_prot
          sg_data prot_bytes multi_buffer clock qdio_send a).1 ≠ 0
      ∧ (zfcp_fsf_send_fcp_command_task K U V unit cmnd port_handle alloc alloc_qtcb sg_prot
          sg_data prot_bytes multi_buffer clock qdio_send a).2.qdio.req_q_full
          = a.qdio.req_q_full + 1
      ∧ (zfcp_fsf_send_fcp_command_task K U V unit cmnd port_handle alloc alloc_qtcb sg_prot
          sg_data prot_bytes multi_buffer clock qdio_send a).2.req_list = a.req_list
      ∧ (zfcp_fsf_send_fcp_command_task K U V unit cmnd port_handle alloc alloc_qtcb sg_prot
          sg_data prot_bytes multi_buffer clock qdio_send a).2.req_no = a.req_no
      ∧ (zfcp_fsf_send_fcp_command_task K U V unit cmnd port_handle alloc alloc_qtcb sg_prot
          sg_data prot_bytes multi_buffer clock qdio_send a).2.log = a.log) := by
  constructor
  · intro hb
    unfold zfcp_fsf_send_fcp_command_task
    rw [if_pos hb]
  · intro hb hc
    have hr : zfcp_fsf_send_fcp_command_task K U V unit cmnd port_handle alloc alloc_qtcb
        sg_prot sg_data prot_bytes multi_buffer clock qdio_send a
        = (- EIO, { a with qdio := { a.qdio with req_q_full := a.qdio.req_q_full + 1 } }) := by
      unfold zfcp_fsf_send_fcp_command_task
      rw [if_neg hb, if_pos hc]
    rw [hr]
    exact ⟨rfl, neg_EIO_ne_zero, rfl, rfl, rfl, rfl⟩

/-- C24, instance: a blocked unit, and an unblocked unit on a queue without a
free buffer (both with the allocations and the transport ready to succeed). -/
theorem send_fcp_command_task_fails_fast_witness :
    zfcp_fsf_send_fcp_command_task sample_decls sample_more sample_io
        { addr := 500, status := 0 } sample_scsi_cmnd 3 (some 100) true 0 0 0 false 5 0
        (sample_queue 8) = (- EBUSY, sample_queue 8)
    ∧ (zfcp_fsf_send_fcp_command_task sample_decls sample_more sample_io
        { addr := 500, status := 0x10000000 } sample_scsi_cmnd 3 (some 100) true 0 0 0 false 5 0
        (sample_queue 0)).1 = - EIO
    ∧ (zfcp_fsf_send_fcp_command_task sample_decls sample_more sample_io
        { addr := 500, status := 0x10000000 } sample_scsi_cmnd 3 (some 100) true 0 0 0 false 5 0
        (sample_queue 0)).2.qdio.req_q_full = 1
    ∧ (zfcp_fsf_send_fcp_command_task sample_decls sample_more sample_io
        { addr := 500, status := 0x10000000 } sample_scsi_cmnd 3 (some 100) true 0 0 0 false 5 0
        (sample_queue 0)).2.log = []
    ∧ (registered (zfcp_fsf_send_fcp_command_task sample_decls sample_more sample_io
        { addr := 500, status := 0x10000000 } sample_scsi_cmnd 3 (some 100) true 0 0 0 false 5 0
        (sample_queue 8)).2).map (fun r => r.req_id) = [1] := by
  have h1 := (send_fcp_command_task_fails_fast sample_decls sample_more sample_io
    { addr := 500, status := 0 } sample_scsi_cmnd 3 (some 100) true 0 0 0 false 5 0
    (sample_queue 8)).1 (by decide)
  have h2 := (send_fcp_command_task_fails_fast sample_decls sample_more sample_io
    { addr := 500, status := 0x10000000 } sample_scsi_cmnd 3 (some 100) true 0 0 0 false 5 0
    (sample_queue 0)).2 (by decide) (by decide)
  exact ⟨h1, by rw [h2.1], h2.2.2.1, h2.2.2.2.2.2, by decide⟩

/-- C25, counterexample: on an adapter whose counter `req_no` is 0,
`zfcp_fsf_req_create` for an open-LUN request whose control block cannot be
allocated returns `-ENOMEM`, and by then `req_no` is 1 and element 0 of the
request-queue buffer has been written. -/
theorem create_qtcb_failure_side_effects :
    (zfcp_fsf_req_create sample_decls sample_decls.FSF_QTCB_OPEN_LUN true (some 100) false
        sample_adapter).1 = .error (- ENOMEM)
    ∧ sample_adapter.req_no = 0
    ∧ (zfcp_fsf_req_create sample_decls sample_decls.FSF_QTCB_OPEN_LUN true (some 100) false
        sample_adapter).2.req_no = 1
    ∧ sample_adapter.log = []
    ∧ (zfcp_fsf_req_create sample_decls sample_decls.FSF_QTCB_OPEN_LUN true (some 100) false
        sample_adapter).2.log
        = [Ev.sbale_write 0 0 "addr" 1, Ev.sbale_write 0 0 "eflags" 0,
           Ev.sbale_write 0 0 "sflags|" 0x80, Ev.zfcp_fsf_req_free 100] :=
  ⟨rfl, rfl, rfl, rfl, rfl⟩

/-- C25, as amended: `zfcp_fsf_req_create` fails only with `-ENOMEM`, and only
when the request object or (for a kind other than unsolicited status) the
control block cannot be allocated.  Without the request object the adapter
is left as it is.  Without the control block the registry and the sequence
counter are as before and the request object is released again, but `req_no`
has moved from 0 to 1 if it was 0 and element 0 of the current request-queue
buffer has been written (`addr`, `eflags`, the command bit of `sflags`). -/
theorem create_failure_effects (K : Decls) (fsf_cmd : Nat) (pool : Bool) (alloc : Option Nat)
    (alloc_qtcb : Bool) (a : zfcp_adapter) (e : Int)
    (hfail : (zfcp_fsf_req_create K fsf_cmd pool alloc alloc_qtcb a).1 = .error e) :
    e = - ENOMEM
    ∧ ((alloc = none ∧ (zfcp_fsf_req_create K fsf_cmd pool alloc alloc_qtcb a).2 = a)
      ∨ (∃ p, alloc = some p ∧ fsf_cmd ≠ K.FSF_QTCB_UNSOLICITED_STATUS ∧ alloc_qtcb = false
          ∧ (zfcp_fsf_req_create K fsf_cmd pool alloc alloc_qtcb a).2.req_list = a.req_list
          ∧ (zfcp_fsf_req_create K fsf_cmd pool alloc alloc_qtcb a).2.fsf_req_seq_no
              = a.fsf_req_seq_no
          ∧ (zfcp_fsf_req_create K fsf_cmd pool alloc alloc_qtcb a).2.req_no
              = (if a.req_no = 0 then 1 % 2 ^ K.BITS_PER_LONG else a.req_no)
          ∧ (zfcp_fsf_req_create K fsf_cmd pool alloc alloc_qtcb a).2.log
              = a.log ++ [Ev.sbale_write a.qdio.req_q_first 0 "addr"
                    (if a.req_no = 0 then 1 % 2 ^ K.BITS_PER_LONG else a.req_no),
                  Ev.sbale_write a.qdio.req_q_first 0 "eflags" 0,
                  Ev.sbale_write a.qdio.req_q_first 0 "sflags|" K.SBAL_SFLAGS0_COMMAND,
                  Ev.zfcp_fsf_req_free p])) := by
  cases alloc with
  | none =>
    rw [create_none] at hfail ⊢
    simp only [Except.error.injEq] at hfail
    exact ⟨hfail.symm, Or.inl ⟨rfl, rfl⟩⟩
  | some p =>
    unfold zfcp_fsf_req_create at hfail ⊢
    dsimp only at hfail ⊢
    by_cases hk : fsf_cmd ≠ K.FSF_QTCB_UNSOLICITED_STATUS
    · rw [if_pos hk] at hfail ⊢
      cases alloc_qtcb with
      | true => simp at hfail
      | false =>
        simp only [Bool.false_eq_true, if_false, Except.error.injEq] at hfail
        refine ⟨hfail.symm, Or.inr ⟨p, rfl, hk, rfl, ?_, ?_, ?_, ?_⟩⟩
        · by_cases h0 : a.req_no = 0 <;> simp [h0]
        · by_cases h0 : a.req_no = 0 <;> simp [h0]
        · by_cases h0 : a.req_no = 0 <;> simp [h0]
        · by_cases h0 : a.req_no = 0 <;> simp [h0, zfcp_adapter.emit]
    · rw [if_neg hk] at hfail
      simp at hfail

/-- C25, instance: the failed allocation of a control block on an adapter with
`req_no = 5`. -/
theorem create_failure_effects_witness :
    (zfcp_fsf_req_create sample_decls 6 true (some 100) false
        { sample_adapter with req_no := 5 }).1 = .error (- ENOMEM)
    ∧ (zfcp_fsf_req_create sample_decls 6 true (some 100) false
        { sample_adapter with req_no := 5 }).2.req_no = 5
    ∧ (zfcp_fsf_req_create sample_decls 6 true (some 100) false
        { sample_adapter with req_no := 5 }).2.req_list = sample_adapter.req_list
    ∧ (zfcp_fsf_req_create sample_decls 6 true (some 100) false
        { sample_adapter with req_no := 5 }).2.log
        = [Ev.sbale_write 0 0 "addr" 5, Ev.sbale_write 0 0 "eflags" 0,
           Ev.sbale_write 0 0 "sflags|" 0x80, Ev.zfcp_fsf_req_free 100]
    ∧ (zfcp_fsf_req_create sample_decls 6 true none true sample_adapter).2 = sample_adapter := by
  have h := create_failure_effects sample_decls 6 true (some 100) false
    { sample_adapter with req_no := 5 } (- ENOMEM) rfl
  rcases h.2 with ⟨hn, _⟩ | ⟨p, hp, _, _, hl, _, hr, _⟩
  · cases hn
  · exact ⟨rfl, hr, hl, rfl, rfl⟩

/-- C26: a request that `zfcp_fsf_req_create` returns for a kind other than
unsolicited status has a control block whose `prefix.req_id` and
`header.req_handle` are the request's `req_id`, whose `prefix.req_seq_no`
(like `req->seq_no`) is the adapter's `fsf_req_seq_no`, whose `qtcb_version` is
`FSF_QTCB_CURRENT_VERSION`, whose `header.fsf_command` is the kind and whose
`prefix.qtcb_type` is the entry of the table `fsf_qtcb_type` for the kind; a
request returned for unsolicited status has no control block.  With the
thirteen designators of the table pairwise different, the table maps FCP
command to I/O, exchange config data to config, exchange port data to port
and the other ten kinds to support. -/
theorem create_populates_header (K : Decls) (fsf_cmd : Nat) (pool : Bool) (alloc : Option Nat)
    (alloc_qtcb : Bool) (a a1 : zfcp_adapter) (req : zfcp_fsf_req)
    (hok : zfcp_fsf_req_create K fsf_cmd pool alloc alloc_qtcb a = (.ok req, a1)) :
    (fsf_cmd ≠ K.FSF_QTCB_UNSOLICITED_STATUS →
      ∃ q, req.qtcb = some q
        ∧ q.pfx.req_id = req.req_id ∧ q.header.req_handle = req.req_id
        ∧ q.pfx.req_seq_no = a.fsf_req_seq_no ∧ req.seq_no = a.fsf_req_seq_no
        ∧ q.pfx.qtcb_version = K.FSF_QTCB_CURRENT_VERSION
        ∧ q.header.fsf_command = fsf_cmd ∧ req.fsf_command = fsf_cmd
        ∧ q.pfx.qtcb_type = fsf_qtcb_type K fsf_cmd)
    ∧ (fsf_cmd = K.FSF_QTCB_UNSOLICITED_STATUS → req.qtcb = none)
    ∧ ([K.FSF_QTCB_FCP_CMND, K.FSF_QTCB_ABORT_FCP_CMND, K.FSF_QTCB_OPEN_PORT_WITH_DID,
        K.FSF_QTCB_OPEN_LUN, K.FSF_QTCB_CLOSE_LUN, K.FSF_QTCB_CLOSE_PORT,
        K.FSF_QTCB_CLOSE_PHYSICAL_PORT, K.FSF_QTCB_SEND_ELS, K.FSF_QTCB_SEND_GENERIC,
        K.FSF_QTCB_EXCHANGE_CONFIG_DATA, K.FSF_QTCB_EXCHANGE_PORT_DATA,
        K.FSF_QTCB_DOWNLOAD_CONTROL_FILE, K.FSF_QTCB_UPLOAD_CONTROL_FILE].Nodup →
      fsf_qtcb_type K K.FSF_QTCB_FCP_CMND = K.FSF_IO_COMMAND
      ∧ fsf_qtcb_type K K.FSF_QTCB_EXCHANGE_CONFIG_DATA = K.FSF_CONFIG_COMMAND
      ∧ fsf_qtcb_type K K.FSF_QTCB_EXCHANGE_PORT_DATA = K.FSF_PORT_COMMAND
      ∧ ∀ kind ∈ [K.FSF_QTCB_ABORT_FCP_CMND, K.FSF_QTCB_OPEN_PORT_WITH_DID,
          K.FSF_QTCB_OPEN_LUN, K.FSF_QTCB_CLOSE_LUN, K.FSF_QTCB_CLOSE_PORT,
          K.FSF_QTCB_CLOSE_PHYSICAL_PORT, K.FSF_QTCB_SEND_ELS, K.FSF_QTCB_SEND_GENERIC,
          K.FSF_QTCB_DOWNLOAD_CONTROL_FILE, K.FSF_QTCB_UPLOAD_CONTROL_FILE],
          fsf_qtcb_type K kind = K.FSF_SUPPORT_COMMAND) := by
  refine ⟨?_, ?_, ?_⟩
  · intro hk
    cases alloc with
    | none => rw [create_none] at hok; cases hok
    | some p =>
      unfold zfcp_fsf_req_create at hok
      dsimp only at hok
      rw [if_pos hk] at hok
      cases alloc_qtcb with
      | false => simp at hok
      | true =>
        simp only [if_true, Prod.mk.injEq, Except.ok.injEq] at hok
        rw [← hok.1]
        by_cases h0 : a.req_no = 0
        · simp [h0]
        · simp [h0]
  · intro hk
    cases alloc with
    | none => rw [create_none] at hok; cases hok
    | some p =>
      unfold zfcp_fsf_req_create at hok
      dsimp only at hok
      rw [if_neg (not_not.mpr hk)] at hok
      simp only [Prod.mk.injEq, Except.ok.injEq] at hok
      rw [← hok.1]
  · intro hnd
    simp only [List.nodup_cons, List.mem_cons, List.mem_singleton, not_or, List.not_mem_nil,
      not_false_eq_true, List.nodup_nil, and_true] at hnd
    obtain ⟨⟨f1, f2, f3, f4, f5, f6, f7, f8, f9, f10, f11, f12⟩,
      ⟨g2, g3, g4, g5, g6, g7, g8, g9, g10, g11, g12⟩,
      ⟨h3, h4, h5, h6, h7, h8, h9, h10, h11, h12⟩,
      ⟨i4, i5, i6, i7, i8, i9, i10, i11, i12⟩,
      ⟨j5, j6, j7, j8, j9, j10, j11, j12⟩,
      ⟨k6, k7, k8, k9, k10, k11, k12⟩,
      ⟨l7, l8, l9, l10, l11, l12⟩,
      ⟨m8, m9, m10, m11, m12⟩,
      ⟨n9, n10, n11, n12⟩,
      ⟨o10, o11, o12⟩,
      ⟨p11, p12⟩, q12⟩ := hnd
    refine ⟨?_, ?_, ?_, ?_⟩
    · unfold fsf_qtcb_type; rw [if_pos rfl]
    · unfold fsf_qtcb_type
      rw [if_neg (Ne.symm f9), if_neg (Ne.symm g9), if_neg (Ne.symm h9), if_neg (Ne.symm i9),
        if_neg (Ne.symm j9), if_neg (Ne.symm k9), if_neg (Ne.symm l9), if_neg (Ne.symm m9),
        if_neg (Ne.symm n9), if_pos rfl]
    · unfold fsf_qtcb_type
      rw [if_neg (Ne.symm f10), if_neg (Ne.symm g10), if_neg (Ne.symm h10), if_neg (Ne.symm i10),
        if_neg (Ne.symm j10), if_neg (Ne.symm k10), if_neg (Ne.symm l10), if_neg (Ne.symm m10),
        if_neg (Ne.symm n10), if_neg (Ne.symm o10), if_pos rfl]
    · intro kind hkind
      simp only [List.mem_cons, List.mem_singleton, List.not_mem_nil, or_false] at hkind
      unfold fsf_qtcb_type
      rcases hkind with h | h | h | h | h | h | h | h | h | h <;> subst h
      · rw [if_neg (Ne.symm f1), if_pos rfl]
      · rw [if_neg (Ne.symm f2), if_neg (Ne.symm g2), if_pos rfl]
      · rw [if_neg (Ne.symm f3), if_neg (Ne.symm g3), if_neg (Ne.symm h3), if_pos rfl]
      · rw [if_neg (Ne.symm f4), if_neg (Ne.symm g4), if_neg (Ne.symm h4), if_neg (Ne.symm i4),
          if_pos rfl]
      · rw [if_neg (Ne.symm f5), if_neg (Ne.symm g5), if_neg (Ne.symm h5), if_neg (Ne.symm i5),
          if_neg (Ne.symm j5), if_pos rfl]
      · rw [if_neg (Ne.symm f6), if_neg (Ne.symm g6), if_neg (Ne.symm h6), if_neg (Ne.symm i6),
          if_neg (Ne.symm j6), if_neg (Ne.symm k6), if_pos rfl]
      · rw [if_neg (Ne.symm f7), if_neg (Ne.symm g7), if_neg (Ne.symm h7), if_neg (Ne.symm i7),
          if_neg (Ne.symm j7), if_neg (Ne.symm k7), if_neg (Ne.symm l7), if_pos rfl]
      · rw [if_neg (Ne.symm f8), if_neg (Ne.symm g8), if_neg (Ne.symm h8), if_neg (Ne.symm i8),
          if_neg (Ne.symm j8), if_neg (Ne.symm k8), if_neg (Ne.symm l8), if_neg (Ne.symm m8),
          if_pos rfl]
      · rw [if_neg (Ne.symm f11), if_neg (Ne.symm g11), if_neg (Ne.symm h11),
          if_neg (Ne.symm i11), if_neg (Ne.symm j11), if_neg (Ne.symm k11),
          if_neg (Ne.symm l11), if_neg (Ne.symm m11), if_neg (Ne.symm n11),
          if_neg (Ne.symm o11), if_neg (Ne.symm p11), if_pos rfl]
      · rw [if_neg (Ne.symm f12), if_neg (Ne.symm g12), if_neg (Ne.symm h12),
          if_neg (Ne.symm i12), if_neg (Ne.symm j12), if_neg (Ne.symm k12),
          if_neg (Ne.symm l12), if_neg (Ne.symm m12), if_neg (Ne.symm n12),
          if_neg (Ne.symm o12), if_neg (Ne.symm p12), if_neg (Ne.symm q12), if_pos rfl]

/-- C26, instance: an exchange-port-data request created on an adapter with
`req_no = 5` and `fsf_req_seq_no = 9`, and an unsolicited status request. -/
theorem create_populates_header_witness :
    (∃ req a1, zfcp_fsf_req_create sample_decls 14 false (some 100) true
        { sample_adapter with req_no := 5, fsf_req_seq_no := 9 } = (.ok req, a1)
      ∧ req.req_id = 5 ∧ req.seq_no = 9
      ∧ req.qtcb.map (fun q => (q.pfx.req_id, q.header.req_handle, q.pfx.req_seq_no,
          q.pfx.qtcb_version, q.header.fsf_command, q.pfx.qtcb_type))
          = some (5, 5, 9, 1, 14, 5)
      ∧ ∃ q, req.qtcb = some q ∧ q.pfx.qtcb_type = fsf_qtcb_type sample_decls 14)
    ∧ (∃ req a1, zfcp_fsf_req_create sample_decls 0x6305 true (some 100) true sample_adapter
        = (.ok req, a1) ∧ req.qtcb = none) := by
  have h := create_populates_header sample_decls 14 false (some 100) true
    { sample_adapter with req_no := 5, fsf_req_seq_no := 9 } _ _ rfl
  obtain ⟨q, hq, _, _, _, _, _, _, _, ht⟩ := h.1 (by decide)
  exact ⟨⟨_, _, rfl, rfl, rfl, rfl, q, hq, ht⟩, ⟨_, _, rfl, rfl⟩⟩

/-- C27: `zfcp_fsf_request_timeout_handler` calls `zfcp_qdio_siosl` and then
`zfcp_erp_adapter_reopen` once, and that is all: the registry is the same
list of the same requests (so every registered request is still found under
its identifier, with its status flags as they were), no completion is put on
record and no request is released or signalled. -/
theorem request_timeout_keeps_requests (K : Decls) (a : zfcp_adapter) :
    (zfcp_fsf_request_timeout_handler K a).log
        = a.log ++ [Ev.zfcp_qdio_siosl,
            Ev.zfcp_erp_adapter_reopen K.ZFCP_STATUS_COMMON_ERP_FAILED "fsrth_1" none]
    ∧ adapter_reopens (zfcp_fsf_request_timeout_handler K a).log = adapter_reopens a.log + 1
    ∧ solicited_calls (zfcp_fsf_request_timeout_handler K a).log = solicited_calls a.log
    ∧ (zfcp_fsf_request_timeout_handler K a).req_list = a.req_list
    ∧ registered (zfcp_fsf_request_timeout_handler K a) = registered a
    ∧ (zfcp_fsf_request_timeout_handler K a).completions = a.completions
    ∧ (∀ id, zfcp_reqlist_find K (zfcp_fsf_request_timeout_handler K a) id
        = zfcp_reqlist_find K a id)
    ∧ (zfcp_fsf_request_timeout_handler K a).req_no = a.req_no
    ∧ (zfcp_fsf_request_timeout_handler K a).fsf_req_seq_no = a.fsf_req_seq_no := by
  have hlog : (zfcp_fsf_request_timeout_handler K a).log
      = a.log ++ [Ev.zfcp_qdio_siosl,
          Ev.zfcp_erp_adapter_reopen K.ZFCP_STATUS_COMMON_ERP_FAILED "fsrth_1" none] := by
    unfold zfcp_fsf_request_timeout_handler
    simp [zfcp_adapter.emit]
  refine ⟨hlog, ?_, ?_, rfl, rfl, rfl, fun _ => rfl, rfl, rfl⟩
  · rw [hlog]
    simp [adapter_reopens, List.filter_append]
  · rw [hlog]
    simp [solicited_calls, List.filter_append]

/-- C27, instance: a timer expires on an adapter with three registered requests. -/
theorem request_timeout_keeps_requests_witness :
    registered (zfcp_fsf_request_timeout_handler sample_decls sample_busy) = registered sample_busy
    ∧ (zfcp_fsf_request_timeout_handler sample_decls sample_busy).log
        = sample_busy.log
          ++ [Ev.zfcp_qdio_siosl, Ev.zfcp_erp_adapter_reopen 0x20000000 "fsrth_1" none] :=
  ⟨(request_timeout_keeps_requests sample_decls sample_busy).2.2.2.2.1,
   (request_timeout_keeps_requests sample_decls sample_busy).1⟩

/-- C40: `zfcp_fsf_convert_portspeed` translates each of the seven FSF speed
flags (1, 2, 4, 10, 8 and 16 Gbit and not-negotiated) to its transport-class
flag, as a `u32`, independently of the others: the result for `a | b` is the
union of the results for `a` and for `b`, the result for 0 is 0, and the
result depends on the input only through the seven flags. -/
theorem convert_portspeed_bitwise (W : ScsiDecls) :
    (∀ a b, zfcp_fsf_convert_portspeed W (a ||| b)
        = zfcp_fsf_convert_portspeed W a ||| zfcp_fsf_convert_portspeed W b)
    ∧ zfcp_fsf_convert_portspeed W 0 = 0
    ∧ (∀ a, zfcp_fsf_convert_portspeed W a
        = zfcp_fsf_convert_portspeed W (a &&& ZFCP_FSF_PORTSPEED_FLAGS))
    ∧ (∀ a b, a &&& ZFCP_FSF_PORTSPEED_FLAGS = b &&& ZFCP_FSF_PORTSPEED_FLAGS →
        zfcp_fsf_convert_portspeed W a = zfcp_fsf_convert_portspeed W b)
    ∧ zfcp_fsf_convert_portspeed W ZFCP_FSF_PORTSPEED_1GBIT = W.FC_PORTSPEED_1GBIT % 2 ^ 32
    ∧ zfcp_fsf_convert_portspeed W ZFCP_FSF_PORTSPEED_2GBIT = W.FC_PORTSPEED_2GBIT % 2 ^ 32
    ∧ zfcp_fsf_convert_portspeed W ZFCP_FSF_PORTSPEED_4GBIT = W.FC_PORTSPEED_4GBIT % 2 ^ 32
    ∧ zfcp_fsf_convert_portspeed W ZFCP_FSF_PORTSPEED_10GBIT = W.FC_PORTSPEED_10GBIT % 2 ^ 32
    ∧ zfcp_fsf_convert_portspeed W ZFCP_FSF_PORTSPEED_8GBIT = W.FC_PORTSPEED_8GBIT % 2 ^ 32
    ∧ zfcp_fsf_convert_portspeed W ZFCP_FSF_PORTSPEED_16GBIT = W.FC_PORTSPEED_16GBIT % 2 ^ 32
    ∧ zfcp_fsf_convert_portspeed W ZFCP_FSF_PORTSPEED_NOT_NEGOTIATED
        = W.FC_PORTSPEED_NOT_NEGOTIATED % 2 ^ 32 := by
  have hmask : ∀ a, zfcp_fsf_convert_portspeed W a
      = zfcp_fsf_convert_portspeed W (a &&& ZFCP_FSF_PORTSPEED_FLAGS) := by
    intro a
    rw [convert_portspeed_eq, convert_portspeed_eq]
    unfold ZFCP_FSF_PORTSPEED_1GBIT ZFCP_FSF_PORTSPEED_2GBIT ZFCP_FSF_PORTSPEED_4GBIT
      ZFCP_FSF_PORTSPEED_10GBIT ZFCP_FSF_PORTSPEED_8GBIT ZFCP_FSF_PORTSPEED_16GBIT
      ZFCP_FSF_PORTSPEED_NOT_NEGOTIATED
    rw [portspeed_flag_masked a 0 (by decide), portspeed_flag_masked a 1 (by decide),
      portspeed_flag_masked a 2 (by decide), portspeed_flag_masked a 3 (by decide),
      portspeed_flag_masked a 4 (by decide), portspeed_flag_masked a 5 (by decide),
      portspeed_flag_masked a 15 (by decide)]
  refine ⟨fun a b => ?_, ?_, hmask, fun a b h => ?_, ?_, ?_, ?_, ?_, ?_, ?_, ?_⟩
  · rw [convert_portspeed_eq, convert_portspeed_eq, convert_portspeed_eq, ← or_mod_two_pow]
    simp only [portspeed_flag_or]
    congr 1
    ac_rfl
  · rw [convert_portspeed_eq]
    simp
  · rw [hmask a, hmask b, h]
  all_goals
    rw [convert_portspeed_eq]
    unfold ZFCP_FSF_PORTSPEED_1GBIT ZFCP_FSF_PORTSPEED_2GBIT ZFCP_FSF_PORTSPEED_4GBIT
      ZFCP_FSF_PORTSPEED_10GBIT ZFCP_FSF_PORTSPEED_8GBIT ZFCP_FSF_PORTSPEED_16GBIT
      ZFCP_FSF_PORTSPEED_NOT_NEGOTIATED
    simp only [portspeed_flag_single]
    simp

/-- C40, instance: with the flags of `scsi_transport_fc.h`, 4 Gbit (bit 2)
becomes 8, 10 Gbit (bit 3) becomes 4, both together 12, and bit 6, which is
none of the seven flags, changes nothing. -/
theorem convert_portspeed_bitwise_witness :
    zfcp_fsf_convert_portspeed sample_scsi 0x4 = 8
    ∧ zfcp_fsf_convert_portspeed sample_scsi 0x8 = 4
    ∧ zfcp_fsf_convert_portspeed sample_scsi (0x4 ||| 0x8) = 12
    ∧ zfcp_fsf_convert_portspeed sample_scsi (0x4 ||| 0x40) = 8 := by
  have h := convert_portspeed_bitwise sample_scsi
  refine ⟨by decide, by decide, ?_, ?_⟩
  · rw [h.1]; decide
  · rw [h.1]; decide

/-- C37: for a request with the DISMISSED flag set, whatever the
transport-protocol status in its control block (and with or without a control
block), `zfcp_fsf_protstatus_eval` returns the request with the ERROR flag set
and nothing else changed in it, and the adapter as it was: no call is made,
so no shutdown and no reopen, and no adapter status bit changes.  The second
layer `zfcp_fsf_fsfstatus_eval` then returns both as it got them.  The
requests that `zfcp_fsf_req_dismiss_all` completes carry the flag. -/
theorem dismissed_only_sets_error (K : Decls) (req : zfcp_fsf_req) (a : zfcp_adapter)
    (hE : K.ZFCP_STATUS_FSFREQ_ERROR ≠ 0)
    (hdis : req.status &&& K.ZFCP_STATUS_FSFREQ_DISMISSED ≠ 0) :
    zfcp_fsf_protstatus_eval K req a
      = ({ req with status := req.status ||| K.ZFCP_STATUS_FSFREQ_ERROR }, a)
    ∧ (zfcp_fsf_protstatus_eval K req a).2.log = a.log
    ∧ (zfcp_fsf_protstatus_eval K req a).2.status = a.status
    ∧ status_layers K req a = zfcp_fsf_protstatus_eval K req a
    ∧ (status_layers K req a).2 = a
    ∧ adapter_shutdowns (status_layers K req a).2.log = adapter_shutdowns a.log
    ∧ adapter_reopens (status_layers K req a).2.log = adapter_reopens a.log
    ∧ (∀ q, (zfcp_fsf_protstatus_eval K { req with qtcb := some q } a).2 = a
        ∧ (status_layers K { req with qtcb := some q } a).2 = a)
    ∧ (K.ZFCP_STATUS_FSFREQ_DISMISSED ≠ 0 → ∀ r : zfcp_fsf_req,
        (dismissed K r).status &&& K.ZFCP_STATUS_FSFREQ_DISMISSED ≠ 0) := by
  have hp : ∀ r : zfcp_fsf_req, r.status &&& K.ZFCP_STATUS_FSFREQ_DISMISSED ≠ 0 →
      zfcp_fsf_protstatus_eval K r a
        = ({ r with status := r.status ||| K.ZFCP_STATUS_FSFREQ_ERROR }, a) := by
    intro r hr
    unfold zfcp_fsf_protstatus_eval
    rw [if_pos hr]
  have hl : ∀ r : zfcp_fsf_req, r.status &&& K.ZFCP_STATUS_FSFREQ_DISMISSED ≠ 0 →
      status_layers K r a = zfcp_fsf_protstatus_eval K r a := by
    intro r hr
    unfold status_layers
    rw [hp r hr]
    unfold zfcp_fsf_fsfstatus_eval
    rw [if_pos]
    dsimp only
    rw [or_and_self_right]
    exact hE
  refine ⟨hp req hdis, ?_, ?_, hl req hdis, ?_, ?_, ?_, fun q => ?_, fun hD r => ?_⟩
  · rw [hp req hdis]
  · rw [hp req hdis]
  · rw [hl req hdis, hp req hdis]
  · rw [hl req hdis, hp req hdis]
  · rw [hl req hdis, hp req hdis]
  · have hq : ({ req with qtcb := some q } : zfcp_fsf_req).status
        &&& K.ZFCP_STATUS_FSFREQ_DISMISSED ≠ 0 := hdis
    rw [hl _ hq, hp _ hq]
    exact ⟨rfl, rfl⟩
  · unfold dismissed
    dsimp only
    rw [or_and_self_right]
    exact hD

/-- C37, instance: dismissed requests whose control block reports a version
error, a link down and an unknown protocol status; none of them brings a call
or a change of the adapter. -/
theorem dismissed_only_sets_error_witness :
    (∀ ps ∈ [sample_decls.FSF_PROT_QTCB_VERSION_ERROR, sample_decls.FSF_PROT_LINK_DOWN, 0x7777],
      (status_layers sample_decls (sample_answered 0x1000 ps 0 0) sample_adapter).2
          = sample_adapter
      ∧ (status_layers sample_decls (sample_answered 0x1000 ps 0 0) sample_adapter).1.status
          = 0x1000 ||| sample_decls.ZFCP_STATUS_FSFREQ_ERROR)
    ∧ (status_layers sample_decls (sample_answered 0 sample_decls.FSF_PROT_QTCB_VERSION_ERROR
        0 0) sample_adapter).2 ≠ sample_adapter := by
  refine ⟨fun ps hps => ?_, by decide⟩
  have hd : (sample_answered 0x1000 ps 0 0).status
      &&& sample_decls.ZFCP_STATUS_FSFREQ_DISMISSED ≠ 0 := by
    show (0x1000 &&& sample_decls.ZFCP_STATUS_FSFREQ_DISMISSED : Nat) ≠ 0
    decide
  have h := dismissed_only_sets_error sample_decls (sample_answered 0x1000 ps 0 0)
    sample_adapter (by decide) hd
  refine ⟨h.2.2.2.2.1, ?_⟩
  rw [h.2.2.2.1, h.1]
  rfl

/-- C36, counterexample: on an adapter whose next identifier is 5 and whose
next sequence number is 7, a request for unsolicited status is created
(identifier 5, no control block, sequence number 0) and its send is refused;
the next request, an FCP command, gets identifier 5 again but sequence number
7, not the 0 of the failed request. -/
theorem failed_status_read_then_command :
    ∃ r1 a1 r2 a3,
      zfcp_fsf_req_create sample_decls sample_decls.FSF_QTCB_UNSOLICITED_STATUS true
        (some 0x9000) true sample_counting = (.ok r1, a1)
      ∧ (zfcp_fsf_req_send sample_decls r1 77 (-5) a1).1 = - EIO
      ∧ (zfcp_fsf_req_send sample_decls r1 77 (-5) a1).2.req_no = 5
      ∧ (zfcp_fsf_req_send sample_decls r1 77 (-5) a1).2.fsf_req_seq_no = 7
      ∧ zfcp_fsf_req_create sample_decls sample_decls.FSF_QTCB_FCP_CMND true (some 0x9100) true
          (zfcp_fsf_req_send sample_decls r1 77 (-5) a1).2 = (.ok r2, a3)
      ∧ r1.req_id = 5 ∧ r2.req_id = 5
      ∧ r1.seq_no = 0 ∧ r2.seq_no = 7 ∧ r2.seq_no ≠ r1.seq_no :=
  ⟨_, _, _, _, rfl, by decide, by decide, by decide, rfl, by decide, by decide, by decide,
    by decide, by decide⟩

/-- C36, as amended: when `zfcp_fsf_req_send` fails, the counters `req_no` and
`fsf_req_seq_no` of the adapter are as before the call and every request that
was registered before the call, other than the object that was to be sent, is
still registered (the table is the one before the call when that object was
not in it).  For a request that `zfcp_fsf_req_create` returned on this
adapter, the next `zfcp_fsf_req_create` that returns a request issues the same
`req_id`, and the same sequence number whenever both requests are of a kind
that gets a control block; a request for unsolicited status has none and its
`seq_no` is zero. -/
theorem failed_send_keeps_counters (K : Decls) (req : zfcp_fsf_req) (clock : Nat)
    (qdio_send : Int) (a : zfcp_adapter) (hsend : qdio_send ≠ 0) :
    (zfcp_fsf_req_send K req clock qdio_send a).2.req_no = a.req_no
    ∧ (zfcp_fsf_req_send K req clock qdio_send a).2.fsf_req_seq_no = a.fsf_req_seq_no
    ∧ (∀ r ∈ registered a, r.addr ≠ req.addr →
        r ∈ registered (zfcp_fsf_req_send K req clock qdio_send a).2)
    ∧ ((∀ r ∈ registered a, r.addr ≠ req.addr) →
        (zfcp_fsf_req_send K req clock qdio_send a).2.req_list = a.req_list)
    ∧ (∀ fsf_cmd pool alloc alloc_qtcb a0,
        zfcp_fsf_req_create K fsf_cmd pool alloc alloc_qtcb a0 = (.ok req, a) →
        ∀ fsf_cmd2 pool2 alloc2 alloc_qtcb2 req2 a3,
          zfcp_fsf_req_create K fsf_cmd2 pool2 alloc2 alloc_qtcb2
              (zfcp_fsf_req_send K req clock qdio_send a).2 = (.ok req2, a3) →
          req2.req_id = req.req_id
          ∧ (fsf_cmd ≠ K.FSF_QTCB_UNSOLICITED_STATUS →
              fsf_cmd2 ≠ K.FSF_QTCB_UNSOLICITED_STATUS →
              req2.seq_no = req.seq_no
              ∧ req2.qtcb.map (fun q => q.pfx.req_seq_no)
                  = req.qtcb.map (fun q => q.pfx.req_seq_no))
          ∧ (fsf_cmd = K.FSF_QTCB_UNSOLICITED_STATUS → req.seq_no = 0)
          ∧ (fsf_cmd2 ≠ K.FSF_QTCB_UNSOLICITED_STATUS → req2.seq_no = a.fsf_req_seq_no)) := by
  obtain ⟨f1, f2, f3, f4⟩ := send_fail_frame K req clock qdio_send a hsend
  refine ⟨f1, f2, f3, f4, ?_⟩
  intro fsf_cmd pool alloc alloc_qtcb a0 hc fsf_cmd2 pool2 alloc2 alloc_qtcb2 req2 a3 hc2
  obtain ⟨i1, i2⟩ := create_ok_req_id K fsf_cmd pool alloc alloc_qtcb a0 a req hc
  obtain ⟨j1, j2⟩ := create_ok_req_id K fsf_cmd2 pool2 alloc2 alloc_qtcb2 _ a3 req2 hc2
  obtain ⟨s1, s2, s3⟩ := create_ok_seq_no K fsf_cmd pool alloc alloc_qtcb a0 a req hc
  obtain ⟨t1, t2, _⟩ := create_ok_seq_no K fsf_cmd2 pool2 alloc2 alloc_qtcb2 _ a3 req2 hc2
  refine ⟨?_, fun h1 h2 => ?_, fun h => (s3 h).1, fun h2 => ?_⟩
  · rw [j1, j2, f1, i1]
    by_cases h0 : a.req_no = 0
    · rw [if_pos h0, h0]
      by_cases h00 : a0.req_no = 0
      · rw [if_pos h00] at i2
        rw [← i2, h0]
      · rw [if_neg h00] at i2
        exact absurd (i2 ▸ h0) h00
    · rw [if_neg h0]
  · obtain ⟨u1, u2⟩ := s2 h1
    obtain ⟨v1, v2⟩ := t2 h2
    rw [u1, u2, v1, v2, f2, s1]
    exact ⟨rfl, rfl⟩
  · rw [(t2 h2).1, f2]

/-- C36, instance: an open-LUN request is created on the adapter with next
identifier 5 and next sequence number 7, its send is refused, and the next
request is an FCP command: both get identifier 5 and sequence number 7. -/
theorem failed_send_keeps_counters_witness :
    ∃ r1 a1 r2 a3,
      zfcp_fsf_req_create sample_decls sample_decls.FSF_QTCB_OPEN_LUN true (some 0x9000) true
        sample_counting = (.ok r1, a1)
      ∧ zfcp_fsf_req_create sample_decls sample_decls.FSF_QTCB_FCP_CMND true (some 0x9100) true
          (zfcp_fsf_req_send sample_decls r1 77 (-5) a1).2 = (.ok r2, a3)
      ∧ r1.req_id = 5 ∧ r2.req_id = r1.req_id ∧ r1.seq_no = 7 ∧ r2.seq_no = r1.seq_no
      ∧ (zfcp_fsf_req_send sample_decls r1 77 (-5) a1).2.req_list = sample_counting.req_list := by
  refine ⟨_, _, _, _, rfl, rfl, by decide, ?_, by decide, ?_, ?_⟩
  · exact ((failed_send_keeps_counters sample_decls _ 77 (-5) _ (by decide)).2.2.2.2
      sample_decls.FSF_QTCB_OPEN_LUN true (some 0x9000) true sample_counting rfl
      sample_decls.FSF_QTCB_FCP_CMND true (some 0x9100) true _ _ rfl).1
  · exact (((failed_send_keeps_counters sample_decls _ 77 (-5) _ (by decide)).2.2.2.2
      sample_decls.FSF_QTCB_OPEN_LUN true (some 0x9000) true sample_counting rfl
      sample_decls.FSF_QTCB_FCP_CMND true (some 0x9100) true _ _ rfl).2.1
      (by decide) (by decide)).1
  · exact (failed_send_keeps_counters sample_decls _ 77 (-5) _ (by decide)).2.2.2.1
      (by decide)

/-- C38: in one run of `zfcp_fsf_send_fcp_command_task_handler`, when the
request refers to no command (`req->data` is `NULL`) the function takes and
releases the lock and makes no call of `scsi_done`; when it refers to a
command, on every path (ERROR flag set, each of the DIF failure statuses, any
other status of a request with control block) it makes exactly one call of
`scsi_done`, for that command, right after it has stored `NULL` into the
command's `host_scribble` and before it releases the lock. -/
theorem task_handler_scsi_done_once (K : Decls) (W : ScsiDecls) (req : zfcp_fsf_req)
    (result retries : Nat) (a : zfcp_adapter) :
    (req.data = 0 →
      zfcp_fsf_send_fcp_command_task_handler K W req result retries a
        = (a.emit (.read_lock_irqsave "abort_lock")).emit (.read_unlock_irqrestore "abort_lock")
      ∧ scsi_done_calls (zfcp_fsf_send_fcp_command_task_handler K W req result retries a).log
          = scsi_done_calls a.log)
    ∧ (req.data ≠ 0 →
      (req.status &&& K.ZFCP_STATUS_FSFREQ_ERROR ≠ 0 ∨ req.qtcb ≠ none) →
      scsi_done_calls (zfcp_fsf_send_fcp_command_task_handler K W req result retries a).log
          = scsi_done_calls a.log + 1
      ∧ ∃ mid, zfcp_fsf_send_fcp_command_task_handler K W req result retries a
          = { a with log := a.log ++ [.read_lock_irqsave "abort_lock"] ++ mid
                ++ [.host_scribble req.data 0, .scsi_done req.data,
                    .read_unlock_irqrestore "abort_lock"] }
        ∧ scsi_done_calls mid = 0) := by
  refine ⟨fun h0 => ?_, fun hdata hq => ?_⟩
  · have he : zfcp_fsf_send_fcp_command_task_handler K W req result retries a
        = (a.emit (.read_lock_irqsave "abort_lock")).emit
            (.read_unlock_irqrestore "abort_lock") := by
      unfold zfcp_fsf_send_fcp_command_task_handler
      dsimp only
      rw [if_pos h0]
    rw [he]
    refine ⟨rfl, ?_⟩
    simp only [emit_log, scsi_done_calls_append]
    rfl
  · obtain ⟨mid, hm, hz⟩ := task_handler_shape K W req result retries a hdata hq
    refine ⟨?_, mid, hm, hz⟩
    rw [hm]
    simp only [scsi_done_calls_append, hz]
    rfl

/-- C38, instance: a command at address 0x5000 completes with the ERROR flag
set, with the status of a failed block guard check and with a good status:
one call of `scsi_done` each time, as the last call but one; without a
command there is none. -/
theorem task_handler_scsi_done_once_witness :
    (∀ r ∈ [{ sample_answered sample_decls.ZFCP_STATUS_FSFREQ_ERROR 1 0 0 with data := 0x5000 },
            { sample_answered 0 1 sample_scsi.FSF_BLOCK_GUARD_CHECK_FAILURE 0 with
                data := 0x5000 },
            { sample_answered 0 1 0 0 with data := 0x5000 }],
      scsi_done_calls
          (zfcp_fsf_send_fcp_command_task_handler sample_decls sample_scsi r 0 0
            sample_adapter).log = 1
      ∧ (zfcp_fsf_send_fcp_command_task_handler sample_decls sample_scsi r 0 0
            sample_adapter).log.reverse.take 3
          = [.read_unlock_irqrestore "abort_lock", .scsi_done 0x5000,
              .host_scribble 0x5000 0])
    ∧ scsi_done_calls
        (zfcp_fsf_send_fcp_command_task_handler sample_decls sample_scsi
          (sample_answered 0 1 0 0) 0 0 sample_adapter).log = 0 := by
  have h0 := (task_handler_scsi_done_once sample_decls sample_scsi
    (sample_answered 0 1 0 0) 0 0 sample_adapter).1 rfl
  refine ⟨by decide, ?_⟩
  rw [h0.2]
  rfl

end Zfcp

namespace Mce

/-! ## The claims on the storm control -/

/-- C29, counterexample: sixteen corrected-error interrupts reach processor 0
within two consecutive values of `jiffies` (eight at 6000, eight at 6001),
the processor is in state NONE at each of them, and it is in state NONE
afterwards with the enable bit still set on both banks it owns: the window
opened by the interrupt at 5000 ends at 6000, so the count starts again at
6001. -/
theorem storm_not_detected_across_windows :
    (sample_burst.tail.filter (fun n =>
        decide (6000 ≤ n ∧ n ≤ 6000 + CMCI_STORM_INTERVAL sample_mce_decls))).length
      = CMCI_STORM_THRESHOLD + 1
    ∧ (∀ k ∈ List.range (sample_burst.length + 1),
        ((interrupts sample_mce_decls sample_machine 0 (sample_burst.take k)
          sample_quiet).cpu_vars 0).cmci_storm_state = CMCI_STORM_NONE)
    ∧ ((interrupts sample_mce_decls sample_machine 0 sample_burst
          sample_quiet).cpu_vars 0).cmci_storm_state = CMCI_STORM_NONE
    ∧ ((interrupts sample_mce_decls sample_machine 0 sample_burst
          sample_quiet).cpu_vars 0).cmci_storm_cnt = 8
    ∧ cmci_enabled sample_mce_decls sample_machine 0 0
        (interrupts sample_mce_decls sample_machine 0 sample_burst sample_quiet) = true
    ∧ cmci_enabled sample_mce_decls sample_machine 0 1
        (interrupts sample_mce_decls sample_machine 0 sample_burst sample_quiet) = true := by
  decide

/-- C29, as amended: on a processor in state NONE, `cmci_storm_cnt` counts the
interrupts that arrive no later than `CMCI_STORM_INTERVAL` after
`cmci_time_stamp`.  For a run of such interrupts that starts with the count
at most `CMCI_STORM_THRESHOLD`: if the count thereby exceeds the threshold,
the processor is in state ACTIVE afterwards, the enable bit is clear on every
bank it owns, `cmci_storm_on_cpus` is one higher and the backoff counter is
`INITIAL_CHECK_INTERVAL`; if not, the processor is still in state NONE, the
count has grown by the number of interrupts and no register has changed.  An
interrupt that arrives later than that opens a new window: it leaves the
processor in state NONE with the count 1 and its own time as time stamp. -/
theorem storm_detect_window (M : MceDecls) (H : mce_config) (cpu : Nat) (nows : List Nat)
    (s : mce_state)
    (hnone : (s.cpu_vars cpu).cmci_storm_state = CMCI_STORM_NONE)
    (hcnt : (s.cpu_vars cpu).cmci_storm_cnt ≤ CMCI_STORM_THRESHOLD)
    (hin : ∀ n ∈ nows, time_before_eq M.BITS_PER_LONG n
      ((s.cpu_vars cpu).cmci_time_stamp + CMCI_STORM_INTERVAL M) = true) :
    (CMCI_STORM_THRESHOLD < (s.cpu_vars cpu).cmci_storm_cnt + nows.length →
      ((interrupts M H cpu nows s).cpu_vars cpu).cmci_storm_state = CMCI_STORM_ACTIVE
      ∧ (∀ bank, bank < M.MAX_NR_BANKS →
          test_bit bank ((interrupts M H cpu nows s).cpu_vars cpu).mce_banks_owned = true →
          cmci_enabled M H cpu bank (interrupts M H cpu nows s) = false)
      ∧ ((interrupts M H cpu nows s).cpu_vars cpu).mce_banks_owned
          = (s.cpu_vars cpu).mce_banks_owned
      ∧ (interrupts M H cpu nows s).cmci_storm_on_cpus = s.cmci_storm_on_cpus + 1
      ∧ ((interrupts M H cpu nows s).cpu_vars cpu).cmci_backoff_cnt
          = M.INITIAL_CHECK_INTERVAL)
    ∧ ((s.cpu_vars cpu).cmci_storm_cnt + nows.length ≤ CMCI_STORM_THRESHOLD →
      ((interrupts M H cpu nows s).cpu_vars cpu).cmci_storm_state = CMCI_STORM_NONE
      ∧ ((interrupts M H cpu nows s).cpu_vars cpu).cmci_storm_cnt
          = (s.cpu_vars cpu).cmci_storm_cnt + nows.length
      ∧ (interrupts M H cpu nows s).ctl2 = s.ctl2
      ∧ (interrupts M H cpu nows s).cmci_storm_on_cpus = s.cmci_storm_on_cpus)
    ∧ (∀ now, time_before_eq M.BITS_PER_LONG now
          ((s.cpu_vars cpu).cmci_time_stamp + CMCI_STORM_INTERVAL M) = false →
      (intel_threshold_interrupt M H cpu now s).cpu_vars cpu
          = { s.cpu_vars cpu with cmci_storm_cnt := 1, cmci_time_stamp := now }
      ∧ (intel_threshold_interrupt M H cpu now s).ctl2 = s.ctl2) := by
  obtain ⟨h1, h2⟩ := interrupts_in_window M H cpu nows s hnone hcnt hin
  refine ⟨fun h => ?_, fun h => ?_, fun now hout => ?_⟩
  · obtain ⟨a1, a2, a3, a4, a5, _⟩ := h2 h
    refine ⟨a1, ?_, a3, a4, a2⟩
    intro bank hb ho
    rw [a3] at ho
    have hz := (storm_disable_banks_spec M H cpu s).2.2.2.1 bank hb ho
    unfold cmci_enabled rdmsrl
    rw [a5, hz]
    rfl
  · obtain ⟨a1, a2, a3, _⟩ := h1 h
    rw [a1]
    exact ⟨hnone, rfl, a2, a3⟩
  · unfold intel_threshold_interrupt
    rw [detect_none_new_window M H cpu now s hnone hout]
    simp only [Bool.false_eq_true, if_false, emit_cpu_vars, emit_ctl2, set_cpu_ctl2]
    exact ⟨set_cpu_self cpu _ s, trivial⟩

/-- C29, instance: sixteen interrupts at 900 on a processor whose window was
opened at 0 make it ACTIVE and disable its two banks; fifteen do not. -/
theorem storm_detect_window_witness :
    (sample_quiet.cpu_vars 0).cmci_storm_state = CMCI_STORM_NONE
    ∧ ((interrupts sample_mce_decls sample_machine 0 (List.replicate 16 900)
        sample_quiet).cpu_vars 0).cmci_storm_state = CMCI_STORM_ACTIVE
    ∧ cmci_enabled sample_mce_decls sample_machine 0 0
        (interrupts sample_mce_decls sample_machine 0 (List.replicate 16 900) sample_quiet)
        = false
    ∧ cmci_enabled sample_mce_decls sample_machine 0 1
        (interrupts sample_mce_decls sample_machine 0 (List.replicate 16 900) sample_quiet)
        = false
    ∧ (interrupts sample_mce_decls sample_machine 0 (List.replicate 16 900)
        sample_quiet).cmci_storm_on_cpus = 1
    ∧ ((interrupts sample_mce_decls sample_machine 0 (List.replicate 15 900)
        sample_quiet).cpu_vars 0).cmci_storm_state = CMCI_STORM_NONE := by
  have h := (storm_detect_window sample_mce_decls sample_machine 0 (List.replicate 16 900)
    sample_quiet rfl (by decide) (by decide)).1 (by decide)
  have h15 := (storm_detect_window sample_mce_decls sample_machine 0 (List.replicate 15 900)
    sample_quiet rfl (by decide) (by decide)).2.1 (by decide)
  exact ⟨rfl, h.1, h.2.1 0 (by decide) (by decide), h.2.1 1 (by decide) (by decide),
    h.2.2.2.1, h15.1⟩

/-- C30, what the code does: at the end of the last storm (the processor is
ACTIVE, its backoff counter is not positive and `cmci_storm_on_cpus` is 1)
`cmci_intel_adjust_timer` returns `CMCI_POLL_INTERVAL` and takes the processor
to state NONE, but `cmci_reenable` passes over every bank that the processor
owns: the bank stays owned and its register is as before the call, so the
enable bit that `cmci_storm_disable_banks` cleared is still clear. -/
theorem adjust_timer_storm_end (M : MceDecls) (H : mce_config) (cpu interval : Nat)
    (s : mce_state)
    (hinj : ∀ b1 b2, H.reg cpu b1 = H.reg cpu b2 → b1 = b2)
    (hact : (s.cpu_vars cpu).cmci_storm_state = CMCI_STORM_ACTIVE)
    (hback : (s.cpu_vars cpu).cmci_backoff_cnt ≤ 0)
    (hone : s.cmci_storm_on_cpus = 1) :
    (cmci_intel_adjust_timer M H cpu interval s).1 = CMCI_POLL_INTERVAL M
    ∧ ((cmci_intel_adjust_timer M H cpu interval s).2.cpu_vars cpu).cmci_storm_state
        = CMCI_STORM_NONE
    ∧ (cmci_intel_adjust_timer M H cpu interval s).2.cmci_storm_on_cpus = 0
    ∧ ∀ bank, test_bit bank (s.cpu_vars cpu).mce_banks_owned = true →
        test_bit bank
          ((cmci_intel_adjust_timer M H cpu interval s).2.cpu_vars cpu).mce_banks_owned = true
        ∧ (cmci_intel_adjust_timer M H cpu interval s).2.ctl2 (H.reg cpu bank)
            = s.ctl2 (H.reg cpu bank)
        ∧ cmci_enabled M H cpu bank (cmci_intel_adjust_timer M H cpu interval s).2
            = cmci_enabled M H cpu bank s := by
  obtain ⟨t, hres, t1, _, t3, t4⟩ := adjust_timer_last_storm M H cpu interval s hact hback hone
  rw [hres]
  obtain ⟨r1, r2, r3⟩ := recheck_frame M H cpu (cmci_reenable M H cpu t)
  obtain ⟨e1, e2, _, _⟩ := reenable_frame M H cpu t
  dsimp only
  rw [r1, r2, r3]
  refine ⟨rfl, ?_, ?_, ?_⟩
  · rw [e2, t1]
  · rw [e1, t4]
  · intro bank hb
    have hbt : test_bit bank (t.cpu_vars cpu).mce_banks_owned = true := by rw [t1]; exact hb
    obtain ⟨q1, q2, _, _⟩ := reenable_keeps_owned M H cpu t bank hinj hbt
    refine ⟨q1, by rw [q2, t3], ?_⟩
    unfold cmci_enabled rdmsrl
    rw [r2, q2, t3]

/-- C30, instance: processor 0 of `sample_quiet` after a storm of sixteen
interrupts and 300 polls without an error is in the state `sample_storm_over`;
`cmci_intel_adjust_timer` then takes it to state NONE with the enable bit
clear on the two banks it owns. -/
theorem adjust_timer_storm_end_witness :
    (polls sample_mce_decls 0 (List.replicate 300 false)
        (interrupts sample_mce_decls sample_machine 0 (List.replicate 16 900)
          sample_quiet)).cpu_vars 0 = sample_storm_over.cpu_vars 0
    ∧ (∀ r ∈ [0, 1], (polls sample_mce_decls 0 (List.replicate 300 false)
        (interrupts sample_mce_decls sample_machine 0 (List.replicate 16 900)
          sample_quiet)).ctl2 r = sample_storm_over.ctl2 r)
    ∧ (polls sample_mce_decls 0 (List.replicate 300 false)
        (interrupts sample_mce_decls sample_machine 0 (List.replicate 16 900)
          sample_quiet)).cmci_storm_on_cpus = sample_storm_over.cmci_storm_on_cpus
    ∧ ((cmci_intel_adjust_timer sample_mce_decls sample_machine 0 77
        sample_storm_over).2.cpu_vars 0).cmci_storm_state = CMCI_STORM_NONE
    ∧ ((cmci_intel_adjust_timer sample_mce_decls sample_machine 0 77
        sample_storm_over).2.cpu_vars 0).mce_banks_owned = 3
    ∧ cmci_enabled sample_mce_decls sample_machine 0 0
        (cmci_intel_adjust_timer sample_mce_decls sample_machine 0 77 sample_storm_over).2
        = false
    ∧ cmci_enabled sample_mce_decls sample_machine 0 1
        (cmci_intel_adjust_timer sample_mce_decls sample_machine 0 77 sample_storm_over).2
        = false := by
  have h := adjust_timer_storm_end sample_mce_decls sample_machine 0 77 sample_storm_over
    (fun b1 b2 hb => by simpa [sample_machine] using hb) rfl (by decide) rfl
  obtain ⟨p1, p2, p3⟩ := polls_no_error sample_mce_decls 0 300
    (interrupts sample_mce_decls sample_machine 0 (List.replicate 16 900) sample_quiet)
    (by decide)
  refine ⟨?_, ?_, ?_, h.2.1, by decide, ?_, ?_⟩
  · rw [p1]; decide
  · rw [p2]; decide
  · rw [p3]; decide
  · rw [(h.2.2.2 0 (by decide)).2.2]; decide
  · rw [(h.2.2.2 1 (by decide)).2.2]; decide

/-- C39: `cmci_intel_adjust_timer` returns `CMCI_STORM_INTERVAL`, which is
`HZ`, when the processor is ACTIVE with a positive backoff counter, and then
changes no variable and no register (it only calls `mce_notify_irq`); it
returns `CMCI_POLL_INTERVAL`, which is `30 * HZ`, when the processor is ACTIVE
with a backoff counter that is not positive, or is SUBSIDED; and when the
processor is in state NONE it returns its argument and leaves the whole state
as it is. -/
theorem adjust_timer_return_value (M : MceDecls) (H : mce_config) (cpu interval : Nat)
    (s : mce_state) :
    ((s.cpu_vars cpu).cmci_storm_state = CMCI_STORM_ACTIVE →
      0 < (s.cpu_vars cpu).cmci_backoff_cnt →
        (cmci_intel_adjust_timer M H cpu interval s).1 = CMCI_STORM_INTERVAL M
        ∧ CMCI_STORM_INTERVAL M = M.HZ
        ∧ (cmci_intel_adjust_timer M H cpu interval s).2.cpu_vars = s.cpu_vars
        ∧ (cmci_intel_adjust_timer M H cpu interval s).2.ctl2 = s.ctl2
        ∧ (cmci_intel_adjust_timer M H cpu interval s).2.cmci_storm_on_cpus
            = s.cmci_storm_on_cpus
        ∧ (cmci_intel_adjust_timer M H cpu interval s).2.log
            = s.log ++ [.mce_notify_irq cpu])
    ∧ ((s.cpu_vars cpu).cmci_storm_state = CMCI_STORM_ACTIVE →
      (s.cpu_vars cpu).cmci_backoff_cnt ≤ 0 →
        (cmci_intel_adjust_timer M H cpu interval s).1 = CMCI_POLL_INTERVAL M
        ∧ CMCI_POLL_INTERVAL M = 30 * M.HZ)
    ∧ ((s.cpu_vars cpu).cmci_storm_state = CMCI_STORM_SUBSIDED →
        (cmci_intel_adjust_timer M H cpu interval s).1 = CMCI_POLL_INTERVAL M)
    ∧ ((s.cpu_vars cpu).cmci_storm_state = CMCI_STORM_NONE →
        cmci_intel_adjust_timer M H cpu interval s = (interval, s)) := by
  refine ⟨fun hact hback => ?_, fun hact hback => ?_, fun hsub => ?_, fun hnone => ?_⟩
  · rw [adjust_timer_backoff M H cpu interval s hact hback]
    exact ⟨rfl, rfl, rfl, rfl, rfl, rfl⟩
  · refine ⟨?_, rfl⟩
    by_cases hmore : s.cmci_storm_on_cpus - 1 = 0
    · obtain ⟨t, hres, _⟩ := adjust_timer_last_storm M H cpu interval s hact hback (by omega)
      rw [hres]
    · rw [adjust_timer_active_more M H cpu interval s hact hback hmore]
  · by_cases hzero : s.cmci_storm_on_cpus = 0
    · rw [adjust_timer_subsided_done M H cpu interval s hsub hzero]
    · rw [adjust_timer_subsided_wait M H cpu interval s hsub hzero]
  · exact adjust_timer_other M H cpu interval s (by rw [hnone]; decide) (by rw [hnone]; decide)

/-- C39, instance: with `HZ` = 1000, processor 0 right after a storm was
detected gets 1000, at the end of the storm 30000, and in the idle state its
argument 77. -/
theorem adjust_timer_return_value_witness :
    (cmci_intel_adjust_timer sample_mce_decls sample_machine 0 77
        (mce_run sample_mce_decls sample_machine sample_storm sample_quiet)).1 = 1000
    ∧ (cmci_intel_adjust_timer sample_mce_decls sample_machine 0 77 sample_storm_over).1
        = 30000
    ∧ (cmci_intel_adjust_timer sample_mce_decls sample_machine 0 77 sample_quiet).1 = 77 := by
  have h1 := (adjust_timer_return_value sample_mce_decls sample_machine 0 77
    (mce_run sample_mce_decls sample_machine sample_storm sample_quiet)).1
    (by decide) (by decide)
  have h2 := (adjust_timer_return_value sample_mce_decls sample_machine 0 77
    sample_storm_over).2.1 rfl (by decide)
  have h3 := (adjust_timer_return_value sample_mce_decls sample_machine 0 77
    sample_quiet).2.2.2 rfl
  exact ⟨h1.1, h2.1, by rw [h3]⟩

/-- C32: in every state reached from a state in which every processor is in
state NONE and `cmci_storm_on_cpus` is 0, by any sequence of calls of
`cmci_storm_detect`, `cmci_intel_adjust_timer`, `mce_intel_cmci_poll` and
`mce_intel_hcpu_update` (and of the other functions of the file) on processors
below `ncpus`, the counter `cmci_storm_on_cpus` equals the number of processors
whose `cmci_storm_state` is ACTIVE; it is not negative, and no processor from
`ncpus` on has left state NONE. -/
theorem storm_on_cpus_counts_active (M : MceDecls) (H : mce_config) (ncpus : Nat)
    (calls : List mce_call) (s : mce_state)
    (hinit : ∀ c, (s.cpu_vars c).cmci_storm_state = CMCI_STORM_NONE)
    (hzero : s.cmci_storm_on_cpus = 0)
    (hcpus : ∀ c ∈ calls, c.cpu < ncpus) :
    (mce_run M H calls s).cmci_storm_on_cpus = storm_active_cpus ncpus (mce_run M H calls s)
    ∧ 0 ≤ (mce_run M H calls s).cmci_storm_on_cpus
    ∧ ∀ p, ncpus ≤ p →
        ((mce_run M H calls s).cpu_vars p).cmci_storm_state = CMCI_STORM_NONE := by
  have hinv := run_keeps_count M H ncpus calls s hcpus
    (by rw [hzero, active_cpus_none ncpus s hinit]; rfl)
  refine ⟨hinv, by rw [hinv]; exact Int.natCast_nonneg _, fun p hp => ?_⟩
  rw [run_keeps_idle M H calls s p (fun c hc => by have := hcpus c hc; omega)]
  exact hinit p

/-- C32, instance: after storms on processors 0 and 1 of a machine at boot and
300 polls without an error on processor 0, the counter is 2 and two
processors are ACTIVE; after `cmci_intel_adjust_timer` on processor 0 and
`mce_intel_hcpu_update` for processor 1 it is 0 and none is. -/
theorem storm_on_cpus_counts_active_witness :
    (mce_run sample_mce_decls sample_machine sample_two_storms sample_boot).cmci_storm_on_cpus
      = storm_active_cpus 2
          (mce_run sample_mce_decls sample_machine sample_two_storms sample_boot)
    ∧ storm_active_cpus 2
        (mce_run sample_mce_decls sample_machine sample_two_storms sample_boot) = 2
    ∧ (mce_run sample_mce_decls sample_machine
        (sample_two_storms ++ [.cmci_intel_adjust_timer 0 77, .mce_intel_hcpu_update 1])
        sample_boot).cmci_storm_on_cpus = 0
    ∧ storm_active_cpus 2 (mce_run sample_mce_decls sample_machine
        (sample_two_storms ++ [.cmci_intel_adjust_timer 0 77, .mce_intel_hcpu_update 1])
        sample_boot) = 0 := by
  have h1 := storm_on_cpus_counts_active sample_mce_decls sample_machine 2 sample_two_storms
    sample_boot (fun _ => rfl) rfl (by decide!)
  have h2 := storm_on_cpus_counts_active sample_mce_decls sample_machine 2
    (sample_two_storms ++ [.cmci_intel_adjust_timer 0 77, .mce_intel_hcpu_update 1])
    sample_boot (fun _ => rfl) rfl (by decide!)
  refine ⟨h1.1, by decide!, by decide!, ?_⟩
  have h3 : (mce_run sample_mce_decls sample_machine
        (sample_two_storms ++ [.cmci_intel_adjust_timer 0 77, .mce_intel_hcpu_update 1])
        sample_boot).cmci_storm_on_cpus = 0 := by decide!
  have h4 := h2.1
  rw [h3] at h4
  exact_mod_cast h4.symm

/-- C31: `cmci_intel_adjust_timer` takes a processor whose storm has ended (it
is ACTIVE with a backoff counter that is not positive, or SUBSIDED) to state
NONE, through `cmci_reenable` and `cmci_recheck`, exactly when
`cmci_storm_on_cpus` is zero after the decrement the processor itself makes on
leaving ACTIVE; when it is not zero, the processor is SUBSIDED after the call
and nothing but that and the decrement has happened.  In a state reached from
boot (all processors NONE, counter 0) in which another processor is ACTIVE,
the counter is not zero after the decrement, so the processor is SUBSIDED
after the call and the other one is still ACTIVE. -/
theorem adjust_timer_restores_when_all_subsided (M : MceDecls) (H : mce_config)
    (cpu interval : Nat) :
    (∀ s : mce_state,
      ((s.cpu_vars cpu).cmci_storm_state = CMCI_STORM_ACTIVE →
        (s.cpu_vars cpu).cmci_backoff_cnt ≤ 0 → s.cmci_storm_on_cpus - 1 ≠ 0 →
          cmci_intel_adjust_timer M H cpu interval s
            = (CMCI_POLL_INTERVAL M,
                { set_cpu cpu (fun v => { v with cmci_storm_state := CMCI_STORM_SUBSIDED }) s
                  with cmci_storm_on_cpus := s.cmci_storm_on_cpus - 1 })
          ∧ ((cmci_intel_adjust_timer M H cpu interval s).2.cpu_vars cpu).cmci_storm_state
              = CMCI_STORM_SUBSIDED)
      ∧ ((s.cpu_vars cpu).cmci_storm_state = CMCI_STORM_SUBSIDED →
          s.cmci_storm_on_cpus ≠ 0 →
          cmci_intel_adjust_timer M H cpu interval s = (CMCI_POLL_INTERVAL M, s))
      ∧ ((s.cpu_vars cpu).cmci_storm_state = CMCI_STORM_ACTIVE →
        (s.cpu_vars cpu).cmci_backoff_cnt ≤ 0 → s.cmci_storm_on_cpus - 1 = 0 →
          ∃ t, (cmci_intel_adjust_timer M H cpu interval s).2
              = cmci_recheck M H cpu (cmci_reenable M H cpu t)
            ∧ t.cpu_vars cpu = { s.cpu_vars cpu with cmci_storm_state := CMCI_STORM_NONE }
            ∧ t.cmci_storm_on_cpus = 0
            ∧ ((cmci_intel_adjust_timer M H cpu interval s).2.cpu_vars cpu).cmci_storm_state
                = CMCI_STORM_NONE)
      ∧ ((s.cpu_vars cpu).cmci_storm_state = CMCI_STORM_SUBSIDED →
          s.cmci_storm_on_cpus = 0 →
          (cmci_intel_adjust_timer M H cpu interval s).2
              = cmci_recheck M H cpu (cmci_reenable M H cpu
                  (set_cpu cpu (fun v => { v with cmci_storm_state := CMCI_STORM_NONE }) s))
          ∧ ((cmci_intel_adjust_timer M H cpu interval s).2.cpu_vars cpu).cmci_storm_state
              = CMCI_STORM_NONE)
      ∧ ((s.cpu_vars cpu).cmci_storm_state = CMCI_STORM_ACTIVE →
          0 < (s.cpu_vars cpu).cmci_backoff_cnt →
          ((cmci_intel_adjust_timer M H cpu interval s).2.cpu_vars cpu).cmci_storm_state
              = CMCI_STORM_ACTIVE))
    ∧ (∀ (calls : List mce_call) (s0 : mce_state) (other : Nat),
        (∀ c, (s0.cpu_vars c).cmci_storm_state = CMCI_STORM_NONE) →
        s0.cmci_storm_on_cpus = 0 →
        other ≠ cpu →
        ((mce_run M H calls s0).cpu_vars other).cmci_storm_state = CMCI_STORM_ACTIVE →
        (((mce_run M H calls s0).cpu_vars cpu).cmci_storm_state = CMCI_STORM_ACTIVE
            ∧ ((mce_run M H calls s0).cpu_vars cpu).cmci_backoff_cnt ≤ 0
          ∨ ((mce_run M H calls s0).cpu_vars cpu).cmci_storm_state = CMCI_STORM_SUBSIDED) →
        ((cmci_intel_adjust_timer M H cpu interval (mce_run M H calls s0)).2.cpu_vars
            cpu).cmci_storm_state = CMCI_STORM_SUBSIDED
        ∧ ((cmci_intel_adjust_timer M H cpu interval (mce_run M H calls s0)).2.cpu_vars
            other).cmci_storm_state = CMCI_STORM_ACTIVE
        ∧ (cmci_intel_adjust_timer M H cpu interval (mce_run M H calls s0)).2.ctl2
            = (mce_run M H calls s0).ctl2
        ∧ (cmci_intel_adjust_timer M H cpu interval (mce_run M H calls s0)).2.log
            = (mce_run M H calls s0).log) := by
  have hgen : ∀ s : mce_state,
      ((s.cpu_vars cpu).cmci_storm_state = CMCI_STORM_ACTIVE →
        (s.cpu_vars cpu).cmci_backoff_cnt ≤ 0 → s.cmci_storm_on_cpus - 1 ≠ 0 →
          cmci_intel_adjust_timer M H cpu interval s
            = (CMCI_POLL_INTERVAL M,
                { set_cpu cpu (fun v => { v with cmci_storm_state := CMCI_STORM_SUBSIDED }) s
                  with cmci_storm_on_cpus := s.cmci_storm_on_cpus - 1 })
          ∧ ((cmci_intel_adjust_timer M H cpu interval s).2.cpu_vars cpu).cmci_storm_state
              = CMCI_STORM_SUBSIDED)
      ∧ ((s.cpu_vars cpu).cmci_storm_state = CMCI_STORM_SUBSIDED →
          s.cmci_storm_on_cpus ≠ 0 →
          cmci_intel_adjust_timer M H cpu interval s = (CMCI_POLL_INTERVAL M, s)) := by
    intro s
    refine ⟨fun hact hback hmore => ?_, fun hsub hmore => ?_⟩
    · rw [adjust_timer_active_more M H cpu interval s hact hback hmore]
      refine ⟨rfl, ?_⟩
      dsimp only
      rw [set_cpu_self]
    · exact adjust_timer_subsided_wait M H cpu interval s hsub hmore
  refine ⟨fun s => ⟨(hgen s).1, (hgen s).2, fun hact hback hzero => ?_, fun hsub hzero => ?_,
    fun hact hback => ?_⟩, ?_⟩
  · obtain ⟨t, hres, t1, _, _, t4⟩ := adjust_timer_last_storm M H cpu interval s hact hback
      (by omega)
    obtain ⟨_, f2, _, _⟩ := recheck_reenable_frame M H cpu t
    refine ⟨t, by rw [hres], t1, t4, ?_⟩
    rw [hres]
    dsimp only
    rw [f2, t1]
  · rw [adjust_timer_subsided_done M H cpu interval s hsub hzero]
    obtain ⟨_, f2, _, _⟩ := recheck_reenable_frame M H cpu
      (set_cpu cpu (fun v => { v with cmci_storm_state := CMCI_STORM_NONE }) s)
    refine ⟨rfl, ?_⟩
    dsimp only
    rw [f2, set_cpu_self]
  · rw [adjust_timer_backoff M H cpu interval s hact hback]
    exact hact
  · intro calls s0 other hinit hzero hne hother hended
    have hbound : ∀ c ∈ calls, c.cpu < (calls.map mce_call.cpu).sum + cpu + other + 1 := by
      intro c hc
      have := List.single_le_sum (fun x _ => Nat.zero_le x) c.cpu
        (List.mem_map_of_mem mce_call.cpu hc)
      omega
    have hinv := run_keeps_count M H ((calls.map mce_call.cpu).sum + cpu + other + 1) calls s0
      hbound (by rw [hzero, active_cpus_none _ s0 hinit]; rfl)
    rcases hended with ⟨hact, hback⟩ | hsub
    · have htwo := active_cpus_two ((calls.map mce_call.cpu).sum + cpu + other + 1) cpu other
        (mce_run M H calls s0) (by omega) (by omega) (Ne.symm hne) hact hother
      obtain ⟨g1, g2⟩ := (hgen (mce_run M H calls s0)).1 hact hback (by omega)
      refine ⟨g2, ?_, ?_, ?_⟩
      · rw [g1]
        dsimp only
        rw [set_cpu_other cpu other _ _ hne]
        exact hother
      · rw [g1]; rfl
      · rw [g1]; rfl
    · have hpos := active_cpus_pos ((calls.map mce_call.cpu).sum + cpu + other + 1) other
        (mce_run M H calls s0) (by omega) hother
      rw [(hgen (mce_run M H calls s0)).2 hsub (by omega)]
      exact ⟨hsub, hother, rfl, rfl⟩

/-- C31, instance: after storms on processors 0 and 1 and 300 polls without an
error on processor 0, `cmci_intel_adjust_timer` leaves processor 0 SUBSIDED
while processor 1 is ACTIVE, and again at the next call; once processor 1 has
left ACTIVE too, the next call takes processor 0 to NONE. -/
theorem adjust_timer_restores_when_all_subsided_witness :
    ((mce_run sample_mce_decls sample_machine sample_two_storms sample_boot).cpu_vars
        0).cmci_storm_state = CMCI_STORM_ACTIVE
    ∧ ((mce_run sample_mce_decls sample_machine sample_two_storms sample_boot).cpu_vars
        1).cmci_storm_state = CMCI_STORM_ACTIVE
    ∧ ((cmci_intel_adjust_timer sample_mce_decls sample_machine 0 77
        (mce_run sample_mce_decls sample_machine sample_two_storms sample_boot)).2.cpu_vars
        0).cmci_storm_state = CMCI_STORM_SUBSIDED
    ∧ ((cmci_intel_adjust_timer sample_mce_decls sample_machine 0 77
        (mce_run sample_mce_decls sample_machine
          (sample_two_storms ++ [.cmci_intel_adjust_timer 0 77]) sample_boot)).2.cpu_vars
        0).cmci_storm_state = CMCI_STORM_SUBSIDED
    ∧ ((cmci_intel_adjust_timer sample_mce_decls sample_machine 0 77
        (mce_run sample_mce_decls sample_machine
          (sample_two_storms ++ [.cmci_intel_adjust_timer 0 77, .mce_intel_hcpu_update 1])
          sample_boot)).2.cpu_vars 0).cmci_storm_state = CMCI_STORM_NONE := by
  have h := adjust_timer_restores_when_all_subsided sample_mce_decls sample_machine 0 77
  have h1 := h.2 sample_two_storms sample_boot 1 (fun _ => rfl) rfl (by decide!) (by decide!)
    (Or.inl (by decide!))
  have h2 := h.2 (sample_two_storms ++ [.cmci_intel_adjust_timer 0 77]) sample_boot 1
    (fun _ => rfl) rfl (by decide!) (by decide!) (Or.inr (by decide!))
  have h3 := (h.1 (mce_run sample_mce_decls sample_machine
    (sample_two_storms ++ [.cmci_intel_adjust_timer 0 77, .mce_intel_hcpu_update 1])
    sample_boot)).2.2.2.1 (by decide!) (by decide!)
  exact ⟨by decide!, by decide!, h1.1, h2.1, h3.2⟩

/-- C33, counterexample: after a storm on processor 0 alone (sixteen
interrupts, then 300 polls without an error) the processor is ACTIVE with its
backoff counter at 0 and `cmci_storm_on_cpus` at 1; `cmci_intel_adjust_timer`
then leaves it in state NONE, not in state SUBSIDED. -/
theorem adjust_timer_last_storm_ends_in_none :
    ((mce_run sample_mce_decls sample_machine sample_one_storm sample_quiet).cpu_vars
        0).cmci_storm_state = CMCI_STORM_ACTIVE
    ∧ ((mce_run sample_mce_decls sample_machine sample_one_storm sample_quiet).cpu_vars
        0).cmci_backoff_cnt = 0
    ∧ (mce_run sample_mce_decls sample_machine sample_one_storm
        sample_quiet).cmci_storm_on_cpus = 1
    ∧ ((cmci_intel_adjust_timer sample_mce_decls sample_machine 0 77
        (mce_run sample_mce_decls sample_machine sample_one_storm sample_quiet)).2.cpu_vars
        0).cmci_storm_state = CMCI_STORM_NONE
    ∧ ((cmci_intel_adjust_timer sample_mce_decls sample_machine 0 77
        (mce_run sample_mce_decls sample_machine sample_one_storm sample_quiet)).2.cpu_vars
        0).cmci_storm_state ≠ CMCI_STORM_SUBSIDED := by
  decide!

/-- C33, as amended: on a processor that is ACTIVE, `mce_intel_cmci_poll`
returns true and sets the backoff counter to `INITIAL_CHECK_INTERVAL` when the
poll logged an error, and takes exactly one off it otherwise (for a counter
above the least `int`); in state NONE it returns false and changes nothing.
`cmci_intel_adjust_timer` keeps the processor ACTIVE while the counter is
positive.  Once the counter is not positive it moves the processor to
SUBSIDED, takes one off `cmci_storm_on_cpus` and goes on as for a processor
that was SUBSIDED already: after the call the processor is SUBSIDED when the
counter `cmci_storm_on_cpus` is still not zero, and NONE when it is zero. -/
theorem backoff_drives_active (M : MceDecls) (H : mce_config) (cpu : Nat) (s : mce_state) :
    ((s.cpu_vars cpu).cmci_storm_state = CMCI_STORM_ACTIVE →
      (mce_intel_cmci_poll M cpu true s).1 = true
      ∧ (mce_intel_cmci_poll M cpu true s).2.cpu_vars cpu
          = { s.cpu_vars cpu with cmci_backoff_cnt := M.INITIAL_CHECK_INTERVAL }
      ∧ (mce_intel_cmci_poll M cpu false s).1 = true
      ∧ (- (2 : Int) ^ 31 < (s.cpu_vars cpu).cmci_backoff_cnt →
          (mce_intel_cmci_poll M cpu false s).2.cpu_vars cpu
            = { s.cpu_vars cpu with
                cmci_backoff_cnt := (s.cpu_vars cpu).cmci_backoff_cnt - 1 }))
    ∧ ((s.cpu_vars cpu).cmci_storm_state = CMCI_STORM_NONE →
        ∀ polled, mce_intel_cmci_poll M cpu polled s = (false, s))
    ∧ (∀ interval, (s.cpu_vars cpu).cmci_storm_state = CMCI_STORM_ACTIVE →
        0 < (s.cpu_vars cpu).cmci_backoff_cnt →
        ((cmci_intel_adjust_timer M H cpu interval s).2.cpu_vars cpu).cmci_storm_state
            = CMCI_STORM_ACTIVE
        ∧ ((cmci_intel_adjust_timer M H cpu interval s).2.cpu_vars cpu).cmci_backoff_cnt
            = (s.cpu_vars cpu).cmci_backoff_cnt)
    ∧ (∀ interval, (s.cpu_vars cpu).cmci_storm_state = CMCI_STORM_ACTIVE →
        (s.cpu_vars cpu).cmci_backoff_cnt ≤ 0 →
        (∃ t, cmci_intel_adjust_timer M H cpu interval s
              = cmci_intel_adjust_timer M H cpu interval t
            ∧ t.cpu_vars cpu
              = { s.cpu_vars cpu with cmci_storm_state := CMCI_STORM_SUBSIDED }
            ∧ t.cmci_storm_on_cpus = s.cmci_storm_on_cpus - 1)
        ∧ (s.cmci_storm_on_cpus - 1 ≠ 0 →
            ((cmci_intel_adjust_timer M H cpu interval s).2.cpu_vars cpu).cmci_storm_state
              = CMCI_STORM_SUBSIDED)
        ∧ (s.cmci_storm_on_cpus - 1 = 0 →
            ((cmci_intel_adjust_timer M H cpu interval s).2.cpu_vars cpu).cmci_storm_state
              = CMCI_STORM_NONE)) := by
  have hsa : ¬ CMCI_STORM_SUBSIDED = CMCI_STORM_ACTIVE := by decide
  refine ⟨fun hact => ?_, fun hnone polled => ?_, fun interval hact hback => ?_,
    fun interval hact hback => ⟨?_, fun hmore => ?_, fun hzero => ?_⟩⟩
  · have hnn : (s.cpu_vars cpu).cmci_storm_state ≠ CMCI_STORM_NONE := by rw [hact]; decide
    unfold mce_intel_cmci_poll
    simp only [if_neg hnn, if_true, Bool.false_eq_true, if_false]
    exact ⟨trivial, set_cpu_self cpu _ _, trivial, fun _ => set_cpu_self cpu _ _⟩
  · unfold mce_intel_cmci_poll
    rw [if_pos hnone]
  · rw [adjust_timer_backoff M H cpu interval s hact hback]
    exact ⟨hact, rfl⟩
  · by_cases hzero : s.cmci_storm_on_cpus - 1 = 0
    · refine ⟨({ set_cpu cpu (fun v => { v with cmci_storm_state := CMCI_STORM_SUBSIDED }) s
          with cmci_storm_on_cpus := s.cmci_storm_on_cpus - 1 }).emit
          (.pr_notice "CMCI storm subsided: switching to interrupt mode"), ?_, ?_, rfl⟩
      · conv_lhs => unfold cmci_intel_adjust_timer
        conv_rhs => unfold cmci_intel_adjust_timer
        rw [if_neg (by omega)]
        simp only [hact, if_true, set_cpu_on_cpus, hzero, emit_on_cpus, emit_cpu_vars,
          set_cpu_self, hsa, and_false, if_false]
      · rw [emit_cpu_vars]
        dsimp only
        exact set_cpu_self cpu _ s
    · refine ⟨{ set_cpu cpu (fun v => { v with cmci_storm_state := CMCI_STORM_SUBSIDED }) s
          with cmci_storm_on_cpus := s.cmci_storm_on_cpus - 1 }, ?_, ?_, rfl⟩
      · conv_lhs => unfold cmci_intel_adjust_timer
        conv_rhs => unfold cmci_intel_adjust_timer
        rw [if_neg (by omega)]
        simp only [hact, if_true, set_cpu_on_cpus, hzero, if_false, set_cpu_self, hsa,
          and_false]
      · dsimp only
        exact set_cpu_self cpu _ s
  · rw [adjust_timer_active_more M H cpu interval s hact hback hmore]
    dsimp only
    rw [set_cpu_self]
  · obtain ⟨t, hres, t1, _, _, _⟩ := adjust_timer_last_storm M H cpu interval s hact hback
      (by omega)
    obtain ⟨_, f2, _, _⟩ := recheck_reenable_frame M H cpu t
    rw [hres]
    dsimp only
    rw [f2, t1]

/-- C33, instance: processor 0 right after a storm was detected has its
backoff counter at 300; a poll without an error takes it to 299, a poll with
an error back to 300, and `cmci_intel_adjust_timer` keeps the processor
ACTIVE.  With two processors in a storm and the counter of processor 0 at 0,
`cmci_intel_adjust_timer` leaves processor 0 SUBSIDED. -/
theorem backoff_drives_active_witness :
    ((mce_run sample_mce_decls sample_machine sample_storm sample_quiet).cpu_vars
        0).cmci_backoff_cnt = 300
    ∧ ((mce_intel_cmci_poll sample_mce_decls 0 false
        (mce_run sample_mce_decls sample_machine sample_storm sample_quiet)).2.cpu_vars
        0).cmci_backoff_cnt = 299
    ∧ ((mce_intel_cmci_poll sample_mce_decls 0 true
        (mce_intel_cmci_poll sample_mce_decls 0 false
          (mce_run sample_mce_decls sample_machine sample_storm sample_quiet)).2).2.cpu_vars
        0).cmci_backoff_cnt = 300
    ∧ ((cmci_intel_adjust_timer sample_mce_decls sample_machine 0 77
        (mce_run sample_mce_decls sample_machine sample_storm sample_quiet)).2.cpu_vars
        0).cmci_storm_state = CMCI_STORM_ACTIVE
    ∧ ((cmci_intel_adjust_timer sample_mce_decls sample_machine 0 77
        (mce_run sample_mce_decls sample_machine sample_two_storms sample_boot)).2.cpu_vars
        0).cmci_storm_state = CMCI_STORM_SUBSIDED := by
  have h1 := (backoff_drives_active sample_mce_decls sample_machine 0
    (mce_run sample_mce_decls sample_machine sample_storm sample_quiet)).1 (by decide!)
  have h2 := (backoff_drives_active sample_mce_decls sample_machine 0
    (mce_intel_cmci_poll sample_mce_decls 0 false
      (mce_run sample_mce_decls sample_machine sample_storm sample_quiet)).2).1 (by decide!)
  have h3 := (backoff_drives_active sample_mce_decls sample_machine 0
    (mce_run sample_mce_decls sample_machine sample_storm sample_quiet)).2.2.1 77
    (by decide!) (by decide!)
  have h4 := ((backoff_drives_active sample_mce_decls sample_machine 0
    (mce_run sample_mce_decls sample_machine sample_two_storms sample_boot)).2.2.2 77
    (by decide!) (by decide!)).2.1 (by decide!)
  refine ⟨by decide!, ?_, ?_, h3.1, h4⟩
  · rw [h1.2.2.2 (by decide!)]; decide!
  · rw [h2.2.1]; rfl

/-- C35: after `cmci_clear` on a processor for which `cmci_supported` reports
`banks` banks, the processor owns no bank below `banks`; the enable bit is
clear in the register of every bank below `banks` that it owned; a register
that is not the register of such a bank is as before (so, on a processor
whose banks have distinct registers, is the register of every bank it did not
own), and in the others only the enable bit has changed; ownership bits from
`banks` on and the variables of the other processors are as before.  A
following `cmci_discover` on another processor that reaches the register of
such a bank as its bank `b2` (below its bank count, supporting CMCI, not in
firmware-first mode) leaves that processor owning bank `b2`, with the enable
bit set if it did not own the bank already. -/
theorem clear_releases_banks (M : MceDecls) (H : mce_config) (cpu banks : Nat) (s : mce_state)
    (hsup : cmci_supported M H cpu = some banks) :
    (∀ b, b < banks → owns cpu b (cmci_clear M H cpu s) = false)
    ∧ (∀ b, b < banks → owns cpu b s = true →
        cmci_enabled M H cpu b (cmci_clear M H cpu s) = false)
    ∧ (∀ r, (∀ b, b < banks → owns cpu b s = true → r ≠ H.reg cpu b) →
        (cmci_clear M H cpu s).ctl2 r = s.ctl2 r)
    ∧ ((∀ b1 b2, H.reg cpu b1 = H.reg cpu b2 → b1 = b2) →
        ∀ b, owns cpu b s = false →
          (cmci_clear M H cpu s).ctl2 (H.reg cpu b) = s.ctl2 (H.reg cpu b))
    ∧ (∀ r, clear_mask M.MCI_CTL2_CMCI_EN ((cmci_clear M H cpu s).ctl2 r)
        = clear_mask M.MCI_CTL2_CMCI_EN (s.ctl2 r))
    ∧ (∀ b, banks ≤ b → owns cpu b (cmci_clear M H cpu s) = owns cpu b s)
    ∧ (∀ c, c ≠ cpu → (cmci_clear M H cpu s).cpu_vars c = s.cpu_vars c)
    ∧ (∀ other b b2 banks2, other ≠ cpu → b < banks → owns cpu b s = true →
        H.reg other b2 = H.reg cpu b → b2 < banks2 →
        (∀ b1 b2, H.reg other b1 = H.reg other b2 → b1 = b2) →
        M.MCI_CTL2_CMCI_EN ≠ 0 →
        test_bit b2 H.mce_banks_ce_disabled = false →
        H.cmci_capable (H.reg cpu b) = true →
        owns other b2 (cmci_discover M H other banks2 (cmci_clear M H cpu s)) = true
        ∧ (owns other b2 s = false →
            cmci_enabled M H other b2
              (cmci_discover M H other banks2 (cmci_clear M H cpu s)) = true)) := by
  obtain ⟨f1, f2, _, _⟩ := clear_fold_spec M H cpu (List.range banks) s
  obtain ⟨_, _, _, g4⟩ := clear_frame M H cpu s
  have hclear : cmci_clear M H cpu s
      = (List.range banks).foldl (cmci_disable_bank_locked M H cpu) s := by
    unfold cmci_clear
    rw [hsup]
  have hoff : ∀ b, b < banks → owns cpu b s = true →
      cmci_enabled M H cpu b (cmci_clear M H cpu s) = false := by
    intro b hb ho
    unfold cmci_enabled rdmsrl
    rw [hclear, f2, if_pos ⟨b, List.mem_range.mpr hb, ho, rfl⟩, clear_mask_and_mask]
    rfl
  have hkeep : ∀ r, (∀ b, b < banks → owns cpu b s = true → r ≠ H.reg cpu b) →
      (cmci_clear M H cpu s).ctl2 r = s.ctl2 r := by
    intro r hr
    rw [hclear, f2, if_neg]
    rintro ⟨b, hb, ho, rfl⟩
    exact hr b (List.mem_range.mp hb) ho rfl
  refine ⟨fun b hb => ?_, hoff, hkeep, fun hinj b hno => ?_, fun r => ?_, fun b hb => ?_, g4,
    ?_⟩
  · unfold owns
    rw [hclear, f1]
    simp [hb]
  · apply hkeep
    intro b2 _ ho h
    rw [hinj b b2 h, ho] at hno
    cases hno
  · rw [hclear, f2]
    split
    · exact clear_mask_idem _ _
    · rfl
  · unfold owns
    rw [hclear, f1]
    simp [hb]
  · intro other b b2 banks2 hne hb ho hreg hb2 hinj hEN hce hcap
    have hen : (cmci_clear M H cpu s).ctl2 (H.reg other b2) &&& M.MCI_CTL2_CMCI_EN = 0 := by
      have h := hoff b hb ho
      unfold cmci_enabled rdmsrl at h
      rw [hreg]
      simpa using h
    obtain ⟨d1, d2⟩ := discover_claims M H other banks2 (cmci_clear M H cpu s) b2 hinj hEN hb2
      hce (by rw [hreg]; exact hcap) hen
    refine ⟨d1, fun hno => d2 ?_⟩
    unfold owns
    rw [g4 other hne]
    exact hno

/-- C35, instance: on the machine with the shared bank 0, after both
processors have run their discovery, processor 0 owns its banks 0 to 3 and
processor 1 its banks 1 to 3.  After `cmci_clear` on processor 0 that
processor owns no bank and the enable bit of the shared bank is clear; after
`cmci_discover` on processor 1, processor 1 owns the shared bank and the
enable bit is set again. -/
theorem clear_releases_banks_witness :
    cmci_supported sample_mce_decls sample_shared_machine 0 = some 4
    ∧ owns 0 0 (mce_run sample_mce_decls sample_shared_machine sample_discovery sample_boot)
        = true
    ∧ owns 1 0 (mce_run sample_mce_decls sample_shared_machine sample_discovery sample_boot)
        = false
    ∧ (∀ b, b < 4 → owns 0 b (cmci_clear sample_mce_decls sample_shared_machine 0
        (mce_run sample_mce_decls sample_shared_machine sample_discovery sample_boot)) = false)
    ∧ cmci_enabled sample_mce_decls sample_shared_machine 0 0
        (cmci_clear sample_mce_decls sample_shared_machine 0
          (mce_run sample_mce_decls sample_shared_machine sample_discovery sample_boot))
        = false
    ∧ owns 1 0 (cmci_discover sample_mce_decls sample_shared_machine 1 4
        (cmci_clear sample_mce_decls sample_shared_machine 0
          (mce_run sample_mce_decls sample_shared_machine sample_discovery sample_boot)))
        = true
    ∧ cmci_enabled sample_mce_decls sample_shared_machine 1 0
        (cmci_discover sample_mce_decls sample_shared_machine 1 4
          (cmci_clear sample_mce_decls sample_shared_machine 0
            (mce_run sample_mce_decls sample_shared_machine sample_discovery sample_boot)))
        = true := by
  have h := clear_releases_banks sample_mce_decls sample_shared_machine 0 4
    (mce_run sample_mce_decls sample_shared_machine sample_discovery sample_boot) (by decide!)
  have hd := h.2.2.2.2.2.2.2 1 0 0 4 (by decide) (by decide) (by decide!) rfl (by decide)
    (fun b1 b2 hb => by
      simp only [sample_shared_machine] at hb
      split at hb <;> split at hb <;> omega)
    (by decide) (by decide) (by decide)
  exact ⟨by decide!, by decide!, by decide!, h.1, h.2.1 0 (by decide) (by decide!), hd.1,
    hd.2 (by decide!)⟩

/-- C34, what the code does: on the machine whose bank 0 is one register
shared by all processors, after both processors have run `cmci_discover` only
processor 0 owns the shared bank.  A storm detected on processor 0 clears the
enable bit of the bank and leaves it owned by processor 0; `cmci_discover` on
processor 1 then finds the enable bit clear, sets it and claims the bank, so
both processors own the shared bank at once: ownership is not exclusive.
When processor 0 gives the bank up through `cmci_disable_bank` instead, it no
longer owns the bank when processor 1 claims it, and ownership is exclusive. -/
theorem storm_breaks_exclusive_ownership :
    sample_shared_machine.reg 0 0 = sample_shared_machine.reg 1 0
    ∧ owns 0 0 (mce_run sample_mce_decls sample_shared_machine sample_discovery sample_boot)
        = true
    ∧ owns 1 0 (mce_run sample_mce_decls sample_shared_machine sample_discovery sample_boot)
        = false
    ∧ owns 0 0 (mce_run sample_mce_decls sample_shared_machine
        (sample_discovery ++ sample_storm) sample_boot) = true
    ∧ cmci_enabled sample_mce_decls sample_shared_machine 0 0
        (mce_run sample_mce_decls sample_shared_machine (sample_discovery ++ sample_storm)
          sample_boot) = false
    ∧ owns 0 0 (mce_run sample_mce_decls sample_shared_machine sample_double_claim
        sample_boot) = true
    ∧ owns 1 0 (mce_run sample_mce_decls sample_shared_machine sample_double_claim
        sample_boot) = true
    ∧ owns 0 0 (mce_run sample_mce_decls sample_shared_machine sample_handover sample_boot)
        = false
    ∧ owns 1 0 (mce_run sample_mce_decls sample_shared_machine sample_handover sample_boot)
        = true
    ∧ ¬ exclusive_owners sample_shared_machine
        (mce_run sample_mce_decls sample_shared_machine sample_double_claim sample_boot)
    ∧ exclusive_owners sample_shared_machine
        (mce_run sample_mce_decls sample_shared_machine sample_handover sample_boot) := by
  refine ⟨by decide!, by decide!, by decide!, by decide!, by decide!, by decide!, by decide!,
    by decide!, by decide!, fun h => ?_, ?_⟩
  · have h2 := h 0 0 1 0 (by decide!) (by decide!) (by decide!)
    exact absurd h2.1 (by decide)
  · exact (exclusive_without_storm sample_mce_decls sample_shared_machine sample_handover
      sample_boot (fun c b => by simp [owns, sample_boot, test_bit]) (by decide)).2

end Mce
